import Mathlib

/-!
# Adapter state arbitration (src/adapter.c)

A shallow embedding of the session, mode and discovery logic of `src/adapter.c`.

* Heap records reached through pointers (`struct session_req`, `struct remote_dev_info`)
  carry a `ptr` field standing for their address; `g_slist_remove` compares these.
* The hardware backend `adapter_ops` is an oracle: given the commands issued so far and
  the next command it returns the `int` the C call returns (negative = rejected).
* Everything the C code does to the outside world is appended to a log held next to the
  adapter record: hardware commands, storage writes, D-Bus traffic, agent calls.
-/

namespace Bluez


/-! ## Constants -/

/-- Modelled from the spec: the `MODE_*` macros are declared in `adapter.h`, which is not
among the sources. The operating modes are listed as Off, Connectable, Discoverable,
LimitedDiscoverable, in this order; `adapter.c` itself passes `0` as the mode of a
discovery claim and tests `req->mode` for truth to tell it from a mode claim. -/
def MODE_OFF : Nat := 0

/-- Modelled from the spec: second operating mode of the enumeration (see `MODE_OFF`). -/
def MODE_CONNECTABLE : Nat := 1

/-- Modelled from the spec: third operating mode of the enumeration (see `MODE_OFF`). -/
def MODE_DISCOVERABLE : Nat := 2

/-- Modelled from the spec: fourth operating mode of the enumeration (see `MODE_OFF`). -/
def MODE_LIMITED : Nat := 3

/-- Modelled from the spec: `MODE_UNKNOWN` of `adapter.h`, outside the four valid modes. -/
def MODE_UNKNOWN : Nat := 255

/-- Modelled from the spec: scan-mode bitmask of the HCI headers (Disabled / Inquiry / Page). -/
def SCAN_DISABLED : Nat := 0

/-- Modelled from the spec: inquiry-scan bit of the scan-mode bitmask. -/
def SCAN_INQUIRY : Nat := 1

/-- Modelled from the spec: page-scan bit of the scan-mode bitmask. -/
def SCAN_PAGE : Nat := 2

/-- Modelled from the spec: discovery-state flags of `adapter.h`; Idle is the empty mask and
the other states are distinct bits, ResolvingNames and Suspended being overlay bits. -/
def STATE_IDLE : Nat := 0

/-- Modelled from the spec: LE-scan discovery-state bit. -/
def STATE_LE_SCAN : Nat := 1

/-- Modelled from the spec: standard-inquiry discovery-state bit. -/
def STATE_STDINQ : Nat := 2

/-- Modelled from the spec: periodic-inquiry discovery-state bit. -/
def STATE_PINQ : Nat := 4

/-- Modelled from the spec: name-resolution overlay bit. -/
def STATE_RESOLVNAME : Nat := 8

/-- Modelled from the spec: suspended overlay bit. -/
def STATE_SUSPENDED : Nat := 16

/-- Modelled from the spec: discovery types of `adapter.h` (LE scan). -/
def DISC_LE : Nat := 1

/-- Modelled from the spec: standard-inquiry discovery type. -/
def DISC_STDINQ : Nat := 2

/-- Modelled from the spec: interleaved discovery type. -/
def DISC_INTERLEAVE : Nat := 4

/-- Modelled from the spec: periodic-inquiry discovery type. -/
def DISC_PINQ : Nat := 8

/-- Modelled from the spec: name-resolution overlay of the discovery type. -/
def DISC_RESOLVNAME : Nat := 16

/-- Modelled from the spec: name-resolution status enumeration of `adapter.h`
(Any, NotRequired, Required, Requested). -/
def NAME_ANY : Nat := 0

/-- Modelled from the spec: status of a record that needs no name resolution. -/
def NAME_NOT_REQUIRED : Nat := 1

/-- Modelled from the spec: status of a record whose name is still to be resolved. -/
def NAME_REQUIRED : Nat := 2

/-- Modelled from the spec: status of the record whose name request was sent. -/
def NAME_REQUESTED : Nat := 3

/-- Limited Discoverable bit mask in CoD. -/
def LIMITED_BIT : Nat := 0x002000

/-- Feature bit of `features[4]`: controller without BR/EDR (HCI headers). -/
def LMP_NO_BREDR : Nat := 0x20

/-- Feature bit of `features[4]`: controller with LE (HCI headers). -/
def LMP_LE : Nat := 0x40

/-- Feature bit of `extfeatures[0]`: host LE support (HCI headers). -/
def LMP_HOST_LE : Nat := 0x02

def EINVAL : Int := 22
def ENODATA : Int := 61
def EALREADY : Int := 114
def EPERM : Int := 1
def EBUSY : Int := 16
def ENOTCONN : Int := 107

/-! ## Data model -/

/-- Bluetooth address; `BDADDR_ANY` is the all-zero address. -/
abbrev bdaddr_t := Nat

def BDADDR_ANY : bdaddr_t := 0

/-- An incoming D-Bus method call: its serial and the bus name of its sender. -/
structure DBusMessage where
  serial : Nat
  sender : String
  deriving DecidableEq

/-- Text of a D-Bus error: either `strerror (err)` or a fixed string. -/
inductive ErrText where
  | strerror (err : Int)
  | text (t : String)
  deriving DecidableEq

/-- A reply to a method call. -/
inductive DBusReply where
  | method_return
  | error (name : String) (text : ErrText)
  deriving DecidableEq

/-- Value carried by a PropertyChanged signal. -/
inductive PropValue where
  | bool (b : Bool)
  | uint32 (n : Nat)
  | string (t : String)
  deriving DecidableEq

/-- Traffic sent on the bus by `adapter.c` itself (`g_dbus_send_message`,
`emit_property_changed`, `g_dbus_emit_signal`). -/
inductive DBusOut where
  | reply (msg : DBusMessage) (r : DBusReply)
  | property_changed (name : String) (v : PropValue)
  | device_disappeared (addr : bdaddr_t)
  | device_found (addr : bdaddr_t) (rssi : Int)
  deriving DecidableEq

/-- Calls into the storage collaborator that persist a value. -/
inductive StoreWrite where
  | device_mode (mode : String)
  | device_pairable (pairable : Bool)
  | discoverable_timeout (t : Nat)
  | pairable_timeout (t : Nat)
  | local_class (cod : Nat)
  | local_name (name : String)
  deriving DecidableEq

/-- Commands of `struct btd_adapter_ops` used by the modelled functions. -/
inductive HwCmd where
  | set_powered (powered : Bool)
  | set_connectable
  | set_discoverable
  | set_limited_discoverable (cod : Nat) (limited : Bool)
  | set_class (cod : Nat)
  | start_inquiry (length : Nat) (periodic : Bool)
  | start_scanning
  | stop_inquiry
  | stop_scanning
  | resolve_name (addr : bdaddr_t)
  | cancel_resolve_name (addr : bdaddr_t)
  | write_eir_data (data : Option Int)
  deriving DecidableEq

/-- The backend: the result of a command, given the commands issued before it together
with their results. -/
abbrev adapter_ops := List (HwCmd × Int) → HwCmd → Int

/-- What a glib source does when it fires. -/
inductive SourceKind where
  | discov_timeout_handler
  | pairable_timeout_handler
  | stop_scanning
  | start_discovery
  | auth_idle_cb
  deriving DecidableEq

/-- An armed glib source: its id, its handler and its interval in milliseconds. -/
structure Source where
  id : Nat
  handler : SourceKind
  interval_ms : Nat
  deriving DecidableEq

/-- Record `struct session_req`. The connection reference is not modelled. -/
structure session_req where
  ptr : Nat
  msg : Option DBusMessage
  owner : Option String
  id : Nat
  mode : Nat
  refcount : Int
  got_reply : Bool
  deriving DecidableEq

/-- Record `struct remote_dev_info`. -/
structure remote_dev_info where
  ptr : Nat
  bdaddr : bdaddr_t
  rssi : Int
  /-- field `class` -/
  dev_class : Nat
  name : Option String
  /-- field `alias` -/
  dev_alias : Option String
  legacy : Bool
  name_status : Nat
  deriving DecidableEq

/-- The per-peer object `struct btd_device`, as far as the adapter consumes it:
`device_address_cmp`, `device_is_trusted`, `device_get_agent`, `device_set_authorizing`. -/
structure btd_device where
  ptr : Nat
  address : bdaddr_t
  trusted : Bool := false
  agent : Option Nat := none
  authorizing : Bool := false
  deriving DecidableEq

/-- Requests made to a pairing agent. -/
inductive AgentCall where
  | confirm_mode_change (agent : Nat) (mode : String) (req : Nat)
  | authorize (agent : Nat) (device : Nat) (uuid : String)
  deriving DecidableEq

/-- The part of `struct hci_dev` read by the modelled functions. -/
structure hci_dev where
  features : List Nat := []
  extfeatures : List Nat := []
  ssp_mode : Nat := 0
  deriving DecidableEq

/-- Record `struct btd_adapter`. `found_devices` owns its records; `oor_devices` holds
pointers to records of `found_devices`. -/
structure btd_adapter where
  up : Bool := false
  discov_timeout_id : Nat := 0
  stop_discov_id : Nat := 0
  discov_timeout : Nat := 0
  pairable_timeout_id : Nat := 0
  pairable_timeout : Nat := 0
  scan_mode : Nat := 0
  mode : Nat := 0
  global_mode : Nat := 0
  pending_mode : Option session_req := none
  state : Nat := 0
  found_devices : List remote_dev_info := []
  oor_devices : List Nat := []
  agent : Option Nat := none
  auth_idle_id : Nat := 0
  /-- known peers -/
  devices : List btd_device := []
  /-- pointers to the connected peers -/
  connections : List Nat := []
  mode_sessions : List session_req := []
  disc_sessions : List session_req := []
  scheduler_id : Nat := 0
  dev : hci_dev := {}
  tx_power : Int := 0
  pairable : Bool := false
  off_requested : Bool := false
  current_cod : Nat := 0
  pending_cod : Nat := 0
  wanted_cod : Nat := 0
  cache_enable : Bool := false
  name_stored : Bool := false
  deriving DecidableEq

/-- The fields of the global `main_opts` read by the modelled functions. -/
structure main_options where
  discov_interval : Nat := 0
  name_resolv : Bool := false
  deriving DecidableEq

/-- The adapter together with the collaborators it acts on. -/
structure Sys where
  adapter : btd_adapter := {}
  main_opts : main_options := {}
  /-- hardware commands issued, oldest first, each with the value the backend returned -/
  hw : List (HwCmd × Int) := []
  /-- values persisted through the storage collaborator, oldest first -/
  storage : List StoreWrite := []
  /-- messages put on the bus, oldest first -/
  dbus : List DBusOut := []
  /-- number of `agent_cancel` calls made on the adapter agent -/
  agent_cancels : Nat := 0
  /-- requests made to an agent, oldest first, each with the value the call returned -/
  agent_calls : List (AgentCall × Int) := []
  /-- the stored on-mode, as `read_on_mode` yields it; `none` when the read fails -/
  on_mode : Option String := none
  /-- armed glib sources -/
  sources : List Source := []
  next_source : Nat := 0
  /-- registered disconnect watches -/
  watches : List Nat := []
  next_watch : Nat := 0
  next_ptr : Nat := 0
  deriving DecidableEq

/-! ## Needed mode -/

/-- Loop of `get_needed_mode` over the mode sessions. -/
def get_needed_mode_loop : List session_req → Nat → Nat
  | [], mode => mode
  | req :: l, mode => get_needed_mode_loop l (if req.mode > mode then req.mode else mode)

/-- Function `get_needed_mode`. -/
def get_needed_mode (adapter : btd_adapter) (mode : Nat) : Nat :=
  let mode := if adapter.global_mode > mode then adapter.global_mode else mode
  get_needed_mode_loop adapter.mode_sessions mode

/-! ## Collaborators -/

/-- Call of a backend command: the result comes from the oracle and the call is logged. -/
def hw_call (ops : adapter_ops) (s : Sys) (c : HwCmd) : Int × Sys :=
  (ops s.hw c, { s with hw := s.hw ++ [(c, ops s.hw c)] })

/-- Library function `g_source_remove`. -/
def g_source_remove (s : Sys) (id : Nat) : Sys :=
  { s with sources := s.sources.filter (fun e => e.id ≠ id) }

/-- Library functions `g_timeout_add` / `g_timeout_add_seconds` / `g_idle_add_full`: arm a
source and return its fresh, non-zero id. -/
def g_timeout_add (s : Sys) (interval_ms : Nat) (handler : SourceKind) : Nat × Sys :=
  let id := s.next_source + 1
  (id, { s with next_source := id,
                sources := s.sources ++ [{ id := id, handler := handler,
                                           interval_ms := interval_ms }] })

/-- Library function `g_dbus_send_message` on the system connection. -/
def g_dbus_send_message (s : Sys) (m : DBusOut) : Sys :=
  { s with dbus := s.dbus ++ [m] }

/-- Helper `emit_property_changed` of the D-Bus layer. -/
def emit_property_changed (s : Sys) (name : String) (v : PropValue) : Sys :=
  g_dbus_send_message s (DBusOut.property_changed name v)

/-- Storage call `write_device_mode`. -/
def write_device_mode (s : Sys) (mode : String) : Sys :=
  { s with storage := s.storage ++ [StoreWrite.device_mode mode] }

/-- Function `failed_strerror`. -/
def failed_strerror (err : Int) : DBusReply :=
  DBusReply.error "Failed" (ErrText.strerror err)

/-- Function `adapter_not_ready`. -/
def adapter_not_ready : DBusReply :=
  DBusReply.error "NotReady" (ErrText.text "Adapter is not ready")

/-! ## Found devices (lookup only) -/

/-- Library function `bacmp` (a `memcmp`); callers only test the result against zero. -/
def bacmp (a b : bdaddr_t) : Int :=
  if a = b then 0 else if a < b then -1 else 1

/-- Function `found_device_cmp`. -/
def found_device_cmp (d1 d2 : remote_dev_info) : Int :=
  if bacmp d2.bdaddr BDADDR_ANY ≠ 0 ∧ bacmp d1.bdaddr d2.bdaddr ≠ 0 then
    bacmp d1.bdaddr d2.bdaddr
  else if d2.name_status ≠ NAME_ANY ∧ (d1.name_status : Int) - (d2.name_status : Int) ≠ 0 then
    (d1.name_status : Int) - (d2.name_status : Int)
  else 0

/-- The zeroed `match` record the lookups start from (`memset (&match, 0, ...)`). -/
def match_zero : remote_dev_info :=
  { ptr := 0, bdaddr := BDADDR_ANY, rssi := 0, dev_class := 0, name := none,
    dev_alias := none, legacy := false, name_status := 0 }

/-- Function `adapter_search_found_devices`. -/
def adapter_search_found_devices (adapter : btd_adapter) (m : remote_dev_info) :
    Option remote_dev_info :=
  adapter.found_devices.find? (fun d => found_device_cmp d m = 0)

/-- Function `pending_remote_name_cancel`. -/
def pending_remote_name_cancel (ops : adapter_ops) (s : Sys) : Int × Sys :=
  match adapter_search_found_devices s.adapter
      { match_zero with bdaddr := BDADDR_ANY, name_status := NAME_REQUESTED } with
  | none => (-ENODATA, s)
  | some dev => hw_call ops s (HwCmd.cancel_resolve_name dev.bdaddr)

/-! ## Mode controller -/

/-- Function `mode2str`. -/
def mode2str (mode : Nat) : String :=
  if mode = MODE_OFF then "off"
  else if mode = MODE_CONNECTABLE then "connectable"
  else if mode = MODE_DISCOVERABLE ∨ mode = MODE_LIMITED then "discoverable"
  else "unknown"

/-- Function `adapter_remove_discov_timeout`. -/
def adapter_remove_discov_timeout (s : Sys) : Sys :=
  if s.adapter.discov_timeout_id = 0 then s
  else
    let s1 := g_source_remove s s.adapter.discov_timeout_id
    { s1 with adapter.discov_timeout_id := 0 }

/-- Function `adapter_set_discov_timeout` (interval in seconds). -/
def adapter_set_discov_timeout (s : Sys) (interval : Nat) : Sys :=
  let s1 :=
    if s.adapter.discov_timeout_id ≠ 0 then
      let t := g_source_remove s s.adapter.discov_timeout_id
      { t with adapter.discov_timeout_id := 0 }
    else s
  if interval = 0 then s1
  else
    let r := g_timeout_add s1 (interval * 1000) SourceKind.discov_timeout_handler
    { r.2 with adapter.discov_timeout_id := r.1 }

/-- Function `adapter_set_limited_discoverable`. The class of device is a `uint32_t`. -/
def adapter_set_limited_discoverable (ops : adapter_ops) (s : Sys) (limited : Bool) : Sys :=
  let w :=
    if limited then s.adapter.wanted_cod ||| LIMITED_BIT
    else s.adapter.wanted_cod &&& (0xffffffff - LIMITED_BIT)
  let s1 := { s with adapter.wanted_cod := w }
  if s1.adapter.pending_cod ≠ 0 ∨ w = s1.adapter.current_cod then s1
  else
    let r := hw_call ops s1 (HwCmd.set_limited_discoverable w limited)
    if r.1 = 0 then { r.2 with adapter.pending_cod := w } else r.2

/-! ## Sessions: creation -/

/-- Function `session_ref`, on the record itself. -/
def session_ref (req : session_req) : session_req :=
  { req with refcount := req.refcount + 1 }

/-- The effect on the adapter of a write made through a `struct session_req *`: every place
that holds this pointer sees the new contents. -/
def store_session (a : btd_adapter) (req : session_req) : btd_adapter :=
  { a with
    mode_sessions := a.mode_sessions.map (fun r => if r.ptr = req.ptr then req else r),
    disc_sessions := a.disc_sessions.map (fun r => if r.ptr = req.ptr then req else r),
    pending_mode := a.pending_mode.map (fun r => if r.ptr = req.ptr then req else r) }

/-- Function `create_session`; `cb` tells whether a disconnect callback was passed
(`session_owner_exit`) or `NULL`. The record is freshly allocated (`g_new0`). -/
def create_session (s : Sys) (msg : DBusMessage) (mode : Nat) (cb : Bool) :
    session_req × Sys :=
  let p := s.next_ptr + 1
  let req : session_req :=
    { ptr := p, msg := some msg, owner := none, id := 0, mode := mode, refcount := 0,
      got_reply := false }
  let s1 := { s with next_ptr := p }
  if cb = false then (session_ref req, s1)
  else
    let w := s1.next_watch + 1
    (session_ref { req with owner := some msg.sender, id := w },
     { s1 with next_watch := w, watches := s1.watches ++ [w] })

/-- Function `adapter_set_mode`. -/
def adapter_set_mode (ops : adapter_ops) (s : Sys) (mode : Nat) : Int × Sys :=
  let r :=
    if mode = MODE_CONNECTABLE then hw_call ops s HwCmd.set_connectable
    else hw_call ops s HwCmd.set_discoverable
  if r.1 < 0 then (r.1, r.2)
  else if mode = MODE_CONNECTABLE then (0, r.2)
  else
    let s1 := adapter_remove_discov_timeout r.2
    let s2 :=
      if s1.adapter.discov_timeout ≠ 0 then adapter_set_discov_timeout s1 s1.adapter.discov_timeout
      else s1
    let s3 :=
      if mode ≠ MODE_LIMITED ∧ s2.adapter.mode = MODE_LIMITED then
        adapter_set_limited_discoverable ops s2 false
      else s2
    (0, s3)

/-- The part of `set_mode` after its label `done`. -/
def set_mode_done (s : Sys) (new_mode : Nat) (msg : Option DBusMessage) : Int × Sys :=
  let modestr := mode2str new_mode
  let s1 := write_device_mode s modestr
  match msg with
  | some m =>
    if modestr = mode2str s1.adapter.mode then
      (0, g_dbus_send_message s1 (DBusOut.reply m DBusReply.method_return))
    else
      let r := create_session s1 m new_mode false
      (0, { r.2 with adapter.pending_mode := some r.1 })
  | none => (0, { s1 with adapter.mode := new_mode })

/-- Function `set_mode`. -/
def set_mode (ops : adapter_ops) (s : Sys) (new_mode : Nat) (msg : Option DBusMessage) :
    Int × Sys :=
  if s.adapter.pending_mode ≠ none then (-EALREADY, s)
  else if s.adapter.up = false ∧ new_mode ≠ MODE_OFF then
    let r := hw_call ops s (HwCmd.set_powered true)
    if r.1 < 0 then (r.1, r.2) else set_mode_done r.2 new_mode msg
  else if s.adapter.up = true ∧ new_mode = MODE_OFF then
    let r := hw_call ops s (HwCmd.set_powered false)
    if r.1 < 0 then (r.1, r.2)
    else set_mode_done { r.2 with adapter.off_requested := true } new_mode msg
  else if new_mode = s.adapter.mode then (0, s)
  else
    let r := adapter_set_mode ops s new_mode
    if r.1 < 0 then (r.1, r.2) else set_mode_done r.2 new_mode msg

/-- Function `set_discoverable` (SetProperty "Discoverable"); `none` is the C `NULL`: the reply
is deferred. -/
def set_discoverable (ops : adapter_ops) (s : Sys) (msg : DBusMessage) (discoverable : Bool) :
    Option DBusReply × Sys :=
  let mode0 := if discoverable then MODE_DISCOVERABLE else MODE_CONNECTABLE
  let mode :=
    if mode0 = MODE_DISCOVERABLE ∧ s.adapter.pairable = true ∧ s.adapter.discov_timeout > 0 ∧
        s.adapter.discov_timeout ≤ 60 then MODE_LIMITED
    else mode0
  if mode = s.adapter.mode then (some DBusReply.method_return, s)
  else
    let r := set_mode ops s mode (some msg)
    if r.1 < 0 then (some (failed_strerror (-r.1)), r.2) else (none, r.2)

/-! ## Discovery engine: start and stop -/

/-- Function `bredr_capable`. -/
def bredr_capable (a : btd_adapter) : Bool :=
  decide ((a.dev.features.getD 4 0 &&& LMP_NO_BREDR) = 0)

/-- Function `le_capable`. -/
def le_capable (a : btd_adapter) : Bool :=
  decide ((a.dev.features.getD 4 0 &&& LMP_LE) ≠ 0 ∧
    (a.dev.extfeatures.getD 0 0 &&& LMP_HOST_LE) ≠ 0)

/-- Function `adapter_get_discover_type`. -/
def adapter_get_discover_type (s : Sys) : Nat :=
  let ty :=
    if le_capable s.adapter = true then
      (if bredr_capable s.adapter = true then DISC_INTERLEAVE else DISC_LE)
    else (if s.main_opts.discov_interval ≠ 0 then DISC_STDINQ else DISC_PINQ)
  if s.main_opts.name_resolv = true then ty ||| DISC_RESOLVNAME else ty

/-- Function `start_discovery`. -/
def start_discovery (ops : adapter_ops) (s : Sys) : Int × Sys :=
  if (s.adapter.state &&& STATE_SUSPENDED) ≠ 0 then (0, s)
  else if (s.adapter.state &&& STATE_RESOLVNAME) ≠ 0 then (1, s)
  else
    let s1 := (pending_remote_name_cancel ops s).2
    let ty := adapter_get_discover_type s1 &&& (0xffffffff - DISC_RESOLVNAME)
    if ty = DISC_STDINQ ∨ ty = DISC_INTERLEAVE then
      hw_call ops s1 (HwCmd.start_inquiry 0x08 false)
    else if ty = DISC_PINQ then hw_call ops s1 (HwCmd.start_inquiry 0x08 true)
    else if ty = DISC_LE then hw_call ops s1 HwCmd.start_scanning
    else (-1, s1)

/-- Function `stop_discovery`. The discovery state is an `int`. -/
def stop_discovery (ops : adapter_ops) (s : Sys) (suspend : Bool) : Sys :=
  let s1 := (pending_remote_name_cancel ops s).2
  let s2 := if suspend = false then { s1 with adapter.found_devices := [] } else s1
  let s3 := { s2 with adapter.oor_devices := [] }
  if (s3.adapter.state &&& STATE_SUSPENDED) ≠ 0 then
    { s3 with adapter.state := s3.adapter.state &&& (0xffffffff - STATE_SUSPENDED) }
  else if s3.adapter.scheduler_id ≠ 0 then
    let s4 := g_source_remove s3 s3.adapter.scheduler_id
    { s4 with adapter.scheduler_id := 0 }
  else if (s3.adapter.state &&& STATE_LE_SCAN) ≠ 0 then (hw_call ops s3 HwCmd.stop_scanning).2
  else (hw_call ops s3 HwCmd.stop_inquiry).2

/-! ## Sessions: lookup and release -/

/-- Function `find_session`. -/
def find_session (list : List session_req) (sender : String) : Option session_req :=
  list.find? (fun req => decide (req.owner = some sender))

/-- Library function `g_slist_remove` on a list of session pointers: drops the first node
that holds this pointer. -/
def g_slist_remove (list : List session_req) (req : session_req) : List session_req :=
  list.eraseP (fun r => decide (r.ptr = req.ptr))

/-- Library function `g_dbus_remove_watch`. -/
def g_dbus_remove_watch (s : Sys) (id : Nat) : Sys :=
  { s with watches := s.watches.filter (fun w => w ≠ id) }

/-- Collaborator call `agent_cancel` on the adapter agent. -/
def agent_cancel (s : Sys) : Sys :=
  { s with agent_cancels := s.agent_cancels + 1 }

/-- Function `session_remove`. -/
def session_remove (ops : adapter_ops) (s : Sys) (req : session_req) : Sys :=
  if req.owner = none then s
  else if req.mode ≠ 0 then
    let s1 := { s with adapter.mode_sessions := g_slist_remove s.adapter.mode_sessions req }
    let mode := get_needed_mode s1.adapter s1.adapter.global_mode
    if mode = s1.adapter.mode then s1 else (set_mode ops s1 mode none).2
  else
    let s1 := { s with adapter.disc_sessions := g_slist_remove s.adapter.disc_sessions req }
    if s1.adapter.disc_sessions ≠ [] then s1 else stop_discovery ops s1 false

/-- Function `session_free`. -/
def session_free (ops : adapter_ops) (s : Sys) (req : session_req) : Sys :=
  let s1 := if req.id ≠ 0 then g_dbus_remove_watch s req.id else s
  let s2 := session_remove ops s1 req
  if req.msg ≠ none ∧ req.got_reply = false ∧ req.mode ≠ 0 ∧ s2.adapter.agent ≠ none then
    agent_cancel s2
  else s2

/-- Function `session_owner_exit`: the disconnect watch of `req` fired. -/
def session_owner_exit (ops : adapter_ops) (s : Sys) (req : session_req) : Sys :=
  session_free ops s { req with id := 0 }

/-- Function `session_unref`. The decrement is a write through the pointer, seen by every
place that holds it, whether or not the record is then released. -/
def session_unref (ops : adapter_ops) (s : Sys) (req : session_req) : Sys :=
  let req1 := { req with refcount := req.refcount - 1 }
  let s1 := { s with adapter := store_session s.adapter req1 }
  if req1.refcount ≠ 0 then s1
  else session_free ops s1 req1

/-- The part of `adapter_start_discovery` after its label `done`. -/
def adapter_start_discovery_done (s : Sys) (msg : DBusMessage) : Option DBusReply × Sys :=
  let r := create_session s msg 0 true
  (some DBusReply.method_return,
   { r.2 with adapter.disc_sessions := r.2.adapter.disc_sessions ++ [r.1] })

/-- Function `adapter_start_discovery` (StartDiscovery). -/
def adapter_start_discovery (ops : adapter_ops) (s : Sys) (msg : DBusMessage) :
    Option DBusReply × Sys :=
  if s.adapter.up = false then (some adapter_not_ready, s)
  else
    match find_session s.adapter.disc_sessions msg.sender with
    | some req =>
      (some DBusReply.method_return, { s with adapter := store_session s.adapter (session_ref req) })
    | none =>
      if s.adapter.disc_sessions ≠ [] then adapter_start_discovery_done s msg
      else
        let r := start_discovery ops s
        if r.1 < 0 then (some (failed_strerror (-r.1)), r.2)
        else adapter_start_discovery_done r.2 msg

/-- Function `adapter_stop_discovery` (StopDiscovery). -/
def adapter_stop_discovery (ops : adapter_ops) (s : Sys) (msg : DBusMessage) :
    Option DBusReply × Sys :=
  if s.adapter.up = false then (some adapter_not_ready, s)
  else
    match find_session s.adapter.disc_sessions msg.sender with
    | none => (some (DBusReply.error "Failed" (ErrText.text "Invalid discovery session")), s)
    | some req => (some DBusReply.method_return, session_unref ops s req)

/-- Function `adapter_suspend_discovery`. -/
def adapter_suspend_discovery (ops : adapter_ops) (s : Sys) : Sys :=
  if s.adapter.disc_sessions = [] ∨ (s.adapter.state &&& STATE_SUSPENDED) ≠ 0 then s
  else
    let s1 := stop_discovery ops s true
    { s1 with adapter.state := s1.adapter.state ||| STATE_SUSPENDED }

/-- Function `adapter_resume_discovery`. -/
def adapter_resume_discovery (ops : adapter_ops) (s : Sys) : Sys :=
  if s.adapter.disc_sessions = [] then s
  else
    (start_discovery ops
      { s with adapter.state := s.adapter.state &&& (0xffffffff - STATE_SUSPENDED) }).2

/-! ## Mode controller: completion -/

/-- Function `set_mode_complete`. -/
def set_mode_complete (ops : adapter_ops) (s : Sys) : Sys :=
  match s.adapter.pending_mode with
  | none => s
  | some pending =>
    let s1 := { s with adapter.pending_mode := none }
    let err : Int := if pending.mode ≠ s1.adapter.mode then -EINVAL else 0
    let s2 :=
      match pending.msg with
      | some msg =>
        g_dbus_send_message s1
          (DBusOut.reply msg (if err < 0 then failed_strerror (-err) else DBusReply.method_return))
      | none => s1
    let modestr := mode2str s2.adapter.mode
    let s3 := if err ≠ 0 then write_device_mode s2 modestr else s2
    session_unref ops s3 pending

/-- The part of `adapter_mode_changed` after its `switch`, entered with the values the
switch gave to `discoverable` and `pairable`. -/
def adapter_mode_changed_tail (ops : adapter_ops) (s : Sys) (scan_mode : Nat)
    (discoverable pairable : Bool) : Sys :=
  let s1 :=
    if (s.adapter.scan_mode &&& SCAN_PAGE) ≠ (scan_mode &&& SCAN_PAGE) then
      emit_property_changed s "Pairable" (PropValue.bool pairable)
    else s
  let s2 :=
    if discoverable = true ∧ s1.adapter.pairable = true ∧ s1.adapter.discov_timeout > 0 ∧
        s1.adapter.discov_timeout ≤ 60 then
      adapter_set_limited_discoverable ops s1 true
    else if discoverable = false then adapter_set_limited_discoverable ops s1 false
    else s1
  let s3 := emit_property_changed s2 "Discoverable" (PropValue.bool discoverable)
  let s4 := { s3 with adapter.scan_mode := scan_mode }
  set_mode_complete ops s4

/-- Function `adapter_mode_changed`: the hardware reports a scan mode. -/
def adapter_mode_changed (ops : adapter_ops) (s : Sys) (scan_mode : Nat) : Sys :=
  if s.adapter.scan_mode = scan_mode then s
  else
    let s1 := adapter_remove_discov_timeout s
    if scan_mode = SCAN_DISABLED then
      adapter_mode_changed_tail ops { s1 with adapter.mode := MODE_OFF } scan_mode false false
    else if scan_mode = SCAN_PAGE then
      adapter_mode_changed_tail ops { s1 with adapter.mode := MODE_CONNECTABLE } scan_mode false
        s1.adapter.pairable
    else if scan_mode = (SCAN_PAGE ||| SCAN_INQUIRY) then
      let s2 := { s1 with adapter.mode := MODE_DISCOVERABLE }
      let s3 :=
        if s2.adapter.discov_timeout ≠ 0 then adapter_set_discov_timeout s2 s2.adapter.discov_timeout
        else s2
      adapter_mode_changed_tail ops s3 scan_mode true s3.adapter.pairable
    else if scan_mode = SCAN_INQUIRY then
      (if s1.adapter.discov_timeout ≠ 0 then adapter_set_discov_timeout s1 s1.adapter.discov_timeout
       else s1)
    else s1

/-! ## Observations on a run -/

/-- The hardware commands issued between state `s` and a later state `t`. -/
def hw_issued (s t : Sys) : List (HwCmd × Int) :=
  t.hw.drop s.hw.length

/-- Power commands. -/
def HwCmd.is_power : HwCmd → Bool
  | HwCmd.set_powered _ => true
  | _ => false

/-- Visibility commands. -/
def HwCmd.is_visibility : HwCmd → Bool
  | HwCmd.set_connectable => true
  | HwCmd.set_discoverable => true
  | _ => false

/-- Hardware start commands of a discovery. -/
def HwCmd.is_start : HwCmd → Bool
  | HwCmd.start_inquiry _ _ => true
  | HwCmd.start_scanning => true
  | _ => false

/-- Hardware stop commands of a discovery. -/
def HwCmd.is_stop : HwCmd → Bool
  | HwCmd.stop_inquiry => true
  | HwCmd.stop_scanning => true
  | _ => false

/-- A powered, connectable adapter with a request in flight. -/
def busy_adapter : Sys :=
  { adapter :=
      { up := true, mode := MODE_CONNECTABLE, scan_mode := SCAN_PAGE,
        pending_mode := some { ptr := 1, msg := some { serial := 7, sender := ":1.5" },
                               owner := none, id := 0, mode := MODE_DISCOVERABLE,
                               refcount := 1, got_reply := false } },
    next_ptr := 1 }

/-- A powered, connectable adapter, nothing in flight. -/
def powered_connectable : Sys :=
  { adapter := { up := true, mode := MODE_CONNECTABLE, scan_mode := SCAN_PAGE } }

/-- The state reached when the hardware of `powered_connectable` reports scan mode Disabled:
the adapter is still powered and its mode is Off. -/
def scan_disabled_adapter : Sys :=
  adapter_mode_changed (fun _ _ => 0) powered_connectable SCAN_DISABLED

/-- An adapter that is down, in mode Off. -/
def powered_off : Sys :=
  { adapter := { up := false, mode := MODE_OFF, scan_mode := SCAN_DISABLED } }

/-- A backend that rejects every command with `-EIO`. -/
def rejecting_ops : adapter_ops := fun _ _ => -5

/-! ## Completion of a SetProperty Discoverable request -/

/-- State `t` agrees with state `s` except for the hardware log, the glib sources and the
timer and class-of-device fields of the adapter. -/
def timers_cod_frame (s t : Sys) : Prop :=
  { t with hw := s.hw, sources := s.sources, next_source := s.next_source,
           adapter.discov_timeout_id := s.adapter.discov_timeout_id,
           adapter.wanted_cod := s.adapter.wanted_cod,
           adapter.pending_cod := s.adapter.pending_cod } = s

/-- The replies to message `m` among the bus traffic `l`. -/
def replies_to (m : DBusMessage) (l : List DBusOut) : List DBusReply :=
  l.filterMap (fun o =>
    match o with
    | DBusOut.reply m2 r => if m2 = m then some r else none
    | _ => none)

/-- The scenario of C10: SetProperty Discoverable=true, then the hardware reports scan mode
Page+Inquiry. -/
def discoverable_round (ops : adapter_ops) (s : Sys) (msg : DBusMessage) : Sys :=
  adapter_mode_changed ops (set_discoverable ops s msg true).2 (SCAN_PAGE ||| SCAN_INQUIRY)

/-- Step `t` of a run from `s` keeps the in-flight slot and the mode, and puts no reply on
the bus. -/
def slot_kept (s t : Sys) : Prop :=
  t.adapter.pending_mode = s.adapter.pending_mode ∧ t.adapter.mode = s.adapter.mode ∧
  ∃ pre, t.dbus = s.dbus ++ pre ∧ ∀ m, replies_to m pre = []

/-- A powered, pairable adapter in mode Connectable with a discoverable timeout of 30 s. -/
def pairable_connectable : Sys :=
  { adapter := { up := true, mode := MODE_CONNECTABLE, scan_mode := SCAN_PAGE, pairable := true,
                 discov_timeout := 30 } }

/-! ## Discovery sessions: reference counting -/

/-- A run of StartDiscovery requests, one per message, in order. -/
def start_discovery_requests (ops : adapter_ops) (s : Sys) (ms : List DBusMessage) : Sys :=
  ms.foldl (fun t m => (adapter_start_discovery ops t m).2) s

/-- A run of StopDiscovery requests, one per message, in order. -/
def stop_discovery_requests (ops : adapter_ops) (s : Sys) (ms : List DBusMessage) : Sys :=
  ms.foldl (fun t m => (adapter_stop_discovery ops t m).2) s

/-- Number of hardware start commands in a log. -/
def count_starts (l : List (HwCmd × Int)) : Nat :=
  l.countP (fun e => e.1.is_start)

/-- Number of hardware stop commands in a log. -/
def count_stops (l : List (HwCmd × Int)) : Nat :=
  l.countP (fun e => e.1.is_stop)

/-- The discovery claim of `owner` is the only one and holds `k` references; the adapter is
powered, discovery is not suspended and no rescan timer is armed. -/
def sole_discovery_claim (owner : String) (k : Int) (s : Sys) : Prop :=
  s.adapter.up = true ∧ (s.adapter.state &&& STATE_SUSPENDED) = 0 ∧ s.adapter.scheduler_id = 0 ∧
  ∃ req, s.adapter.disc_sessions = [req] ∧ req.owner = some owner ∧ req.mode = 0 ∧
    req.refcount = k

/-- Two StartDiscovery (or StopDiscovery) requests of the owner `:1.1`. -/
def two_requests : List DBusMessage :=
  [{ serial := 1, sender := ":1.1" }, { serial := 2, sender := ":1.1" }]

/-- Release of a discovery claim in the words of the spec: the claim leaves the set, and only
when the set of discovery sessions becomes empty is discovery stopped. -/
def release_discovery_claim (ops : adapter_ops) (s : Sys) (req : session_req) : Sys :=
  let rest := g_slist_remove s.adapter.disc_sessions req
  if rest = [] then stop_discovery ops { s with adapter.disc_sessions := rest } false
  else { s with adapter.disc_sessions := rest }

/-- Release of a mode claim in the words of the spec: the claim leaves the set, the needed
mode is recomputed from the remaining claims and the mode controller is driven to it when it
is not the current mode; a confirmation the agent has not answered yet is cancelled. -/
def release_mode_claim (ops : adapter_ops) (s : Sys) (req : session_req) : Sys :=
  let s1 := { s with adapter.mode_sessions := g_slist_remove s.adapter.mode_sessions req }
  let needed := get_needed_mode s1.adapter s1.adapter.global_mode
  let s2 := if needed = s1.adapter.mode then s1 else (set_mode ops s1 needed none).2
  if req.msg ≠ none ∧ req.got_reply = false ∧ s.adapter.agent ≠ none then agent_cancel s2 else s2

/-- The state in which the disconnect watch of a claim has been removed. -/
def unwatched (s : Sys) (req : session_req) : Sys :=
  if req.id ≠ 0 then g_dbus_remove_watch s req.id else s

/-- The state in which the reference count 0 has been written through the pointer to a
claim. -/
def count_dropped (s : Sys) (req : session_req) : Sys :=
  { s with adapter := store_session s.adapter { req with refcount := 0 } }

/-- The discovery claim of owner `:1.1`, holding five references. -/
def claim_a : session_req :=
  { ptr := 1, msg := some { serial := 1, sender := ":1.1" }, owner := some ":1.1", id := 1,
    mode := 0, refcount := 5, got_reply := false }

/-- The discovery claim of owner `:1.2`, holding one reference. -/
def claim_b : session_req :=
  { ptr := 2, msg := some { serial := 2, sender := ":1.2" }, owner := some ":1.2", id := 2,
    mode := 0, refcount := 1, got_reply := false }

/-- A powered adapter in standard inquiry with the discovery claims of two owners. -/
def two_owners : Sys :=
  { adapter := { up := true, mode := MODE_CONNECTABLE, scan_mode := SCAN_PAGE,
                 state := STATE_STDINQ, disc_sessions := [claim_a, claim_b] },
    watches := [1, 2], next_watch := 2, next_ptr := 2 }

/-- The state reached from `powered_connectable` when the owners `:1.1` and `:1.2` have each
started discovery and discovery has then been suspended. -/
def suspended_two_owners : Sys :=
  adapter_suspend_discovery (fun _ _ => 0)
    (adapter_start_discovery (fun _ _ => 0)
      (adapter_start_discovery (fun _ _ => 0) powered_connectable
        { serial := 1, sender := ":1.1" }).2
      { serial := 2, sender := ":1.2" }).2

/-- The claim of owner `:1.1` in `suspended_two_owners`. -/
def suspended_claim_a : session_req :=
  { ptr := 1, msg := some { serial := 1, sender := ":1.1" }, owner := some ":1.1", id := 1,
    mode := 0, refcount := 1, got_reply := false }

/-! ## Class of device -/

/-- Feature bit of `features[6]`: extended inquiry response (HCI headers). -/
def LMP_EXT_INQ : Nat := 0x01

/-- Storage call `write_local_class`; the caller passes the three low bytes of the class. -/
def write_local_class (s : Sys) (cod : Nat) : Sys :=
  { s with storage := s.storage ++ [StoreWrite.local_class cod] }

/-- Function `update_ext_inquiry_response`. The payload is all zero (`none`) unless simple
pairing is on, when `create_ext_inquiry_response` builds it from the name, the tx power
and the services; of these only the tx power is kept in the model. A failed write is only
logged. -/
def update_ext_inquiry_response (ops : adapter_ops) (s : Sys) : Sys :=
  if (s.adapter.dev.features.getD 6 0 &&& LMP_EXT_INQ) = 0 then s
  else
    (hw_call ops s
      (HwCmd.write_eir_data
        (if s.adapter.dev.ssp_mode > 0 then some s.adapter.tx_power else none))).2

/-- Function `adapter_set_service_classes`; `value` is a `uint8_t`. -/
def adapter_set_service_classes (ops : adapter_ops) (s : Sys) (value : Nat) : Int × Sys :=
  let w := (s.adapter.wanted_cod &&& 0x00ffff) ||| (value <<< 16)
  let s1 := { s with adapter.wanted_cod := w }
  if s1.adapter.cache_enable = true ∨ s1.adapter.pending_cod ≠ 0 then (0, s1)
  else if s1.adapter.current_cod = s1.adapter.wanted_cod then
    (0, update_ext_inquiry_response ops s1)
  else
    let r := hw_call ops s1 (HwCmd.set_class s1.adapter.wanted_cod)
    if r.1 < 0 then (r.1, r.2)
    else (r.1, { r.2 with adapter.pending_cod := r.2.adapter.wanted_cod })

/-- Function `btd_adapter_set_class`; `major` and `minor` are `uint8_t`. -/
def btd_adapter_set_class (ops : adapter_ops) (s : Sys) (major minor : Nat) : Int × Sys :=
  let w := (s.adapter.wanted_cod &&& 0xffe000) ||| (((major &&& 0x1f) <<< 8) ||| minor)
  let s1 := { s with adapter.wanted_cod := w }
  if s1.adapter.wanted_cod = s1.adapter.current_cod ∨ s1.adapter.cache_enable = true ∨
      s1.adapter.pending_cod ≠ 0 then (0, s1)
  else
    let r := hw_call ops s1 (HwCmd.set_class s1.adapter.wanted_cod)
    if r.1 < 0 then (r.1, r.2)
    else (r.1, { r.2 with adapter.pending_cod := r.2.adapter.wanted_cod })

/-- Function `adapter_set_class_complete`, for the adapter the address belongs to. -/
def adapter_set_class_complete (ops : adapter_ops) (s : Sys) (status : Nat) : Sys :=
  if status ≠ 0 then s
  else if s.adapter.pending_cod = 0 then s
  else
    let s1 := { s with adapter.current_cod := s.adapter.pending_cod, adapter.pending_cod := 0 }
    let s2 := write_local_class s1 (s1.adapter.current_cod % 0x1000000)
    let s3 := emit_property_changed s2 "Class" (PropValue.uint32 s2.adapter.current_cod)
    let s4 := update_ext_inquiry_response ops s3
    if s4.adapter.wanted_cod = s4.adapter.current_cod then s4
    else
      let r :=
        if (s4.adapter.wanted_cod &&& LIMITED_BIT) ≠ 0 ∧
            (s4.adapter.current_cod &&& LIMITED_BIT) = 0 then
          hw_call ops s4 (HwCmd.set_limited_discoverable s4.adapter.wanted_cod true)
        else if (s4.adapter.wanted_cod &&& LIMITED_BIT) = 0 ∧
            (s4.adapter.current_cod &&& LIMITED_BIT) ≠ 0 then
          hw_call ops s4 (HwCmd.set_limited_discoverable s4.adapter.wanted_cod false)
        else hw_call ops s4 (HwCmd.set_class s4.adapter.wanted_cod)
      if r.1 = 0 then { r.2 with adapter.pending_cod := r.2.adapter.wanted_cod } else r.2

/-- Function `adapter_disable_cod_cache`. -/
def adapter_disable_cod_cache (ops : adapter_ops) (s : Sys) : Sys :=
  if s.adapter.cache_enable = false then s
  else
    let s1 := { s with adapter.cache_enable := false }
    if s1.adapter.current_cod = s1.adapter.wanted_cod then s1
    else
      let r := hw_call ops s1 (HwCmd.set_class s1.adapter.wanted_cod)
      if r.1 < 0 then r.2 else { r.2 with adapter.pending_cod := r.2.adapter.wanted_cod }

/-- Class-of-device write commands. -/
def HwCmd.is_cod_write : HwCmd → Bool
  | HwCmd.set_class _ => true
  | HwCmd.set_limited_discoverable _ _ => true
  | _ => false

/-! ## Found devices -/

/-- Function `dev_rssi_cmp`; the signal strength is an `int8_t`, the arithmetic is on `int`. -/
def dev_rssi_cmp (d1 d2 : remote_dev_info) : Int :=
  let rssi1 := if d1.rssi < 0 then -d1.rssi else d1.rssi
  let rssi2 := if d2.rssi < 0 then -d2.rssi else d2.rssi
  rssi1 - rssi2

/-- Library function `g_slist_sort` with `dev_rssi_cmp`: a stable sort that puts `a` before
`b` when the comparison is not positive. glib uses a merge sort; for a comparison that is a
total preorder every stable sort yields the same list, here an insertion sort. -/
def g_slist_sort (l : List remote_dev_info) : List remote_dev_info :=
  l.insertionSort (fun a b => dev_rssi_cmp a b ≤ 0)

/-- Helper `adapter_emit_device_found`: the DeviceFound signal. Of its property map the model
keeps the address and the signal strength; the advertising payload only adds service ids. -/
def adapter_emit_device_found (s : Sys) (dev : remote_dev_info) (_eir_data : Option (List Nat)) :
    Sys :=
  g_dbus_send_message s (DBusOut.device_found dev.bdaddr dev.rssi)

/-- The part of `adapter_update_found_devices` after its label `done`: the signal strength is
written through the pointer `dev`, the set is sorted and the sighting is announced. -/
def adapter_update_found_devices_done (s : Sys) (dev : remote_dev_info) (rssi : Int)
    (eir_data : Option (List Nat)) : Sys :=
  let found := s.adapter.found_devices.map
    (fun d => if d.ptr = dev.ptr then { d with rssi := rssi } else d)
  let s1 := { s with adapter.found_devices := g_slist_sort found }
  adapter_emit_device_found s1 { dev with rssi := rssi } eir_data

/-- Function `adapter_update_found_devices`. -/
def adapter_update_found_devices (s : Sys) (bdaddr : bdaddr_t) (rssi : Int) (dev_class : Nat)
    (name dev_alias : Option String) (legacy : Bool) (name_status : Nat)
    (eir_data : Option (List Nat)) : Sys :=
  match adapter_search_found_devices s.adapter
      { match_zero with bdaddr := bdaddr, name_status := NAME_ANY } with
  | some dev =>
    let s1 := { s with adapter.oor_devices := s.adapter.oor_devices.erase dev.ptr }
    if rssi = dev.rssi then s1
    else adapter_update_found_devices_done s1 dev rssi eir_data
  | none =>
    let p := s.next_ptr + 1
    let dev : remote_dev_info :=
      { ptr := p, bdaddr := bdaddr, rssi := 0, dev_class := dev_class, name := name,
        dev_alias := dev_alias, legacy := legacy, name_status := name_status }
    let s1 := { s with next_ptr := p, adapter.found_devices := dev :: s.adapter.found_devices }
    adapter_update_found_devices_done s1 dev rssi eir_data

/-- Function `adapter_remove_found_device`: the record stays, its status becomes NotRequired. -/
def adapter_remove_found_device (s : Sys) (bdaddr : bdaddr_t) : Int × Sys :=
  match adapter_search_found_devices s.adapter { match_zero with bdaddr := bdaddr } with
  | none => (-1, s)
  | some dev =>
    let found := s.adapter.found_devices.map
      (fun d => if d.ptr = dev.ptr then { d with name_status := NAME_NOT_REQUIRED } else d)
    (0, { s with adapter.found_devices := found })

/-- The address read through a pointer of the out-of-range list. The pointers of that list
point to records of the found set; one that does not would dangle in C and is given the
zero address here. -/
def oor_address (heap : List remote_dev_info) (p : Nat) : bdaddr_t :=
  match heap.find? (fun d => decide (d.ptr = p)) with
  | some d => d.bdaddr
  | none => BDADDR_ANY

/-- Function `emit_device_disappeared`; `heap` holds the records as they are when the sweep
starts (they are freed only after the loop). -/
def emit_device_disappeared (heap : List remote_dev_info) (s : Sys) (p : Nat) : Sys :=
  let s1 := g_dbus_send_message s (DBusOut.device_disappeared (oor_address heap p))
  let found := s1.adapter.found_devices.eraseP (fun d => decide (d.ptr = p))
  { s1 with adapter.found_devices := found }

/-- Function `update_oor_devices`: the out-of-range sweep. -/
def update_oor_devices (s : Sys) : Sys :=
  let s1 := s.adapter.oor_devices.foldl (emit_device_disappeared s.adapter.found_devices) s
  { s1 with adapter.oor_devices := s1.adapter.found_devices.map (fun d => d.ptr) }

/-! ## Observations on the class of device and on SetProperty Discoverable -/

/-- The class-of-device writes among logged hardware commands. -/
def cod_writes (l : List (HwCmd × Int)) : List (HwCmd × Int) :=
  l.filter (fun e => e.1.is_cod_write)

/-- The limited-discoverable predicate in the words of the spec: pairable, discoverable
timeout in 1..60, and visibility requested. -/
def limited_predicate (a : btd_adapter) (discoverable : Bool) : Prop :=
  discoverable = true ∧ a.pairable = true ∧ 0 < a.discov_timeout ∧ a.discov_timeout ≤ 60

instance (a : btd_adapter) (discoverable : Bool) : Decidable (limited_predicate a discoverable) := by
  unfold limited_predicate
  exact inferInstance

/-- The target mode of a SetProperty Discoverable request in the words of the spec. -/
def discoverable_request_target (a : btd_adapter) (discoverable : Bool) : Nat :=
  if limited_predicate a discoverable then MODE_LIMITED
  else if discoverable = true then MODE_DISCOVERABLE
  else MODE_CONNECTABLE

/-- The rule of the spec for an update of `wanted` that took state `s` to `r.2` and returned
`r.1`: a class write is issued iff caching is disabled, no write is pending and the updated
`wanted` differs from `current`; it is a single write of `wanted`, whose acceptance sets
`pending` to `wanted`; in every other case `pending` is unchanged; `current` never changes. -/
def class_update_rule (s : Sys) (r : Int × Sys) : Prop :=
  r.2.adapter.current_cod = s.adapter.current_cod ∧
  ((s.adapter.cache_enable = false ∧ s.adapter.pending_cod = 0 ∧
      r.2.adapter.wanted_cod ≠ s.adapter.current_cod) →
    cod_writes (hw_issued s r.2) = [(HwCmd.set_class r.2.adapter.wanted_cod, r.1)] ∧
    (0 ≤ r.1 → r.2.adapter.pending_cod = r.2.adapter.wanted_cod) ∧
    (r.1 < 0 → r.2.adapter.pending_cod = s.adapter.pending_cod)) ∧
  (¬ (s.adapter.cache_enable = false ∧ s.adapter.pending_cod = 0 ∧
      r.2.adapter.wanted_cod ≠ s.adapter.current_cod) →
    cod_writes (hw_issued s r.2) = [] ∧ r.2.adapter.pending_cod = s.adapter.pending_cod)

/-! ## Runs of the class-of-device operations -/

/-- The class-of-device operations: the two updates of `wanted`, the limited-discoverable
toggle, the end of caching and the completion callback of a write with its status. -/
inductive CodOp where
  | set_service_classes (value : Nat)
  | set_major_minor (major minor : Nat)
  | set_limited (limited : Bool)
  | disable_cache
  | write_complete (status : Nat)
  deriving DecidableEq

/-- One class-of-device operation on the adapter. -/
def cod_step (ops : adapter_ops) (s : Sys) : CodOp → Sys
  | CodOp.set_service_classes v => (adapter_set_service_classes ops s v).2
  | CodOp.set_major_minor major minor => (btd_adapter_set_class ops s major minor).2
  | CodOp.set_limited limited => adapter_set_limited_discoverable ops s limited
  | CodOp.disable_cache => adapter_disable_cod_cache ops s
  | CodOp.write_complete status => adapter_set_class_complete ops s status

/-- A run of class-of-device operations, in order. -/
def cod_run (ops : adapter_ops) (s : Sys) (run : List CodOp) : Sys :=
  run.foldl (cod_step ops) s

/-- The operations that update `wanted` on behalf of a client. -/
def CodOp.is_change : CodOp → Bool
  | CodOp.set_service_classes _ => true
  | CodOp.set_major_minor _ _ => true
  | _ => false

/-- The completion callbacks of a run. -/
def CodOp.is_complete : CodOp → Bool
  | CodOp.write_complete _ => true
  | _ => false

/-- The class writes that a run from `s`, where none is in flight, has handed to the hardware
and that have not completed yet: the writes the hardware accepted, less the completions
delivered. -/
def writes_in_flight (ops : adapter_ops) (s : Sys) (run : List CodOp) : Int :=
  (((cod_writes (hw_issued s (cod_run ops s run))).countP (fun e => decide (0 ≤ e.2)) : Nat) : Int)
    - ((run.countP (fun o => o.is_complete) : Nat) : Int)

/-! ## Concrete class-of-device states -/

/-- A hardware that accepts every command. -/
def accepting_ops : adapter_ops := fun _ _ => 0

/-- An adapter whose class of device is settled: caching disabled, nothing pending,
`current = wanted = 0x000100`. -/
def class_settled : Sys :=
  { adapter := { current_cod := 0x100, wanted_cod := 0x100 } }

/-- The state reached from `class_settled` when service class 1 is registered: the write of
`0x010100` is pending. -/
def class_write_pending : Sys :=
  cod_run accepting_ops class_settled [CodOp.set_service_classes 1]

/-- An adapter at start-up: class caching enabled, class of device zero. -/
def class_cached : Sys :=
  { adapter := { cache_enable := true } }

/-! ## Observations on the found set -/

/-- The addresses of the found set, in list order. -/
def found_addresses (s : Sys) : List bdaddr_t :=
  s.adapter.found_devices.map (fun d => d.bdaddr)

/-- No two records of the found set have the same address. -/
@[reducible] def unique_by_address (s : Sys) : Prop :=
  (found_addresses s).Nodup

/-- The list is ordered by non-decreasing absolute signal strength. -/
@[reducible] def ascending_abs_rssi (l : List remote_dev_info) : Prop :=
  l.Pairwise (fun a b => a.rssi.natAbs ≤ b.rssi.natAbs)

/-- The list is ordered by non-increasing absolute signal strength. -/
@[reducible] def descending_abs_rssi (l : List remote_dev_info) : Prop :=
  l.Pairwise (fun a b => b.rssi.natAbs ≤ a.rssi.natAbs)

/-- The D-Bus messages sent between state `s` and the later state `t`. -/
def dbus_issued (s t : Sys) : List DBusOut :=
  t.dbus.drop s.dbus.length

/-- DeviceFound signals. -/
def DBusOut.is_device_found : DBusOut → Bool
  | DBusOut.device_found _ _ => true
  | _ => false

/-- The arguments of one `adapter_update_found_devices` call. -/
structure sighting where
  bdaddr : bdaddr_t
  rssi : Int
  dev_class : Nat := 0
  name : Option String := none
  dev_alias : Option String := none
  legacy : Bool := false
  name_status : Nat := NAME_NOT_REQUIRED
  eir_data : Option (List Nat) := none

/-- One sighting reported to the adapter. -/
def sight (s : Sys) (e : sighting) : Sys :=
  adapter_update_found_devices s e.bdaddr e.rssi e.dev_class e.name e.dev_alias e.legacy
    e.name_status e.eir_data

/-- The address and signal strength of each record of the found set, in list order. -/
def found_view (s : Sys) : List (bdaddr_t × Int) :=
  s.adapter.found_devices.map (fun d => (d.bdaddr, d.rssi))

/-- An adapter with an empty found set. -/
def nothing_found : Sys := {}

/-- The state reached from `nothing_found` when the device `5` is sighted at -40 and the
device `6` at -50. -/
def two_found : Sys :=
  sight (sight nothing_found { bdaddr := 5, rssi := -40 }) { bdaddr := 6, rssi := -50 }

/-- The found set holds exactly one record with the address `x`, and its signal strength is
`r`. -/
def holds_once (s : Sys) (x : bdaddr_t) (r : Int) : Prop :=
  ∃ d ∈ s.adapter.found_devices, d.bdaddr = x ∧ d.rssi = r ∧
    ∀ e ∈ s.adapter.found_devices, e.bdaddr = x → e = d

/-! ## Observations on the out-of-range sweep -/

/-- The record that the lookup of a sighting returns, if any. -/
def sighting_lookup (s : Sys) (e : sighting) : Option remote_dev_info :=
  adapter_search_found_devices s.adapter
    { match_zero with bdaddr := e.bdaddr, name_status := NAME_ANY }

/-- A run of sightings, in order. -/
def sight_all (s : Sys) (es : List sighting) : Sys :=
  es.foldl sight s

/-- The number of DeviceDisappeared signals for the address `x` among messages. -/
def disappeared_count (x : bdaddr_t) (l : List DBusOut) : Nat :=
  l.countP (fun m => decide (m = DBusOut.device_disappeared x))

/-- The records of the found set are distinct allocations made by this adapter, with
distinct addresses. -/
@[reducible] def found_records_wf (s : Sys) : Prop :=
  (s.adapter.found_devices.map (fun d => d.ptr)).Nodup ∧
  (∀ d ∈ s.adapter.found_devices, d.ptr ≤ s.next_ptr) ∧
  unique_by_address s

/-- Between two sweeps: the found set is well formed, the out-of-range list holds pointers
to records of the found set, each once, and among them `p`, whose record has the address
`x`. -/
def sweep_inv (s : Sys) (p : Nat) (x : bdaddr_t) : Prop :=
  found_records_wf s ∧
  s.adapter.oor_devices.Nodup ∧
  (∀ q ∈ s.adapter.oor_devices, q ∈ s.adapter.found_devices.map (fun d => d.ptr)) ∧
  p ∈ s.adapter.oor_devices ∧
  ∃ d ∈ s.adapter.found_devices, d.ptr = p ∧ d.bdaddr = x

/-- The pointer and the address of each record of the found set. -/
def found_keys (s : Sys) : List (Nat × bdaddr_t) :=
  s.adapter.found_devices.map (fun d => (d.ptr, d.bdaddr))

/-- The record of the device `5` in `two_found`. -/
def record_five : remote_dev_info :=
  { ptr := 1, bdaddr := 5, rssi := -40, dev_class := 0, name := none, dev_alias := none,
    legacy := false, name_status := NAME_NOT_REQUIRED }

/-! ## Name resolution -/

/-- The lookup of `adapter_resolve_names`: the first record with status Required. -/
def first_required (s : Sys) : Option remote_dev_info :=
  adapter_search_found_devices s.adapter
    { match_zero with bdaddr := BDADDR_ANY, name_status := NAME_REQUIRED }

/-- The write `dev->name_status = NAME_REQUESTED` through the pointer `dev`. -/
def set_name_requested (s : Sys) (dev : remote_dev_info) : Sys :=
  let found := s.adapter.found_devices.map
    (fun d => if d.ptr = dev.ptr then { d with name_status := NAME_REQUESTED } else d)
  { s with adapter.found_devices := found }

/-- The `do ... while (dev)` loop of `adapter_resolve_names`, entered with the record `dev`.
Each round makes one more record leave the status Required; `fuel` bounds the number of
rounds and `none` stands for a loop that has not ended within the bound. -/
def adapter_resolve_names_loop (ops : adapter_ops) : Nat → Sys → remote_dev_info →
    Option (Int × Sys)
  | 0, _, _ => none
  | fuel + 1, s, dev =>
    let s1 := set_name_requested s dev
    let r := hw_call ops s1 (HwCmd.resolve_name dev.bdaddr)
    if r.1 = 0 then some (r.1, r.2)
    else
      let s2 := (adapter_remove_found_device r.2 dev.bdaddr).2
      match first_required s2 with
      | none => some (r.1, s2)
      | some next => adapter_resolve_names_loop ops fuel s2 next

/-- Function `adapter_resolve_names`. The loop runs at most once per record of the found
set. -/
def adapter_resolve_names (ops : adapter_ops) (s : Sys) : Option (Int × Sys) :=
  match first_required s with
  | none => some (-ENODATA, s)
  | some dev => adapter_resolve_names_loop ops (s.adapter.found_devices.length + 1) s dev

/-! ## Discovery engine: state transitions -/

/-- The part of `adapter_set_state` after its `switch`, entered with the discovery type and
the value the switch gave to `discov_active`. -/
def adapter_set_state_tail (ops : adapter_ops) (s : Sys) (ty : Nat) (discov_active : Bool) :
    Option Sys :=
  if discov_active = false then
    let s1 := update_oor_devices s
    if (ty &&& DISC_RESOLVNAME) ≠ 0 then
      match adapter_resolve_names ops s1 with
      | none => none
      | some r =>
        if r.1 = 0 then some { r.2 with adapter.state := r.2.adapter.state ||| STATE_RESOLVNAME }
        else some (emit_property_changed r.2 "Discovering" (PropValue.bool discov_active))
    else some (emit_property_changed s1 "Discovering" (PropValue.bool discov_active))
  else
    let s1 :=
      if s.adapter.disc_sessions ≠ [] ∧ s.main_opts.discov_interval ≠ 0 then
        let r := g_timeout_add s (s.main_opts.discov_interval * 1000) SourceKind.start_discovery
        { r.2 with adapter.scheduler_id := r.1 }
      else s
    some (emit_property_changed s1 "Discovering" (PropValue.bool discov_active))

/-- Function `adapter_set_state`: the hardware-event plumbing reports a discovery state. -/
def adapter_set_state (ops : adapter_ops) (s : Sys) (state : Nat) : Option Sys :=
  if s.adapter.state = state then some s
  else
    let previous := s.adapter.state
    let s1 := { s with adapter.state := state }
    let ty := adapter_get_discover_type s1
    if state = STATE_STDINQ ∨ state = STATE_PINQ then
      if (previous &&& STATE_RESOLVNAME) ≠ 0 then some s1
      else adapter_set_state_tail ops s1 ty true
    else if state = STATE_LE_SCAN then
      let r := g_timeout_add s1 5120 SourceKind.stop_scanning
      let s2 := { r.2 with adapter.stop_discov_id := r.1 }
      if bredr_capable s2.adapter = true then some s2
      else adapter_set_state_tail ops s2 ty true
    else if state = STATE_IDLE then
      if s1.adapter.disc_sessions ≠ [] ∧ (ty &&& DISC_INTERLEAVE) ≠ 0 ∧
          (previous &&& STATE_STDINQ) ≠ 0 then
        some (hw_call ops s1 HwCmd.start_scanning).2
      else adapter_set_state_tail ops s1 ty false
    else adapter_set_state_tail ops s1 ty false

/-! ## Mode sessions -/

/-- Library function `strcasecmp`, as a test for equality. -/
def strcasecmp_eq (a b : String) : Bool :=
  decide (a.data.map Char.toLower = b.data.map Char.toLower)

/-- Function `get_mode`. For "on" the stored on-mode is read and looked up in turn; `fuel`
bounds the depth of the recursion and `none` stands for a lookup that has not ended within
the bound (a stored on-mode that is "on" itself). -/
def get_mode : Nat → Sys → String → Option Nat
  | 0, _, _ => none
  | fuel + 1, s, mode =>
    if strcasecmp_eq "off" mode then some MODE_OFF
    else if strcasecmp_eq "connectable" mode then some MODE_CONNECTABLE
    else if strcasecmp_eq "discoverable" mode then some MODE_DISCOVERABLE
    else if strcasecmp_eq "limited" mode then some MODE_LIMITED
    else if strcasecmp_eq "on" mode then
      match s.on_mode with
      | none => some MODE_CONNECTABLE
      | some onmode => get_mode fuel s onmode
    else some MODE_UNKNOWN

/-- Collaborator call `agent_confirm_mode_change` on the adapter agent; `err` is the value
it returns. The answer of the agent arrives later through `confirm_mode_cb`. -/
def agent_confirm_mode_change (s : Sys) (agent : Nat) (mode : String) (req : session_req)
    (err : Int) : Sys :=
  { s with agent_calls := s.agent_calls ++ [(AgentCall.confirm_mode_change agent mode req.ptr, err)] }

/-- Function `request_session` (RequestSession); `agent_err` is the value
`agent_confirm_mode_change` returns if it is called. The outer `none` stands for a call that
does not return (see `get_mode`); the inner `none` is the C `NULL`: the reply is deferred. -/
def request_session (ops : adapter_ops) (s : Sys) (msg : DBusMessage) (agent_err : Int) :
    Option (Option DBusReply × Sys) :=
  match s.adapter.agent with
  | none => some (some (DBusReply.error "Failed" (ErrText.text "No agent registered")), s)
  | some agent =>
    let s1 :=
      if s.adapter.mode_sessions = [] then { s with adapter.global_mode := s.adapter.mode }
      else s
    match get_mode 2 s1 "on" with
    | none => none
    | some new_mode =>
      match find_session s1.adapter.mode_sessions msg.sender with
      | some req =>
        some (some DBusReply.method_return,
          { s1 with adapter := store_session s1.adapter (session_ref req) })
      | none =>
        let r := create_session s1 msg new_mode true
        let s2 := { r.2 with adapter.mode_sessions := r.2.adapter.mode_sessions ++ [r.1] }
        if s2.adapter.mode ≥ new_mode then some (some DBusReply.method_return, s2)
        else
          let s3 := agent_confirm_mode_change s2 agent (mode2str new_mode) r.1 agent_err
          if agent_err < 0 then
            some (some (failed_strerror (-agent_err)), session_unref ops s3 r.1)
          else some (none, s3)

/-- Function `release_session` (ReleaseSession). -/
def release_session (ops : adapter_ops) (s : Sys) (msg : DBusMessage) :
    Option DBusReply × Sys :=
  match find_session s.adapter.mode_sessions msg.sender with
  | none => (some (DBusReply.error "Failed" (ErrText.text "No Mode to release")), s)
  | some req => (some DBusReply.method_return, session_unref ops s req)

/-- A set `DBusError`: its name and its message. -/
structure DBusError where
  name : String
  message : String
  deriving DecidableEq

/-- The reply sent for the request held by a claim, if it still holds one. -/
def reply_to_claim (s : Sys) (req : session_req) (r : DBusReply) : Sys :=
  match req.msg with
  | some m => g_dbus_send_message s (DBusOut.reply m r)
  | none => s

/-- Function `confirm_mode_cb`: the agent answers the confirmation asked for the claim `req`;
`derr` is the error it set, if any. -/
def confirm_mode_cb (ops : adapter_ops) (s : Sys) (req : session_req)
    (derr : Option DBusError) : Sys :=
  let req1 := { req with got_reply := true }
  let s1 := { s with adapter := store_session s.adapter req1 }
  match derr with
  | some e =>
    let s2 := reply_to_claim s1 req1 (DBusReply.error e.name (ErrText.text e.message))
    session_unref ops s2 req1
  | none =>
    let r := set_mode ops s1 req1.mode none
    let reply := if r.1 < 0 then failed_strerror (-r.1) else DBusReply.method_return
    let s2 := reply_to_claim r.2 req1 reply
    let req2 := { req1 with msg := none }
    let s3 := { s2 with adapter := store_session s2.adapter req2 }
    let found :=
      match req2.owner with
      | some owner => find_session s3.adapter.mode_sessions owner
      | none => none
    if found = none then session_unref ops s3 req2 else s3

/-! ## Authorization broker -/

/-- Function `adapter_find_device`; the address text is compared by `device_address_cmp`. -/
def adapter_find_device (a : btd_adapter) (dest : bdaddr_t) : Option btd_device :=
  a.devices.find? (fun d => decide (d.address = dest))

/-- Collaborator call `device_set_authorizing`, a write through the pointer `device`. -/
def device_set_authorizing (s : Sys) (device : btd_device) (v : Bool) : Sys :=
  let devices := s.adapter.devices.map
    (fun d => if d.ptr = device.ptr then { d with authorizing := v } else d)
  { s with adapter.devices := devices }

/-- Function `btd_adapter_authorize`; `agent_err` is the value `agent_authorize` returns if
it is called. The allocation of the `struct service_auth` is taken to succeed. -/
def btd_adapter_authorize (s : Sys) (dst : bdaddr_t) (uuid : String) (agent_err : Int) :
    Int × Sys :=
  match adapter_find_device s.adapter dst with
  | none => (-EPERM, s)
  | some device =>
    if device.ptr ∉ s.adapter.connections then (-ENOTCONN, s)
    else if s.adapter.auth_idle_id ≠ 0 then (-EBUSY, s)
    else if device.trusted = true then
      let r := g_timeout_add s 0 SourceKind.auth_idle_cb
      (0, { r.2 with adapter.auth_idle_id := r.1 })
    else
      match device.agent with
      | none => (-EPERM, s)
      | some agent =>
        let s1 := { s with agent_calls :=
          s.agent_calls ++ [(AgentCall.authorize agent device.ptr uuid, agent_err)] }
        if agent_err < 0 then (agent_err, s1)
        else (agent_err, device_set_authorizing s1 device true)

/-- Function `auth_idle_cb`: the deferred task `id` runs. It returns `FALSE`, so its source
is destroyed. -/
def auth_idle_cb (s : Sys) (id : Nat) : Sys :=
  g_source_remove { s with adapter.auth_idle_id := 0 } id

/-! ## Runs of the name-resolution operations -/

/-- The operations that act on the name-resolution status of the found records. -/
inductive NameOp where
  | sighted (e : sighting)
  | resolve_names
  | remove_found_device (bdaddr : bdaddr_t)
  | set_state (state : Nat)
  | stop_discovery (suspend : Bool)

/-- One name-resolution operation on the adapter; `none` when the call does not return. -/
def name_step (ops : adapter_ops) (s : Sys) : NameOp → Option Sys
  | NameOp.sighted e => some (sight s e)
  | NameOp.resolve_names => (adapter_resolve_names ops s).map (fun r => r.2)
  | NameOp.remove_found_device bdaddr => some (adapter_remove_found_device s bdaddr).2
  | NameOp.set_state state => adapter_set_state ops s state
  | NameOp.stop_discovery suspend => some (stop_discovery ops s suspend)

/-- A run of name-resolution operations, in order. -/
def name_run (ops : adapter_ops) : Sys → List NameOp → Option Sys
  | s, [] => some s
  | s, o :: run =>
    match name_step ops s o with
    | none => none
    | some t => name_run ops t run

/-- The addresses of the records with status Requested, in list order. -/
def requested_addresses (s : Sys) : List bdaddr_t :=
  (s.adapter.found_devices.filter (fun d => decide (d.name_status = NAME_REQUESTED))).map
    (fun d => d.bdaddr)

/-- Resolve-name commands. -/
def HwCmd.is_resolve : HwCmd → Bool
  | HwCmd.resolve_name _ => true
  | _ => false

/-- Cancel-resolve-name commands. -/
def HwCmd.is_cancel_resolve : HwCmd → Bool
  | HwCmd.cancel_resolve_name _ => true
  | _ => false

/-- The resolve-name commands among logged hardware commands. -/
def resolve_commands (l : List (HwCmd × Int)) : List (HwCmd × Int) :=
  l.filter (fun e => e.1.is_resolve)

/-- The address and the name-resolution status of each record of the found set, in list
order. -/
def status_view (s : Sys) : List (bdaddr_t × Nat) :=
  s.adapter.found_devices.map (fun d => (d.bdaddr, d.name_status))

/-- An adapter with an empty found set, configured to resolve names. -/
def resolving_adapter : Sys :=
  { main_opts := { name_resolv := true } }

/-- A hardware that rejects the first command it is given and accepts the later ones. -/
def reject_first_ops : adapter_ops := fun h _ => if h.length = 0 then -5 else 0

/-! ## Concrete session states -/

/-- A powered, connectable adapter with a registered agent; the stored on-mode is "off". -/
def agent_adapter_on_mode_off : Sys :=
  { adapter := { up := true, mode := MODE_CONNECTABLE, scan_mode := SCAN_PAGE, agent := some 7 },
    on_mode := some "off" }

/-- A powered, discoverable adapter without agent; the stored on-mode is "connectable". -/
def no_agent_adapter : Sys :=
  { adapter := { up := true, mode := MODE_DISCOVERABLE, scan_mode := SCAN_PAGE ||| SCAN_INQUIRY },
    on_mode := some "connectable" }

/-- A powered, connectable adapter with a registered agent; the stored on-mode is
"discoverable". -/
def agent_adapter : Sys :=
  { adapter := { up := true, mode := MODE_CONNECTABLE, scan_mode := SCAN_PAGE, agent := some 7 },
    on_mode := some "discoverable" }

/-- The owner, the mode and the reference count of each claim of the mode-session set. -/
def mode_claims (s : Sys) : List (Option String × Nat × Int) :=
  s.adapter.mode_sessions.map (fun r => (r.owner, r.mode, r.refcount))

/-! ## Runs of the session operations -/

/-- The events that act on the session sets: the four client requests, the answer of the
agent to the confirmation asked for the mode claim of an owner, and the exit of the owner of
a mode claim or of a discovery claim. -/
inductive SessionOp where
  | start_discovery (msg : DBusMessage)
  | stop_discovery (msg : DBusMessage)
  | request_session (msg : DBusMessage) (agent_err : Int)
  | release_session (msg : DBusMessage)
  | confirm_mode (owner : String) (derr : Option DBusError)
  | mode_owner_exit (owner : String)
  | discovery_owner_exit (owner : String)

/-- One session event on the adapter; callbacks for a claim that is not registered do not
occur and leave the state as it is. `none` when the call does not return. -/
def session_step (ops : adapter_ops) (s : Sys) : SessionOp → Option Sys
  | SessionOp.start_discovery msg => some (adapter_start_discovery ops s msg).2
  | SessionOp.stop_discovery msg => some (adapter_stop_discovery ops s msg).2
  | SessionOp.request_session msg agent_err =>
    (request_session ops s msg agent_err).map (fun r => r.2)
  | SessionOp.release_session msg => some (release_session ops s msg).2
  | SessionOp.confirm_mode owner derr =>
    match find_session s.adapter.mode_sessions owner with
    | some req => some (confirm_mode_cb ops s req derr)
    | none => some s
  | SessionOp.mode_owner_exit owner =>
    match find_session s.adapter.mode_sessions owner with
    | some req => some (session_owner_exit ops s req)
    | none => some s
  | SessionOp.discovery_owner_exit owner =>
    match find_session s.adapter.disc_sessions owner with
    | some req => some (session_owner_exit ops s req)
    | none => some s

/-- A run of session events, in order. -/
def session_run (ops : adapter_ops) : Sys → List SessionOp → Option Sys
  | s, [] => some s
  | s, o :: run =>
    match session_step ops s o with
    | none => none
    | some t => session_run ops t run

/-- The command of the follow-up class write, in the words of the amended claim C29: the
limited-discoverable toggle when the limited bit of `wanted` and of `current` differ, a
general class write otherwise. -/
def next_class_write (wanted current : Nat) : HwCmd :=
  if decide ((wanted &&& LIMITED_BIT) ≠ 0) ≠ decide ((current &&& LIMITED_BIT) ≠ 0) then
    HwCmd.set_limited_discoverable wanted (decide ((wanted &&& LIMITED_BIT) ≠ 0))
  else HwCmd.set_class wanted

/-! ## Observations on the authorization broker -/

/-- The deferred trust-bypass tasks that are pending. -/
def idle_tasks (s : Sys) : List Source :=
  s.sources.filter (fun e => decide (e.handler = SourceKind.auth_idle_cb))

/-- The events of the authorization broker: a request to authorize a peer (`agent_err` is
what the agent layer returns if it is called) and the run of a pending deferred task. -/
inductive AuthOp where
  | authorize (dst : bdaddr_t) (uuid : String) (agent_err : Int)
  | idle_task_runs (id : Nat)

/-- One event of the authorization broker; only a pending task can run. -/
def auth_step (s : Sys) : AuthOp → Sys
  | AuthOp.authorize dst uuid agent_err => (btd_adapter_authorize s dst uuid agent_err).2
  | AuthOp.idle_task_runs id =>
    if (idle_tasks s).any (fun e => decide (e.id = id)) then auth_idle_cb s id else s

/-- A run of events of the authorization broker, in order. -/
def auth_run (s : Sys) (run : List AuthOp) : Sys :=
  run.foldl auth_step s

/-- Every pending deferred task is the one whose id the adapter holds, and there is at most
one. -/
def idle_task_held (s : Sys) : Prop :=
  (idle_tasks s).length ≤ 1 ∧
  ∀ e ∈ idle_tasks s, e.id = s.adapter.auth_idle_id ∧ s.adapter.auth_idle_id ≠ 0

/-- An adapter with two known peers, both connected: `9` is trusted, `8` is not and has an
agent. `7` is known but not connected. -/
def two_peers : Sys :=
  { adapter := { up := true,
                 devices := [{ ptr := 1, address := 9, trusted := true },
                             { ptr := 2, address := 8, agent := some 3 },
                             { ptr := 3, address := 7, trusted := true }],
                 connections := [1, 2] } }

/-- The state reached from `two_peers` when the trusted peer `9` has been authorized and the
deferred task has not run yet. -/
def idle_task_pending : Sys :=
  (btd_adapter_authorize two_peers 9 "1101" 0).2

/-- The mode claim of `owner` is the only one, asks for mode `m`, holds one reference and has
a disconnect watch; the adapter is powered and no mode change is in flight. -/
def sole_mode_claim (owner : String) (m : Nat) (s : Sys) : Prop :=
  s.adapter.up = true ∧ s.adapter.pending_mode = none ∧
  ∃ req, s.adapter.mode_sessions = [req] ∧ req.owner = some owner ∧ req.mode = m ∧
    req.refcount = 1 ∧ req.id ≠ 0

/-- Between two sweeps, for a record that need not be on the out-of-range list: the found
set is well formed, the out-of-range list holds pointers to records of the found set, each
once, and the record at `p` has the address `x`. -/
def track_inv (s : Sys) (p : Nat) (x : bdaddr_t) : Prop :=
  found_records_wf s ∧
  s.adapter.oor_devices.Nodup ∧
  (∀ q ∈ s.adapter.oor_devices, q ∈ s.adapter.found_devices.map (fun d => d.ptr)) ∧
  ∃ d ∈ s.adapter.found_devices, d.ptr = p ∧ d.bdaddr = x

/-- The state reached from `nothing_found` when the all-zero address is sighted at -50, the
device `5` at -40, and the out-of-range sweep has run: both records are on the out-of-range
list, the record of the all-zero address (pointer 1) second in the found set. -/
def zero_address_held : Sys :=
  update_oor_devices
    (sight (sight nothing_found { bdaddr := 0, rssi := -50 }) { bdaddr := 5, rssi := -40 })

/-- The state reached from `nothing_found` when the devices `5` and `6` are sighted, both
with a name still to be resolved. -/
def two_names_required : Sys :=
  sight (sight nothing_found { bdaddr := 5, rssi := -40, name_status := NAME_REQUIRED })
    { bdaddr := 6, rssi := -50, name_status := NAME_REQUIRED }

/-- The record of the device `5` in `two_names_required`. -/
def required_five : remote_dev_info :=
  { ptr := 1, bdaddr := 5, rssi := -40, dev_class := 0, name := none, dev_alias := none,
    legacy := false, name_status := NAME_REQUIRED }

/-- The record of the device `6` in `two_names_required`. -/
def required_six : remote_dev_info :=
  { ptr := 2, bdaddr := 6, rssi := -50, dev_class := 0, name := none, dev_alias := none,
    legacy := false, name_status := NAME_REQUIRED }

/-- The state reached from `nothing_found` when the all-zero address is sighted at -50 with a
name to be resolved, the device `5` at -40 with none, and the device `6` at -90 with a name
to be resolved: the record of the all-zero address is second in the found set. -/
def zero_address_required : Sys :=
  sight (sight (sight nothing_found { bdaddr := 0, rssi := -50, name_status := NAME_REQUIRED })
    { bdaddr := 5, rssi := -40 }) { bdaddr := 6, rssi := -90, name_status := NAME_REQUIRED }

/-! ## Observations on discovery state transitions -/

/-- The number of records with status Required. -/
def required_count (l : List remote_dev_info) : Nat :=
  l.countP (fun d => decide (d.name_status = NAME_REQUIRED))

/-- The records with status Required, in list order. -/
def required_records (l : List remote_dev_info) : List remote_dev_info :=
  l.filter (fun d => decide (d.name_status = NAME_REQUIRED))

/-- An adapter whose name resolution is under way: the overlay ResolvingNames is set. -/
def names_being_resolved : Sys :=
  { main_opts := { name_resolv := true }, adapter := { state := STATE_RESOLVNAME } }

/-- A dual-mode controller (BR/EDR and LE) in standard inquiry, with one discovery claim. -/
def dual_mode_inquiring : Sys :=
  { adapter := { up := true, state := STATE_STDINQ, disc_sessions := [claim_a],
                 dev := { features := [0, 0, 0, 0, LMP_LE], extfeatures := [LMP_HOST_LE] } } }

/-- A BR/EDR controller in standard inquiry, with one discovery claim and a rescan interval
of 30 seconds; no timer is armed and no record is waiting for its name. -/
def rescan_inquiring : Sys :=
  { main_opts := { discov_interval := 30 },
    adapter := { up := true, state := STATE_STDINQ, disc_sessions := [claim_a] } }

/-- The adapter of `rescan_inquiring` when it is idle. -/
def rescan_idle : Sys :=
  { main_opts := { discov_interval := 30 },
    adapter := { up := true, state := STATE_IDLE, disc_sessions := [claim_a] } }

/-! ## Timers -/

/-- Function `adapter_set_pairable_timeout` (interval in seconds). -/
def adapter_set_pairable_timeout (s : Sys) (interval : Nat) : Sys :=
  let s1 :=
    if s.adapter.pairable_timeout_id ≠ 0 then
      let t := g_source_remove s s.adapter.pairable_timeout_id
      { t with adapter.pairable_timeout_id := 0 }
    else s
  if interval = 0 then s1
  else
    let r := g_timeout_add s1 (interval * 1000) SourceKind.pairable_timeout_handler
    { r.2 with adapter.pairable_timeout_id := r.1 }

/-- The armed timers of one kind, oldest first. -/
def armed (k : SourceKind) (s : Sys) : List Source :=
  s.sources.filter (fun e => decide (e.handler = k))

/-- At most one timer of the kind `k` is armed, and it is the one whose handle is `id`. -/
def timer_held (k : SourceKind) (id : Nat) (s : Sys) : Prop :=
  (armed k s).length ≤ 1 ∧ ∀ e ∈ armed k s, e.id = id ∧ id ≠ 0

/-- The handle `id` tracks the timer of the kind `k`: at most one such timer is armed, an
armed one has the handle `id`, and a non-zero handle is the handle of an armed one. -/
def timer_tracked (k : SourceKind) (id : Nat) (s : Sys) : Prop :=
  timer_held k id s ∧ (id ≠ 0 → ∃ e ∈ armed k s, e.id = id)

/-! ## Runs of the found-set operations -/

/-- The operations that act on the found set and on the out-of-range snapshot. -/
inductive CacheOp where
  | sighted (e : sighting)
  | sweep
  | remove_found_device (bdaddr : bdaddr_t)
  | stop_discovery (suspend : Bool)

/-- One found-set operation on the adapter. -/
def cache_step (ops : adapter_ops) (s : Sys) : CacheOp → Sys
  | CacheOp.sighted e => sight s e
  | CacheOp.sweep => update_oor_devices s
  | CacheOp.remove_found_device bdaddr => (adapter_remove_found_device s bdaddr).2
  | CacheOp.stop_discovery suspend => stop_discovery ops s suspend

/-- A run of found-set operations, in order. -/
def cache_run (ops : adapter_ops) (s : Sys) (run : List CacheOp) : Sys :=
  run.foldl (cache_step ops) s

/-- Every pointer of the out-of-range snapshot points to a record of the found set. -/
def snapshot_in_found (s : Sys) : Prop :=
  ∀ p ∈ s.adapter.oor_devices, p ∈ s.adapter.found_devices.map (fun d => d.ptr)

/-! ## Advertising payload: service ids -/

/-- Modelled from the spec: length in bytes of an advertising payload (header `hci.h`, absent
from the sources). -/
def EIR_DATA_LENGTH : Nat := 240

/-- Modelled from the spec: type code of a field with some of the 16-bit service ids. -/
def EIR_UUID16_SOME : Nat := 0x02

/-- Modelled from the spec: type code of a field with all the 16-bit service ids. -/
def EIR_UUID16_ALL : Nat := 0x03

/-- Modelled from the spec: type code of a field with some of the 32-bit service ids. -/
def EIR_UUID32_SOME : Nat := 0x04

/-- Modelled from the spec: type code of a field with all the 32-bit service ids. -/
def EIR_UUID32_ALL : Nat := 0x05

/-- Modelled from the spec: type code of a field with some of the 128-bit service ids. -/
def EIR_UUID128_SOME : Nat := 0x06

/-- Modelled from the spec: type code of a field with all the 128-bit service ids. -/
def EIR_UUID128_ALL : Nat := 0x07

/-- A memory access that C leaves undefined: a read or a write at `index`, outside the
object it is made through; `loop_bound` stands for a loop that has not ended within the
bound given to it. -/
inductive Fault where
  | out_of_bounds (index : Nat)
  | loop_bound
  deriving DecidableEq

deriving instance DecidableEq for Except

/-- A service id as `get_eir_uuids` hands it to `bt_uuid2string`: the field `type` of the
`uuid_t` and its value (for 128 bits, the sixteen bytes `value.uuid128.data`). -/
inductive uuid_t where
  | uuid16 (v : Nat)
  | uuid32 (v : Nat)
  | uuid128 (data : List Nat)
  deriving DecidableEq

/-- The read `eir_data[i]` of a `uint8_t` from the payload buffer. -/
def eir_read (data : List Nat) (i : Nat) : Except Fault Nat :=
  match data.get? i with
  | some b => Except.ok (b % 256)
  | none => Except.error (Fault.out_of_bounds i)

/-- The locals of `get_eir_uuids` that its first loop sets: `len`, the three counts, and the
three pointers as offsets into the payload. -/
structure eir_fields where
  len : Nat := 0
  uuid16_count : Nat := 0
  uuid32_count : Nat := 0
  uuid128_count : Nat := 0
  uuid16 : Nat := 0
  uuid32 : Nat := 0
  uuid128 : Nat := 0
  deriving DecidableEq

/-- The `switch (type)` of `get_eir_uuids`, for the field that starts at offset `f.len`. -/
def eir_switch (f : eir_fields) (type field_len : Nat) : eir_fields :=
  if type = EIR_UUID16_SOME ∨ type = EIR_UUID16_ALL then
    { f with uuid16_count := field_len / 2, uuid16 := f.len + 2 }
  else if type = EIR_UUID32_SOME ∨ type = EIR_UUID32_ALL then
    { f with uuid32_count := field_len / 4, uuid32 := f.len + 2 }
  else if type = EIR_UUID128_SOME ∨ type = EIR_UUID128_ALL then
    { f with uuid128_count := field_len / 16, uuid128 := f.len + 2 }
  else f

/-- The `while (len < EIR_DATA_LENGTH - 1)` loop of `get_eir_uuids`; `len` is a `uint16_t`.
Each round adds at least two to `len`, so the bound `EIR_DATA_LENGTH` is never reached. -/
def eir_scan (data : List Nat) : Nat → eir_fields → Except Fault eir_fields
  | 0, _ => Except.error Fault.loop_bound
  | fuel + 1, f =>
    if f.len < EIR_DATA_LENGTH - 1 then
      match eir_read data (f.len + 1) with
      | Except.error e => Except.error e
      | Except.ok type =>
        match eir_read data f.len with
        | Except.error e => Except.error e
        | Except.ok field_len =>
          if field_len = 0 then Except.ok f
          else
            eir_scan data fuel
              { eir_switch f type field_len with len := (f.len + (field_len + 1)) % 65536 }
    else Except.ok f

/-- The first `for` loop of `get_eir_uuids`: `count` 16-bit ids read from offset `p` on. -/
def eir_uuid16_loop (data : List Nat) : Nat → Nat → Except Fault (List uuid_t)
  | 0, _ => Except.ok []
  | count + 1, p =>
    match eir_read data (p + 1) with
    | Except.error e => Except.error e
    | Except.ok b1 =>
      match eir_read data p with
      | Except.error e => Except.error e
      | Except.ok b0 =>
        match eir_uuid16_loop data count (p + 2) with
        | Except.error e => Except.error e
        | Except.ok l => Except.ok (uuid_t.uuid16 ((b1 * 256 + b0) % 65536) :: l)

/-- The second `for` loop of `get_eir_uuids`: `count` 32-bit ids read from offset `p` on. -/
def eir_uuid32_loop (data : List Nat) : Nat → Nat → Except Fault (List uuid_t)
  | 0, _ => Except.ok []
  | count + 1, p =>
    match eir_read data (p + 3) with
    | Except.error e => Except.error e
    | Except.ok b3 =>
      match eir_read data (p + 2) with
      | Except.error e => Except.error e
      | Except.ok b2 =>
        match eir_read data (p + 1) with
        | Except.error e => Except.error e
        | Except.ok b1 =>
          match eir_read data p with
          | Except.error e => Except.error e
          | Except.ok b0 =>
            match eir_uuid32_loop data count (p + 4) with
            | Except.error e => Except.error e
            | Except.ok l =>
              Except.ok
                (uuid_t.uuid32 ((((b3 * 256 + b2) * 256 + b1) * 256 + b0) % 4294967296) :: l)

/-- The inner loop `for (k = 0; k < 16; k++)` of the third `for` loop, run from `k` on:
`data[k] = uuid128[16 - k - 1]`. -/
def eir_uuid128_bytes (data : List Nat) (p : Nat) : Nat → Nat → Except Fault (List Nat)
  | 0, _ => Except.ok []
  | n + 1, k =>
    match eir_read data (p + (16 - k - 1)) with
    | Except.error e => Except.error e
    | Except.ok b =>
      match eir_uuid128_bytes data p n (k + 1) with
      | Except.error e => Except.error e
      | Except.ok l => Except.ok (b :: l)

/-- The third `for` loop of `get_eir_uuids`: `count` 128-bit ids read from offset `p` on. -/
def eir_uuid128_loop (data : List Nat) : Nat → Nat → Except Fault (List uuid_t)
  | 0, _ => Except.ok []
  | count + 1, p =>
    match eir_uuid128_bytes data p 16 0 with
    | Except.error e => Except.error e
    | Except.ok bytes =>
      match eir_uuid128_loop data count (p + 16) with
      | Except.error e => Except.error e
      | Except.ok l => Except.ok (uuid_t.uuid128 bytes :: l)

/-- Function `get_eir_uuids` on the payload buffer `eir_data`. The result is the array it
returns (`none` for `NULL`) and the value it leaves in `*uuid_count`, which its caller has
set to 0; each string of the array is given as the `uuid_t` passed to `bt_uuid2string`. -/
def get_eir_uuids (eir_data : List Nat) : Except Fault (Option (List uuid_t) × Nat) :=
  match eir_scan eir_data EIR_DATA_LENGTH {} with
  | Except.error e => Except.error e
  | Except.ok f =>
    if f.len > EIR_DATA_LENGTH then Except.ok (none, 0)
    else
      let total := f.uuid16_count + f.uuid32_count + f.uuid128_count
      if total = 0 then Except.ok (none, total)
      else
        match eir_uuid16_loop eir_data f.uuid16_count f.uuid16 with
        | Except.error e => Except.error e
        | Except.ok l16 =>
          match eir_uuid32_loop eir_data f.uuid32_count f.uuid32 with
          | Except.error e => Except.error e
          | Except.ok l32 =>
            match eir_uuid128_loop eir_data f.uuid128_count f.uuid128 with
            | Except.error e => Except.error e
            | Except.ok l128 => Except.ok (some (l16 ++ l32 ++ l128), total)

/-- The number of complete ids of `width` bytes in the data of a field of length
`field_len`: the field holds one type byte and `field_len - 1` bytes of data. -/
def complete_uuids (field_len width : Nat) : Nat :=
  (field_len - 1) / width

/-- A payload whose first field has length 2 and type "all 16-bit ids": one byte of data,
`0xAB`; the rest of the payload is zero. -/
def eir_short_uuid16 : List Nat :=
  [2, EIR_UUID16_ALL, 0xAB] ++ List.replicate 237 0

/-- A payload whose first field has length 4 and type "all 32-bit ids": three bytes of data;
the rest of the payload is zero. -/
def eir_short_uuid32 : List Nat :=
  [4, EIR_UUID32_ALL, 1, 2, 3] ++ List.replicate 235 0

/-- A payload whose first field has length 16 and type "all 128-bit ids": fifteen bytes of
data; the rest of the payload is zero. -/
def eir_short_uuid128 : List Nat :=
  [16, EIR_UUID128_ALL] ++ List.replicate 15 0x11 ++ List.replicate 223 0

/-- A payload filled by two fields: one of length 236 and type `0xFF`, and at offset 237 one
of length 2 and type "all 16-bit ids", whose one byte of data is the last byte of the
payload. -/
def eir_uuid16_at_end : List Nat :=
  [236, 0xFF] ++ List.replicate 235 0x11 ++ [2, EIR_UUID16_ALL, 0xAB]

/-- A well-formed payload: a field of length 5 with two 16-bit ids, `0x110A` and `0x1105`,
sent low byte first. -/
def eir_two_uuid16 : List Nat :=
  [5, EIR_UUID16_ALL, 0x0A, 0x11, 0x05, 0x11] ++ List.replicate 234 0

/-! ## Name templates -/

/-- The terminating byte of a C string. -/
def NUL : Char := Char.ofNat 0

/-- The character that `expand_name` treats as an escape. -/
def BACKSLASH : Char := Char.ofNat 92

/-- Library call `sprintf(buf, "%d", dev_id)`: the decimal digits of an `int`, with a minus
sign when it is negative. -/
def sprintf_d (dev_id : Int) : List Char :=
  if dev_id < 0 then '-' :: Nat.toDigits 10 dev_id.natAbs else Nat.toDigits 10 dev_id.natAbs

/-- The read `str[i]` from a C string whose characters before the terminating byte are
`str`: the terminating byte is read at `str.length`, and nothing may be read beyond it. -/
def str_read (str : List Char) (i : Nat) : Except Fault Char :=
  if i < str.length then Except.ok (str.getD i NUL)
  else if i = str.length then Except.ok NUL
  else Except.error (Fault.out_of_bounds i)

/-- The locals of `expand_name` and the stores it has made into `dst`, oldest first, each
with the index it was made at. -/
structure expand_state where
  sp : Nat := 0
  np : Nat := 0
  writes : List (Nat × Char) := []
  deriving DecidableEq

/-- The store `dst[np++] = c`. -/
def dst_put (st : expand_state) (c : Char) : expand_state :=
  { st with np := st.np + 1, writes := st.writes ++ [(st.np, c)] }

/-- Library call `memcpy(dst + np, opt, olen)`. -/
def dst_memcpy (st : expand_state) (opt : List Char) : expand_state :=
  let copied := (List.range opt.length).map (fun i => (st.np + i, opt.getD i NUL))
  { st with writes := st.writes ++ copied }

/-- The substitution made by `expand_name` once `opt` is set: the text is copied when
`np + olen < size - 1`, and `np` is advanced by `olen` whether it was copied or not; a null
`opt` is skipped. Then `sp += 2`. -/
def expand_substitute (size : Int) (st : expand_state) (opt : Option (List Char)) :
    expand_state :=
  match opt with
  | none => { st with sp := st.sp + 2 }
  | some o =>
    let st1 := if ((st.np + o.length : Nat) : Int) < size - 1 then dst_memcpy st o else st
    { st1 with np := st1.np + o.length, sp := st1.sp + 2 }

/-- The `while (np < size - 1 && str[sp])` loop of `expand_name`. The array `buf` of the
source has ten bytes, so a device id of more than nine characters overflows it. Each round
advances `sp`, so the loop ends within `str.length + 1` rounds unless it reads beyond the
string. -/
def expand_name_loop (size : Int) (str : List Char) (host_name : Option (List Char))
    (dev_id : Int) : Nat → expand_state → Except Fault expand_state
  | 0, _ => Except.error Fault.loop_bound
  | fuel + 1, st =>
    if ¬ ((st.np : Int) < size - 1) then Except.ok st
    else
      match str_read str st.sp with
      | Except.error e => Except.error e
      | Except.ok c =>
        if c = NUL then Except.ok st
        else if c = '%' then
          match str_read str (st.sp + 1) with
          | Except.error e => Except.error e
          | Except.ok c1 =>
            if c1 = 'd' then
              if (sprintf_d dev_id).length + 1 > 10 then Except.error (Fault.out_of_bounds 10)
              else
                expand_name_loop size str host_name dev_id fuel
                  (expand_substitute size st (some (sprintf_d dev_id)))
            else if c1 = 'h' then
              expand_name_loop size str host_name dev_id fuel
                (expand_substitute size st host_name)
            else if c1 = '%' then
              let st1 := dst_put st c
              expand_name_loop size str host_name dev_id fuel { st1 with sp := st1.sp + 2 }
            else expand_name_loop size str host_name dev_id fuel { st with sp := st.sp + 1 }
        else if c = BACKSLASH then
          match str_read str (st.sp + 1) with
          | Except.error e => Except.error e
          | Except.ok c1 =>
            let st1 := dst_put st c1
            expand_name_loop size str host_name dev_id fuel { st1 with sp := st.sp + 2 }
        else
          let st1 := dst_put st c
          expand_name_loop size str host_name dev_id fuel { st1 with sp := st.sp + 1 }

/-- Function `expand_name`, called with non-null `dst` and `str`: the stores it makes into
`dst`, the last of which is the terminating byte at `dst[np]`. `host_name` is
`main_opts.host_name`. -/
def expand_name (size : Int) (str : String) (host_name : Option String) (dev_id : Int) :
    Except Fault expand_state :=
  match expand_name_loop size str.toList (host_name.map (fun h => h.toList)) dev_id
      (str.toList.length + 1) {} with
  | Except.error e => Except.error e
  | Except.ok st => Except.ok { st with writes := st.writes ++ [(st.np, NUL)] }

/-- The text that the stores leave in the first `n` bytes of `dst`; a byte that was never
stored is shown as `?`. -/
def dst_text (writes : List (Nat × Char)) (n : Nat) : List Char :=
  (List.range n).map (fun i =>
    match (writes.reverse.find? (fun w => decide (w.1 = i))) with
    | some w => w.2
    | none => '?')

/-- The adapter of `rescan_inquiring` with its rescan timer armed, as the entry of
StandardInquiry leaves it. -/
def rescan_timer_armed : Sys :=
  { main_opts := { discov_interval := 30 },
    adapter := { up := true, state := STATE_STDINQ, disc_sessions := [claim_a],
                 scheduler_id := 1 },
    sources := [{ id := 1, handler := SourceKind.start_discovery, interval_ms := 30000 }],
    next_source := 1 }

/-! # Theorems -/

/-! ## Needed mode: proofs -/

theorem get_needed_mode_loop_le_iff (l : List session_req) (m b : Nat) :
    get_needed_mode_loop l m ≤ b ↔ m ≤ b ∧ ∀ r ∈ l, r.mode ≤ b := by
  induction l generalizing m with
  | nil => simp [get_needed_mode_loop]
  | cons r l ih =>
    simp only [get_needed_mode_loop, ih, List.mem_cons, forall_eq_or_imp]
    split <;> constructor <;> rintro ⟨h1, h2⟩ <;> refine ⟨by omega, ?_⟩
    · exact ⟨h1, h2⟩
    · exact h2.2
    · exact ⟨by omega, h2⟩
    · exact h2.2

theorem get_needed_mode_loop_attained (l : List session_req) (m : Nat) :
    get_needed_mode_loop l m = m ∨ ∃ r ∈ l, get_needed_mode_loop l m = r.mode := by
  induction l generalizing m with
  | nil => simp [get_needed_mode_loop]
  | cons r l ih =>
    simp only [get_needed_mode_loop, List.mem_cons, exists_eq_or_imp]
    split
    · rcases ih r.mode with h | ⟨q, hq, h⟩
      · exact Or.inr (Or.inl h)
      · exact Or.inr (Or.inr ⟨q, hq, h⟩)
    · rcases ih m with h | ⟨q, hq, h⟩
      · exact Or.inl h
      · exact Or.inr (Or.inr ⟨q, hq, h⟩)

theorem get_needed_mode_le_iff (a : btd_adapter) (m b : Nat) :
    get_needed_mode a m ≤ b ↔ m ≤ b ∧ a.global_mode ≤ b ∧ ∀ r ∈ a.mode_sessions, r.mode ≤ b := by
  simp only [get_needed_mode, get_needed_mode_loop_le_iff]
  split <;> constructor <;> rintro ⟨h1, h2⟩
  · exact ⟨by omega, h1, h2⟩
  · exact ⟨h2.1, h2.2⟩
  · exact ⟨h1, by omega, h2⟩
  · exact ⟨h1, h2.2⟩

/-- C4: `get_needed_mode` returns the maximum of its argument, the global mode and the
requested modes of the registered mode sessions, in the order
Off < Connectable < Discoverable < LimitedDiscoverable: the result bounds all of them and is
one of them. Hence it is never below the global mode, and removing a session from the set
never increases it. -/
theorem get_needed_mode_is_max (adapter : btd_adapter) (m : Nat) :
    (MODE_OFF < MODE_CONNECTABLE ∧ MODE_CONNECTABLE < MODE_DISCOVERABLE ∧
      MODE_DISCOVERABLE < MODE_LIMITED) ∧
    m ≤ get_needed_mode adapter m ∧
    adapter.global_mode ≤ get_needed_mode adapter m ∧
    (∀ req ∈ adapter.mode_sessions, req.mode ≤ get_needed_mode adapter m) ∧
    (get_needed_mode adapter m = m ∨ get_needed_mode adapter m = adapter.global_mode ∨
      ∃ req ∈ adapter.mode_sessions, get_needed_mode adapter m = req.mode) ∧
    (∀ req : session_req,
      get_needed_mode { adapter with mode_sessions := g_slist_remove adapter.mode_sessions req } m
        ≤ get_needed_mode adapter m) := by
  have hb := (get_needed_mode_le_iff adapter m (get_needed_mode adapter m)).1 (le_refl _)
  refine ⟨by decide, hb.1, hb.2.1, hb.2.2, ?_, ?_⟩
  · simp only [get_needed_mode]
    rcases get_needed_mode_loop_attained adapter.mode_sessions
        (if adapter.global_mode > m then adapter.global_mode else m) with h | h
    · rw [h]
      split
      · exact Or.inr (Or.inl rfl)
      · exact Or.inl rfl
    · exact Or.inr (Or.inr h)
  · intro req
    rw [get_needed_mode_le_iff]
    refine ⟨hb.1, hb.2.1, ?_⟩
    intro r hr
    exact hb.2.2 r (List.mem_of_mem_eraseP hr)

/-! ## Mode controller: proofs -/

theorem hw_issued_of_append {s t : Sys} {l : List (HwCmd × Int)} (h : t.hw = s.hw ++ l) :
    hw_issued s t = l := by
  simp [hw_issued, h]

theorem hw_issued_self (s : Sys) : hw_issued s s = [] := by
  simp [hw_issued]

theorem set_mode_done_fst (s : Sys) (m : Nat) (msg : Option DBusMessage) :
    (set_mode_done s m msg).1 = 0 := by
  unfold set_mode_done
  cases msg with
  | none => rfl
  | some d => dsimp only; split <;> rfl

theorem set_mode_done_hw (s : Sys) (m : Nat) (msg : Option DBusMessage) :
    (set_mode_done s m msg).2.hw = s.hw := by
  unfold set_mode_done
  cases msg with
  | none => rfl
  | some d =>
    dsimp only
    split
    · rfl
    · simp [create_session, write_device_mode]

theorem adapter_remove_discov_timeout_hw (s : Sys) :
    (adapter_remove_discov_timeout s).hw = s.hw := by
  unfold adapter_remove_discov_timeout
  split <;> rfl

theorem adapter_set_discov_timeout_hw (s : Sys) (n : Nat) :
    (adapter_set_discov_timeout s n).hw = s.hw := by
  unfold adapter_set_discov_timeout
  dsimp only
  split <;> split <;> rfl

theorem forall_mem_single {α : Type} {P : α → Prop} {a : α} (h : P a) : ∀ e ∈ [a], P e := by
  intro e he
  rw [List.mem_singleton] at he
  rw [he]
  exact h

theorem forall_mem_nil {α : Type} {P : α → Prop} : ∀ e ∈ ([] : List α), P e :=
  fun _ he => absurd he (List.not_mem_nil _)

theorem adapter_set_limited_discoverable_hw (ops : adapter_ops) (s : Sys) (b : Bool) :
    ∃ l, (adapter_set_limited_discoverable ops s b).hw = s.hw ++ l ∧
      ∀ e ∈ l, e.1.is_power = false ∧ e.1.is_visibility = false := by
  unfold adapter_set_limited_discoverable hw_call
  simp only []
  split_ifs
  all_goals
    first
    | exact ⟨[], (List.append_nil _).symm, forall_mem_nil⟩
    | exact ⟨[_], rfl, forall_mem_single ⟨rfl, rfl⟩⟩

theorem limited_reset_hw (ops : adapter_ops) (x : Sys) (c : Prop) [Decidable c] :
    ∃ l, (if c then adapter_set_limited_discoverable ops x false else x).hw = x.hw ++ l ∧
      ∀ e ∈ l, e.1.is_power = false ∧ e.1.is_visibility = false := by
  by_cases hc : c
  · rw [if_pos hc]
    exact adapter_set_limited_discoverable_hw ops x false
  · rw [if_neg hc]
    exact ⟨[], (List.append_nil _).symm, forall_mem_nil⟩

theorem discov_timer_rearm_hw (s : Sys) :
    (if (adapter_remove_discov_timeout s).adapter.discov_timeout ≠ 0 then
        adapter_set_discov_timeout (adapter_remove_discov_timeout s)
          (adapter_remove_discov_timeout s).adapter.discov_timeout
      else adapter_remove_discov_timeout s).hw = s.hw := by
  by_cases hc : (adapter_remove_discov_timeout s).adapter.discov_timeout ≠ 0
  · rw [if_pos hc, adapter_set_discov_timeout_hw, adapter_remove_discov_timeout_hw]
  · rw [if_neg hc, adapter_remove_discov_timeout_hw]

/-- What `adapter_set_mode` does: one visibility command first; if it is rejected nothing
else happens, otherwise the call succeeds and only class-of-device commands may follow. -/
theorem adapter_set_mode_spec (ops : adapter_ops) (s : Sys) (mode : Nat) :
    ∃ c l, c.is_visibility = true ∧ c.is_power = false ∧
      (adapter_set_mode ops s mode).2.hw = s.hw ++ (c, ops s.hw c) :: l ∧
      (∀ e ∈ l, e.1.is_power = false ∧ e.1.is_visibility = false) ∧
      (ops s.hw c < 0 →
        adapter_set_mode ops s mode = (ops s.hw c, { s with hw := s.hw ++ [(c, ops s.hw c)] })) ∧
      (0 ≤ ops s.hw c → (adapter_set_mode ops s mode).1 = 0) := by
  by_cases hm : mode = MODE_CONNECTABLE
  · refine ⟨HwCmd.set_connectable, [], rfl, rfl, ?_, forall_mem_nil, ?_, ?_⟩
    · simp only [adapter_set_mode, hm, if_true, hw_call]
      split <;> rfl
    · intro h
      simp only [adapter_set_mode, hm, if_true, hw_call, h]
    · intro h
      simp only [adapter_set_mode, hm, if_true, hw_call, not_lt.2 h, if_false]
  · by_cases hr : ops s.hw HwCmd.set_discoverable < 0
    · refine ⟨HwCmd.set_discoverable, [], rfl, rfl, ?_, forall_mem_nil, ?_, ?_⟩
      · simp only [adapter_set_mode, hm, if_false, hw_call, hr, if_true]
      · intro _
        simp only [adapter_set_mode, hm, if_false, hw_call, hr, if_true]
      · intro h
        omega
    · simp only [adapter_set_mode, hm, if_false, hw_call, hr]
      obtain ⟨l, hl, hl2⟩ := limited_reset_hw ops
        (if (adapter_remove_discov_timeout
              { s with hw := s.hw ++ [(HwCmd.set_discoverable, ops s.hw HwCmd.set_discoverable)] }
            ).adapter.discov_timeout ≠ 0 then
          adapter_set_discov_timeout (adapter_remove_discov_timeout
              { s with hw := s.hw ++ [(HwCmd.set_discoverable, ops s.hw HwCmd.set_discoverable)] })
            (adapter_remove_discov_timeout
              { s with hw := s.hw ++ [(HwCmd.set_discoverable, ops s.hw HwCmd.set_discoverable)] }
            ).adapter.discov_timeout
         else adapter_remove_discov_timeout
              { s with hw := s.hw ++ [(HwCmd.set_discoverable, ops s.hw HwCmd.set_discoverable)] })
        (mode ≠ MODE_LIMITED ∧
          (if (adapter_remove_discov_timeout
              { s with hw := s.hw ++ [(HwCmd.set_discoverable, ops s.hw HwCmd.set_discoverable)] }
            ).adapter.discov_timeout ≠ 0 then
          adapter_set_discov_timeout (adapter_remove_discov_timeout
              { s with hw := s.hw ++ [(HwCmd.set_discoverable, ops s.hw HwCmd.set_discoverable)] })
            (adapter_remove_discov_timeout
              { s with hw := s.hw ++ [(HwCmd.set_discoverable, ops s.hw HwCmd.set_discoverable)] }
            ).adapter.discov_timeout
         else adapter_remove_discov_timeout
              { s with hw := s.hw ++ [(HwCmd.set_discoverable, ops s.hw HwCmd.set_discoverable)] }
          ).adapter.mode = MODE_LIMITED)
      rw [discov_timer_rearm_hw] at hl
      refine ⟨HwCmd.set_discoverable, l, rfl, rfl, ?_, hl2, fun h => absurd h hr, ?_⟩
      · rw [hl]
        simp
      · intro _
        trivial

/-- C6: with a mode-change request in flight `set_mode` fails with `-EALREADY` for every
target mode and leaves the whole system untouched: no hardware command, nothing persisted,
no field of the adapter changed. -/
theorem set_mode_in_flight_is_rejected (ops : adapter_ops) (s : Sys) (new_mode : Nat)
    (msg : Option DBusMessage) (h : s.adapter.pending_mode ≠ none) :
    set_mode ops s new_mode msg = (-EALREADY, s) ∧ -EALREADY = (-114 : Int) := by
  constructor
  · unfold set_mode
    rw [if_pos h]
  · decide

theorem set_mode_in_flight_is_rejected_witness :
    busy_adapter.adapter.pending_mode ≠ none ∧
    set_mode (fun _ _ => 0) busy_adapter MODE_OFF none = (-EALREADY, busy_adapter) ∧
      -EALREADY = (-114 : Int) :=
  ⟨by decide, set_mode_in_flight_is_rejected (fun _ _ => 0) busy_adapter MODE_OFF none
    (by decide)⟩

/-- Every way out of `set_mode` that went through `adapter_set_mode` carries the hardware log
of `adapter_set_mode`. -/
theorem set_mode_visibility_branch_hw (ops : adapter_ops) (s : Sys) (new_mode : Nat)
    (msg : Option DBusMessage) :
    (if (adapter_set_mode ops s new_mode).1 < 0 then
        ((adapter_set_mode ops s new_mode).1, (adapter_set_mode ops s new_mode).2)
      else set_mode_done (adapter_set_mode ops s new_mode).2 new_mode msg).2.hw
      = (adapter_set_mode ops s new_mode).2.hw := by
  split
  · rfl
  · rw [set_mode_done_hw]

/-- C7, as stated, fails: in `scan_disabled_adapter` no request is in flight and the current
mode is Off, yet `set_mode` to Off issues `set_powered (off)`, sets the power-down flag and
persists the mode. -/
theorem set_mode_same_mode_powers_down :
    scan_disabled_adapter.adapter.pending_mode = none ∧
    scan_disabled_adapter.adapter.mode = MODE_OFF ∧
    scan_disabled_adapter.adapter.off_requested = false ∧
    hw_issued scan_disabled_adapter (set_mode (fun _ _ => 0) scan_disabled_adapter MODE_OFF none).2
      = [(HwCmd.set_powered false, 0)] ∧
    (set_mode (fun _ _ => 0) scan_disabled_adapter MODE_OFF none).2.storage
      = scan_disabled_adapter.storage ++ [StoreWrite.device_mode "off"] ∧
    (set_mode (fun _ _ => 0) scan_disabled_adapter MODE_OFF none).2.adapter.off_requested = true := by
  decide

/-- C7, amended: for every adapter state with no request in flight whose power flag agrees
with the target (powered and target not Off, or not powered and target Off), `set_mode` with a
target equal to the current mode returns success and changes nothing: no hardware command, no
persisted mode, no field of the adapter state. -/
theorem set_mode_same_mode_is_noop (ops : adapter_ops) (s : Sys) (new_mode : Nat)
    (msg : Option DBusMessage) (hp : s.adapter.pending_mode = none)
    (hm : new_mode = s.adapter.mode) (hu : s.adapter.up = true ↔ new_mode ≠ MODE_OFF) :
    set_mode ops s new_mode msg = (0, s) := by
  unfold set_mode
  rw [if_neg (by simp [hp])]
  by_cases hup : s.adapter.up = true
  · have hn : new_mode ≠ MODE_OFF := hu.1 hup
    rw [if_neg (by simp [hup]), if_neg (by simp [hn]), if_pos hm]
  · have hn : new_mode = MODE_OFF := by
      by_contra h
      exact hup (hu.2 h)
    rw [if_neg (by simp [hn]), if_neg (by simp [hup]), if_pos hm]

theorem set_mode_same_mode_is_noop_witness :
    set_mode (fun _ _ => 0) powered_connectable MODE_CONNECTABLE none = (0, powered_connectable) :=
  set_mode_same_mode_is_noop (fun _ _ => 0) powered_connectable MODE_CONNECTABLE none rfl rfl
    (by decide)

/-- C8, as stated, fails: in `scan_disabled_adapter` the current mode is Off and the target is
Connectable, yet `set_mode` issues the visibility command `set_connectable` and no power
command. -/
theorem set_mode_from_off_mode_issues_visibility :
    scan_disabled_adapter.adapter.pending_mode = none ∧
    scan_disabled_adapter.adapter.mode = MODE_OFF ∧
    hw_issued scan_disabled_adapter
        (set_mode (fun _ _ => 0) scan_disabled_adapter MODE_CONNECTABLE none).2
      = [(HwCmd.set_connectable, 0)] := by
  decide

/-- C8, amended: with no request in flight, `set_mode` issues a power command exactly when the
target crosses the adapter's power flag. When the adapter is powered and the target is Off it
issues `set_powered (off)` and nothing else, and once that is accepted the power-down flag is
set; when the adapter is not powered and the target is not Off it issues `set_powered (on)` and
nothing else; in both cases no visibility command is issued. In every other case (powered with
a target other than Off, or not powered with target Off) no power command is issued. -/
theorem set_mode_power_command (ops : adapter_ops) (s : Sys) (new_mode : Nat)
    (msg : Option DBusMessage) (hp : s.adapter.pending_mode = none) :
    (s.adapter.up = true → new_mode = MODE_OFF →
      hw_issued s (set_mode ops s new_mode msg).2
        = [(HwCmd.set_powered false, ops s.hw (HwCmd.set_powered false))] ∧
      (0 ≤ ops s.hw (HwCmd.set_powered false) →
        (set_mode ops s new_mode msg).2.adapter.off_requested = true)) ∧
    (s.adapter.up = false → new_mode ≠ MODE_OFF →
      hw_issued s (set_mode ops s new_mode msg).2
        = [(HwCmd.set_powered true, ops s.hw (HwCmd.set_powered true))]) ∧
    ((s.adapter.up = true ∧ new_mode ≠ MODE_OFF) ∨ (s.adapter.up = false ∧ new_mode = MODE_OFF) →
      ∀ e ∈ hw_issued s (set_mode ops s new_mode msg).2, e.1.is_power = false) := by
  have hp2 : ¬ (s.adapter.pending_mode ≠ none) := by simp [hp]
  refine ⟨?_, ?_, ?_⟩
  · intro hup hn
    unfold set_mode
    rw [if_neg hp2, if_neg (by simp [hn]), if_pos ⟨hup, hn⟩]
    by_cases hr : ops s.hw (HwCmd.set_powered false) < 0
    · simp only [hw_call, hr, if_true]
      exact ⟨hw_issued_of_append rfl, fun h => absurd hr (not_lt.2 h)⟩
    · simp only [hw_call, hr, if_false]
      constructor
      · apply hw_issued_of_append
        rw [set_mode_done_hw]
      · intro _
        unfold set_mode_done
        cases msg with
        | none => rfl
        | some d =>
          dsimp only
          split <;> rfl
  · intro hup hn
    unfold set_mode
    rw [if_neg hp2, if_pos ⟨hup, hn⟩]
    by_cases hr : ops s.hw (HwCmd.set_powered true) < 0
    · simp only [hw_call, hr, if_true]
      exact hw_issued_of_append rfl
    · simp only [hw_call, hr, if_false]
      apply hw_issued_of_append
      rw [set_mode_done_hw]
  · intro hc e he
    have h1 : ¬ (s.adapter.up = false ∧ new_mode ≠ MODE_OFF) := by
      rcases hc with ⟨a, b⟩ | ⟨a, b⟩
      · simp [a]
      · simp [b]
    have h2 : ¬ (s.adapter.up = true ∧ new_mode = MODE_OFF) := by
      rcases hc with ⟨a, b⟩ | ⟨a, b⟩
      · simp [b]
      · simp [a]
    unfold set_mode at he
    rw [if_neg hp2, if_neg h1, if_neg h2] at he
    by_cases hm : new_mode = s.adapter.mode
    · rw [if_pos hm, hw_issued_self] at he
      exact absurd he (List.not_mem_nil _)
    · rw [if_neg hm] at he
      obtain ⟨c, l, _, hc2, hl, hl2, _, _⟩ := adapter_set_mode_spec ops s new_mode
      have hh := set_mode_visibility_branch_hw ops s new_mode msg
      rw [hl] at hh
      rw [hw_issued_of_append hh] at he
      rcases List.mem_cons.1 he with rfl | he
      · exact hc2
      · exact (hl2 e he).1

theorem set_mode_power_command_witness :
    hw_issued powered_off (set_mode (fun _ _ => 0) powered_off MODE_CONNECTABLE none).2
      = [(HwCmd.set_powered true, 0)] :=
  (set_mode_power_command (fun _ _ => 0) powered_off MODE_CONNECTABLE none rfl).2.1 rfl
    (by decide)

theorem head_of_hw_issued {s t : Sys} {a e : HwCmd × Int} {l : List (HwCmd × Int)}
    (h : t.hw = s.hw ++ a :: l) (he : (hw_issued s t).head? = some e) : e = a := by
  rw [hw_issued_of_append h] at he
  simpa using he.symm

/-- C9: if the first command `set_mode` issues (a power or a visibility command) is rejected
by the hardware, `set_mode` returns that error and the system is as before except for the
logged command: the adapter record (mode, pending slot, power-down flag, discoverable timer id,
wanted class of device, ...) is unchanged, no timer is armed or disarmed, no mode is persisted
and no reply is sent. -/
theorem set_mode_rejected_leaves_state (ops : adapter_ops) (s : Sys) (new_mode : Nat)
    (msg : Option DBusMessage) (e : HwCmd × Int)
    (he : (hw_issued s (set_mode ops s new_mode msg).2).head? = some e) (hneg : e.2 < 0) :
    (set_mode ops s new_mode msg).1 = e.2 ∧
    (e.1.is_power = true ∨ e.1.is_visibility = true) ∧
    e.2 = ops s.hw e.1 ∧
    (set_mode ops s new_mode msg).2 = { s with hw := s.hw ++ [e] } ∧
    (set_mode ops s new_mode msg).2.adapter = s.adapter ∧
    (set_mode ops s new_mode msg).2.sources = s.sources ∧
    (set_mode ops s new_mode msg).2.storage = s.storage ∧
    (set_mode ops s new_mode msg).2.dbus = s.dbus := by
  have key : (set_mode ops s new_mode msg).1 = e.2 ∧
      (e.1.is_power = true ∨ e.1.is_visibility = true) ∧ e.2 = ops s.hw e.1 ∧
      (set_mode ops s new_mode msg).2 = { s with hw := s.hw ++ [e] } := by
    unfold set_mode at he ⊢
    by_cases hp : s.adapter.pending_mode ≠ none
    · rw [if_pos hp, hw_issued_self] at he
      exact absurd he (by simp)
    rw [if_neg hp] at he ⊢
    by_cases h1 : s.adapter.up = false ∧ new_mode ≠ MODE_OFF
    · rw [if_pos h1] at he ⊢
      by_cases hr : ops s.hw (HwCmd.set_powered true) < 0
      · simp only [hw_call, hr, if_true] at he ⊢
        have := head_of_hw_issued (l := []) rfl he
        subst this
        exact ⟨rfl, Or.inl rfl, rfl, rfl⟩
      · simp only [hw_call, hr, if_false] at he
        have := head_of_hw_issued (l := []) (set_mode_done_hw _ _ _) he
        subst this
        exact absurd hneg hr
    rw [if_neg h1] at he ⊢
    by_cases h2 : s.adapter.up = true ∧ new_mode = MODE_OFF
    · rw [if_pos h2] at he ⊢
      by_cases hr : ops s.hw (HwCmd.set_powered false) < 0
      · simp only [hw_call, hr, if_true] at he ⊢
        have := head_of_hw_issued (l := []) rfl he
        subst this
        exact ⟨rfl, Or.inl rfl, rfl, rfl⟩
      · simp only [hw_call, hr, if_false] at he
        have := head_of_hw_issued (l := []) (set_mode_done_hw _ _ _) he
        subst this
        exact absurd hneg hr
    rw [if_neg h2] at he ⊢
    by_cases hm : new_mode = s.adapter.mode
    · rw [if_pos hm, hw_issued_self] at he
      exact absurd he (by simp)
    rw [if_neg hm] at he ⊢
    obtain ⟨c, l, hc1, _, hl, _, hrej, hacc⟩ := adapter_set_mode_spec ops s new_mode
    have hh := set_mode_visibility_branch_hw ops s new_mode msg
    rw [hl] at hh
    have := head_of_hw_issued hh he
    subst this
    have hs := hrej hneg
    rw [hs]
    simp only [hneg, if_true]
    exact ⟨trivial, Or.inr hc1, trivial, trivial⟩
  obtain ⟨k1, k2, k3, k4⟩ := key
  refine ⟨k1, k2, k3, k4, ?_, ?_, ?_, ?_⟩ <;> rw [k4]

theorem set_mode_rejected_leaves_state_witness :
    (set_mode rejecting_ops powered_connectable MODE_DISCOVERABLE
        (some { serial := 3, sender := ":1.9" })).1 = -5 ∧
    (set_mode rejecting_ops powered_connectable MODE_DISCOVERABLE
        (some { serial := 3, sender := ":1.9" })).2.adapter = powered_connectable.adapter :=
  have h := set_mode_rejected_leaves_state rejecting_ops powered_connectable MODE_DISCOVERABLE
    (some { serial := 3, sender := ":1.9" }) (HwCmd.set_discoverable, -5) (by decide) (by decide)
  ⟨h.1, h.2.2.2.2.1⟩

theorem timers_cod_frame_refl (s : Sys) : timers_cod_frame s s := rfl

theorem timers_cod_frame_trans {s t u : Sys} (h1 : timers_cod_frame s t)
    (h2 : timers_cod_frame t u) : timers_cod_frame s u := by
  unfold timers_cod_frame at *
  rw [← h1, ← h2]

theorem adapter_remove_discov_timeout_frame (s : Sys) :
    timers_cod_frame s (adapter_remove_discov_timeout s) := by
  unfold adapter_remove_discov_timeout g_source_remove
  split <;> rfl

theorem adapter_set_discov_timeout_frame (s : Sys) (n : Nat) :
    timers_cod_frame s (adapter_set_discov_timeout s n) := by
  unfold adapter_set_discov_timeout g_source_remove g_timeout_add
  simp only []
  split_ifs <;> rfl

theorem adapter_set_limited_discoverable_frame (ops : adapter_ops) (s : Sys) (b : Bool) :
    timers_cod_frame s (adapter_set_limited_discoverable ops s b) := by
  unfold adapter_set_limited_discoverable hw_call
  simp only []
  split_ifs <;> rfl

theorem discov_timer_rearm_frame (s : Sys) :
    timers_cod_frame s
      (if (adapter_remove_discov_timeout s).adapter.discov_timeout ≠ 0 then
        adapter_set_discov_timeout (adapter_remove_discov_timeout s)
          (adapter_remove_discov_timeout s).adapter.discov_timeout
      else adapter_remove_discov_timeout s) := by
  split
  · exact timers_cod_frame_trans (adapter_remove_discov_timeout_frame s)
      (adapter_set_discov_timeout_frame _ _)
  · exact adapter_remove_discov_timeout_frame s

theorem frame_dbus {s t : Sys} (h : timers_cod_frame s t) : t.dbus = s.dbus := by
  unfold timers_cod_frame at h
  rw [← h]

theorem frame_storage {s t : Sys} (h : timers_cod_frame s t) : t.storage = s.storage := by
  unfold timers_cod_frame at h
  rw [← h]

theorem frame_next_ptr {s t : Sys} (h : timers_cod_frame s t) : t.next_ptr = s.next_ptr := by
  unfold timers_cod_frame at h
  rw [← h]

theorem frame_pending_mode {s t : Sys} (h : timers_cod_frame s t) :
    t.adapter.pending_mode = s.adapter.pending_mode := by
  unfold timers_cod_frame at h
  rw [← h]

theorem frame_mode {s t : Sys} (h : timers_cod_frame s t) : t.adapter.mode = s.adapter.mode := by
  unfold timers_cod_frame at h
  rw [← h]

theorem frame_scan_mode {s t : Sys} (h : timers_cod_frame s t) :
    t.adapter.scan_mode = s.adapter.scan_mode := by
  unfold timers_cod_frame at h
  rw [← h]

theorem frame_pairable {s t : Sys} (h : timers_cod_frame s t) :
    t.adapter.pairable = s.adapter.pairable := by
  unfold timers_cod_frame at h
  rw [← h]

theorem frame_discov_timeout {s t : Sys} (h : timers_cod_frame s t) :
    t.adapter.discov_timeout = s.adapter.discov_timeout := by
  unfold timers_cod_frame at h
  rw [← h]

/-- Completion of an in-flight request created by `set_mode` (no owner, one reference): the
slot is released and exactly one reply is sent, a success iff the requested mode is the
adapter's mode. -/
theorem set_mode_complete_reply (ops : adapter_ops) (x : Sys) (req : session_req)
    (m : DBusMessage) (hpend : x.adapter.pending_mode = some req) (hown : req.owner = none)
    (href : req.refcount = 1) (hmsg : req.msg = some m) :
    (set_mode_complete ops x).adapter.pending_mode = none ∧
    (set_mode_complete ops x).dbus = x.dbus ++
      [DBusOut.reply m (if req.mode ≠ x.adapter.mode then failed_strerror EINVAL
                        else DBusReply.method_return)] := by
  unfold set_mode_complete
  rw [hpend]
  simp only [hmsg, session_unref, href, sub_self, ne_eq, not_true_eq_false, if_false,
    session_free, session_remove, hown, if_true, g_dbus_send_message, write_device_mode,
    agent_cancel, g_dbus_remove_watch, store_session, Option.map_none']
  by_cases hm : req.mode = x.adapter.mode
  · simp only [hm, not_true_eq_false, if_false, lt_self_iff_false]
    split_ifs <;> simp
  · have h5 : (-EINVAL : Int) < 0 := by decide
    have h6 : (-EINVAL : Int) ≠ 0 := by decide
    simp only [hm, not_false_eq_true, if_true, h5, h6, neg_neg]
    split_ifs <;> simp

theorem limited_reset_frame (ops : adapter_ops) (x : Sys) (c : Prop) [Decidable c] :
    timers_cod_frame x (if c then adapter_set_limited_discoverable ops x false else x) := by
  by_cases hc : c
  · rw [if_pos hc]
    exact adapter_set_limited_discoverable_frame ops x false
  · rw [if_neg hc]
    exact timers_cod_frame_refl x

theorem adapter_set_mode_frame (ops : adapter_ops) (s : Sys) (mode : Nat) :
    timers_cod_frame s (adapter_set_mode ops s mode).2 := by
  unfold adapter_set_mode
  simp only []
  by_cases hm : mode = MODE_CONNECTABLE
  · simp only [hm, if_true, hw_call]
    split <;> rfl
  · simp only [hm, if_false, hw_call]
    by_cases hr : ops s.hw HwCmd.set_discoverable < 0
    · simp only [hr, if_true]
      rfl
    · simp only [hr, if_false]
      have h1 : timers_cod_frame s
          { s with hw := s.hw ++ [(HwCmd.set_discoverable, ops s.hw HwCmd.set_discoverable)] } := rfl
      have h2 := timers_cod_frame_trans h1 (discov_timer_rearm_frame _)
      exact timers_cod_frame_trans h2 (limited_reset_frame ops _ _)

/-- An accepted `set_mode` from mode Connectable to Discoverable or LimitedDiscoverable on
behalf of a caller: the mode is persisted and the request is parked in the in-flight slot. -/
theorem set_mode_from_connectable (ops : adapter_ops) (s : Sys) (msg : DBusMessage) (t : Nat)
    (hup : s.adapter.up = true) (hmode : s.adapter.mode = MODE_CONNECTABLE)
    (hp : s.adapter.pending_mode = none) (ht : t = MODE_DISCOVERABLE ∨ t = MODE_LIMITED)
    (hacc : ¬ (set_mode ops s t (some msg)).1 < 0) :
    ∃ x, timers_cod_frame s x ∧
      (set_mode ops s t (some msg)).2 =
        { x with storage := x.storage ++ [StoreWrite.device_mode "discoverable"],
                 next_ptr := x.next_ptr + 1,
                 adapter.pending_mode :=
                   some { ptr := x.next_ptr + 1, msg := some msg, owner := none, id := 0,
                          mode := t, refcount := 1, got_reply := false } } := by
  have h1 : ¬ (s.adapter.up = false ∧ t ≠ MODE_OFF) := by simp [hup]
  have h2 : ¬ (s.adapter.up = true ∧ t = MODE_OFF) := by
    rcases ht with rfl | rfl <;> simp [hup] <;> decide
  have h3 : ¬ (t = s.adapter.mode) := by
    rw [hmode]
    rcases ht with rfl | rfl <;> decide
  have h0 : ¬ (s.adapter.pending_mode ≠ none) := by simp [hp]
  unfold set_mode at hacc ⊢
  rw [if_neg h0, if_neg h1, if_neg h2, if_neg h3] at hacc ⊢
  by_cases hr : (adapter_set_mode ops s t).1 < 0
  · rw [if_pos hr] at hacc
    exact absurd hr hacc
  · rw [if_neg hr]
    refine ⟨(adapter_set_mode ops s t).2, adapter_set_mode_frame ops s t, ?_⟩
    have hm : (adapter_set_mode ops s t).2.adapter.mode = MODE_CONNECTABLE := by
      rw [frame_mode (adapter_set_mode_frame ops s t), hmode]
    have hs : mode2str t ≠ mode2str MODE_CONNECTABLE := by
      rcases ht with rfl | rfl <;> decide
    have hd : mode2str t = "discoverable" := by
      rcases ht with rfl | rfl <;> decide
    unfold set_mode_done
    simp only [write_device_mode, hm, hs, if_false, create_session, session_ref, if_true, hd]
    rfl

theorem scan_page_inquiry_cases :
    (SCAN_PAGE ||| SCAN_INQUIRY) ≠ SCAN_DISABLED ∧ (SCAN_PAGE ||| SCAN_INQUIRY) ≠ SCAN_PAGE := by
  decide

theorem slot_kept_refl (s : Sys) : slot_kept s s :=
  ⟨rfl, rfl, [], (List.append_nil _).symm, fun _ => rfl⟩

theorem replies_to_append (m : DBusMessage) (a b : List DBusOut) :
    replies_to m (a ++ b) = replies_to m a ++ replies_to m b := by
  unfold replies_to
  rw [List.filterMap_append]

theorem slot_kept_trans {s t u : Sys} (h1 : slot_kept s t) (h2 : slot_kept t u) :
    slot_kept s u := by
  obtain ⟨a1, a2, p1, a3, a4⟩ := h1
  obtain ⟨b1, b2, p2, b3, b4⟩ := h2
  refine ⟨b1.trans a1, b2.trans a2, p1 ++ p2, ?_, ?_⟩
  · rw [b3, a3, List.append_assoc]
  · intro m
    rw [replies_to_append, a4, b4]
    rfl

theorem slot_kept_ite (s a b : Sys) (c : Prop) [Decidable c] (h1 : slot_kept s a)
    (h2 : slot_kept s b) : slot_kept s (if c then a else b) := by
  by_cases hc : c
  · rw [if_pos hc]
    exact h1
  · rw [if_neg hc]
    exact h2

theorem slot_kept_of_frame {s t : Sys} (h : timers_cod_frame s t) : slot_kept s t :=
  ⟨frame_pending_mode h, frame_mode h, [], by rw [frame_dbus h, List.append_nil], fun _ => rfl⟩

theorem slot_kept_emit (s : Sys) (n : String) (v : PropValue) :
    slot_kept s (emit_property_changed s n v) :=
  ⟨rfl, rfl, [DBusOut.property_changed n v], rfl, fun _ => rfl⟩

theorem slot_kept_scan_mode (s : Sys) (n : Nat) :
    slot_kept s { s with adapter.scan_mode := n } :=
  ⟨rfl, rfl, [], (List.append_nil _).symm, fun _ => rfl⟩

/-- What `adapter_mode_changed_tail` does before it calls `set_mode_complete`. -/
theorem adapter_mode_changed_tail_slot (ops : adapter_ops) (x : Sys) (scan_mode : Nat)
    (d p : Bool) :
    ∃ y, slot_kept x y ∧ adapter_mode_changed_tail ops x scan_mode d p = set_mode_complete ops y := by
  unfold adapter_mode_changed_tail
  simp only []
  refine ⟨_, ?_, rfl⟩
  refine slot_kept_trans ?_ (slot_kept_scan_mode _ _)
  refine slot_kept_trans ?_ (slot_kept_emit _ _ _)
  refine slot_kept_trans ?_ (slot_kept_ite _ _ _ _
    (slot_kept_of_frame (adapter_set_limited_discoverable_frame _ _ _))
    (slot_kept_ite _ _ _ _ (slot_kept_of_frame (adapter_set_limited_discoverable_frame _ _ _))
      (slot_kept_refl _)))
  exact slot_kept_ite _ _ _ _ (slot_kept_emit _ _ _) (slot_kept_refl _)

theorem adapter_mode_changed_tail_completes (ops : adapter_ops) (x : Sys) (scan_mode : Nat)
    (d p : Bool) (req : session_req) (m : DBusMessage)
    (hpend : x.adapter.pending_mode = some req) (hown : req.owner = none)
    (href : req.refcount = 1) (hmsg : req.msg = some m) :
    (adapter_mode_changed_tail ops x scan_mode d p).adapter.pending_mode = none ∧
    replies_to m ((adapter_mode_changed_tail ops x scan_mode d p).dbus.drop x.dbus.length)
      = [if req.mode ≠ x.adapter.mode then failed_strerror EINVAL
         else DBusReply.method_return] := by
  obtain ⟨y, ⟨k1, k2, pre, k3, k4⟩, hy⟩ := adapter_mode_changed_tail_slot ops x scan_mode d p
  have hc := set_mode_complete_reply ops y req m (k1.trans hpend) hown href hmsg
  rw [hy]
  refine ⟨hc.1, ?_⟩
  rw [hc.2, k3, k2, List.append_assoc, List.drop_left, replies_to_append, k4]
  simp [replies_to]

theorem timers_cod_frame_ite (s a b : Sys) (c : Prop) [Decidable c]
    (h1 : timers_cod_frame s a) (h2 : timers_cod_frame s b) :
    timers_cod_frame s (if c then a else b) := by
  by_cases hc : c
  · rw [if_pos hc]
    exact h1
  · rw [if_neg hc]
    exact h2

/-- What `adapter_mode_changed` does on a report of Page+Inquiry before it enters its tail. -/
theorem adapter_mode_changed_discoverable (ops : adapter_ops) (u : Sys)
    (hscan : u.adapter.scan_mode ≠ (SCAN_PAGE ||| SCAN_INQUIRY)) :
    ∃ y, adapter_mode_changed ops u (SCAN_PAGE ||| SCAN_INQUIRY)
          = adapter_mode_changed_tail ops y (SCAN_PAGE ||| SCAN_INQUIRY) true y.adapter.pairable ∧
      y.adapter.pending_mode = u.adapter.pending_mode ∧ y.adapter.mode = MODE_DISCOVERABLE ∧
      y.dbus = u.dbus := by
  unfold adapter_mode_changed
  rw [if_neg hscan, if_neg scan_page_inquiry_cases.1, if_neg scan_page_inquiry_cases.2,
    if_pos rfl]
  simp only []
  refine ⟨_, rfl, ?_⟩
  have h1 := adapter_remove_discov_timeout_frame u
  have h2 : timers_cod_frame
      { adapter_remove_discov_timeout u with adapter.mode := MODE_DISCOVERABLE }
      (if ({ adapter_remove_discov_timeout u with adapter.mode := MODE_DISCOVERABLE } : Sys
            ).adapter.discov_timeout ≠ 0 then
        adapter_set_discov_timeout
          { adapter_remove_discov_timeout u with adapter.mode := MODE_DISCOVERABLE }
          ({ adapter_remove_discov_timeout u with adapter.mode := MODE_DISCOVERABLE } : Sys
            ).adapter.discov_timeout
       else { adapter_remove_discov_timeout u with adapter.mode := MODE_DISCOVERABLE }) :=
    timers_cod_frame_ite _ _ _ _ (adapter_set_discov_timeout_frame _ _) (timers_cod_frame_refl _)
  refine ⟨?_, ?_, ?_⟩
  · rw [frame_pending_mode h2]
    exact (show (adapter_remove_discov_timeout u).adapter.pending_mode = u.adapter.pending_mode
      from frame_pending_mode h1)
  · rw [frame_mode h2]
  · rw [frame_dbus h2]
    exact (show (adapter_remove_discov_timeout u).dbus = u.dbus from frame_dbus h1)

/-- A scan-mode report Page+Inquiry on an adapter whose in-flight slot holds a request created
by `set_mode`: the slot is released and exactly one reply goes to the requester, a success iff
the requested mode is Discoverable. -/
theorem adapter_mode_changed_completes (ops : adapter_ops) (u : Sys) (req : session_req)
    (m : DBusMessage) (hpend : u.adapter.pending_mode = some req) (hown : req.owner = none)
    (href : req.refcount = 1) (hmsg : req.msg = some m)
    (hscan : u.adapter.scan_mode ≠ (SCAN_PAGE ||| SCAN_INQUIRY)) :
    (adapter_mode_changed ops u (SCAN_PAGE ||| SCAN_INQUIRY)).adapter.pending_mode = none ∧
    replies_to m ((adapter_mode_changed ops u (SCAN_PAGE ||| SCAN_INQUIRY)).dbus.drop u.dbus.length)
      = [if req.mode ≠ MODE_DISCOVERABLE then failed_strerror EINVAL
         else DBusReply.method_return] := by
  obtain ⟨y, hy, y1, y2, y3⟩ := adapter_mode_changed_discoverable ops u hscan
  have h := adapter_mode_changed_tail_completes ops y (SCAN_PAGE ||| SCAN_INQUIRY) true
    y.adapter.pairable req m (y1.trans hpend) hown href hmsg
  rw [hy, ← y3, ← y2]
  exact h

/-- The mode a SetProperty Discoverable=true request asks for. -/
theorem set_discoverable_target (ops : adapter_ops) (s : Sys) (msg : DBusMessage)
    (hmode : s.adapter.mode = MODE_CONNECTABLE) :
    set_discoverable ops s msg true =
      (if (set_mode ops s
            (if s.adapter.pairable = true ∧ 0 < s.adapter.discov_timeout ∧
                s.adapter.discov_timeout ≤ 60 then MODE_LIMITED else MODE_DISCOVERABLE)
            (some msg)).1 < 0 then
        (some (failed_strerror (-(set_mode ops s
            (if s.adapter.pairable = true ∧ 0 < s.adapter.discov_timeout ∧
                s.adapter.discov_timeout ≤ 60 then MODE_LIMITED else MODE_DISCOVERABLE)
            (some msg)).1)),
         (set_mode ops s
            (if s.adapter.pairable = true ∧ 0 < s.adapter.discov_timeout ∧
                s.adapter.discov_timeout ≤ 60 then MODE_LIMITED else MODE_DISCOVERABLE)
            (some msg)).2)
       else
        (none, (set_mode ops s
            (if s.adapter.pairable = true ∧ 0 < s.adapter.discov_timeout ∧
                s.adapter.discov_timeout ≤ 60 then MODE_LIMITED else MODE_DISCOVERABLE)
            (some msg)).2)) := by
  have h1 : MODE_LIMITED ≠ MODE_CONNECTABLE := by decide
  have h2 : MODE_DISCOVERABLE ≠ MODE_CONNECTABLE := by decide
  unfold set_discoverable
  by_cases hl : s.adapter.pairable = true ∧ 0 < s.adapter.discov_timeout ∧
      s.adapter.discov_timeout ≤ 60
  · simp [hl, hmode, h1]
  · simp [hl, hmode, h2]

/-- C10 fails on the code for a pairable adapter with a discoverable timeout in 1..60: the
request targets LimitedDiscoverable, the report of Page+Inquiry sets the mode to Discoverable,
and `set_mode_complete` answers the request with the error Failed (`EINVAL`). For every powered
adapter in mode Connectable with nothing in flight, after an accepted SetProperty
Discoverable=true the report of scan mode Page+Inquiry releases the in-flight slot and sends
exactly one reply to the request: a success iff the adapter is not pairable or its
discoverable timeout is 0 or above 60. -/
theorem set_discoverable_completion_reply (ops : adapter_ops) (s : Sys) (msg : DBusMessage)
    (hup : s.adapter.up = true) (hmode : s.adapter.mode = MODE_CONNECTABLE)
    (hp : s.adapter.pending_mode = none)
    (hscan : s.adapter.scan_mode ≠ (SCAN_PAGE ||| SCAN_INQUIRY))
    (hacc : (set_discoverable ops s msg true).1 = none) :
    (discoverable_round ops s msg).adapter.pending_mode = none ∧
    replies_to msg ((discoverable_round ops s msg).dbus.drop s.dbus.length) =
      [if s.adapter.pairable = true ∧ 0 < s.adapter.discov_timeout ∧ s.adapter.discov_timeout ≤ 60
        then failed_strerror EINVAL else DBusReply.method_return] := by
  unfold discoverable_round
  rw [set_discoverable_target ops s msg hmode] at hacc ⊢
  by_cases hr : (set_mode ops s
            (if s.adapter.pairable = true ∧ 0 < s.adapter.discov_timeout ∧
                s.adapter.discov_timeout ≤ 60 then MODE_LIMITED else MODE_DISCOVERABLE)
            (some msg)).1 < 0
  · rw [if_pos hr] at hacc
    exact absurd hacc (by simp)
  · rw [if_neg hr]
    obtain ⟨x, hx, hu⟩ := set_mode_from_connectable ops s msg _ hup hmode hp
      (by split <;> simp) hr
    simp only []
    rw [hu]
    have h := adapter_mode_changed_completes ops
      { x with storage := x.storage ++ [StoreWrite.device_mode "discoverable"],
               next_ptr := x.next_ptr + 1,
               adapter.pending_mode :=
                 some { ptr := x.next_ptr + 1, msg := some msg, owner := none, id := 0,
                        mode := (if s.adapter.pairable = true ∧ 0 < s.adapter.discov_timeout ∧
                          s.adapter.discov_timeout ≤ 60 then MODE_LIMITED else MODE_DISCOVERABLE),
                        refcount := 1, got_reply := false } }
      _ msg rfl rfl rfl rfl (by
        show x.adapter.scan_mode ≠ _
        rw [frame_scan_mode hx]
        exact hscan)
    refine ⟨h.1, ?_⟩
    have hd : x.dbus = s.dbus := frame_dbus hx
    rw [← hd]
    refine h.2.trans ?_
    by_cases hl : s.adapter.pairable = true ∧ 0 < s.adapter.discov_timeout ∧
        s.adapter.discov_timeout ≤ 60
    · simp only [if_pos hl]
      rw [if_pos (by decide)]
    · simp only [if_neg hl]
      rw [if_neg (by decide)]

theorem set_discoverable_completion_reply_witness :
    (discoverable_round (fun _ _ => 0) pairable_connectable
        { serial := 1, sender := ":1.7" }).adapter.pending_mode = none ∧
    replies_to { serial := 1, sender := ":1.7" }
      ((discoverable_round (fun _ _ => 0) pairable_connectable
        { serial := 1, sender := ":1.7" }).dbus.drop pairable_connectable.dbus.length) =
      [failed_strerror EINVAL] :=
  set_discoverable_completion_reply (fun _ _ => 0) pairable_connectable
    { serial := 1, sender := ":1.7" } rfl rfl rfl (by decide) (by decide)

theorem pending_remote_name_cancel_spec (ops : adapter_ops) (s : Sys) :
    ∃ l, (pending_remote_name_cancel ops s).2 = { s with hw := s.hw ++ l } ∧
      count_starts l = 0 ∧ count_stops l = 0 := by
  unfold pending_remote_name_cancel
  split
  · exact ⟨[], by simp, rfl, rfl⟩
  · exact ⟨[_], rfl, rfl, rfl⟩

theorem discover_type_cases (s : Sys) :
    (adapter_get_discover_type s &&& (0xffffffff - DISC_RESOLVNAME)) = DISC_STDINQ ∨
    (adapter_get_discover_type s &&& (0xffffffff - DISC_RESOLVNAME)) = DISC_INTERLEAVE ∨
    (adapter_get_discover_type s &&& (0xffffffff - DISC_RESOLVNAME)) = DISC_PINQ ∨
    (adapter_get_discover_type s &&& (0xffffffff - DISC_RESOLVNAME)) = DISC_LE := by
  unfold adapter_get_discover_type
  simp only []
  split_ifs <;> decide

/-- With discovery neither suspended nor resolving names, `start_discovery` issues exactly one
hardware start command, after at most a name-resolution cancel, and returns its result. -/
theorem start_discovery_spec (ops : adapter_ops) (s : Sys)
    (h1 : (s.adapter.state &&& STATE_SUSPENDED) = 0)
    (h2 : (s.adapter.state &&& STATE_RESOLVNAME) = 0) :
    ∃ l v, start_discovery ops s = (v, { s with hw := s.hw ++ l }) ∧
      count_starts l = 1 ∧ count_stops l = 0 ∧ (∃ h c, v = ops h c) := by
  unfold start_discovery
  rw [if_neg (by simp [h1]), if_neg (by simp [h2])]
  obtain ⟨l, hl, c1, c2⟩ := pending_remote_name_cancel_spec ops s
  simp only []
  rw [hl]
  have hc : ∀ c : HwCmd, c.is_start = true → c.is_stop = false →
      ∃ l2 v, hw_call ops { s with hw := s.hw ++ l } c = (v, { s with hw := s.hw ++ l2 }) ∧
        count_starts l2 = 1 ∧ count_stops l2 = 0 ∧ (∃ h c, v = ops h c) := by
    intro c hc1 hc2
    refine ⟨l ++ [(c, ops (s.hw ++ l) c)], ops (s.hw ++ l) c, ?_, ?_, ?_, ⟨_, _, rfl⟩⟩
    · simp [hw_call]
    · unfold count_starts at c1 ⊢
      rw [List.countP_append, c1]
      simp [hc1]
    · unfold count_stops at c2 ⊢
      rw [List.countP_append, c2]
      simp [hc2]
  rcases discover_type_cases { s with hw := s.hw ++ l } with h | h | h | h
  · rw [if_pos (Or.inl h)]
    exact hc _ rfl rfl
  · rw [if_pos (Or.inr h)]
    exact hc _ rfl rfl
  · rw [if_neg (by rw [h]; decide), if_pos h]
    exact hc _ rfl rfl
  · rw [if_neg (by rw [h]; decide), if_neg (by rw [h]; decide), if_pos h]
    exact hc _ rfl rfl

/-- The first StartDiscovery: one hardware start command, one claim with one reference. -/
theorem first_start_discovery (ops : adapter_ops) (s : Sys) (m : DBusMessage)
    (hup : s.adapter.up = true) (hnone : s.adapter.disc_sessions = [])
    (h1 : (s.adapter.state &&& STATE_SUSPENDED) = 0)
    (h2 : (s.adapter.state &&& STATE_RESOLVNAME) = 0)
    (hsched : s.adapter.scheduler_id = 0) (hacc : ∀ h c, 0 ≤ ops h c) :
    (adapter_start_discovery ops s m).1 = some DBusReply.method_return ∧
    sole_discovery_claim m.sender 1 (adapter_start_discovery ops s m).2 ∧
    ∃ l, (adapter_start_discovery ops s m).2.hw = s.hw ++ l ∧ count_starts l = 1 ∧
      count_stops l = 0 := by
  obtain ⟨l, v, hs, c1, c2, h, c, hv⟩ := start_discovery_spec ops s h1 h2
  have hv2 : ¬ v < 0 := by
    rw [hv]
    exact not_lt.2 (hacc h c)
  have hf : find_session s.adapter.disc_sessions m.sender = none := by
    rw [hnone]
    rfl
  have hn : ¬ (s.adapter.disc_sessions ≠ []) := by simp [hnone]
  have he : adapter_start_discovery ops s m
      = adapter_start_discovery_done { s with hw := s.hw ++ l } m := by
    unfold adapter_start_discovery
    rw [if_neg (by simp [hup]), hf]
    simp only []
    rw [if_neg hn, hs]
    simp only []
    rw [if_neg hv2]
  rw [he]
  refine ⟨rfl, ⟨hup, h1, hsched, ?_⟩, l, rfl, c1, c2⟩
  refine ⟨(create_session { s with hw := s.hw ++ l } m 0 true).1, ?_, rfl, rfl, ?_⟩
  · simp [adapter_start_discovery_done, create_session, hnone]
  · simp [create_session, session_ref]

/-- A further StartDiscovery from the owner of the only claim: one more reference, no hardware
command. -/
theorem repeated_start_discovery (ops : adapter_ops) (s : Sys) (m : DBusMessage) (k : Int)
    (h : sole_discovery_claim m.sender k s) :
    (adapter_start_discovery ops s m).1 = some DBusReply.method_return ∧
    sole_discovery_claim m.sender (k + 1) (adapter_start_discovery ops s m).2 ∧
    (adapter_start_discovery ops s m).2.hw = s.hw := by
  obtain ⟨hup, h1, hsched, req, hl, ho, hm, hk⟩ := h
  have hf : find_session s.adapter.disc_sessions m.sender = some req := by
    rw [hl]
    simp [find_session, ho]
  have he : adapter_start_discovery ops s m
      = (some DBusReply.method_return,
         { s with adapter := store_session s.adapter (session_ref req) }) := by
    unfold adapter_start_discovery
    rw [if_neg (by simp [hup]), hf]
  rw [he]
  refine ⟨rfl, ⟨hup, h1, hsched, session_ref req, ?_, ho, hm, ?_⟩, rfl⟩
  · simp [store_session, hl, session_ref]
  · simp [session_ref, hk]

/-- A StopDiscovery from the owner of the only claim while it holds more than one reference:
one reference less, no hardware command. -/
theorem early_stop_discovery (ops : adapter_ops) (s : Sys) (m : DBusMessage) (k : Int)
    (h : sole_discovery_claim m.sender k s) (hk1 : k ≠ 1) :
    (adapter_stop_discovery ops s m).1 = some DBusReply.method_return ∧
    sole_discovery_claim m.sender (k - 1) (adapter_stop_discovery ops s m).2 ∧
    (adapter_stop_discovery ops s m).2.hw = s.hw := by
  obtain ⟨hup, h1, hsched, req, hl, ho, hm, hk⟩ := h
  have hne : ({ req with refcount := req.refcount - 1 } : session_req).refcount ≠ 0 := by
    show req.refcount - 1 ≠ 0
    rw [hk]
    omega
  have hf : find_session s.adapter.disc_sessions m.sender = some req := by
    rw [hl]
    simp [find_session, ho]
  have he : adapter_stop_discovery ops s m
      = (some DBusReply.method_return,
         { s with adapter := store_session s.adapter { req with refcount := req.refcount - 1 } })
      := by
    unfold adapter_stop_discovery
    rw [if_neg (by simp [hup]), hf]
    simp only [session_unref]
    rw [if_pos hne]
  rw [he]
  refine ⟨rfl, ⟨hup, h1, hsched, { req with refcount := req.refcount - 1 }, ?_, ho, hm, ?_⟩, rfl⟩
  · simp [store_session, hl]
  · simp [hk]

theorem stop_discovery_spec (ops : adapter_ops) (s : Sys)
    (h1 : (s.adapter.state &&& STATE_SUSPENDED) = 0) (hsched : s.adapter.scheduler_id = 0) :
    (stop_discovery ops s false).adapter.disc_sessions = s.adapter.disc_sessions ∧
    (stop_discovery ops s false).adapter.agent = s.adapter.agent ∧
    ∃ l, (stop_discovery ops s false).hw = s.hw ++ l ∧ count_stops l = 1 ∧
      count_starts l = 0 := by
  obtain ⟨l, hl, c1, c2⟩ := pending_remote_name_cancel_spec ops s
  have hc : ∀ c : HwCmd, c.is_stop = true → c.is_start = false →
      count_stops (l ++ [(c, ops (s.hw ++ l) c)]) = 1 ∧
      count_starts (l ++ [(c, ops (s.hw ++ l) c)]) = 0 := by
    intro c hc1 hc2
    unfold count_starts count_stops at *
    rw [List.countP_append, List.countP_append, c1, c2]
    simp [hc1, hc2]
  unfold stop_discovery
  rw [hl]
  simp only [if_true]
  rw [if_neg (by simp [h1]), if_neg (by simp [hsched])]
  by_cases hle : (s.adapter.state &&& STATE_LE_SCAN) ≠ 0
  · rw [if_pos hle]
    exact ⟨rfl, rfl, l ++ [(HwCmd.stop_scanning, ops (s.hw ++ l) HwCmd.stop_scanning)],
      by simp [hw_call], hc HwCmd.stop_scanning rfl rfl⟩
  · rw [if_neg hle]
    exact ⟨rfl, rfl, l ++ [(HwCmd.stop_inquiry, ops (s.hw ++ l) HwCmd.stop_inquiry)],
      by simp [hw_call], hc HwCmd.stop_inquiry rfl rfl⟩

/-- The StopDiscovery that drops the last reference of the only claim: the claim is removed
and exactly one hardware stop command is issued. -/
theorem last_stop_discovery (ops : adapter_ops) (s : Sys) (m : DBusMessage)
    (h : sole_discovery_claim m.sender 1 s) :
    (adapter_stop_discovery ops s m).1 = some DBusReply.method_return ∧
    (adapter_stop_discovery ops s m).2.adapter.disc_sessions = [] ∧
    ∃ l, (adapter_stop_discovery ops s m).2.hw = s.hw ++ l ∧ count_stops l = 1 ∧
      count_starts l = 0 := by
  obtain ⟨hup, h1, hsched, req, hl, ho, hm, hk⟩ := h
  have hf : find_session s.adapter.disc_sessions m.sender = some req := by
    rw [hl]
    simp [find_session, ho]
  have hz : ¬ (({ req with refcount := req.refcount - 1 } : session_req).refcount ≠ 0) := by
    show ¬ (req.refcount - 1 ≠ 0)
    rw [hk]
    decide
  have he : adapter_stop_discovery ops s m
      = (some DBusReply.method_return,
         session_free ops
           { s with adapter := store_session s.adapter { req with refcount := req.refcount - 1 } }
           { req with refcount := req.refcount - 1 }) := by
    unfold adapter_stop_discovery
    rw [if_neg (by simp [hup]), hf]
    simp only [session_unref]
    rw [if_neg hz]
  rw [he]
  have key : ∀ x : Sys, x.adapter = store_session s.adapter
        { req with refcount := req.refcount - 1 } → x.hw = s.hw →
      (session_free ops x { req with refcount := req.refcount - 1, id := 0 }
        ).adapter.disc_sessions = [] ∧
      ∃ l, (session_free ops x { req with refcount := req.refcount - 1, id := 0 }).hw
          = s.hw ++ l ∧ count_stops l = 1 ∧ count_starts l = 0 := by
    intro x hxa hxh
    have hr : ∀ r : session_req, r.ptr = req.ptr →
        g_slist_remove x.adapter.disc_sessions r = [] := by
      intro r hr
      rw [hxa]
      simp [store_session, hl, g_slist_remove, hr]
    have hx : session_free ops x { req with refcount := req.refcount - 1, id := 0 }
        = stop_discovery ops { x with adapter.disc_sessions := [] } false := by
      unfold session_free session_remove
      simp [ho, hm, hr]
    rw [hx]
    obtain ⟨a1, _, l, a3, a4, a5⟩ := stop_discovery_spec ops
      { x with adapter.disc_sessions := [] }
      (by show (x.adapter.state &&& STATE_SUSPENDED) = 0; rw [hxa]; exact h1)
      (by show x.adapter.scheduler_id = 0; rw [hxa]; exact hsched)
    refine ⟨a1, l, ?_, a4, a5⟩
    rw [a3]
    show x.hw ++ l = s.hw ++ l
    rw [hxh]
  have hfree : ∀ y : Sys, session_free ops y { req with refcount := req.refcount - 1 }
      = session_free ops (if req.id ≠ 0 then g_dbus_remove_watch y req.id else y)
          { req with refcount := req.refcount - 1, id := 0 } := fun _ => rfl
  rw [hfree]
  by_cases hid : req.id ≠ 0
  · rw [if_pos hid]
    exact ⟨rfl, key _ rfl rfl⟩
  · rw [if_neg hid]
    exact ⟨rfl, key _ rfl rfl⟩

theorem run_repeated_starts (ops : adapter_ops) (owner : String) (ms : List DBusMessage) :
    ∀ (s : Sys) (k : Int), sole_discovery_claim owner k s → (∀ m ∈ ms, m.sender = owner) →
      sole_discovery_claim owner (k + ms.length) (start_discovery_requests ops s ms) ∧
      (start_discovery_requests ops s ms).hw = s.hw := by
  induction ms with
  | nil =>
    intro s k h _
    simpa [start_discovery_requests] using h
  | cons m ms ih =>
    intro s k h hs
    have hm : m.sender = owner := hs m (List.mem_cons_self _ _)
    obtain ⟨_, h2, h3⟩ := repeated_start_discovery ops s m k (hm ▸ h)
    rw [hm] at h2
    obtain ⟨i1, i2⟩ := ih _ (k + 1) h2 (fun x hx => hs x (List.mem_cons_of_mem _ hx))
    have he : start_discovery_requests ops s (m :: ms)
        = start_discovery_requests ops (adapter_start_discovery ops s m).2 ms := rfl
    rw [he]
    refine ⟨?_, i2.trans h3⟩
    have hk : k + ((m :: ms).length : Int) = k + 1 + (ms.length : Int) := by
      simp only [List.length_cons, Nat.cast_add, Nat.cast_one]
      ring
    rw [hk]
    exact i1

theorem run_early_stops (ops : adapter_ops) (owner : String) (ms : List DBusMessage) :
    ∀ (s : Sys) (k : Int), sole_discovery_claim owner k s → (∀ m ∈ ms, m.sender = owner) →
      (ms.length : Int) < k →
      sole_discovery_claim owner (k - ms.length) (stop_discovery_requests ops s ms) ∧
      (stop_discovery_requests ops s ms).hw = s.hw := by
  induction ms with
  | nil =>
    intro s k h _ _
    simpa [stop_discovery_requests] using h
  | cons m ms ih =>
    intro s k h hs hk
    have hm : m.sender = owner := hs m (List.mem_cons_self _ _)
    have hlen : ((m :: ms).length : Int) = (ms.length : Int) + 1 := by
      simp only [List.length_cons, Nat.cast_add, Nat.cast_one]
    rw [hlen] at hk
    have hk1 : k ≠ 1 := by
      have : (0 : Int) ≤ (ms.length : Int) := Int.ofNat_nonneg _
      omega
    obtain ⟨_, h2, h3⟩ := early_stop_discovery ops s m k (hm ▸ h) hk1
    rw [hm] at h2
    obtain ⟨i1, i2⟩ := ih _ (k - 1) h2 (fun x hx => hs x (List.mem_cons_of_mem _ hx))
      (by omega)
    have he : stop_discovery_requests ops s (m :: ms)
        = stop_discovery_requests ops (adapter_stop_discovery ops s m).2 ms := rfl
    rw [he]
    refine ⟨?_, i2.trans h3⟩
    have hk2 : k - ((m :: ms).length : Int) = k - 1 - (ms.length : Int) := by
      rw [hlen]
      ring
    rw [hk2]
    exact i1

/-- C1: for every N >= 1, starting from a powered adapter with no discovery session, discovery
neither suspended nor resolving names, no rescan timer armed and a hardware that accepts
commands, N StartDiscovery requests from one owner issue exactly one hardware start command in
total; the first N-1 StopDiscovery requests from that owner issue no hardware command at all
(so no stop command) and leave the claim in place, and the N-th issues exactly one hardware
stop command and removes the claim. -/
theorem discovery_session_refcount (ops : adapter_ops) (s : Sys) (owner : String) (N : Nat)
    (starts stops : List DBusMessage) (hN : 1 ≤ N)
    (hstarts : starts.length = N) (hstops : stops.length = N)
    (hs1 : ∀ m ∈ starts, m.sender = owner) (hs2 : ∀ m ∈ stops, m.sender = owner)
    (hup : s.adapter.up = true) (hnone : s.adapter.disc_sessions = [])
    (hsusp : (s.adapter.state &&& STATE_SUSPENDED) = 0)
    (hres : (s.adapter.state &&& STATE_RESOLVNAME) = 0)
    (hsched : s.adapter.scheduler_id = 0) (hacc : ∀ h c, 0 ≤ ops h c) :
    count_starts (hw_issued s (start_discovery_requests ops s starts)) = 1 ∧
    hw_issued (start_discovery_requests ops s starts)
      (stop_discovery_requests ops (start_discovery_requests ops s starts) (stops.take (N - 1)))
      = [] ∧
    (stop_discovery_requests ops (start_discovery_requests ops s starts)
      (stops.take (N - 1))).adapter.disc_sessions ≠ [] ∧
    count_stops (hw_issued
      (stop_discovery_requests ops (start_discovery_requests ops s starts) (stops.take (N - 1)))
      (stop_discovery_requests ops (start_discovery_requests ops s starts) stops)) = 1 ∧
    (stop_discovery_requests ops (start_discovery_requests ops s starts) stops
      ).adapter.disc_sessions = [] := by
  -- the first request creates the claim, the others add references
  obtain ⟨first, rest, rfl⟩ : ∃ a l, starts = a :: l := by
    cases starts with
    | nil => simp at hstarts; omega
    | cons a l => exact ⟨a, l, rfl⟩
  have hf : first.sender = owner := hs1 first (List.mem_cons_self _ _)
  obtain ⟨_, f2, l1, f3, f4, _⟩ :=
    first_start_discovery ops s first hup hnone hsusp hres hsched hacc
  rw [hf] at f2
  obtain ⟨r1, r2⟩ := run_repeated_starts ops owner rest _ 1 f2
    (fun x hx => hs1 x (List.mem_cons_of_mem _ hx))
  have he : start_discovery_requests ops s (first :: rest)
      = start_discovery_requests ops (adapter_start_discovery ops s first).2 rest := rfl
  rw [he]
  have hk : (1 : Int) + (rest.length : Int) = (N : Int) := by
    rw [← hstarts]
    simp only [List.length_cons, Nat.cast_add, Nat.cast_one]
    ring
  rw [hk] at r1
  -- the stop requests: all but the last, then the last
  have hsplit : stops = stops.take (N - 1) ++ stops.drop (N - 1) :=
    (List.take_append_drop _ _).symm
  obtain ⟨last, hlast⟩ : ∃ a, stops.drop (N - 1) = [a] := by
    have : (stops.drop (N - 1)).length = 1 := by
      rw [List.length_drop, hstops]
      omega
    exact List.length_eq_one.1 this
  have hlen : (stops.take (N - 1)).length = N - 1 := by
    rw [List.length_take, hstops]
    omega
  obtain ⟨e1, e2⟩ := run_early_stops ops owner (stops.take (N - 1)) _ N r1
    (fun x hx => hs2 x (List.mem_of_mem_take hx)) (by rw [hlen]; omega)
  have hk2 : (N : Int) - ((stops.take (N - 1)).length : Int) = 1 := by
    rw [hlen]
    omega
  rw [hk2] at e1
  have hl : last.sender = owner :=
    hs2 last (List.mem_of_mem_drop (by rw [hlast]; exact List.mem_singleton_self _))
  obtain ⟨_, t2, l2, t3, t4, _⟩ := last_stop_discovery ops _ last (hl ▸ e1)
  have hall : stop_discovery_requests ops
        (start_discovery_requests ops (adapter_start_discovery ops s first).2 rest) stops
      = (adapter_stop_discovery ops
          (stop_discovery_requests ops
            (start_discovery_requests ops (adapter_start_discovery ops s first).2 rest)
            (stops.take (N - 1))) last).2 := by
    conv_lhs => rw [hsplit, hlast]
    simp [stop_discovery_requests, List.foldl_append]
  refine ⟨?_, ?_, ?_, ?_, ?_⟩
  · rw [hw_issued_of_append (r2.trans f3)]
    exact f4
  · rw [hw_issued_of_append (l := []) (by rw [e2, List.append_nil])]
  · obtain ⟨_, _, _, req, hreq, _⟩ := e1
    rw [hreq]
    simp
  · rw [hall, hw_issued_of_append t3]
    exact t4
  · rw [hall]
    exact t2

theorem discovery_session_refcount_witness :
    count_starts (hw_issued powered_connectable
      (start_discovery_requests (fun _ _ => 0) powered_connectable two_requests)) = 1 ∧
    hw_issued (start_discovery_requests (fun _ _ => 0) powered_connectable two_requests)
      (stop_discovery_requests (fun _ _ => 0)
        (start_discovery_requests (fun _ _ => 0) powered_connectable two_requests)
        (two_requests.take (2 - 1))) = [] ∧
    (stop_discovery_requests (fun _ _ => 0)
      (start_discovery_requests (fun _ _ => 0) powered_connectable two_requests) two_requests
      ).adapter.disc_sessions = [] :=
  have h := discovery_session_refcount (fun _ _ => 0) powered_connectable ":1.1" 2
    two_requests two_requests (by decide) rfl rfl (by decide) (by decide) rfl rfl rfl rfl rfl
    (fun _ _ => le_refl 0)
  ⟨h.1, h.2.1, h.2.2.2.2⟩

/-! ## Forced release -/

theorem frame_mode_sessions {s t : Sys} (h : timers_cod_frame s t) :
    t.adapter.mode_sessions = s.adapter.mode_sessions := by
  unfold timers_cod_frame at h
  rw [← h]

theorem frame_agent {s t : Sys} (h : timers_cod_frame s t) :
    t.adapter.agent = s.adapter.agent := by
  unfold timers_cod_frame at h
  rw [← h]

theorem set_mode_done_agent (s : Sys) (m : Nat) (msg : Option DBusMessage) :
    (set_mode_done s m msg).2.adapter.agent = s.adapter.agent := by
  unfold set_mode_done
  cases msg with
  | none => rfl
  | some d =>
    dsimp only
    split <;> rfl

theorem set_mode_agent (ops : adapter_ops) (s : Sys) (m : Nat) (msg : Option DBusMessage) :
    (set_mode ops s m msg).2.adapter.agent = s.adapter.agent := by
  unfold set_mode
  simp only []
  split_ifs
  all_goals
    first
    | rfl
    | exact frame_agent (adapter_set_mode_frame ops s m)
    | (rw [set_mode_done_agent]
       first
       | rfl
       | exact frame_agent (adapter_set_mode_frame ops s m))

theorem set_mode_done_mode_sessions (s : Sys) (m : Nat) (msg : Option DBusMessage) :
    (set_mode_done s m msg).2.adapter.mode_sessions = s.adapter.mode_sessions := by
  unfold set_mode_done
  cases msg with
  | none => rfl
  | some d =>
    dsimp only
    split <;> rfl

theorem set_mode_mode_sessions (ops : adapter_ops) (s : Sys) (m : Nat)
    (msg : Option DBusMessage) :
    (set_mode ops s m msg).2.adapter.mode_sessions = s.adapter.mode_sessions := by
  unfold set_mode
  simp only []
  split_ifs
  all_goals
    first
    | rfl
    | exact frame_mode_sessions (adapter_set_mode_frame ops s m)
    | (rw [set_mode_done_mode_sessions]
       first
       | rfl
       | exact frame_mode_sessions (adapter_set_mode_frame ops s m))

theorem stop_discovery_disc_sessions (ops : adapter_ops) (s : Sys) (b : Bool) :
    (stop_discovery ops s b).adapter.disc_sessions = s.adapter.disc_sessions := by
  have h : (pending_remote_name_cancel ops s).2.adapter = s.adapter := by
    obtain ⟨l, hl, _⟩ := pending_remote_name_cancel_spec ops s
    rw [hl]
  unfold stop_discovery g_source_remove hw_call
  simp only []
  split_ifs <;> simp [h]

/-- Removing a pointer from a list that holds it at most once leaves no node with it. -/
theorem g_slist_remove_not_mem (l : List session_req) (req : session_req)
    (hnd : (l.map (fun r => r.ptr)).Nodup) :
    req.ptr ∉ (g_slist_remove l req).map (fun r => r.ptr) := by
  induction l with
  | nil => simp [g_slist_remove]
  | cons a l ih =>
    rw [List.map_cons, List.nodup_cons] at hnd
    unfold g_slist_remove at ih ⊢
    by_cases ha : a.ptr = req.ptr
    · rw [List.eraseP_cons_of_pos (by simpa using ha)]
      rw [← ha]
      exact hnd.1
    · rw [List.eraseP_cons_of_neg (by simpa using ha), List.map_cons, List.mem_cons]
      rintro (h | h)
      · exact ha h.symm
      · exact ih hnd.2 h

/-- Forced release of a discovery claim is the release of the spec. -/
theorem session_owner_exit_discovery (ops : adapter_ops) (s : Sys) (req : session_req)
    (ho : req.owner ≠ none) (hm : req.mode = 0) :
    session_owner_exit ops s req = release_discovery_claim ops s req := by
  have e1 : session_owner_exit ops s req =
      (if req.msg ≠ none ∧ req.got_reply = false ∧ req.mode ≠ 0 ∧
          (session_remove ops s req).adapter.agent ≠ none then
        agent_cancel (session_remove ops s req)
       else session_remove ops s req) := rfl
  rw [e1, if_neg (fun h => h.2.2.1 hm)]
  unfold session_remove release_discovery_claim
  rw [if_neg ho, if_neg (not_not.2 hm)]
  simp only []
  by_cases he : g_slist_remove s.adapter.disc_sessions req = []
  · rw [if_neg (not_not.2 he), if_pos he]
  · rw [if_pos he, if_neg he]

/-- Forced release of a mode claim is the release of the spec. -/
theorem session_owner_exit_mode (ops : adapter_ops) (s : Sys) (req : session_req)
    (ho : req.owner ≠ none) (hm : req.mode ≠ 0) :
    session_owner_exit ops s req = release_mode_claim ops s req := by
  have e1 : session_owner_exit ops s req =
      (if req.msg ≠ none ∧ req.got_reply = false ∧ req.mode ≠ 0 ∧
          (session_remove ops s req).adapter.agent ≠ none then
        agent_cancel (session_remove ops s req)
       else session_remove ops s req) := rfl
  have e2 : session_remove ops s req =
      (if get_needed_mode
              { s.adapter with mode_sessions := g_slist_remove s.adapter.mode_sessions req }
              s.adapter.global_mode = s.adapter.mode then
          { s with adapter.mode_sessions := g_slist_remove s.adapter.mode_sessions req }
         else
          (set_mode ops
            { s with adapter.mode_sessions := g_slist_remove s.adapter.mode_sessions req }
            (get_needed_mode
              { s.adapter with mode_sessions := g_slist_remove s.adapter.mode_sessions req }
              s.adapter.global_mode) none).2) := by
    unfold session_remove
    rw [if_neg ho, if_pos hm]
  have e3 : (session_remove ops s req).adapter.agent = s.adapter.agent := by
    rw [e2]
    split
    · rfl
    · exact set_mode_agent ops _ _ _
  have e4 : release_mode_claim ops s req =
      (if req.msg ≠ none ∧ req.got_reply = false ∧ s.adapter.agent ≠ none then
        agent_cancel (session_remove ops s req)
       else session_remove ops s req) := by
    rw [e2]
    rfl
  rw [e1, e3, e4]
  by_cases hc : req.msg ≠ none ∧ req.got_reply = false ∧ s.adapter.agent ≠ none
  · rw [if_pos hc, if_pos ⟨hc.1, hc.2.1, hm, hc.2.2⟩]
  · rw [if_neg hc, if_neg (fun h => hc ⟨h.1, h.2.1, h.2.2.2⟩)]

theorem release_mode_claim_mode_sessions (ops : adapter_ops) (s : Sys) (req : session_req) :
    (release_mode_claim ops s req).adapter.mode_sessions
      = g_slist_remove s.adapter.mode_sessions req := by
  have h1 : ∀ x : Sys, (agent_cancel x).adapter = x.adapter := fun _ => rfl
  unfold release_mode_claim
  simp only []
  split_ifs
  all_goals
    first
    | rfl
    | simp only [h1, set_mode_mode_sessions]

theorem release_discovery_claim_disc_sessions (ops : adapter_ops) (s : Sys)
    (req : session_req) :
    (release_discovery_claim ops s req).adapter.disc_sessions
      = g_slist_remove s.adapter.disc_sessions req := by
  unfold release_discovery_claim
  simp only []
  split
  · rw [stop_discovery_disc_sessions]
  · rfl

/-- C3: forced release ignores the reference count. Whatever count `k` a registered claim
holds, `session_owner_exit` does what the release of the claim does in the spec: a discovery
claim leaves the discovery set and discovery is stopped iff no other discovery claim remains;
a mode claim leaves the mode set and the needed mode is recomputed from the remaining claims.
The explicit release of the last reference (`session_unref` at count 1) does the same after
writing the count 0 through the pointer and removing the watch. With each pointer held once
in a set, the claim is no longer in its set. -/
theorem forced_release_ignores_refcount (ops : adapter_ops) (s : Sys) (req : session_req)
    (k : Int) (ho : req.owner ≠ none)
    (hd : (s.adapter.disc_sessions.map (fun r => r.ptr)).Nodup)
    (hm : (s.adapter.mode_sessions.map (fun r => r.ptr)).Nodup) :
    (req.mode = 0 →
      session_owner_exit ops s { req with refcount := k } = release_discovery_claim ops s req ∧
      session_unref ops s { req with refcount := 1 }
        = release_discovery_claim ops (unwatched (count_dropped s req) req) req ∧
      req.ptr ∉ (session_owner_exit ops s { req with refcount := k }).adapter.disc_sessions.map
        (fun r => r.ptr)) ∧
    (req.mode ≠ 0 →
      session_owner_exit ops s { req with refcount := k } = release_mode_claim ops s req ∧
      session_unref ops s { req with refcount := 1 }
        = release_mode_claim ops (unwatched (count_dropped s req) req) req ∧
      req.ptr ∉ (session_owner_exit ops s { req with refcount := k }).adapter.mode_sessions.map
        (fun r => r.ptr)) := by
  have hk : session_owner_exit ops s { req with refcount := k } = session_owner_exit ops s req :=
    rfl
  have hu : session_unref ops s { req with refcount := 1 }
      = session_owner_exit ops (unwatched (count_dropped s req) req) req := rfl
  constructor
  · intro h0
    have e := session_owner_exit_discovery ops s req ho h0
    refine ⟨hk.trans e, hu.trans (session_owner_exit_discovery ops _ req ho h0), ?_⟩
    rw [hk, e, release_discovery_claim_disc_sessions]
    exact g_slist_remove_not_mem s.adapter.disc_sessions req hd
  · intro h0
    have e := session_owner_exit_mode ops s req ho h0
    refine ⟨hk.trans e, hu.trans (session_owner_exit_mode ops _ req ho h0), ?_⟩
    rw [hk, e, release_mode_claim_mode_sessions]
    exact g_slist_remove_not_mem s.adapter.mode_sessions req hm

theorem forced_release_ignores_refcount_witness :
    session_owner_exit (fun _ _ => 0) two_owners { claim_a with refcount := 3 }
      = release_discovery_claim (fun _ _ => 0) two_owners claim_a ∧
    claim_a.ptr ∉ (session_owner_exit (fun _ _ => 0) two_owners
      { claim_a with refcount := 3 }).adapter.disc_sessions.map (fun r => r.ptr) :=
  have h := (forced_release_ignores_refcount (fun _ _ => 0) two_owners claim_a 3 (by decide)
    (by decide) (by decide)).1 rfl
  ⟨h.1, h.2.2⟩

/-! ## Two owners -/

/-- C2, amended: two owners A and B each hold a discovery claim (set size 2), B's with one
reference, on a powered adapter whose discovery is not suspended and has no rescan timer
armed. When A's liveness watch fires the set has size 1 and no hardware command is issued;
when B then sends StopDiscovery the set is empty and exactly one hardware stop command is
issued. -/
theorem two_owner_release (ops : adapter_ops) (s : Sys) (a b : String) (ra rb : session_req)
    (mb : DBusMessage) (_hab : a ≠ b)
    (hsess : s.adapter.disc_sessions = [ra, rb] ∨ s.adapter.disc_sessions = [rb, ra])
    (hptr : ra.ptr ≠ rb.ptr) (hao : ra.owner = some a) (hma : ra.mode = 0)
    (hbo : rb.owner = some b) (hmb : rb.mode = 0) (hbref : rb.refcount = 1)
    (hsender : mb.sender = b) (hup : s.adapter.up = true)
    (hsusp : (s.adapter.state &&& STATE_SUSPENDED) = 0) (hsched : s.adapter.scheduler_id = 0) :
    s.adapter.disc_sessions.length = 2 ∧
    (session_owner_exit ops s ra).adapter.disc_sessions.length = 1 ∧
    hw_issued s (session_owner_exit ops s ra) = [] ∧
    (adapter_stop_discovery ops (session_owner_exit ops s ra) mb).2.adapter.disc_sessions = [] ∧
    count_stops (hw_issued (session_owner_exit ops s ra)
      (adapter_stop_discovery ops (session_owner_exit ops s ra) mb).2) = 1 := by
  have hrem : g_slist_remove s.adapter.disc_sessions ra = [rb] := by
    have hne : ¬ (rb.ptr = ra.ptr) := fun h => hptr h.symm
    rcases hsess with h | h <;> rw [h] <;> simp [g_slist_remove, hne]
  have he : session_owner_exit ops s ra = { s with adapter.disc_sessions := [rb] } := by
    rw [session_owner_exit_discovery ops s ra (by simp [hao]) hma]
    unfold release_discovery_claim
    simp only [hrem]
    rw [if_neg (by simp)]
  have hsole : sole_discovery_claim mb.sender 1 (session_owner_exit ops s ra) := by
    rw [he, hsender]
    exact ⟨hup, hsusp, hsched, rb, rfl, hbo, hmb, hbref⟩
  obtain ⟨_, t2, l, t3, t4, _⟩ := last_stop_discovery ops _ mb hsole
  refine ⟨?_, ?_, ?_, t2, ?_⟩
  · rcases hsess with h | h <;> rw [h] <;> rfl
  · rw [he]
    rfl
  · rw [he]
    exact hw_issued_self s
  · rw [hw_issued_of_append t3]
    exact t4

theorem two_owner_release_witness :
    (session_owner_exit (fun _ _ => 0) two_owners claim_a).adapter.disc_sessions.length = 1 ∧
    count_stops (hw_issued (session_owner_exit (fun _ _ => 0) two_owners claim_a)
      (adapter_stop_discovery (fun _ _ => 0)
        (session_owner_exit (fun _ _ => 0) two_owners claim_a)
        { serial := 9, sender := ":1.2" }).2) = 1 :=
  have h := two_owner_release (fun _ _ => 0) two_owners ":1.1" ":1.2" claim_a claim_b
    { serial := 9, sender := ":1.2" } (by decide) (Or.inl rfl) (by decide) rfl rfl rfl rfl rfl
    rfl rfl (by decide) rfl
  ⟨h.2.1, h.2.2.2.2⟩

/-- C2, as stated, fails: two distinct owners each hold one discovery session while discovery
is suspended; A's watch fires (size 1, no hardware stop), B sends StopDiscovery and the set is
empty, but no hardware stop command is issued: `stop_discovery` only clears the suspended
flag. -/
theorem two_owner_release_while_suspended :
    suspended_two_owners.adapter.up = true ∧
    suspended_two_owners.adapter.disc_sessions.map (fun r => (r.owner, r.refcount))
      = [(some ":1.1", 1), (some ":1.2", 1)] ∧
    find_session suspended_two_owners.adapter.disc_sessions ":1.1" = some suspended_claim_a ∧
    (session_owner_exit (fun _ _ => 0) suspended_two_owners suspended_claim_a
      ).adapter.disc_sessions.length = 1 ∧
    (adapter_stop_discovery (fun _ _ => 0)
      (session_owner_exit (fun _ _ => 0) suspended_two_owners suspended_claim_a)
      { serial := 3, sender := ":1.2" }).2.adapter.disc_sessions = [] ∧
    count_stops (hw_issued
      (session_owner_exit (fun _ _ => 0) suspended_two_owners suspended_claim_a)
      (adapter_stop_discovery (fun _ _ => 0)
        (session_owner_exit (fun _ _ => 0) suspended_two_owners suspended_claim_a)
        { serial := 3, sender := ":1.2" }).2) = 0 := by
  decide

/-! ## The in-flight slot of the mode controller -/

theorem set_mode_done_pending_none (s : Sys) (m : Nat) :
    (set_mode_done s m none).2.adapter.pending_mode = s.adapter.pending_mode := rfl

theorem set_mode_done_pending_some (s : Sys) (m : Nat) (msg : DBusMessage)
    (h : mode2str m ≠ mode2str s.adapter.mode) :
    (set_mode_done s m (some msg)).2.adapter.pending_mode ≠ none := by
  unfold set_mode_done
  simp only [write_device_mode]
  rw [if_neg h]
  simp

/-- C11, as stated, fails: a `set_mode` call without reply obligation leaves the in-flight
slot empty, so a second call made before any acknowledgement is accepted and issues a second
visibility command. -/
theorem second_set_mode_without_reply_is_accepted :
    (set_mode (fun _ _ => 0) powered_connectable MODE_DISCOVERABLE none).1 = 0 ∧
    hw_issued powered_connectable
        (set_mode (fun _ _ => 0) powered_connectable MODE_DISCOVERABLE none).2
      = [(HwCmd.set_discoverable, 0)] ∧
    (set_mode (fun _ _ => 0)
        (set_mode (fun _ _ => 0) powered_connectable MODE_DISCOVERABLE none).2
        MODE_CONNECTABLE none).1 = 0 ∧
    hw_issued (set_mode (fun _ _ => 0) powered_connectable MODE_DISCOVERABLE none).2
        (set_mode (fun _ _ => 0)
          (set_mode (fun _ _ => 0) powered_connectable MODE_DISCOVERABLE none).2
          MODE_CONNECTABLE none).2
      = [(HwCmd.set_connectable, 0)] := by
  decide

/-- C11, amended: at most one mode-change request with a held reply is outstanding. After a
`set_mode` call made for a caller (reply obligation) with no request in flight, which was
accepted, issued a hardware command and targets a mode whose name differs from the current
one, the in-flight slot is occupied and every further `set_mode` call is rejected with
`-EALREADY` and changes nothing, so it issues no command. A call without reply obligation
leaves the slot as it was. -/
theorem set_mode_held_reply_blocks_next (ops : adapter_ops) (s : Sys) (new_mode : Nat)
    (msg : DBusMessage) (hp : s.adapter.pending_mode = none)
    (hacc : 0 ≤ (set_mode ops s new_mode (some msg)).1)
    (hiss : hw_issued s (set_mode ops s new_mode (some msg)).2 ≠ [])
    (hstr : mode2str new_mode ≠ mode2str s.adapter.mode) :
    (set_mode ops s new_mode (some msg)).2.adapter.pending_mode ≠ none ∧
    (∀ (t : Nat) (msg2 : Option DBusMessage),
      set_mode ops (set_mode ops s new_mode (some msg)).2 t msg2
        = (-EALREADY, (set_mode ops s new_mode (some msg)).2)) ∧
    (set_mode ops s new_mode none).2.adapter.pending_mode = none := by
  have hp2 : ¬ (s.adapter.pending_mode ≠ none) := by simp [hp]
  have key : (set_mode ops s new_mode (some msg)).2.adapter.pending_mode ≠ none := by
    unfold set_mode at hacc hiss ⊢
    rw [if_neg hp2] at hacc hiss ⊢
    by_cases h1 : s.adapter.up = false ∧ new_mode ≠ MODE_OFF
    · rw [if_pos h1] at hacc hiss ⊢
      by_cases hr : ops s.hw (HwCmd.set_powered true) < 0
      · simp only [hw_call, hr, if_true] at hacc
        omega
      · simp only [hw_call, hr, if_false]
        exact set_mode_done_pending_some _ _ _ hstr
    rw [if_neg h1] at hacc hiss ⊢
    by_cases h2 : s.adapter.up = true ∧ new_mode = MODE_OFF
    · rw [if_pos h2] at hacc hiss ⊢
      by_cases hr : ops s.hw (HwCmd.set_powered false) < 0
      · simp only [hw_call, hr, if_true] at hacc
        omega
      · simp only [hw_call, hr, if_false]
        exact set_mode_done_pending_some _ _ _ hstr
    rw [if_neg h2] at hacc hiss ⊢
    by_cases hm : new_mode = s.adapter.mode
    · rw [if_pos hm] at hiss
      exact absurd (hw_issued_self s) hiss
    rw [if_neg hm] at hacc hiss ⊢
    by_cases hr : (adapter_set_mode ops s new_mode).1 < 0
    · simp only [hr, if_true] at hacc
      omega
    · simp only [hr, if_false]
      apply set_mode_done_pending_some
      rw [frame_mode (adapter_set_mode_frame ops s new_mode)]
      exact hstr
  refine ⟨key, ?_, ?_⟩
  · intro t msg2
    generalize (set_mode ops s new_mode (some msg)).2 = u at key
    unfold set_mode
    rw [if_pos key]
  · unfold set_mode
    simp only []
    rw [if_neg hp2]
    split_ifs
    all_goals
      simp only [set_mode_done_pending_none,
        frame_pending_mode (adapter_set_mode_frame ops s new_mode), hw_call, hp]

theorem set_mode_held_reply_blocks_next_witness :
    set_mode (fun _ _ => 0)
        (set_mode (fun _ _ => 0) powered_connectable MODE_DISCOVERABLE
          (some { serial := 4, sender := ":1.3" })).2 MODE_CONNECTABLE none
      = (-EALREADY, (set_mode (fun _ _ => 0) powered_connectable MODE_DISCOVERABLE
          (some { serial := 4, sender := ":1.3" })).2) :=
  (set_mode_held_reply_blocks_next (fun _ _ => 0) powered_connectable MODE_DISCOVERABLE
    { serial := 4, sender := ":1.3" } rfl (by decide) (by decide) (by decide)).2.1
    MODE_CONNECTABLE none

/-! ## Target of SetProperty Discoverable -/

/-- C12: for every adapter state a SetProperty Discoverable request acts on the target mode of
the spec: LimitedDiscoverable iff discoverable=true is requested, the adapter is pairable and
0 < discoverable timeout <= 60, otherwise Discoverable (for true) or Connectable. It answers at
once when the target is the current mode and hands the target to `set_mode` otherwise. A
timeout of 0 or of 61 never selects LimitedDiscoverable. -/
theorem set_discoverable_selects_target (ops : adapter_ops) (s : Sys) (msg : DBusMessage)
    (discoverable : Bool) :
    set_discoverable ops s msg discoverable =
      (if discoverable_request_target s.adapter discoverable = s.adapter.mode then
        (some DBusReply.method_return, s)
       else if (set_mode ops s (discoverable_request_target s.adapter discoverable)
            (some msg)).1 < 0 then
        (some (failed_strerror
          (-(set_mode ops s (discoverable_request_target s.adapter discoverable) (some msg)).1)),
         (set_mode ops s (discoverable_request_target s.adapter discoverable) (some msg)).2)
       else
        (none,
         (set_mode ops s (discoverable_request_target s.adapter discoverable) (some msg)).2)) ∧
    (discoverable_request_target s.adapter discoverable = MODE_LIMITED ↔
      discoverable = true ∧ s.adapter.pairable = true ∧ 0 < s.adapter.discov_timeout ∧
        s.adapter.discov_timeout ≤ 60) ∧
    (¬ (discoverable = true ∧ s.adapter.pairable = true ∧ 0 < s.adapter.discov_timeout ∧
        s.adapter.discov_timeout ≤ 60) →
      discoverable_request_target s.adapter discoverable
        = if discoverable = true then MODE_DISCOVERABLE else MODE_CONNECTABLE) ∧
    (s.adapter.discov_timeout = 0 ∨ s.adapter.discov_timeout = 61 →
      discoverable_request_target s.adapter discoverable ≠ MODE_LIMITED) := by
  have hdl : MODE_DISCOVERABLE ≠ MODE_LIMITED := by decide
  have hcl : MODE_CONNECTABLE ≠ MODE_LIMITED := by decide
  have hcd : MODE_CONNECTABLE ≠ MODE_DISCOVERABLE := by decide
  have hiff : discoverable_request_target s.adapter discoverable = MODE_LIMITED ↔
      discoverable = true ∧ s.adapter.pairable = true ∧ 0 < s.adapter.discov_timeout ∧
        s.adapter.discov_timeout ≤ 60 := by
    unfold discoverable_request_target limited_predicate
    constructor
    · intro h
      by_contra hn
      rw [if_neg hn] at h
      split at h
      · exact hdl h
      · exact hcl h
    · intro h
      rw [if_pos h]
  refine ⟨?_, hiff, ?_, ?_⟩
  · unfold set_discoverable discoverable_request_target limited_predicate
    cases discoverable
    · simp [hcd]
    · by_cases hl : s.adapter.pairable = true ∧ 0 < s.adapter.discov_timeout ∧
          s.adapter.discov_timeout ≤ 60
      · simp [hl]
      · simp [hl]
  · intro hn
    unfold discoverable_request_target limited_predicate
    rw [if_neg hn]
  · intro h0 hl
    have := hiff.1 hl
    omega

/-! ## Class of device: when a write is issued -/

theorem update_ext_inquiry_response_adapter (ops : adapter_ops) (s : Sys) :
    (update_ext_inquiry_response ops s).adapter = s.adapter := by
  unfold update_ext_inquiry_response
  split <;> rfl

theorem update_ext_inquiry_response_cod_writes (ops : adapter_ops) (s : Sys) :
    ∃ l, (update_ext_inquiry_response ops s).hw = s.hw ++ l ∧ cod_writes l = [] := by
  unfold update_ext_inquiry_response
  split
  · exact ⟨[], (List.append_nil _).symm, rfl⟩
  · exact ⟨[_], rfl, rfl⟩

/-- What `adapter_set_service_classes` does once `wanted` has been updated. -/
theorem adapter_set_service_classes_cases (ops : adapter_ops) (s : Sys) (v : Nat) :
    (adapter_set_service_classes ops s v).2.adapter.wanted_cod
      = ((s.adapter.wanted_cod &&& 0x00ffff) ||| (v <<< 16)) ∧
    (adapter_set_service_classes ops s v).2.adapter.current_cod = s.adapter.current_cod ∧
    (adapter_set_service_classes ops s v).2.adapter.cache_enable = s.adapter.cache_enable ∧
    ((s.adapter.cache_enable = false ∧ s.adapter.pending_cod = 0 ∧
        ((s.adapter.wanted_cod &&& 0x00ffff) ||| (v <<< 16)) ≠ s.adapter.current_cod) →
      (adapter_set_service_classes ops s v).2.hw = s.hw ++
        [(HwCmd.set_class ((s.adapter.wanted_cod &&& 0x00ffff) ||| (v <<< 16)),
          (adapter_set_service_classes ops s v).1)] ∧
      (0 ≤ (adapter_set_service_classes ops s v).1 →
        (adapter_set_service_classes ops s v).2.adapter.pending_cod
          = ((s.adapter.wanted_cod &&& 0x00ffff) ||| (v <<< 16))) ∧
      ((adapter_set_service_classes ops s v).1 < 0 →
        (adapter_set_service_classes ops s v).2.adapter.pending_cod = s.adapter.pending_cod)) ∧
    (¬ (s.adapter.cache_enable = false ∧ s.adapter.pending_cod = 0 ∧
        ((s.adapter.wanted_cod &&& 0x00ffff) ||| (v <<< 16)) ≠ s.adapter.current_cod) →
      (∃ l, (adapter_set_service_classes ops s v).2.hw = s.hw ++ l ∧ cod_writes l = []) ∧
      (adapter_set_service_classes ops s v).2.adapter.pending_cod = s.adapter.pending_cod) := by
  unfold adapter_set_service_classes
  simp only []
  by_cases h1 : s.adapter.cache_enable = true ∨ s.adapter.pending_cod ≠ 0
  · rw [if_pos h1]
    refine ⟨rfl, rfl, rfl, ?_, ?_⟩
    · rintro ⟨a, b, _⟩
      rcases h1 with h | h
      · rw [a] at h
        exact absurd h (by decide)
      · exact absurd b h
    · intro _
      exact ⟨⟨[], (List.append_nil _).symm, rfl⟩, rfl⟩
  · rw [if_neg h1]
    have hc : s.adapter.cache_enable = false := by
      cases hce : s.adapter.cache_enable
      · rfl
      · exact absurd (Or.inl hce) h1
    have hpz : s.adapter.pending_cod = 0 := by
      by_contra h
      exact h1 (Or.inr h)
    by_cases h2 : s.adapter.current_cod = ((s.adapter.wanted_cod &&& 0x00ffff) ||| (v <<< 16))
    · rw [if_pos h2]
      refine ⟨?_, ?_, ?_, ?_, ?_⟩
      · rw [update_ext_inquiry_response_adapter]
      · rw [update_ext_inquiry_response_adapter]
      · rw [update_ext_inquiry_response_adapter]
      · rintro ⟨_, _, c⟩
        exact absurd h2.symm c
      · intro _
        refine ⟨update_ext_inquiry_response_cod_writes ops _, ?_⟩
        rw [update_ext_inquiry_response_adapter]
    · rw [if_neg h2]
      by_cases h3 : (hw_call ops { s with adapter.wanted_cod :=
          ((s.adapter.wanted_cod &&& 0x00ffff) ||| (v <<< 16)) }
          (HwCmd.set_class ((s.adapter.wanted_cod &&& 0x00ffff) ||| (v <<< 16)))).1 < 0
      · rw [if_pos h3]
        refine ⟨rfl, rfl, rfl, fun _ => ⟨rfl, fun h => absurd h3 (not_lt.2 h), fun _ => rfl⟩, ?_⟩
        intro hn
        exact absurd ⟨hc, hpz, fun h => h2 h.symm⟩ hn
      · rw [if_neg h3]
        refine ⟨rfl, rfl, rfl, fun _ => ⟨rfl, fun _ => rfl, fun h => absurd h h3⟩, ?_⟩
        intro hn
        exact absurd ⟨hc, hpz, fun h => h2 h.symm⟩ hn

/-- What `btd_adapter_set_class` does once `wanted` has been updated. -/
theorem btd_adapter_set_class_cases (ops : adapter_ops) (s : Sys) (major minor : Nat) :
    (btd_adapter_set_class ops s major minor).2.adapter.wanted_cod
      = ((s.adapter.wanted_cod &&& 0xffe000) ||| (((major &&& 0x1f) <<< 8) ||| minor)) ∧
    (btd_adapter_set_class ops s major minor).2.adapter.current_cod = s.adapter.current_cod ∧
    (btd_adapter_set_class ops s major minor).2.adapter.cache_enable
      = s.adapter.cache_enable ∧
    ((s.adapter.cache_enable = false ∧ s.adapter.pending_cod = 0 ∧
        ((s.adapter.wanted_cod &&& 0xffe000) ||| (((major &&& 0x1f) <<< 8) ||| minor))
          ≠ s.adapter.current_cod) →
      (btd_adapter_set_class ops s major minor).2.hw = s.hw ++
        [(HwCmd.set_class
            ((s.adapter.wanted_cod &&& 0xffe000) ||| (((major &&& 0x1f) <<< 8) ||| minor)),
          (btd_adapter_set_class ops s major minor).1)] ∧
      (0 ≤ (btd_adapter_set_class ops s major minor).1 →
        (btd_adapter_set_class ops s major minor).2.adapter.pending_cod
          = ((s.adapter.wanted_cod &&& 0xffe000) ||| (((major &&& 0x1f) <<< 8) ||| minor))) ∧
      ((btd_adapter_set_class ops s major minor).1 < 0 →
        (btd_adapter_set_class ops s major minor).2.adapter.pending_cod
          = s.adapter.pending_cod)) ∧
    (¬ (s.adapter.cache_enable = false ∧ s.adapter.pending_cod = 0 ∧
        ((s.adapter.wanted_cod &&& 0xffe000) ||| (((major &&& 0x1f) <<< 8) ||| minor))
          ≠ s.adapter.current_cod) →
      (btd_adapter_set_class ops s major minor).2.hw = s.hw ∧
      (btd_adapter_set_class ops s major minor).2.adapter.pending_cod = s.adapter.pending_cod)
    := by
  unfold btd_adapter_set_class
  simp only []
  by_cases h1 : ((s.adapter.wanted_cod &&& 0xffe000) ||| (((major &&& 0x1f) <<< 8) ||| minor))
      = s.adapter.current_cod ∨ s.adapter.cache_enable = true ∨ s.adapter.pending_cod ≠ 0
  · rw [if_pos h1]
    refine ⟨rfl, rfl, rfl, ?_, fun _ => ⟨rfl, rfl⟩⟩
    rintro ⟨a, b, c⟩
    rcases h1 with h | h | h
    · exact absurd h c
    · rw [a] at h
      exact absurd h (by decide)
    · exact absurd b h
  · rw [if_neg h1]
    have hc : s.adapter.cache_enable = false := by
      cases hce : s.adapter.cache_enable
      · rfl
      · exact absurd (Or.inr (Or.inl hce)) h1
    have hpz : s.adapter.pending_cod = 0 := by
      by_contra h
      exact h1 (Or.inr (Or.inr h))
    have hne : ((s.adapter.wanted_cod &&& 0xffe000) ||| (((major &&& 0x1f) <<< 8) ||| minor))
        ≠ s.adapter.current_cod := fun h => h1 (Or.inl h)
    by_cases h3 : (hw_call ops { s with adapter.wanted_cod :=
        ((s.adapter.wanted_cod &&& 0xffe000) ||| (((major &&& 0x1f) <<< 8) ||| minor)) }
        (HwCmd.set_class
          ((s.adapter.wanted_cod &&& 0xffe000) ||| (((major &&& 0x1f) <<< 8) ||| minor)))).1 < 0
    · rw [if_pos h3]
      exact ⟨rfl, rfl, rfl, fun _ => ⟨rfl, fun h => absurd h3 (not_lt.2 h), fun _ => rfl⟩,
        fun hn => absurd ⟨hc, hpz, hne⟩ hn⟩
    · rw [if_neg h3]
      exact ⟨rfl, rfl, rfl, fun _ => ⟨rfl, fun _ => rfl, fun h => absurd h h3⟩,
        fun hn => absurd ⟨hc, hpz, hne⟩ hn⟩

/-- C14: `adapter_set_service_classes` and `btd_adapter_set_class` (set_major_minor) issue a
hardware class write iff, after `wanted` has been updated, caching is disabled, no write is
pending and `wanted` differs from `current`. The write is a single `set_class` of `wanted`;
when it is accepted `pending` becomes `wanted`; in every other case `pending` is unchanged,
and `current` is unchanged in all cases. -/
theorem class_write_issued_iff (ops : adapter_ops) (s : Sys) (v major minor : Nat) :
    class_update_rule s (adapter_set_service_classes ops s v) ∧
    class_update_rule s (btd_adapter_set_class ops s major minor) := by
  constructor
  · obtain ⟨a1, a2, _, a4, a5⟩ := adapter_set_service_classes_cases ops s v
    refine ⟨a2, ?_, ?_⟩
    · intro h
      rw [a1] at h ⊢
      obtain ⟨b1, b2, b3⟩ := a4 h
      exact ⟨by rw [hw_issued_of_append b1]; rfl, b2, b3⟩
    · intro h
      rw [a1] at h
      obtain ⟨⟨l, b1, b2⟩, b3⟩ := a5 h
      exact ⟨by rw [hw_issued_of_append b1]; exact b2, b3⟩
  · obtain ⟨a1, a2, _, a4, a5⟩ := btd_adapter_set_class_cases ops s major minor
    refine ⟨a2, ?_, ?_⟩
    · intro h
      rw [a1] at h ⊢
      obtain ⟨b1, b2, b3⟩ := a4 h
      exact ⟨by rw [hw_issued_of_append b1]; rfl, b2, b3⟩
    · intro h
      rw [a1] at h
      obtain ⟨b1, b3⟩ := a5 h
      exact ⟨by rw [hw_issued_of_append (l := []) (by rw [b1, List.append_nil])]; rfl, b3⟩

/-! ## Class of device: bit fields -/

theorem service_classes_bits (w v : Nat) :
    ((w &&& 0x00ffff) ||| (v <<< 16)) % 2 ^ 16 = w % 2 ^ 16 ∧
    ((w &&& 0x00ffff) ||| (v <<< 16)) / 2 ^ 16 = v := by
  have h : (0x00ffff : Nat) = 2 ^ 16 - 1 := by norm_num
  constructor
  · apply Nat.eq_of_testBit_eq
    intro i
    rw [Nat.testBit_mod_two_pow, Nat.testBit_mod_two_pow, Nat.testBit_or, Nat.testBit_and, h,
      Nat.testBit_two_pow_sub_one, Nat.testBit_shiftLeft]
    by_cases hi : i < 16
    · have : ¬ (i ≥ 16) := by omega
      simp [hi, this]
    · simp [hi]
  · apply Nat.eq_of_testBit_eq
    intro i
    rw [← Nat.shiftRight_eq_div_pow, Nat.testBit_shiftRight, Nat.testBit_or, Nat.testBit_and, h,
      Nat.testBit_two_pow_sub_one, Nat.testBit_shiftLeft]
    have : ¬ (16 + i < 16) := by omega
    simp [this]

theorem major_minor_bits (w major minor : Nat) (hw : w < 2 ^ 24) (hminor : minor < 2 ^ 8) :
    ((w &&& 0xffe000) ||| (((major &&& 0x1f) <<< 8) ||| minor)) % 2 ^ 13
      = (((major &&& 0x1f) <<< 8) ||| minor) ∧
    ((w &&& 0xffe000) ||| (((major &&& 0x1f) <<< 8) ||| minor)) / 2 ^ 13 = w / 2 ^ 13 := by
  have h : (0xffe000 : Nat) = (2 ^ 11 - 1) <<< 13 := by decide
  have h5 : (0x1f : Nat) = 2 ^ 5 - 1 := by norm_num
  have hm : ∀ i, 13 ≤ i → (((major &&& 0x1f) <<< 8) ||| minor).testBit i = false := by
    intro i hi
    rw [Nat.testBit_or, Nat.testBit_shiftLeft, Nat.testBit_and, h5, Nat.testBit_two_pow_sub_one]
    have h1 : minor.testBit i = false :=
      Nat.testBit_lt_two_pow (lt_of_lt_of_le hminor (Nat.pow_le_pow_right (by norm_num) (by omega)))
    have h2 : ¬ (i - 8 < 5) := by omega
    simp [h1, h2]
  have hwb : ∀ i, 24 ≤ i → w.testBit i = false := by
    intro i hi
    exact Nat.testBit_lt_two_pow (lt_of_lt_of_le hw (Nat.pow_le_pow_right (by norm_num) hi))
  constructor
  · apply Nat.eq_of_testBit_eq
    intro i
    rw [Nat.testBit_mod_two_pow, Nat.testBit_or, Nat.testBit_and, h, Nat.testBit_shiftLeft,
      Nat.testBit_two_pow_sub_one]
    by_cases hi : i < 13
    · have : ¬ (i ≥ 13) := by omega
      simp [hi, this]
    · rw [hm i (by omega)]
      simp [hi]
  · apply Nat.eq_of_testBit_eq
    intro i
    rw [← Nat.shiftRight_eq_div_pow, ← Nat.shiftRight_eq_div_pow, Nat.testBit_shiftRight,
      Nat.testBit_shiftRight, Nat.testBit_or, Nat.testBit_and, h, Nat.testBit_shiftLeft,
      Nat.testBit_two_pow_sub_one, hm (13 + i) (by omega)]
    by_cases hi : 13 + i < 24
    · have h11 : i < 11 := by omega
      simp [h11]
    · rw [hwb (13 + i) (by omega)]
      simp

/-- C16: for every 24-bit `wanted` value and all 8-bit arguments, `adapter_set_service_classes
(v)` leaves bits 0-15 of `wanted` unchanged and sets bits 16-23 to `v`, and
`btd_adapter_set_class (major, minor)` leaves bits 13-23 of `wanted` unchanged and sets bits
0-12 to `((major & 0x1f) << 8) | minor`. -/
theorem class_update_touches_only_its_bits (ops : adapter_ops) (s : Sys) (v major minor : Nat)
    (hw : s.adapter.wanted_cod < 2 ^ 24) (hv : v < 2 ^ 8) (hminor : minor < 2 ^ 8) :
    (adapter_set_service_classes ops s v).2.adapter.wanted_cod % 2 ^ 16
      = s.adapter.wanted_cod % 2 ^ 16 ∧
    (adapter_set_service_classes ops s v).2.adapter.wanted_cod / 2 ^ 16 = v ∧
    (adapter_set_service_classes ops s v).2.adapter.wanted_cod < 2 ^ 24 ∧
    (btd_adapter_set_class ops s major minor).2.adapter.wanted_cod / 2 ^ 13
      = s.adapter.wanted_cod / 2 ^ 13 ∧
    (btd_adapter_set_class ops s major minor).2.adapter.wanted_cod % 2 ^ 13
      = (((major &&& 0x1f) <<< 8) ||| minor) ∧
    (btd_adapter_set_class ops s major minor).2.adapter.wanted_cod < 2 ^ 24 := by
  rw [(adapter_set_service_classes_cases ops s v).1,
    (btd_adapter_set_class_cases ops s major minor).1]
  obtain ⟨a1, a2⟩ := service_classes_bits s.adapter.wanted_cod v
  obtain ⟨b1, b2⟩ := major_minor_bits s.adapter.wanted_cod major minor hw hminor
  refine ⟨a1, a2, ?_, b2, b1, ?_⟩
  · have h1 : ((s.adapter.wanted_cod &&& 0x00ffff) ||| (v <<< 16)) / 2 ^ 16 < 2 ^ 8 := by
      rw [a2]
      exact hv
    have := (Nat.div_lt_iff_lt_mul (by norm_num : 0 < 2 ^ 16)).1 h1
    omega
  · have h1 : ((s.adapter.wanted_cod &&& 0xffe000) ||| (((major &&& 0x1f) <<< 8) ||| minor))
        / 2 ^ 13 < 2 ^ 11 := by
      rw [b2]
      exact (Nat.div_lt_iff_lt_mul (by norm_num : 0 < 2 ^ 13)).2 (by omega)
    have := (Nat.div_lt_iff_lt_mul (by norm_num : 0 < 2 ^ 13)).1 h1
    omega

theorem class_update_touches_only_its_bits_witness :
    (adapter_set_service_classes (fun _ _ => 0)
        { adapter := { wanted_cod := 0x5a2104, cache_enable := true } } 0x12
      ).2.adapter.wanted_cod / 2 ^ 16 = 0x12 ∧
    (btd_adapter_set_class (fun _ _ => 0)
        { adapter := { wanted_cod := 0x5a2104, cache_enable := true } } 2 0x0c
      ).2.adapter.wanted_cod / 2 ^ 13 = 0x5a2104 / 2 ^ 13 :=
  have h := class_update_touches_only_its_bits (fun _ _ => 0)
    { adapter := { wanted_cod := 0x5a2104, cache_enable := true } } 0x12 2 0x0c
    (by decide) (by decide) (by decide)
  ⟨h.2.1, h.2.2.2.1⟩

/-! ## Class of device: convergence -/

theorem cod_writes_append (a b : List (HwCmd × Int)) :
    cod_writes (a ++ b) = cod_writes a ++ cod_writes b := by
  unfold cod_writes
  rw [List.filter_append]

/-- The last part of `adapter_set_class_complete`, on a hardware that accepts every command. -/
theorem class_complete_tail (ops : adapter_ops) (s4 : Sys) (hacc : ∀ h c, ops h c = 0)
    (t : Sys)
    (ht : t = if s4.adapter.wanted_cod = s4.adapter.current_cod then s4
      else
        let r :=
          if (s4.adapter.wanted_cod &&& LIMITED_BIT) ≠ 0 ∧
              (s4.adapter.current_cod &&& LIMITED_BIT) = 0 then
            hw_call ops s4 (HwCmd.set_limited_discoverable s4.adapter.wanted_cod true)
          else if (s4.adapter.wanted_cod &&& LIMITED_BIT) = 0 ∧
              (s4.adapter.current_cod &&& LIMITED_BIT) ≠ 0 then
            hw_call ops s4 (HwCmd.set_limited_discoverable s4.adapter.wanted_cod false)
          else hw_call ops s4 (HwCmd.set_class s4.adapter.wanted_cod)
        if r.1 = 0 then { r.2 with adapter.pending_cod := r.2.adapter.wanted_cod } else r.2) :
    t.adapter.current_cod = s4.adapter.current_cod ∧
    t.adapter.wanted_cod = s4.adapter.wanted_cod ∧
    t.adapter.cache_enable = s4.adapter.cache_enable ∧
    (s4.adapter.wanted_cod = s4.adapter.current_cod →
      t.adapter.pending_cod = s4.adapter.pending_cod ∧ t.hw = s4.hw) ∧
    (s4.adapter.wanted_cod ≠ s4.adapter.current_cod →
      t.adapter.pending_cod = s4.adapter.wanted_cod ∧
      ∃ c, c.is_cod_write = true ∧ t.hw = s4.hw ++ [(c, 0)]) := by
  subst ht
  by_cases hw : s4.adapter.wanted_cod = s4.adapter.current_cod
  · rw [if_pos hw]
    exact ⟨rfl, rfl, rfl, fun _ => ⟨rfl, rfl⟩, fun h => absurd hw h⟩
  · rw [if_neg hw]
    have e0 : ∀ c, (hw_call ops s4 c).1 = 0 := fun c => hacc _ _
    have e1 : ∀ c, (hw_call ops s4 c).2.hw = s4.hw ++ [(c, 0)] := fun c => by
      simp only [hw_call, hacc]
    by_cases c1 : (s4.adapter.wanted_cod &&& LIMITED_BIT) ≠ 0 ∧
        (s4.adapter.current_cod &&& LIMITED_BIT) = 0
    · rw [if_pos c1]
      dsimp only []
      rw [if_pos (e0 _)]
      exact ⟨rfl, rfl, rfl, fun h => absurd h hw,
        fun _ => ⟨rfl, HwCmd.set_limited_discoverable _ true, rfl, e1 _⟩⟩
    · rw [if_neg c1]
      by_cases c2 : (s4.adapter.wanted_cod &&& LIMITED_BIT) = 0 ∧
          (s4.adapter.current_cod &&& LIMITED_BIT) ≠ 0
      · rw [if_pos c2]
        dsimp only []
        rw [if_pos (e0 _)]
        exact ⟨rfl, rfl, rfl, fun h => absurd h hw,
          fun _ => ⟨rfl, HwCmd.set_limited_discoverable _ false, rfl, e1 _⟩⟩
      · rw [if_neg c2]
        dsimp only []
        rw [if_pos (e0 _)]
        exact ⟨rfl, rfl, rfl, fun h => absurd h hw,
          fun _ => ⟨rfl, HwCmd.set_class _, rfl, e1 _⟩⟩

/-- A successful completion while a write is pending, on a hardware that accepts every
command: `current` takes the pending value; when `wanted` is that value nothing is written and
nothing is pending; otherwise exactly one class write is issued and `pending` becomes
`wanted`. -/
theorem adapter_set_class_complete_cases (ops : adapter_ops) (s : Sys)
    (hacc : ∀ h c, ops h c = 0) (hp : s.adapter.pending_cod ≠ 0) :
    (adapter_set_class_complete ops s 0).adapter.current_cod = s.adapter.pending_cod ∧
    (adapter_set_class_complete ops s 0).adapter.wanted_cod = s.adapter.wanted_cod ∧
    (adapter_set_class_complete ops s 0).adapter.cache_enable = s.adapter.cache_enable ∧
    (s.adapter.wanted_cod = s.adapter.pending_cod →
      (adapter_set_class_complete ops s 0).adapter.pending_cod = 0 ∧
      ∃ l, (adapter_set_class_complete ops s 0).hw = s.hw ++ l ∧ cod_writes l = []) ∧
    (s.adapter.wanted_cod ≠ s.adapter.pending_cod →
      (adapter_set_class_complete ops s 0).adapter.pending_cod = s.adapter.wanted_cod ∧
      ∃ l, (adapter_set_class_complete ops s 0).hw = s.hw ++ l ∧ (cod_writes l).length = 1) := by
  obtain ⟨l, hl, hl2⟩ := update_ext_inquiry_response_cod_writes ops
    (emit_property_changed
      (write_local_class
        { s with adapter.current_cod := s.adapter.pending_cod, adapter.pending_cod := 0 }
        (s.adapter.pending_cod % 0x1000000))
      "Class" (PropValue.uint32 s.adapter.pending_cod))
  have ha := update_ext_inquiry_response_adapter ops
    (emit_property_changed
      (write_local_class
        { s with adapter.current_cod := s.adapter.pending_cod, adapter.pending_cod := 0 }
        (s.adapter.pending_cod % 0x1000000))
      "Class" (PropValue.uint32 s.adapter.pending_cod))
  have hl0 : (update_ext_inquiry_response ops
    (emit_property_changed
      (write_local_class
        { s with adapter.current_cod := s.adapter.pending_cod, adapter.pending_cod := 0 }
        (s.adapter.pending_cod % 0x1000000))
      "Class" (PropValue.uint32 s.adapter.pending_cod))).hw = s.hw ++ l := hl
  obtain ⟨h1, h2, h3, h4, h5⟩ := class_complete_tail ops
    (update_ext_inquiry_response ops
      (emit_property_changed
        (write_local_class
          { s with adapter.current_cod := s.adapter.pending_cod, adapter.pending_cod := 0 }
          (s.adapter.pending_cod % 0x1000000))
        "Class" (PropValue.uint32 s.adapter.pending_cod))) hacc
    (adapter_set_class_complete ops s 0) (by
      unfold adapter_set_class_complete
      rw [if_neg (by simp), if_neg hp]
      rfl)
  rw [ha] at h1 h2 h3 h4 h5
  refine ⟨h1, h2, h3, fun h => ?_, fun h => ?_⟩
  · obtain ⟨e1, e2⟩ := h4 h
    exact ⟨e1, l, e2.trans hl0, hl2⟩
  · obtain ⟨e1, c, hc, e2⟩ := h5 h
    refine ⟨e1, l ++ [(c, 0)], ?_, ?_⟩
    · rw [e2, hl0, List.append_assoc]
    · rw [cod_writes_append, hl2]
      simp [cod_writes, hc]

/-- While a write is pending, an update of `wanted` by a client issues no class write and
leaves `current`, `pending` and the cache flag as they are. -/
theorem cod_change_while_pending (ops : adapter_ops) (s : Sys) (c : CodOp)
    (hc : c.is_change = true) (hp : s.adapter.pending_cod ≠ 0) :
    (cod_step ops s c).adapter.pending_cod = s.adapter.pending_cod ∧
    (cod_step ops s c).adapter.current_cod = s.adapter.current_cod ∧
    ∃ l, (cod_step ops s c).hw = s.hw ++ l ∧ cod_writes l = [] := by
  cases c with
  | set_service_classes v =>
    obtain ⟨-, h2, -, -, h5⟩ := adapter_set_service_classes_cases ops s v
    obtain ⟨h6, h7⟩ := h5 (fun h => hp h.2.1)
    exact ⟨h7, h2, h6⟩
  | set_major_minor major minor =>
    obtain ⟨-, h2, -, -, h5⟩ := btd_adapter_set_class_cases ops s major minor
    obtain ⟨h6, h7⟩ := h5 (fun h => hp h.2.1)
    exact ⟨h7, h2, [], by rw [List.append_nil]; exact h6, rfl⟩
  | set_limited _ => exact absurd hc (by simp [CodOp.is_change])
  | disable_cache => exact absurd hc (by simp [CodOp.is_change])
  | write_complete _ => exact absurd hc (by simp [CodOp.is_change])

/-- C13, amended: one class write is pending on a hardware that accepts and
completes every write, it is the only class write issued so far, and `wanted` is updated twice
through `set_service_classes` / `set_major_minor` before the completion arrives. If the final
`wanted` differs from the pending value and is not zero, then once both completions have been
delivered exactly 2 class writes have been issued in total, `current = wanted` is the final
`wanted`, and nothing is pending. -/
theorem class_converges_after_two_changes (ops : adapter_ops) (s : Sys) (c1 c2 : CodOp)
    (hacc : ∀ h c, ops h c = 0)
    (hp : s.adapter.pending_cod ≠ 0)
    (hone : (cod_writes s.hw).length = 1)
    (h1 : c1.is_change = true) (h2 : c2.is_change = true)
    (hw : (cod_run ops s [c1, c2]).adapter.wanted_cod ≠ s.adapter.pending_cod)
    (hz : (cod_run ops s [c1, c2]).adapter.wanted_cod ≠ 0) :
    (cod_writes (cod_run ops s
        [c1, c2, CodOp.write_complete 0, CodOp.write_complete 0]).hw).length = 2 ∧
    (cod_run ops s [c1, c2, CodOp.write_complete 0, CodOp.write_complete 0]).adapter.current_cod
      = (cod_run ops s [c1, c2]).adapter.wanted_cod ∧
    (cod_run ops s [c1, c2, CodOp.write_complete 0, CodOp.write_complete 0]).adapter.wanted_cod
      = (cod_run ops s [c1, c2]).adapter.wanted_cod ∧
    (cod_run ops s [c1, c2, CodOp.write_complete 0, CodOp.write_complete 0]).adapter.pending_cod
      = 0 := by
  obtain ⟨a1, -, l1, b1, d1⟩ := cod_change_while_pending ops s c1 h1 hp
  obtain ⟨a2, -, l2, b2, d2⟩ := cod_change_while_pending ops (cod_step ops s c1) c2 h2
    (by rw [a1]; exact hp)
  have e2 : cod_run ops s [c1, c2] = cod_step ops (cod_step ops s c1) c2 := rfl
  rw [e2] at hw hz ⊢
  have hp2 : (cod_step ops (cod_step ops s c1) c2).adapter.pending_cod ≠ 0 := by
    rw [a2, a1]; exact hp
  obtain ⟨f1, f2, -, -, f5⟩ := adapter_set_class_complete_cases ops
    (cod_step ops (cod_step ops s c1) c2) hacc hp2
  obtain ⟨g1, l3, g2, g3⟩ := f5 (by rw [a2, a1]; exact hw)
  have hp3 : (adapter_set_class_complete ops
      (cod_step ops (cod_step ops s c1) c2) 0).adapter.pending_cod ≠ 0 := by
    rw [g1]; exact hz
  obtain ⟨k1, k2, -, k4, -⟩ := adapter_set_class_complete_cases ops
    (adapter_set_class_complete ops (cod_step ops (cod_step ops s c1) c2) 0) hacc hp3
  obtain ⟨m1, l4, m2, m3⟩ := k4 (by rw [f2, g1])
  have e4 : cod_run ops s [c1, c2, CodOp.write_complete 0, CodOp.write_complete 0]
      = adapter_set_class_complete ops
          (adapter_set_class_complete ops (cod_step ops (cod_step ops s c1) c2) 0) 0 := rfl
  rw [e4]
  refine ⟨?_, ?_, ?_, m1⟩
  · rw [m2, g2, b2, b1]
    simp only [cod_writes_append, List.length_append, d1, d2, m3, g3, hone, List.length_nil]
  · rw [k1, g1]
  · rw [k2, f2]

theorem class_converges_after_two_changes_witness :
    (cod_writes (cod_run accepting_ops class_write_pending
        [CodOp.set_service_classes 2, CodOp.set_major_minor 2 4,
          CodOp.write_complete 0, CodOp.write_complete 0]).hw).length = 2 ∧
    (cod_run accepting_ops class_write_pending
        [CodOp.set_service_classes 2, CodOp.set_major_minor 2 4,
          CodOp.write_complete 0, CodOp.write_complete 0]).adapter.current_cod
      = (cod_run accepting_ops class_write_pending
          [CodOp.set_service_classes 2, CodOp.set_major_minor 2 4]).adapter.wanted_cod ∧
    (cod_run accepting_ops class_write_pending
        [CodOp.set_service_classes 2, CodOp.set_major_minor 2 4,
          CodOp.write_complete 0, CodOp.write_complete 0]).adapter.wanted_cod
      = (cod_run accepting_ops class_write_pending
          [CodOp.set_service_classes 2, CodOp.set_major_minor 2 4]).adapter.wanted_cod ∧
    (cod_run accepting_ops class_write_pending
        [CodOp.set_service_classes 2, CodOp.set_major_minor 2 4,
          CodOp.write_complete 0, CodOp.write_complete 0]).adapter.pending_cod = 0 :=
  class_converges_after_two_changes accepting_ops class_write_pending
    (CodOp.set_service_classes 2) (CodOp.set_major_minor 2 4)
    (fun _ _ => rfl) (by decide) (by decide) rfl rfl (by decide) (by decide)

/-- C13, as stated, fails: one write (of `0x010100`) is pending and is the only class write
issued so far; the service classes are changed to 2 and then back to 1 before the completion
arrives. After the completion nothing is pending and `current = wanted`, yet only 1 class
write has been issued in total: the final `wanted` is the value already written. -/
theorem class_two_changes_one_write :
    class_write_pending.adapter.cache_enable = false ∧
    class_write_pending.adapter.pending_cod = 0x10100 ∧
    (cod_writes class_write_pending.hw).length = 1 ∧
    (cod_run accepting_ops class_write_pending
        [CodOp.set_service_classes 2]).adapter.wanted_cod = 0x20100 ∧
    (cod_run accepting_ops class_write_pending
        [CodOp.set_service_classes 2, CodOp.set_service_classes 1]).adapter.wanted_cod
      = 0x10100 ∧
    (cod_run accepting_ops class_write_pending
        [CodOp.set_service_classes 2, CodOp.set_service_classes 1,
          CodOp.write_complete 0]).adapter.pending_cod = 0 ∧
    (cod_run accepting_ops class_write_pending
        [CodOp.set_service_classes 2, CodOp.set_service_classes 1,
          CodOp.write_complete 0]).adapter.current_cod
      = (cod_run accepting_ops class_write_pending
          [CodOp.set_service_classes 2, CodOp.set_service_classes 1,
            CodOp.write_complete 0]).adapter.wanted_cod ∧
    (cod_writes (cod_run accepting_ops class_write_pending
        [CodOp.set_service_classes 2, CodOp.set_service_classes 1,
          CodOp.write_complete 0]).hw).length = 1 := by
  decide

/-- C15 fails on the code: two runs of the class-of-device operations on a hardware that
accepts every write, each ending with two class writes issued and none completed. In the
first, `set_major_minor 0 0` writes the class `0`, which leaves the pending marker at its
"none" value, and `set_service_classes 1` writes again. In the second, the limited toggle
writes while the cache is enabled and `disable_cache` writes again without looking at the
pending marker. -/
theorem class_writes_in_flight_exceed_one :
    writes_in_flight accepting_ops class_settled
      [CodOp.set_major_minor 0 0, CodOp.set_service_classes 1] = 2 ∧
    cod_writes (hw_issued class_settled (cod_run accepting_ops class_settled
      [CodOp.set_major_minor 0 0, CodOp.set_service_classes 1]))
      = [(HwCmd.set_class 0, 0), (HwCmd.set_class 0x10000, 0)] ∧
    writes_in_flight accepting_ops class_cached
      [CodOp.set_limited true, CodOp.disable_cache] = 2 ∧
    cod_writes (hw_issued class_cached (cod_run accepting_ops class_cached
      [CodOp.set_limited true, CodOp.disable_cache]))
      = [(HwCmd.set_limited_discoverable 0x2000 true, 0), (HwCmd.set_class 0x2000, 0)] := by
  decide

/-! ## Found devices: order -/

theorem dev_rssi_cmp_le_iff (a b : remote_dev_info) :
    dev_rssi_cmp a b ≤ 0 ↔ a.rssi.natAbs ≤ b.rssi.natAbs := by
  unfold dev_rssi_cmp
  simp only []
  split_ifs <;> omega

theorem g_slist_sort_perm (l : List remote_dev_info) : (g_slist_sort l).Perm l :=
  List.perm_insertionSort _ l

theorem g_slist_sort_ascending (l : List remote_dev_info) :
    ascending_abs_rssi (g_slist_sort l) := by
  haveI : IsTotal remote_dev_info (fun a b => dev_rssi_cmp a b ≤ 0) :=
    ⟨fun a b => by simp only [dev_rssi_cmp_le_iff]; omega⟩
  haveI : IsTrans remote_dev_info (fun a b => dev_rssi_cmp a b ≤ 0) :=
    ⟨fun a b c => by simp only [dev_rssi_cmp_le_iff]; omega⟩
  have h := List.sorted_insertionSort (fun a b => dev_rssi_cmp a b ≤ 0) l
  exact List.Pairwise.imp (fun {a b} hab => (dev_rssi_cmp_le_iff a b).1 hab) h

theorem adapter_update_found_devices_done_found (s : Sys) (dev : remote_dev_info) (rssi : Int)
    (eir : Option (List Nat)) :
    (adapter_update_found_devices_done s dev rssi eir).adapter.found_devices
      = g_slist_sort (s.adapter.found_devices.map
          (fun d => if d.ptr = dev.ptr then { d with rssi := rssi } else d)) ∧
    (adapter_update_found_devices_done s dev rssi eir).dbus
      = s.dbus ++ [DBusOut.device_found dev.bdaddr rssi] ∧
    (adapter_update_found_devices_done s dev rssi eir).adapter.oor_devices
      = s.adapter.oor_devices ∧
    (adapter_update_found_devices_done s dev rssi eir).next_ptr = s.next_ptr :=
  ⟨rfl, rfl, rfl, rfl⟩

/-- C18, amended: a call of `adapter_update_found_devices` returns early exactly when its
lookup finds a record whose signal strength is the one reported: then the found set and the
D-Bus log are as they were. In every other case, whether the lookup finds a record with
another signal strength or finds none, the found set it leaves holds the records it had
(with the new signal strength written to the record found, or with the new record added) and
is ordered by non-decreasing absolute signal strength (weakest magnitude first), the order
that `g_slist_sort` builds from `dev_rssi_cmp`; and the sighting is announced. -/
theorem found_set_sorted_ascending (s : Sys) (bdaddr : bdaddr_t) (rssi : Int) (dev_class : Nat)
    (name dev_alias : Option String) (legacy : Bool) (name_status : Nat)
    (eir_data : Option (List Nat)) :
    (∀ dev, adapter_search_found_devices s.adapter
        { match_zero with bdaddr := bdaddr, name_status := NAME_ANY } = some dev →
      rssi = dev.rssi →
      (adapter_update_found_devices s bdaddr rssi dev_class name dev_alias legacy name_status
          eir_data).adapter.found_devices = s.adapter.found_devices ∧
      (adapter_update_found_devices s bdaddr rssi dev_class name dev_alias legacy name_status
          eir_data).dbus = s.dbus) ∧
    (∀ dev, adapter_search_found_devices s.adapter
        { match_zero with bdaddr := bdaddr, name_status := NAME_ANY } = some dev →
      rssi ≠ dev.rssi →
      ascending_abs_rssi (adapter_update_found_devices s bdaddr rssi dev_class name dev_alias
          legacy name_status eir_data).adapter.found_devices ∧
      (adapter_update_found_devices s bdaddr rssi dev_class name dev_alias legacy name_status
          eir_data).adapter.found_devices.Perm
        (s.adapter.found_devices.map
          (fun d => if d.ptr = dev.ptr then { d with rssi := rssi } else d)) ∧
      (adapter_update_found_devices s bdaddr rssi dev_class name dev_alias legacy name_status
          eir_data).dbus = s.dbus ++ [DBusOut.device_found dev.bdaddr rssi]) ∧
    (adapter_search_found_devices s.adapter
        { match_zero with bdaddr := bdaddr, name_status := NAME_ANY } = none →
      ascending_abs_rssi (adapter_update_found_devices s bdaddr rssi dev_class name dev_alias
          legacy name_status eir_data).adapter.found_devices ∧
      (adapter_update_found_devices s bdaddr rssi dev_class name dev_alias legacy name_status
          eir_data).adapter.found_devices.Perm
        (({ ptr := s.next_ptr + 1, bdaddr := bdaddr, rssi := 0, dev_class := dev_class,
            name := name, dev_alias := dev_alias, legacy := legacy,
            name_status := name_status } :: s.adapter.found_devices).map
          (fun d => if d.ptr = s.next_ptr + 1 then { d with rssi := rssi } else d)) ∧
      (∃ d ∈ (adapter_update_found_devices s bdaddr rssi dev_class name dev_alias legacy
          name_status eir_data).adapter.found_devices, d.bdaddr = bdaddr ∧ d.rssi = rssi) ∧
      (adapter_update_found_devices s bdaddr rssi dev_class name dev_alias legacy name_status
          eir_data).dbus = s.dbus ++ [DBusOut.device_found bdaddr rssi]) := by
  refine ⟨?_, ?_, ?_⟩
  · intro dev hl hr
    unfold adapter_update_found_devices
    rw [hl]
    simp only [if_pos hr]
    exact ⟨trivial, trivial⟩
  · intro dev hl hr
    unfold adapter_update_found_devices
    rw [hl]
    simp only [if_neg hr]
    exact ⟨g_slist_sort_ascending _, g_slist_sort_perm _, rfl⟩
  · intro hl
    unfold adapter_update_found_devices
    rw [hl]
    refine ⟨g_slist_sort_ascending _, g_slist_sort_perm _, ?_, rfl⟩
    refine ⟨{ ptr := s.next_ptr + 1, bdaddr := bdaddr, rssi := rssi, dev_class := dev_class,
              name := name, dev_alias := dev_alias, legacy := legacy,
              name_status := name_status }, ?_, rfl, rfl⟩
    apply (g_slist_sort_perm _).mem_iff.2
    rw [List.map_cons, if_pos rfl]
    exact List.mem_cons_self _ _

theorem found_set_sorted_ascending_witness :
    ascending_abs_rssi (adapter_update_found_devices two_found 5 (-60) 0 none none false
        NAME_NOT_REQUIRED none).adapter.found_devices ∧
    (adapter_update_found_devices two_found 5 (-60) 0 none none false
        NAME_NOT_REQUIRED none).adapter.found_devices.Perm
      (two_found.adapter.found_devices.map
        (fun d => if d.ptr = record_five.ptr then { d with rssi := -60 } else d)) ∧
    (adapter_update_found_devices two_found 5 (-60) 0 none none false
        NAME_NOT_REQUIRED none).dbus
      = two_found.dbus ++ [DBusOut.device_found record_five.bdaddr (-60)] :=
  (found_set_sorted_ascending two_found 5 (-60) 0 none none false NAME_NOT_REQUIRED none).2.1
    record_five (by decide) (by decide)

/-- C18, as stated, fails: the device `5` is sighted at -90 and then the device `6` at
-40. The found set then lists `6` (magnitude 40) before `5` (magnitude 90): it is not in
descending order of absolute signal strength. -/
theorem found_set_not_descending :
    found_view (sight (sight nothing_found { bdaddr := 5, rssi := -90 })
        { bdaddr := 6, rssi := -40 }) = [(6, -40), (5, -90)] ∧
    ¬ descending_abs_rssi (sight (sight nothing_found { bdaddr := 5, rssi := -90 })
        { bdaddr := 6, rssi := -40 }).adapter.found_devices := by
  decide

/-! ## Found devices: lookup and uniqueness -/

theorem bacmp_eq_zero_iff (a b : bdaddr_t) : bacmp a b = 0 ↔ a = b := by
  unfold bacmp
  split_ifs <;> simp [*]

/-- The lookup used for a sighting matches a record iff the sighted address is the all-zero
address or is the record's address. -/
theorem found_device_cmp_any (d : remote_dev_info) (x : bdaddr_t) :
    found_device_cmp d { match_zero with bdaddr := x, name_status := NAME_ANY } = 0
      ↔ (x = BDADDR_ANY ∨ d.bdaddr = x) := by
  unfold found_device_cmp
  simp only [ne_eq, bacmp_eq_zero_iff, not_true_eq_false, false_and, if_false]
  by_cases h : ¬ x = BDADDR_ANY ∧ ¬ d.bdaddr = x
  · rw [if_pos h]
    simp only [bacmp_eq_zero_iff]
    tauto
  · rw [if_neg h]
    simp only [true_iff]
    tauto

/-- When the lookup of a sighting finds nothing, no record of the found set has the sighted
address. -/
theorem search_none_address (a : btd_adapter) (x : bdaddr_t)
    (h : adapter_search_found_devices a { match_zero with bdaddr := x, name_status := NAME_ANY }
      = none) :
    ∀ d ∈ a.found_devices, d.bdaddr ≠ x := by
  intro d hd hx
  unfold adapter_search_found_devices at h
  rw [List.find?_eq_none] at h
  have := h d hd
  simp only [decide_eq_true_eq] at this
  exact this ((found_device_cmp_any d x).2 (Or.inr hx))

theorem search_some_mem (a : btd_adapter) (m dev : remote_dev_info)
    (h : adapter_search_found_devices a m = some dev) :
    dev ∈ a.found_devices ∧ found_device_cmp dev m = 0 := by
  unfold adapter_search_found_devices at h
  refine ⟨List.mem_of_find?_eq_some h, ?_⟩
  have := List.find?_some h
  simpa using this

theorem map_rssi_addresses (l : List remote_dev_info) (p : Nat) (r : Int) :
    (l.map (fun d => if d.ptr = p then { d with rssi := r } else d)).map (fun d => d.bdaddr)
      = l.map (fun d => d.bdaddr) := by
  rw [List.map_map]
  apply List.map_congr_left
  intro d _
  simp only [Function.comp]
  split_ifs <;> rfl

theorem map_status_addresses (l : List remote_dev_info) (p : Nat) (v : Nat) :
    (l.map (fun d => if d.ptr = p then { d with name_status := v } else d)).map
        (fun d => d.bdaddr)
      = l.map (fun d => d.bdaddr) := by
  rw [List.map_map]
  apply List.map_congr_left
  intro d _
  simp only [Function.comp]
  split_ifs <;> rfl

theorem done_addresses_perm (s : Sys) (dev : remote_dev_info) (rssi : Int)
    (eir : Option (List Nat)) :
    (found_addresses (adapter_update_found_devices_done s dev rssi eir)).Perm
      (found_addresses s) := by
  unfold found_addresses
  rw [(adapter_update_found_devices_done_found s dev rssi eir).1]
  have := (g_slist_sort_perm (s.adapter.found_devices.map
    (fun d => if d.ptr = dev.ptr then { d with rssi := rssi } else d))).map (fun d => d.bdaddr)
  rw [map_rssi_addresses] at this
  exact this

theorem adapter_update_found_devices_unique (s : Sys) (e : sighting)
    (h : unique_by_address s) : unique_by_address (sight s e) := by
  unfold sight adapter_update_found_devices
  cases hs : adapter_search_found_devices s.adapter
      { match_zero with bdaddr := e.bdaddr, name_status := NAME_ANY } with
  | none =>
    simp only []
    refine (done_addresses_perm _ _ _ _).nodup_iff.2 ?_
    show (e.bdaddr :: found_addresses s).Nodup
    refine List.nodup_cons.2 ⟨?_, h⟩
    intro hm
    unfold found_addresses at hm
    obtain ⟨d, hd, hx⟩ := List.mem_map.1 hm
    exact search_none_address s.adapter e.bdaddr hs d hd hx
  | some dev =>
    simp only []
    by_cases hr : e.rssi = dev.rssi
    · rw [if_pos hr]
      exact h
    · rw [if_neg hr]
      exact (done_addresses_perm _ _ _ _).nodup_iff.2 h

theorem emit_device_disappeared_found (heap : List remote_dev_info) (s : Sys) (p : Nat) :
    (emit_device_disappeared heap s p).adapter.found_devices
      = s.adapter.found_devices.eraseP (fun d => decide (d.ptr = p)) ∧
    (emit_device_disappeared heap s p).dbus
      = s.dbus ++ [DBusOut.device_disappeared (oor_address heap p)] ∧
    (emit_device_disappeared heap s p).next_ptr = s.next_ptr :=
  ⟨rfl, rfl, rfl⟩

/-- The sweep loop: the found set loses, for each pointer in turn, the first record with that
pointer, and one DeviceDisappeared is sent per pointer. -/
theorem sweep_loop (heap : List remote_dev_info) (oor : List Nat) (s : Sys) :
    (oor.foldl (emit_device_disappeared heap) s).adapter.found_devices
      = oor.foldl (fun l p => l.eraseP (fun d => decide (d.ptr = p))) s.adapter.found_devices ∧
    (oor.foldl (emit_device_disappeared heap) s).dbus
      = s.dbus ++ oor.map (fun p => DBusOut.device_disappeared (oor_address heap p)) ∧
    (oor.foldl (emit_device_disappeared heap) s).next_ptr = s.next_ptr := by
  induction oor generalizing s with
  | nil => exact ⟨rfl, (List.append_nil _).symm, rfl⟩
  | cons p oor ih =>
    obtain ⟨h1, h2, h3⟩ := ih (emit_device_disappeared heap s p)
    obtain ⟨e1, e2, e3⟩ := emit_device_disappeared_found heap s p
    simp only [List.foldl_cons, List.map_cons]
    refine ⟨?_, ?_, ?_⟩
    · rw [h1, e1]
    · rw [h2, e2, List.append_assoc]
      rfl
    · rw [h3, e3]

theorem erase_loop_sublist (oor : List Nat) (l : List remote_dev_info) :
    (oor.foldl (fun l p => l.eraseP (fun d => decide (d.ptr = p))) l).Sublist l := by
  induction oor generalizing l with
  | nil => exact List.Sublist.refl _
  | cons p oor ih =>
    exact (ih _).trans (List.eraseP_sublist _)

theorem update_oor_devices_found (s : Sys) :
    (update_oor_devices s).adapter.found_devices
      = s.adapter.oor_devices.foldl (fun l p => l.eraseP (fun d => decide (d.ptr = p)))
          s.adapter.found_devices ∧
    (update_oor_devices s).dbus
      = s.dbus ++ s.adapter.oor_devices.map
          (fun p => DBusOut.device_disappeared (oor_address s.adapter.found_devices p)) ∧
    (update_oor_devices s).adapter.oor_devices
      = (update_oor_devices s).adapter.found_devices.map (fun d => d.ptr) ∧
    (update_oor_devices s).next_ptr = s.next_ptr := by
  obtain ⟨h1, h2, h3⟩ := sweep_loop s.adapter.found_devices s.adapter.oor_devices s
  exact ⟨h1, h2, rfl, h3⟩

theorem stop_discovery_found (ops : adapter_ops) (s : Sys) (suspend : Bool) :
    (stop_discovery ops s suspend).adapter.found_devices
      = if suspend = false then [] else s.adapter.found_devices := by
  unfold stop_discovery pending_remote_name_cancel
  cases adapter_search_found_devices s.adapter
      { match_zero with bdaddr := BDADDR_ANY, name_status := NAME_REQUESTED } <;>
    simp only [hw_call, g_source_remove] <;> split_ifs <;> rfl

/-- C19: if no two records of the found set have the same address, this is still so
after a call of `adapter_update_found_devices` for any address (the all-zero one included),
after the out-of-range sweep, after `adapter_remove_found_device` and after
`stop_discovery`. -/
theorem found_set_unique_by_address (ops : adapter_ops) (s : Sys) (h : unique_by_address s) :
    (∀ (bdaddr : bdaddr_t) (rssi : Int) (dev_class : Nat) (name dev_alias : Option String)
        (legacy : Bool) (name_status : Nat) (eir_data : Option (List Nat)),
      unique_by_address (adapter_update_found_devices s bdaddr rssi dev_class name dev_alias
        legacy name_status eir_data)) ∧
    unique_by_address (update_oor_devices s) ∧
    (∀ bdaddr, unique_by_address (adapter_remove_found_device s bdaddr).2) ∧
    (∀ suspend, unique_by_address (stop_discovery ops s suspend)) := by
  refine ⟨?_, ?_, ?_, ?_⟩
  · intro bdaddr rssi dev_class name dev_alias legacy name_status eir_data
    exact adapter_update_found_devices_unique s
      { bdaddr := bdaddr, rssi := rssi, dev_class := dev_class, name := name,
        dev_alias := dev_alias, legacy := legacy, name_status := name_status,
        eir_data := eir_data } h
  · unfold unique_by_address found_addresses
    rw [(update_oor_devices_found s).1]
    exact ((erase_loop_sublist _ _).map _).nodup h
  · intro bdaddr
    unfold adapter_remove_found_device
    cases adapter_search_found_devices s.adapter { match_zero with bdaddr := bdaddr } with
    | none => exact h
    | some dev =>
      unfold unique_by_address found_addresses
      simp only []
      rw [map_status_addresses]
      exact h
  · intro suspend
    unfold unique_by_address found_addresses
    rw [stop_discovery_found]
    split_ifs
    · exact List.nodup_nil
    · exact h

theorem found_set_unique_by_address_witness :
    unique_by_address two_found ∧
    unique_by_address (adapter_update_found_devices two_found 0 (-90) 0 none none false
      NAME_NOT_REQUIRED none) ∧
    unique_by_address (update_oor_devices two_found) :=
  ⟨by decide,
    (found_set_unique_by_address accepting_ops two_found (by decide)).1 0 (-90) 0 none none
      false NAME_NOT_REQUIRED none,
    (found_set_unique_by_address accepting_ops two_found (by decide)).2.1⟩

/-! ## Found devices: repeated sightings -/

theorem mem_g_slist_sort (l : List remote_dev_info) (d : remote_dev_info) :
    d ∈ g_slist_sort l ↔ d ∈ l :=
  (g_slist_sort_perm l).mem_iff

/-- A record of the found set after the part `done`: a record from before, with the signal
strength replaced if it is the one pointed to. -/
theorem mem_done_found (s : Sys) (dev : remote_dev_info) (rssi : Int) (eir : Option (List Nat))
    (d : remote_dev_info) :
    d ∈ (adapter_update_found_devices_done s dev rssi eir).adapter.found_devices ↔
      ∃ c ∈ s.adapter.found_devices,
        d = if c.ptr = dev.ptr then { c with rssi := rssi } else c := by
  rw [(adapter_update_found_devices_done_found s dev rssi eir).1, mem_g_slist_sort,
    List.mem_map]
  constructor
  · rintro ⟨c, hc, rfl⟩
    exact ⟨c, hc, rfl⟩
  · rintro ⟨c, hc, rfl⟩
    exact ⟨c, hc, rfl⟩

theorem upd_rssi_bdaddr (c : remote_dev_info) (p : Nat) (r : Int) :
    (if c.ptr = p then { c with rssi := r } else c).bdaddr = c.bdaddr := by
  split_ifs <;> rfl

/-- The lookup of a sighting of an address other than the all-zero one, when the found set
holds that address once: it returns that record. -/
theorem search_of_holds_once (s : Sys) (x : bdaddr_t) (r : Int) (hx : x ≠ BDADDR_ANY)
    (hP : holds_once s x r) :
    ∃ dev, adapter_search_found_devices s.adapter
        { match_zero with bdaddr := x, name_status := NAME_ANY } = some dev ∧
      dev ∈ s.adapter.found_devices ∧ dev.bdaddr = x ∧ dev.rssi = r ∧
      ∀ e ∈ s.adapter.found_devices, e.bdaddr = x → e = dev := by
  obtain ⟨d, hd, hdx, hdr, hu⟩ := hP
  cases hs : adapter_search_found_devices s.adapter
      { match_zero with bdaddr := x, name_status := NAME_ANY } with
  | none => exact absurd hdx (search_none_address s.adapter x hs d hd)
  | some dev =>
    obtain ⟨hm, hc⟩ := search_some_mem s.adapter _ dev hs
    have hb : dev.bdaddr = x := by
      rcases (found_device_cmp_any dev x).1 hc with h | h
      · exact absurd h hx
      · exact h
    have := hu dev hm hb
    subst this
    exact ⟨dev, rfl, hm, hb, hdr, hu⟩

/-- A first sighting of an address other than the all-zero one: the address is not in the
found set. One DeviceFound is sent and the found set then holds the address once, with the
sighted signal strength. -/
theorem sight_new (s : Sys) (e : sighting) (hx : e.bdaddr ≠ BDADDR_ANY)
    (hnew : ∀ d ∈ s.adapter.found_devices, d.bdaddr ≠ e.bdaddr) :
    (sight s e).dbus = s.dbus ++ [DBusOut.device_found e.bdaddr e.rssi] ∧
    holds_once (sight s e) e.bdaddr e.rssi := by
  unfold sight adapter_update_found_devices
  cases hs : adapter_search_found_devices s.adapter
      { match_zero with bdaddr := e.bdaddr, name_status := NAME_ANY } with
  | some dev =>
    obtain ⟨hm, hc⟩ := search_some_mem s.adapter _ dev hs
    rcases (found_device_cmp_any dev e.bdaddr).1 hc with h | h
    · exact absurd h hx
    · exact absurd h (hnew dev hm)
  | none =>
    simp only []
    refine ⟨rfl, ?_⟩
    unfold holds_once
    simp only [mem_done_found, List.mem_cons]
    refine ⟨_, ⟨_, Or.inl rfl, rfl⟩, ?_, ?_, ?_⟩
    · rw [upd_rssi_bdaddr]
    · rw [if_pos rfl]
    · rintro d ⟨c, hc, rfl⟩ hb
      rw [upd_rssi_bdaddr] at hb
      rcases hc with rfl | hc
      · rfl
      · exact absurd hb (hnew c hc)

/-- A sighting of an address that the found set holds once, with the signal strength it has:
nothing is sent and the found set is unchanged. -/
theorem sight_known_same (s : Sys) (e : sighting) (hx : e.bdaddr ≠ BDADDR_ANY)
    (hP : holds_once s e.bdaddr e.rssi) :
    (sight s e).dbus = s.dbus ∧
    (sight s e).adapter.found_devices = s.adapter.found_devices := by
  obtain ⟨dev, hs, -, -, hr, -⟩ := search_of_holds_once s e.bdaddr e.rssi hx hP
  unfold sight adapter_update_found_devices
  rw [hs]
  simp only []
  rw [if_pos hr.symm]
  exact ⟨rfl, rfl⟩

/-- A sighting of an address that the found set holds once, with another signal strength:
one DeviceFound is sent and the record has the new signal strength. -/
theorem sight_known_diff (s : Sys) (e : sighting) (r : Int) (hx : e.bdaddr ≠ BDADDR_ANY)
    (hP : holds_once s e.bdaddr r) (hr : e.rssi ≠ r) :
    (sight s e).dbus = s.dbus ++ [DBusOut.device_found e.bdaddr e.rssi] ∧
    holds_once (sight s e) e.bdaddr e.rssi := by
  obtain ⟨dev, hs, hm, hb, hdr, hu⟩ := search_of_holds_once s e.bdaddr r hx hP
  unfold sight adapter_update_found_devices
  rw [hs]
  simp only []
  rw [if_neg (by rw [hdr]; exact hr)]
  refine ⟨by rw [(adapter_update_found_devices_done_found _ _ _ _).2.1, hb], ?_⟩
  unfold holds_once
  simp only [mem_done_found]
  refine ⟨_, ⟨dev, hm, rfl⟩, ?_, ?_, ?_⟩
  · rw [upd_rssi_bdaddr, hb]
  · rw [if_pos rfl]
  · rintro d ⟨c, hc, rfl⟩ hcb
    rw [upd_rssi_bdaddr] at hcb
    rw [hu c hc hcb]

/-- C17, amended: an address other than the all-zero one that is not in the
found set is sighted twice in a row with the same signal strength. The two calls emit exactly
one DeviceFound: the second emits nothing and leaves the found set unchanged. A third
sighting with a different signal strength emits exactly one further DeviceFound, and the one
record of that address then has the new signal strength. -/
theorem sighting_twice_emits_once (s : Sys) (e : sighting) (r : Int)
    (hx : e.bdaddr ≠ BDADDR_ANY)
    (hnew : ∀ d ∈ s.adapter.found_devices, d.bdaddr ≠ e.bdaddr)
    (hr : r ≠ e.rssi) :
    dbus_issued s (sight (sight s e) e) = [DBusOut.device_found e.bdaddr e.rssi] ∧
    dbus_issued (sight s e) (sight (sight s e) e) = [] ∧
    (sight (sight s e) e).adapter.found_devices = (sight s e).adapter.found_devices ∧
    dbus_issued (sight (sight s e) e) (sight (sight (sight s e) e) { e with rssi := r })
      = [DBusOut.device_found e.bdaddr r] ∧
    holds_once (sight (sight (sight s e) e) { e with rssi := r }) e.bdaddr r := by
  obtain ⟨a1, a2⟩ := sight_new s e hx hnew
  obtain ⟨b1, b2⟩ := sight_known_same (sight s e) e hx a2
  have b3 : holds_once (sight (sight s e) e) e.bdaddr e.rssi := by
    unfold holds_once
    rw [b2]
    exact a2
  obtain ⟨c1, c2⟩ := sight_known_diff (sight (sight s e) e) { e with rssi := r } e.rssi hx b3 hr
  refine ⟨?_, ?_, b2, ?_, c2⟩
  · unfold dbus_issued
    rw [b1, a1, List.drop_left]
  · unfold dbus_issued
    rw [b1, List.drop_length]
  · unfold dbus_issued
    rw [c1, List.drop_left]

theorem sighting_twice_emits_once_witness :
    dbus_issued two_found
      (sight (sight two_found { bdaddr := 7, rssi := -60 }) { bdaddr := 7, rssi := -60 })
      = [DBusOut.device_found 7 (-60)] ∧
    holds_once
      (sight (sight (sight two_found { bdaddr := 7, rssi := -60 }) { bdaddr := 7, rssi := -60 })
        { bdaddr := 7, rssi := -30 }) 7 (-30) :=
  ⟨(sighting_twice_emits_once two_found { bdaddr := 7, rssi := -60 } (-30)
      (by decide) (by decide) (by decide)).1,
    (sighting_twice_emits_once two_found { bdaddr := 7, rssi := -60 } (-30)
      (by decide) (by decide) (by decide)).2.2.2.2⟩

/-- C17, as stated, fails: the found set holds the devices `5` (at -40) and `6` (at -50),
and the all-zero address is sighted twice in a row at -90. The lookup treats the all-zero
address as "any": the first call announces `5`, the second call announces `6` and changes the
found set. -/
theorem zero_address_sighted_twice_emits_twice :
    found_view two_found = [(5, -40), (6, -50)] ∧
    dbus_issued two_found (sight two_found { bdaddr := 0, rssi := -90 })
      = [DBusOut.device_found 5 (-90)] ∧
    dbus_issued (sight two_found { bdaddr := 0, rssi := -90 })
        (sight (sight two_found { bdaddr := 0, rssi := -90 }) { bdaddr := 0, rssi := -90 })
      = [DBusOut.device_found 6 (-90)] ∧
    found_view (sight two_found { bdaddr := 0, rssi := -90 }) = [(6, -50), (5, -90)] ∧
    found_view (sight (sight two_found { bdaddr := 0, rssi := -90 })
        { bdaddr := 0, rssi := -90 }) = [(6, -90), (5, -90)] := by
  decide

/-! ## The out-of-range sweep -/

theorem oor_address_of_mem (heap : List remote_dev_info) (d : remote_dev_info)
    (h : (heap.map (fun d => d.ptr)).Nodup) (hd : d ∈ heap) :
    oor_address heap d.ptr = d.bdaddr := by
  unfold oor_address
  cases hf : heap.find? (fun c => decide (c.ptr = d.ptr)) with
  | none =>
    rw [List.find?_eq_none] at hf
    have := hf d hd
    simp at this
  | some c =>
    have hc := List.mem_of_find?_eq_some hf
    have hp : c.ptr = d.ptr := by simpa using List.find?_some hf
    rw [List.inj_on_of_nodup_map h hc hd hp]

theorem found_ptrs_of_keys (s : Sys) :
    s.adapter.found_devices.map (fun d => d.ptr) = (found_keys s).map Prod.fst := by
  unfold found_keys
  rw [List.map_map]
  rfl

theorem found_addresses_of_keys (s : Sys) :
    found_addresses s = (found_keys s).map Prod.snd := by
  unfold found_keys found_addresses
  rw [List.map_map]
  rfl

theorem mem_found_keys (s : Sys) (p : Nat) (x : bdaddr_t) :
    (p, x) ∈ found_keys s ↔ ∃ d ∈ s.adapter.found_devices, d.ptr = p ∧ d.bdaddr = x := by
  unfold found_keys
  rw [List.mem_map]
  constructor
  · rintro ⟨d, hd, h⟩
    exact ⟨d, hd, (Prod.mk.inj h).1, (Prod.mk.inj h).2⟩
  · rintro ⟨d, hd, h1, h2⟩
    exact ⟨d, hd, by rw [h1, h2]⟩

theorem done_keys_perm (s : Sys) (dev : remote_dev_info) (rssi : Int)
    (eir : Option (List Nat)) :
    (found_keys (adapter_update_found_devices_done s dev rssi eir)).Perm (found_keys s) := by
  unfold found_keys
  rw [(adapter_update_found_devices_done_found s dev rssi eir).1]
  have := (g_slist_sort_perm (s.adapter.found_devices.map
    (fun d => if d.ptr = dev.ptr then { d with rssi := rssi } else d))).map
      (fun d => (d.ptr, d.bdaddr))
  refine this.trans ?_
  rw [List.map_map]
  apply List.Perm.of_eq
  apply List.map_congr_left
  intro d _
  simp only [Function.comp]
  split_ifs <;> rfl

/-- A sighting whose lookup returns a record: that record leaves the out-of-range list; no
record is allocated; the records keep their pointers and addresses. -/
theorem sight_known (s : Sys) (e : sighting) (dev : remote_dev_info)
    (h : sighting_lookup s e = some dev) :
    (sight s e).adapter.oor_devices = s.adapter.oor_devices.erase dev.ptr ∧
    (sight s e).next_ptr = s.next_ptr ∧
    (found_keys (sight s e)).Perm (found_keys s) := by
  unfold sighting_lookup at h
  unfold sight adapter_update_found_devices
  rw [h]
  simp only []
  by_cases hr : e.rssi = dev.rssi
  · rw [if_pos hr]
    exact ⟨rfl, rfl, List.Perm.refl _⟩
  · rw [if_neg hr]
    exact ⟨rfl, rfl, done_keys_perm _ _ _ _⟩

/-- A sighting whose lookup returns nothing: a record is allocated for the sighted address;
the out-of-range list is unchanged. -/
theorem sight_unknown (s : Sys) (e : sighting) (h : sighting_lookup s e = none) :
    (sight s e).adapter.oor_devices = s.adapter.oor_devices ∧
    (sight s e).next_ptr = s.next_ptr + 1 ∧
    (found_keys (sight s e)).Perm ((s.next_ptr + 1, e.bdaddr) :: found_keys s) := by
  unfold sighting_lookup at h
  unfold sight adapter_update_found_devices
  rw [h]
  exact ⟨rfl, rfl, done_keys_perm _ _ _ _⟩

/-- After a sweep of a well-formed found set every record left in the found set is on the
out-of-range list. -/
theorem sweep_inv_init (s : Sys) (d : remote_dev_info) (h : found_records_wf s)
    (hd : d ∈ (update_oor_devices s).adapter.found_devices) :
    sweep_inv (update_oor_devices s) d.ptr d.bdaddr := by
  obtain ⟨hptr, hb, haddr⟩ := h
  obtain ⟨e1, -, e3, e4⟩ := update_oor_devices_found s
  have hsub : (update_oor_devices s).adapter.found_devices.Sublist s.adapter.found_devices := by
    rw [e1]
    exact erase_loop_sublist _ _
  have hp2 := (hsub.map (fun d => d.ptr)).nodup hptr
  refine ⟨⟨hp2, ?_, ?_⟩, ?_, ?_, ?_, d, hd, rfl, rfl⟩
  · intro c hc
    rw [e4]
    exact hb c (hsub.subset hc)
  · unfold unique_by_address found_addresses at haddr ⊢
    exact (hsub.map (fun d => d.bdaddr)).nodup haddr
  · rw [e3]
    exact hp2
  · intro q hq
    rw [e3] at hq
    exact hq
  · rw [e3]
    exact List.mem_map.2 ⟨d, hd, rfl⟩

/-- C30 fails on the code: two records need their name resolved. In the first run
`adapter_resolve_names` is called twice; in the second run inquiry starts again while the
first request is outstanding and then ends (the records being sighted again in between), so
that `adapter_set_state` calls `adapter_resolve_names` a second time. In both runs two
resolve commands have been accepted, none has completed or been cancelled, and two records
have status Requested. -/
theorem two_names_requested :
    (name_run accepting_ops resolving_adapter
      [NameOp.sighted { bdaddr := 5, rssi := -40, name_status := NAME_REQUIRED },
       NameOp.sighted { bdaddr := 6, rssi := -50, name_status := NAME_REQUIRED },
       NameOp.resolve_names, NameOp.resolve_names]).map
      (fun t => (requested_addresses t, t.hw))
      = some ([5, 6], [(HwCmd.resolve_name 5, 0), (HwCmd.resolve_name 6, 0)]) ∧
    (name_run accepting_ops resolving_adapter
      [NameOp.set_state STATE_STDINQ,
       NameOp.sighted { bdaddr := 5, rssi := -40, name_status := NAME_REQUIRED },
       NameOp.sighted { bdaddr := 6, rssi := -50, name_status := NAME_REQUIRED },
       NameOp.set_state STATE_IDLE,
       NameOp.set_state STATE_STDINQ,
       NameOp.sighted { bdaddr := 5, rssi := -40, name_status := NAME_REQUIRED },
       NameOp.sighted { bdaddr := 6, rssi := -50, name_status := NAME_REQUIRED },
       NameOp.set_state STATE_IDLE]).map
      (fun t => (requested_addresses t, t.hw))
      = some ([5, 6], [(HwCmd.resolve_name 5, 0), (HwCmd.resolve_name 6, 0)]) := by
  decide

/-! ## Mode sessions -/

/-- A deeper bound does not change what `get_mode` yields for a stored on-mode. -/
theorem get_mode_stored_fuel (s : Sys) (om : String) (h : s.on_mode = some om) (n : Nat) :
    get_mode (n + 1) s om = get_mode 1 s om := by
  induction n with
  | zero => rfl
  | succ n ih =>
    rw [get_mode]
    conv_rhs => rw [get_mode]
    by_cases c1 : strcasecmp_eq "off" om = true
    · rw [if_pos c1, if_pos c1]
    rw [if_neg c1, if_neg c1]
    by_cases c2 : strcasecmp_eq "connectable" om = true
    · rw [if_pos c2, if_pos c2]
    rw [if_neg c2, if_neg c2]
    by_cases c3 : strcasecmp_eq "discoverable" om = true
    · rw [if_pos c3, if_pos c3]
    rw [if_neg c3, if_neg c3]
    by_cases c4 : strcasecmp_eq "limited" om = true
    · rw [if_pos c4, if_pos c4]
    rw [if_neg c4, if_neg c4]
    by_cases c5 : strcasecmp_eq "on" om = true
    · rw [if_pos c5, if_pos c5, h]
      simp only []
      rw [ih]
      simp [get_mode, c1, c2, c3, c4, c5, h]
    · rw [if_neg c5, if_neg c5]

/-- The bound used by `request_session` is enough: every deeper bound yields the same
result for "on". -/
theorem get_mode_on_fuel (s : Sys) (n : Nat) : get_mode (n + 2) s "on" = get_mode 2 s "on" := by
  rw [get_mode]
  conv_rhs => rw [get_mode]
  rw [if_neg (by decide), if_neg (by decide), if_neg (by decide), if_neg (by decide),
    if_pos (by decide)]
  rw [if_neg (by decide), if_neg (by decide), if_neg (by decide), if_neg (by decide),
    if_pos (by decide)]
  cases h : s.on_mode with
  | none => rfl
  | some om => exact get_mode_stored_fuel s om h n

/-- C27 fails on the code: the stored on-mode is "off", so RequestSession admits a mode claim
whose mode is 0. ReleaseSession drops its only reference and releases it, but
`session_remove` takes a claim of mode 0 for a discovery claim: the claim stays in the
mode-session set with reference count 0 (in C, as a pointer to freed memory) and discovery is
stopped at the hardware. A second ReleaseSession finds the claim again and leaves the count
at -1. -/
theorem released_mode_claim_stays_registered :
    (session_run accepting_ops agent_adapter_on_mode_off
      [SessionOp.request_session { serial := 1, sender := ":1.1" } 0]).map mode_claims
      = some [(some ":1.1", 0, 1)] ∧
    (session_run accepting_ops agent_adapter_on_mode_off
      [SessionOp.request_session { serial := 1, sender := ":1.1" } 0,
       SessionOp.release_session { serial := 2, sender := ":1.1" }]).map mode_claims
      = some [(some ":1.1", 0, 0)] ∧
    (session_run accepting_ops agent_adapter_on_mode_off
      [SessionOp.request_session { serial := 1, sender := ":1.1" } 0,
       SessionOp.release_session { serial := 2, sender := ":1.1" }]).map (fun t => t.hw)
      = some [(HwCmd.stop_inquiry, 0)] ∧
    (session_run accepting_ops agent_adapter_on_mode_off
      [SessionOp.request_session { serial := 1, sender := ":1.1" } 0,
       SessionOp.release_session { serial := 2, sender := ":1.1" },
       SessionOp.release_session { serial := 3, sender := ":1.1" }]).map mode_claims
      = some [(some ":1.1", 0, -1)] := by
  decide

/-- C23, as stated, fails: no agent is registered and no escalation is required (the adapter
is Discoverable, the stored on-mode is "connectable"), yet RequestSession fails, with the
error Failed "No agent registered", and admits no claim. -/
theorem request_session_without_agent_fails :
    no_agent_adapter.adapter.agent = none ∧
    get_mode 2 no_agent_adapter "on" = some MODE_CONNECTABLE ∧
    no_agent_adapter.adapter.mode = MODE_DISCOVERABLE ∧
    request_session accepting_ops no_agent_adapter { serial := 1, sender := ":1.1" } 0
      = some (some (DBusReply.error "Failed" (ErrText.text "No agent registered")),
          no_agent_adapter) := by
  decide

/-- C23, amended: whenever no pairing agent is registered, RequestSession fails with the
error Failed "No agent registered", whatever the current mode, the stored on-mode and the
claims already held (so whether or not escalation is required); the state is untouched: no
claim is admitted, no reference is added and the agent layer is not called. -/
theorem request_session_needs_agent (ops : adapter_ops) (s : Sys) (msg : DBusMessage)
    (agent_err : Int) (h : s.adapter.agent = none) :
    request_session ops s msg agent_err
      = some (some (DBusReply.error "Failed" (ErrText.text "No agent registered")), s) := by
  unfold request_session
  rw [h]

theorem request_session_needs_agent_witness :
    request_session accepting_ops no_agent_adapter { serial := 1, sender := ":1.1" } 0
      = some (some (DBusReply.error "Failed" (ErrText.text "No agent registered")),
          no_agent_adapter) :=
  request_session_needs_agent accepting_ops no_agent_adapter { serial := 1, sender := ":1.1" } 0
    (by decide)

/-! ## Class of device: completions -/

/-- While a write is pending, a run of updates of `wanted` by clients issues no class write
and leaves `pending` as it is. -/
theorem cod_changes_while_pending (ops : adapter_ops) (run : List CodOp) :
    ∀ s : Sys, s.adapter.pending_cod ≠ 0 → (∀ c ∈ run, c.is_change = true) →
      (cod_run ops s run).adapter.pending_cod = s.adapter.pending_cod ∧
      ∃ l, (cod_run ops s run).hw = s.hw ++ l ∧ cod_writes l = [] := by
  induction run with
  | nil =>
    intro s _ _
    exact ⟨rfl, [], (List.append_nil _).symm, rfl⟩
  | cons c run ih =>
    intro s hp hc
    obtain ⟨a1, -, l1, b1, d1⟩ := cod_change_while_pending ops s c
      (hc c (List.mem_cons_self _ _)) hp
    obtain ⟨a2, l2, b2, d2⟩ := ih (cod_step ops s c) (by rw [a1]; exact hp)
      (fun x hx => hc x (List.mem_cons_of_mem _ hx))
    have e : cod_run ops s (c :: run) = cod_run ops (cod_step ops s c) run := rfl
    rw [e]
    refine ⟨a2.trans a1, l1 ++ l2, ?_, ?_⟩
    · rw [b2, b1, List.append_assoc]
    · rw [cod_writes_append, d1, d2]
      rfl

/-- C28 fails on the code: a completion with a failure status returns at once, so the
in-flight marker `pending` keeps its value; no retry is issued, and no later update of
`wanted` through `set_service_classes` / `set_major_minor` issues a write either, since each
of them finds a write pending. -/
theorem failed_class_write_keeps_slot (ops : adapter_ops) (s : Sys) (status : Nat)
    (run : List CodOp) (hs : status ≠ 0) (hp : s.adapter.pending_cod ≠ 0)
    (hc : ∀ c ∈ run, c.is_change = true) :
    adapter_set_class_complete ops s status = s ∧
    (cod_run ops s (CodOp.write_complete status :: run)).adapter.pending_cod
      = s.adapter.pending_cod ∧
    cod_writes (hw_issued s (cod_run ops s (CodOp.write_complete status :: run))) = [] := by
  have e0 : adapter_set_class_complete ops s status = s := by
    unfold adapter_set_class_complete
    rw [if_pos hs]
  have e1 : cod_run ops s (CodOp.write_complete status :: run) = cod_run ops s run := by
    show cod_run ops (adapter_set_class_complete ops s status) run = cod_run ops s run
    rw [e0]
  obtain ⟨a, l, b, d⟩ := cod_changes_while_pending ops run s hp hc
  rw [e1]
  exact ⟨e0, a, by rw [hw_issued_of_append b]; exact d⟩

theorem failed_class_write_keeps_slot_witness :
    adapter_set_class_complete accepting_ops class_write_pending 1 = class_write_pending ∧
    (cod_run accepting_ops class_write_pending
      [CodOp.write_complete 1, CodOp.set_service_classes 2, CodOp.set_major_minor 2 4]
      ).adapter.pending_cod = class_write_pending.adapter.pending_cod ∧
    cod_writes (hw_issued class_write_pending (cod_run accepting_ops class_write_pending
      [CodOp.write_complete 1, CodOp.set_service_classes 2, CodOp.set_major_minor 2 4])) = [] :=
  failed_class_write_keeps_slot accepting_ops class_write_pending 1
    [CodOp.set_service_classes 2, CodOp.set_major_minor 2 4] (by decide) (by decide)
    (by decide)

/-- The choice between the three commands of `adapter_set_class_complete` is the choice of
`next_class_write`. -/
theorem next_class_write_cases (w c : Nat) :
    ((w &&& LIMITED_BIT) ≠ 0 ∧ (c &&& LIMITED_BIT) = 0 →
      next_class_write w c = HwCmd.set_limited_discoverable w true) ∧
    (¬ ((w &&& LIMITED_BIT) ≠ 0 ∧ (c &&& LIMITED_BIT) = 0) →
      ((w &&& LIMITED_BIT) = 0 ∧ (c &&& LIMITED_BIT) ≠ 0 →
        next_class_write w c = HwCmd.set_limited_discoverable w false) ∧
      (¬ ((w &&& LIMITED_BIT) = 0 ∧ (c &&& LIMITED_BIT) ≠ 0) →
        next_class_write w c = HwCmd.set_class w)) := by
  unfold next_class_write
  by_cases h1 : (w &&& LIMITED_BIT) = 0 <;> by_cases h2 : (c &&& LIMITED_BIT) = 0 <;>
    simp [h1, h2]

/-- The last part of `adapter_set_class_complete` when `wanted` differs from `current`: one
command is issued, the one `next_class_write` names. -/
theorem class_complete_tail_any (ops : adapter_ops) (s4 : Sys) (t : Sys)
    (ht : t = if s4.adapter.wanted_cod = s4.adapter.current_cod then s4
      else
        let r :=
          if (s4.adapter.wanted_cod &&& LIMITED_BIT) ≠ 0 ∧
              (s4.adapter.current_cod &&& LIMITED_BIT) = 0 then
            hw_call ops s4 (HwCmd.set_limited_discoverable s4.adapter.wanted_cod true)
          else if (s4.adapter.wanted_cod &&& LIMITED_BIT) = 0 ∧
              (s4.adapter.current_cod &&& LIMITED_BIT) ≠ 0 then
            hw_call ops s4 (HwCmd.set_limited_discoverable s4.adapter.wanted_cod false)
          else hw_call ops s4 (HwCmd.set_class s4.adapter.wanted_cod)
        if r.1 = 0 then { r.2 with adapter.pending_cod := r.2.adapter.wanted_cod } else r.2)
    (hw : s4.adapter.wanted_cod ≠ s4.adapter.current_cod) :
    t.adapter.current_cod = s4.adapter.current_cod ∧
    ∃ r, t.hw = s4.hw ++
        [(next_class_write s4.adapter.wanted_cod s4.adapter.current_cod, r)] ∧
      (r = 0 → t.adapter.pending_cod = s4.adapter.wanted_cod) ∧
      (r ≠ 0 → t.adapter.pending_cod = s4.adapter.pending_cod) := by
  subst ht
  rw [if_neg hw]
  obtain ⟨n1, n2⟩ := next_class_write_cases s4.adapter.wanted_cod s4.adapter.current_cod
  have key : ∀ c : HwCmd,
      (if (hw_call ops s4 c).1 = 0 then
          { (hw_call ops s4 c).2 with
            adapter.pending_cod := (hw_call ops s4 c).2.adapter.wanted_cod }
        else (hw_call ops s4 c).2).adapter.current_cod = s4.adapter.current_cod ∧
      ∃ r, (if (hw_call ops s4 c).1 = 0 then
          { (hw_call ops s4 c).2 with
            adapter.pending_cod := (hw_call ops s4 c).2.adapter.wanted_cod }
        else (hw_call ops s4 c).2).hw = s4.hw ++ [(c, r)] ∧
        (r = 0 → (if (hw_call ops s4 c).1 = 0 then
          { (hw_call ops s4 c).2 with
            adapter.pending_cod := (hw_call ops s4 c).2.adapter.wanted_cod }
        else (hw_call ops s4 c).2).adapter.pending_cod = s4.adapter.wanted_cod) ∧
        (r ≠ 0 → (if (hw_call ops s4 c).1 = 0 then
          { (hw_call ops s4 c).2 with
            adapter.pending_cod := (hw_call ops s4 c).2.adapter.wanted_cod }
        else (hw_call ops s4 c).2).adapter.pending_cod = s4.adapter.pending_cod) := by
    intro c
    by_cases hr : (hw_call ops s4 c).1 = 0
    · rw [if_pos hr]
      exact ⟨rfl, ops s4.hw c, rfl, fun _ => rfl, fun h => absurd hr h⟩
    · rw [if_neg hr]
      exact ⟨rfl, ops s4.hw c, rfl, fun h => absurd h hr, fun _ => rfl⟩
  by_cases c1 : (s4.adapter.wanted_cod &&& LIMITED_BIT) ≠ 0 ∧
      (s4.adapter.current_cod &&& LIMITED_BIT) = 0
  · rw [if_pos c1, n1 c1]
    exact key _
  · rw [if_neg c1]
    by_cases c2 : (s4.adapter.wanted_cod &&& LIMITED_BIT) = 0 ∧
        (s4.adapter.current_cod &&& LIMITED_BIT) ≠ 0
    · rw [if_pos c2, (n2 c1).1 c2]
      exact key _
    · rw [if_neg c2, (n2 c1).2 c2]
      exact key _

/-- C29, amended: a successful completion arrives while a write is pending and `wanted`
differs from the value written. Then `current` takes that value and exactly one class write
follows: the limited-discoverable toggle command (carrying the whole of `wanted`) when the
limited bit of `wanted` and of `current` differ, whatever the other bits, and a general class
write otherwise. When the command returns 0, `pending` is re-armed to `wanted`; otherwise
nothing is pending. -/
theorem class_complete_next_write (ops : adapter_ops) (s : Sys)
    (hp : s.adapter.pending_cod ≠ 0) (hw : s.adapter.wanted_cod ≠ s.adapter.pending_cod) :
    (adapter_set_class_complete ops s 0).adapter.current_cod = s.adapter.pending_cod ∧
    ∃ l r, (adapter_set_class_complete ops s 0).hw = s.hw ++ l ++
        [(next_class_write s.adapter.wanted_cod s.adapter.pending_cod, r)] ∧
      cod_writes l = [] ∧
      (r = 0 → (adapter_set_class_complete ops s 0).adapter.pending_cod
        = s.adapter.wanted_cod) ∧
      (r ≠ 0 → (adapter_set_class_complete ops s 0).adapter.pending_cod = 0) := by
  obtain ⟨l, hl, hl2⟩ := update_ext_inquiry_response_cod_writes ops
    (emit_property_changed
      (write_local_class
        { s with adapter.current_cod := s.adapter.pending_cod, adapter.pending_cod := 0 }
        (s.adapter.pending_cod % 0x1000000))
      "Class" (PropValue.uint32 s.adapter.pending_cod))
  have ha := update_ext_inquiry_response_adapter ops
    (emit_property_changed
      (write_local_class
        { s with adapter.current_cod := s.adapter.pending_cod, adapter.pending_cod := 0 }
        (s.adapter.pending_cod % 0x1000000))
      "Class" (PropValue.uint32 s.adapter.pending_cod))
  have hl0 : (update_ext_inquiry_response ops
    (emit_property_changed
      (write_local_class
        { s with adapter.current_cod := s.adapter.pending_cod, adapter.pending_cod := 0 }
        (s.adapter.pending_cod % 0x1000000))
      "Class" (PropValue.uint32 s.adapter.pending_cod))).hw = s.hw ++ l := hl
  obtain ⟨h1, r, h2, h3, h4⟩ := class_complete_tail_any ops
    (update_ext_inquiry_response ops
      (emit_property_changed
        (write_local_class
          { s with adapter.current_cod := s.adapter.pending_cod, adapter.pending_cod := 0 }
          (s.adapter.pending_cod % 0x1000000))
        "Class" (PropValue.uint32 s.adapter.pending_cod)))
    (adapter_set_class_complete ops s 0) (by
      unfold adapter_set_class_complete
      rw [if_neg (by simp), if_neg hp]
      rfl) (by rw [ha]; exact hw)
  rw [ha] at h1 h2 h3 h4
  refine ⟨h1, l, r, ?_, hl2, h3, h4⟩
  rw [h2, hl0]
  rfl

theorem class_complete_next_write_witness :
    (adapter_set_class_complete accepting_ops
      (cod_run accepting_ops class_write_pending [CodOp.set_service_classes 2]) 0
      ).adapter.current_cod = 0x10100 ∧
    ∃ l r, (adapter_set_class_complete accepting_ops
        (cod_run accepting_ops class_write_pending [CodOp.set_service_classes 2]) 0).hw
        = (cod_run accepting_ops class_write_pending [CodOp.set_service_classes 2]).hw ++ l ++
          [(next_class_write 0x20100 0x10100, r)] ∧
      cod_writes l = [] ∧
      (r = 0 → (adapter_set_class_complete accepting_ops
        (cod_run accepting_ops class_write_pending [CodOp.set_service_classes 2]) 0
        ).adapter.pending_cod = 0x20100) ∧
      (r ≠ 0 → (adapter_set_class_complete accepting_ops
        (cod_run accepting_ops class_write_pending [CodOp.set_service_classes 2]) 0
        ).adapter.pending_cod = 0) :=
  class_complete_next_write accepting_ops
    (cod_run accepting_ops class_write_pending [CodOp.set_service_classes 2])
    (by decide) (by decide)

/-- C29, as stated, fails: the write of `0x010100` is pending when the limited bit is set in
`wanted` and the service classes are changed to 2, so that `wanted` is `0x022100`. At the
successful completion `current` becomes `0x010100`: `wanted` and `current` differ in the
limited bit and in service-class bits (their XOR is `0x032000`, not `0x002000`), and the
next write is the limited-discoverable toggle command, not a general class write. -/
theorem toggle_used_when_other_bits_differ :
    (cod_run accepting_ops class_write_pending
      [CodOp.set_limited true, CodOp.set_service_classes 2]).adapter.wanted_cod = 0x22100 ∧
    (cod_run accepting_ops class_write_pending
      [CodOp.set_limited true, CodOp.set_service_classes 2]).adapter.pending_cod = 0x10100 ∧
    (0x22100 ^^^ 0x10100 : Nat) = 0x32000 ∧
    hw_issued
      (cod_run accepting_ops class_write_pending
        [CodOp.set_limited true, CodOp.set_service_classes 2])
      (cod_run accepting_ops class_write_pending
        [CodOp.set_limited true, CodOp.set_service_classes 2, CodOp.write_complete 0])
      = [(HwCmd.set_limited_discoverable 0x22100 true, 0)] := by
  decide

/-! ## StartDiscovery: rejection by the hardware -/

/-- A negative result of `start_discovery` is the result of a hardware start command, issued
after at most a name-resolution cancel; nothing else is changed. -/
theorem start_discovery_rejected (ops : adapter_ops) (s : Sys)
    (hrej : (start_discovery ops s).1 < 0) :
    ∃ l c, c.is_start = true ∧ count_starts l = 0 ∧ count_stops l = 0 ∧
      start_discovery ops s
        = (ops (s.hw ++ l) c, { s with hw := s.hw ++ l ++ [(c, ops (s.hw ++ l) c)] }) := by
  unfold start_discovery at hrej ⊢
  by_cases h1 : (s.adapter.state &&& STATE_SUSPENDED) ≠ 0
  · rw [if_pos h1] at hrej
    exact absurd hrej (lt_irrefl (0 : Int))
  rw [if_neg h1] at hrej ⊢
  by_cases h2 : (s.adapter.state &&& STATE_RESOLVNAME) ≠ 0
  · rw [if_pos h2] at hrej
    exact absurd hrej (show ¬ ((1 : Int) < 0) by decide)
  rw [if_neg h2] at hrej ⊢
  obtain ⟨l, hl, c1, c2⟩ := pending_remote_name_cancel_spec ops s
  simp only []
  rw [hl]
  have hc : ∀ c : HwCmd, c.is_start = true →
      ∃ l2 c2, c2.is_start = true ∧ count_starts l2 = 0 ∧ count_stops l2 = 0 ∧
        hw_call ops { s with hw := s.hw ++ l } c
          = (ops (s.hw ++ l2) c2,
             { s with hw := s.hw ++ l2 ++ [(c2, ops (s.hw ++ l2) c2)] }) :=
    fun c hc1 => ⟨l, c, hc1, c1, c2, rfl⟩
  rcases discover_type_cases { s with hw := s.hw ++ l } with h | h | h | h
  · rw [if_pos (Or.inl h)]
    exact hc _ rfl
  · rw [if_pos (Or.inr h)]
    exact hc _ rfl
  · rw [if_neg (by rw [h]; decide), if_pos h]
    exact hc _ rfl
  · rw [if_neg (by rw [h]; decide), if_neg (by rw [h]; decide), if_pos h]
    exact hc _ rfl

/-- C24: the adapter is powered, no discovery session exists and the hardware rejects the
start command (with the negative value `v`). Then StartDiscovery is answered with the error
Failed carrying `strerror (-v)`, and apart from the hardware log (the rejected start command,
after at most a name-resolution cancel) the state is what it was: no claim and no watch is
created, the discovery-session set is still empty and the discovery state is unchanged. -/
theorem start_discovery_rejection_is_atomic (ops : adapter_ops) (s : Sys) (msg : DBusMessage)
    (hup : s.adapter.up = true) (hnone : s.adapter.disc_sessions = [])
    (hrej : (start_discovery ops s).1 < 0) :
    ∃ l c v, c.is_start = true ∧ v < 0 ∧ count_starts l = 0 ∧ count_stops l = 0 ∧
      v = ops (s.hw ++ l) c ∧
      adapter_start_discovery ops s msg
        = (some (failed_strerror (-v)), { s with hw := s.hw ++ l ++ [(c, v)] }) ∧
      (adapter_start_discovery ops s msg).2.adapter = s.adapter ∧
      (adapter_start_discovery ops s msg).2.adapter.disc_sessions = [] := by
  obtain ⟨l, c, hc, c1, c2, he⟩ := start_discovery_rejected ops s hrej
  have hf : find_session s.adapter.disc_sessions msg.sender = none := by
    rw [hnone]
    rfl
  have hn : ¬ (s.adapter.disc_sessions ≠ []) := by simp [hnone]
  have hv : ops (s.hw ++ l) c < 0 := by
    rw [he] at hrej
    exact hrej
  have e : adapter_start_discovery ops s msg
      = (some (failed_strerror (-(ops (s.hw ++ l) c))),
         { s with hw := s.hw ++ l ++ [(c, ops (s.hw ++ l) c)] }) := by
    unfold adapter_start_discovery
    rw [if_neg (by simp [hup]), hf]
    simp only []
    rw [if_neg hn, he]
    simp only []
    rw [if_pos hv]
  refine ⟨l, c, _, hc, hv, c1, c2, rfl, e, ?_, ?_⟩
  · rw [e]
  · rw [e]
    exact hnone

theorem start_discovery_rejection_is_atomic_witness :
    ∃ l c v, c.is_start = true ∧ v < 0 ∧ count_starts l = 0 ∧ count_stops l = 0 ∧
      v = rejecting_ops (powered_connectable.hw ++ l) c ∧
      adapter_start_discovery rejecting_ops powered_connectable { serial := 1, sender := ":1.1" }
        = (some (failed_strerror (-v)),
           { powered_connectable with hw := powered_connectable.hw ++ l ++ [(c, v)] }) ∧
      (adapter_start_discovery rejecting_ops powered_connectable
        { serial := 1, sender := ":1.1" }).2.adapter = powered_connectable.adapter ∧
      (adapter_start_discovery rejecting_ops powered_connectable
        { serial := 1, sender := ":1.1" }).2.adapter.disc_sessions = [] :=
  start_discovery_rejection_is_atomic rejecting_ops powered_connectable
    { serial := 1, sender := ":1.1" } (by decide) (by decide) (by decide)

/-! ## Authorization broker -/

theorem idle_tasks_append (s : Sys) (e : Source) (t : Sys) (h : t.sources = s.sources ++ [e])
    (he : e.handler = SourceKind.auth_idle_cb) : idle_tasks t = idle_tasks s ++ [e] := by
  unfold idle_tasks
  rw [h, List.filter_append]
  simp [he]

/-- What `btd_adapter_authorize` does to the deferred tasks: either the sources and the held
id are untouched, or no task was held and a fresh one is now pending and held. -/
theorem btd_adapter_authorize_idle (s : Sys) (dst : bdaddr_t) (uuid : String)
    (agent_err : Int) :
    ((btd_adapter_authorize s dst uuid agent_err).2.sources = s.sources ∧
      (btd_adapter_authorize s dst uuid agent_err).2.adapter.auth_idle_id
        = s.adapter.auth_idle_id) ∨
    (s.adapter.auth_idle_id = 0 ∧
      (btd_adapter_authorize s dst uuid agent_err).2.adapter.auth_idle_id = s.next_source + 1 ∧
      (btd_adapter_authorize s dst uuid agent_err).2.sources = s.sources ++
        [{ id := s.next_source + 1, handler := SourceKind.auth_idle_cb, interval_ms := 0 }]) := by
  unfold btd_adapter_authorize
  cases adapter_find_device s.adapter dst with
  | none => exact Or.inl ⟨rfl, rfl⟩
  | some device =>
    simp only []
    by_cases h1 : device.ptr ∉ s.adapter.connections
    · rw [if_pos h1]
      exact Or.inl ⟨rfl, rfl⟩
    rw [if_neg h1]
    by_cases h2 : s.adapter.auth_idle_id ≠ 0
    · rw [if_pos h2]
      exact Or.inl ⟨rfl, rfl⟩
    rw [if_neg h2]
    by_cases h3 : device.trusted = true
    · rw [if_pos h3]
      exact Or.inr ⟨not_not.1 h2, rfl, rfl⟩
    rw [if_neg h3]
    cases device.agent with
    | none => exact Or.inl ⟨rfl, rfl⟩
    | some agent =>
      simp only []
      split_ifs
      · exact Or.inl ⟨rfl, rfl⟩
      · exact Or.inl ⟨rfl, rfl⟩

theorem idle_task_held_step (s : Sys) (o : AuthOp) (h : idle_task_held s) :
    idle_task_held (auth_step s o) := by
  obtain ⟨h1, h2⟩ := h
  cases o with
  | authorize dst uuid agent_err =>
    show idle_task_held (btd_adapter_authorize s dst uuid agent_err).2
    rcases btd_adapter_authorize_idle s dst uuid agent_err with ⟨a, b⟩ | ⟨a, b, c⟩
    · unfold idle_task_held idle_tasks
      rw [a, b]
      exact ⟨h1, h2⟩
    · have hnil : idle_tasks s = [] := by
        cases hl : idle_tasks s with
        | nil => rfl
        | cons e l =>
          have := (h2 e (by rw [hl]; exact List.mem_cons_self _ _)).2
          exact absurd a this
      have e := idle_tasks_append s _ _ c rfl
      unfold idle_task_held
      rw [e, hnil, b]
      refine ⟨by simp, ?_⟩
      intro x hx
      rw [List.nil_append, List.mem_singleton] at hx
      subst hx
      exact ⟨rfl, Nat.succ_ne_zero _⟩
  | idle_task_runs id =>
    show idle_task_held (if (idle_tasks s).any (fun e => decide (e.id = id)) then
      auth_idle_cb s id else s)
    by_cases hc : (idle_tasks s).any (fun e => decide (e.id = id)) = true
    · rw [if_pos hc]
      obtain ⟨e, he, hid⟩ := List.any_eq_true.1 hc
      have hid2 : e.id = id := by simpa using hid
      have hall : ∀ x ∈ idle_tasks s, x.id = id := by
        intro x hx
        rw [(h2 x hx).1, ← (h2 e he).1, hid2]
      have hnil : idle_tasks (auth_idle_cb s id) = [] := by
        unfold idle_tasks auth_idle_cb g_source_remove
        simp only []
        rw [List.filter_filter, List.filter_eq_nil_iff]
        intro x hx hp
        simp only [Bool.and_eq_true, decide_eq_true_eq] at hp
        have hx2 : x ∈ idle_tasks s := by
          unfold idle_tasks
          exact List.mem_filter.2 ⟨hx, by simpa using hp.1⟩
        exact hp.2 (hall x hx2)
      unfold idle_task_held
      rw [hnil]
      exact ⟨by simp, by intro x hx; simp at hx⟩
    · rw [if_neg hc]
      exact ⟨h1, h2⟩

theorem idle_task_held_run (run : List AuthOp) :
    ∀ s : Sys, idle_task_held s → idle_task_held (auth_run s run) := by
  induction run with
  | nil => intro s h; exact h
  | cons o run ih =>
    intro s h
    exact ih (auth_step s o) (idle_task_held_step s o h)

/-- C26: for a known peer, `btd_adapter_authorize` returns `-ENOTCONN` when the peer is not
in the connected set, and `-EBUSY` when the peer is connected and a deferred trust-bypass
task is pending, whether or not the peer is trusted; in both cases the state is untouched
(nothing is scheduled, no agent is called, no peer is flagged as authorizing). From a state
in which at most one deferred task is pending, held by the adapter, no run of authorization
requests and task runs leaves more than one deferred task pending. -/
theorem authorize_guards (s : Sys) (dst : bdaddr_t) (uuid : String) (agent_err : Int)
    (device : btd_device) (hdev : adapter_find_device s.adapter dst = some device)
    (hheld : idle_task_held s) :
    (device.ptr ∉ s.adapter.connections →
      btd_adapter_authorize s dst uuid agent_err = (-ENOTCONN, s)) ∧
    (device.ptr ∈ s.adapter.connections → s.adapter.auth_idle_id ≠ 0 →
      btd_adapter_authorize s dst uuid agent_err = (-EBUSY, s)) ∧
    (∀ run : List AuthOp, (idle_tasks (auth_run s run)).length ≤ 1) := by
  refine ⟨?_, ?_, fun run => (idle_task_held_run run s hheld).1⟩
  · intro h
    unfold btd_adapter_authorize
    rw [hdev]
    simp only []
    rw [if_pos h]
  · intro h1 h2
    unfold btd_adapter_authorize
    rw [hdev]
    simp only []
    rw [if_neg (not_not.2 h1), if_pos h2]

theorem authorize_guards_witness :
    btd_adapter_authorize idle_task_pending 8 "1101" 0 = (-EBUSY, idle_task_pending) ∧
    (∀ run : List AuthOp, (idle_tasks (auth_run idle_task_pending run)).length ≤ 1) :=
  ⟨(authorize_guards idle_task_pending 8 "1101" 0
      { ptr := 2, address := 8, agent := some 3 } (by decide)
      ⟨by decide, by decide⟩).2.1 (by decide) (by decide),
    (authorize_guards idle_task_pending 8 "1101" 0
      { ptr := 2, address := 8, agent := some 3 } (by decide)
      ⟨by decide, by decide⟩).2.2⟩

/-! ## Mode-session round trip -/

theorem frame_global_mode {s t : Sys} (h : timers_cod_frame s t) :
    t.adapter.global_mode = s.adapter.global_mode := by
  unfold timers_cod_frame at h
  rw [← h]

theorem frame_up {s t : Sys} (h : timers_cod_frame s t) : t.adapter.up = s.adapter.up := by
  unfold timers_cod_frame at h
  rw [← h]

theorem get_mode_of_on_mode (n : Nat) (s t : Sys) (mode : String) (h : t.on_mode = s.on_mode) :
    get_mode n t mode = get_mode n s mode := by
  induction n generalizing mode with
  | zero => rfl
  | succ n ih =>
    rw [get_mode, get_mode, h]
    cases s.on_mode with
    | none => rfl
    | some om =>
      simp only []
      rw [ih]

/-- On a powered adapter with no request in flight and a hardware that accepts every command,
`set_mode` without reply obligation succeeds and writes the new mode; the session sets, the
baseline mode, the agent and the in-flight slot are untouched. -/
theorem set_mode_no_reply (ops : adapter_ops) (s : Sys) (m : Nat)
    (hacc : ∀ h c, 0 ≤ ops h c) (hup : s.adapter.up = true)
    (hpend : s.adapter.pending_mode = none) :
    (set_mode ops s m none).1 = 0 ∧
    (set_mode ops s m none).2.adapter.mode = m ∧
    (set_mode ops s m none).2.adapter.mode_sessions = s.adapter.mode_sessions ∧
    (set_mode ops s m none).2.adapter.global_mode = s.adapter.global_mode ∧
    (set_mode ops s m none).2.adapter.up = true ∧
    (set_mode ops s m none).2.adapter.pending_mode = none ∧
    (set_mode ops s m none).2.adapter.agent = s.adapter.agent ∧
    (set_mode ops s m none).2.dbus = s.dbus := by
  unfold set_mode
  rw [if_neg (by simp [hpend]), if_neg (by simp [hup])]
  by_cases h2 : s.adapter.up = true ∧ m = MODE_OFF
  · rw [if_pos h2]
    have hr : ¬ (hw_call ops s (HwCmd.set_powered false)).1 < 0 := not_lt.2 (hacc _ _)
    simp only []
    rw [if_neg hr]
    exact ⟨rfl, rfl, rfl, rfl, hup, hpend, rfl, rfl⟩
  rw [if_neg h2]
  by_cases h3 : m = s.adapter.mode
  · rw [if_pos h3]
    exact ⟨rfl, h3.symm, rfl, rfl, hup, hpend, rfl, rfl⟩
  rw [if_neg h3]
  obtain ⟨c, l, -, -, -, -, -, h6⟩ := adapter_set_mode_spec ops s m
  have hr : ¬ (adapter_set_mode ops s m).1 < 0 := by
    rw [h6 (hacc _ _)]
    decide
  have hf := adapter_set_mode_frame ops s m
  simp only []
  rw [if_neg hr]
  refine ⟨rfl, rfl, ?_, ?_, ?_, ?_, ?_, ?_⟩
  · exact (frame_mode_sessions hf : (adapter_set_mode ops s m).2.adapter.mode_sessions = _)
  · exact (frame_global_mode hf : (adapter_set_mode ops s m).2.adapter.global_mode = _)
  · exact (frame_up hf : (adapter_set_mode ops s m).2.adapter.up = _).trans hup
  · exact (frame_pending_mode hf :
      (adapter_set_mode ops s m).2.adapter.pending_mode = _).trans hpend
  · exact (frame_agent hf : (adapter_set_mode ops s m).2.adapter.agent = _)
  · exact (frame_dbus hf : (adapter_set_mode ops s m).2.dbus = _)

/-- RequestSession that needs an escalation, with an agent that takes the confirmation
request: the claim is admitted, the reply is deferred, the baseline mode is saved. -/
theorem request_session_escalates (ops : adapter_ops) (s : Sys) (msg : DBusMessage)
    (agent m : Nat) (agent_err : Int)
    (hag : s.adapter.agent = some agent) (hup : s.adapter.up = true)
    (hnone : s.adapter.mode_sessions = []) (hpend : s.adapter.pending_mode = none)
    (hon : get_mode 2 s "on" = some m) (hesc : s.adapter.mode < m) (hagent : 0 ≤ agent_err) :
    ∃ t, request_session ops s msg agent_err = some (none, t) ∧
      sole_mode_claim msg.sender m t ∧ t.adapter.mode = s.adapter.mode ∧
      t.adapter.global_mode = s.adapter.mode ∧ t.adapter.agent = s.adapter.agent := by
  have hon2 : get_mode 2 { s with adapter.global_mode := s.adapter.mode } "on" = some m := by
    exact (get_mode_of_on_mode 2 s _ "on" rfl).trans hon
  have hf : find_session
      ({ s with adapter.global_mode := s.adapter.mode } : Sys).adapter.mode_sessions msg.sender
        = none := by
    show find_session s.adapter.mode_sessions msg.sender = none
    rw [hnone]
    rfl
  unfold request_session
  rw [hag]
  simp only []
  rw [if_pos hnone, hon2]
  simp only []
  rw [hf]
  simp only []
  rw [if_neg (by
    show ¬ (s.adapter.mode ≥ m)
    exact not_le.2 hesc), if_neg (not_lt.2 hagent)]
  refine ⟨_, rfl, ⟨hup, hpend,
    (create_session { s with adapter.global_mode := s.adapter.mode } msg m true).1,
    ?_, rfl, rfl, rfl, ?_⟩, rfl, rfl, hag⟩
  · show s.adapter.mode_sessions ++ _ = _
    rw [hnone]
    rfl
  · exact Nat.succ_ne_zero _

theorem reply_to_claim_adapter (s : Sys) (req : session_req) (r : DBusReply) :
    (reply_to_claim s req r).adapter = s.adapter := by
  unfold reply_to_claim
  cases req.msg <;> rfl

theorem store_session_single (a : btd_adapter) (req x : session_req)
    (hl : a.mode_sessions = [req]) (hx : x.ptr = req.ptr) :
    (store_session a x).mode_sessions = [x] := by
  unfold store_session
  simp only []
  rw [hl]
  simp [hx]

/-- The agent confirms the escalation asked for the only mode claim, on a hardware that
accepts every command: the adapter takes the mode of the claim; the claim stays, with its
reference; the baseline mode is untouched. -/
theorem confirm_mode_escalates (ops : adapter_ops) (t : Sys) (owner : String) (m : Nat)
    (hacc : ∀ h c, 0 ≤ ops h c) (h : sole_mode_claim owner m t) :
    ∃ req, find_session t.adapter.mode_sessions owner = some req ∧
      sole_mode_claim owner m (confirm_mode_cb ops t req none) ∧
      (confirm_mode_cb ops t req none).adapter.mode = m ∧
      (confirm_mode_cb ops t req none).adapter.global_mode = t.adapter.global_mode ∧
      (confirm_mode_cb ops t req none).adapter.agent = t.adapter.agent := by
  obtain ⟨hup, hpend, req, hl, ho, hm, hk, hid⟩ := h
  obtain ⟨p, rmsg, rowner, rid, rmode, rref, rgot⟩ := req
  simp only at ho hm hk hid
  subst ho hm hk
  refine ⟨{ ptr := p, msg := rmsg, owner := some owner, id := rid, mode := rmode, refcount := 1, got_reply := rgot }, by rw [hl]; simp [find_session], ?_⟩
  have a1 : ({ t with adapter := store_session t.adapter { ptr := p, msg := rmsg, owner := some owner, id := rid, mode := rmode, refcount := 1, got_reply := true } } : Sys).adapter.up = true := hup
  have a2 : ({ t with adapter := store_session t.adapter { ptr := p, msg := rmsg, owner := some owner, id := rid, mode := rmode, refcount := 1, got_reply := true } } : Sys).adapter.pending_mode
      = none := by
    show t.adapter.pending_mode.map _ = none
    rw [hpend]
    rfl
  have a3 : ({ t with adapter := store_session t.adapter { ptr := p, msg := rmsg, owner := some owner, id := rid, mode := rmode, refcount := 1, got_reply := true } } : Sys).adapter.mode_sessions
      = [{ ptr := p, msg := rmsg, owner := some owner, id := rid, mode := rmode, refcount := 1, got_reply := true }] :=
    store_session_single t.adapter _ _ hl rfl
  obtain ⟨b1, b2, b3, b4, b5, b6, b7, -⟩ := set_mode_no_reply ops
    { t with adapter := store_session t.adapter { ptr := p, msg := rmsg, owner := some owner, id := rid, mode := rmode, refcount := 1, got_reply := true } } rmode hacc a1 a2
  rw [a3] at b3
  have d : ∀ x : Sys, (store_session (reply_to_claim x { ptr := p, msg := rmsg, owner := some owner, id := rid, mode := rmode, refcount := 1, got_reply := true } DBusReply.method_return).adapter { ptr := p, msg := none, owner := some owner, id := rid, mode := rmode, refcount := 1, got_reply := true })
        = store_session x.adapter { ptr := p, msg := none, owner := some owner, id := rid, mode := rmode, refcount := 1, got_reply := true } := by
    intro x
    rw [reply_to_claim_adapter]
  have c1 : (store_session (reply_to_claim (set_mode ops
            { t with adapter := store_session t.adapter { ptr := p, msg := rmsg, owner := some owner, id := rid, mode := rmode, refcount := 1, got_reply := true } } rmode none).2 { ptr := p, msg := rmsg, owner := some owner, id := rid, mode := rmode, refcount := 1, got_reply := true }
            DBusReply.method_return).adapter { ptr := p, msg := none, owner := some owner, id := rid, mode := rmode, refcount := 1, got_reply := true }).mode_sessions = [{ ptr := p, msg := none, owner := some owner, id := rid, mode := rmode, refcount := 1, got_reply := true }] := by
    rw [d]
    exact store_session_single _ _ _ b3 rfl
  have c2 : find_session [({ ptr := p, msg := none, owner := some owner, id := rid, mode := rmode, refcount := 1, got_reply := true } : session_req)] owner = some { ptr := p, msg := none, owner := some owner, id := rid, mode := rmode, refcount := 1, got_reply := true } := by
    simp [find_session]
  have e : confirm_mode_cb ops t { ptr := p, msg := rmsg, owner := some owner, id := rid, mode := rmode, refcount := 1, got_reply := rgot } none =
      { (reply_to_claim (set_mode ops
            { t with adapter := store_session t.adapter { ptr := p, msg := rmsg, owner := some owner, id := rid, mode := rmode, refcount := 1, got_reply := true } } rmode none).2 { ptr := p, msg := rmsg, owner := some owner, id := rid, mode := rmode, refcount := 1, got_reply := true }
            DBusReply.method_return) with
        adapter := store_session (reply_to_claim (set_mode ops
            { t with adapter := store_session t.adapter { ptr := p, msg := rmsg, owner := some owner, id := rid, mode := rmode, refcount := 1, got_reply := true } } rmode none).2 { ptr := p, msg := rmsg, owner := some owner, id := rid, mode := rmode, refcount := 1, got_reply := true }
            DBusReply.method_return).adapter { ptr := p, msg := none, owner := some owner, id := rid, mode := rmode, refcount := 1, got_reply := true } } := by
    unfold confirm_mode_cb
    simp only []
    rw [b1, if_neg (lt_irrefl (0 : Int)), c1, c2, if_neg (by simp)]
  rw [e]
  refine ⟨⟨?_, ?_, { ptr := p, msg := none, owner := some owner, id := rid, mode := rmode, refcount := 1, got_reply := true }, c1, rfl, rfl, rfl, hid⟩, ?_, ?_, ?_⟩
  · show (store_session _ _).up = true
    rw [d]
    exact b5
  · show (store_session _ _).pending_mode = none
    rw [d]
    show Option.map _ _ = none
    rw [b6]
    rfl
  · show (store_session _ _).mode = rmode
    rw [d]
    exact b2
  · show (store_session _ _).global_mode = _
    rw [d]
    exact b4
  · show (store_session _ _).agent = _
    rw [d]
    exact b7

theorem get_needed_mode_no_sessions (a : btd_adapter) (h : a.mode_sessions = []) :
    get_needed_mode a a.global_mode = a.global_mode := by
  unfold get_needed_mode
  rw [h]
  simp [get_needed_mode_loop]

/-- Release of the last mode claim on a powered adapter with no request in flight and a
hardware that accepts every command: the adapter ends in its baseline mode. -/
theorem release_mode_claim_last (ops : adapter_ops) (x : Sys) (req : session_req)
    (hacc : ∀ h c, 0 ≤ ops h c) (hup : x.adapter.up = true)
    (hpend : x.adapter.pending_mode = none)
    (hrem : g_slist_remove x.adapter.mode_sessions req = []) :
    (release_mode_claim ops x req).adapter.mode = x.adapter.global_mode ∧
    (release_mode_claim ops x req).adapter.global_mode = x.adapter.global_mode := by
  have hn : get_needed_mode
      ({ x with adapter.mode_sessions := g_slist_remove x.adapter.mode_sessions req } : Sys).adapter
      ({ x with adapter.mode_sessions := g_slist_remove x.adapter.mode_sessions req }
        : Sys).adapter.global_mode = x.adapter.global_mode :=
    get_needed_mode_no_sessions _ hrem
  obtain ⟨-, b2, -, b4, -, -, -, -⟩ := set_mode_no_reply ops
    { x with adapter.mode_sessions := g_slist_remove x.adapter.mode_sessions req }
    x.adapter.global_mode hacc hup hpend
  have hc : ∀ y : Sys, (agent_cancel y).adapter = y.adapter := fun _ => rfl
  unfold release_mode_claim
  simp only []
  rw [hn]
  by_cases he : x.adapter.global_mode
      = ({ x with adapter.mode_sessions := g_slist_remove x.adapter.mode_sessions req }
        : Sys).adapter.mode
  · rw [if_pos he]
    split_ifs
    · exact ⟨he.symm, rfl⟩
    · exact ⟨he.symm, rfl⟩
  · rw [if_neg he]
    split_ifs
    · rw [hc]
      exact ⟨b2, b4⟩
    · exact ⟨b2, b4⟩

/-- ReleaseSession by the owner of the only mode claim, which holds one reference, on a
hardware that accepts every command: the mode-session set is empty and the adapter is in
its baseline mode. -/
theorem release_sole_mode_claim (ops : adapter_ops) (t : Sys) (rel : DBusMessage) (m : Nat)
    (hacc : ∀ h c, 0 ≤ ops h c) (h : sole_mode_claim rel.sender m t) (hm0 : m ≠ 0) :
    (release_session ops t rel).1 = some DBusReply.method_return ∧
    (release_session ops t rel).2.adapter.mode_sessions = [] ∧
    (release_session ops t rel).2.adapter.mode = t.adapter.global_mode ∧
    (release_session ops t rel).2.adapter.global_mode = t.adapter.global_mode := by
  obtain ⟨hup, hpend, req, hl, ho, hm, hk, hid⟩ := h
  have hf : find_session t.adapter.mode_sessions rel.sender = some req := by
    rw [hl]
    simp [find_session, ho]
  have e1 : release_session ops t rel
      = (some DBusReply.method_return, session_unref ops t req) := by
    unfold release_session
    rw [hf]
  have hreq : req = { req with refcount := 1 } := by
    rw [← hk]
  have e2 : session_unref ops t req
      = release_mode_claim ops (unwatched (count_dropped t req) req) req := by
    have hu : session_unref ops t { req with refcount := 1 }
        = session_owner_exit ops (unwatched (count_dropped t req) req) req := rfl
    rw [hreq] at hu ⊢
    exact hu.trans (session_owner_exit_mode ops _ _ (by rw [ho]; simp) (by rw [hm]; exact hm0))
  have x1 : (unwatched (count_dropped t req) req).adapter
      = store_session t.adapter { req with refcount := 0 } := by
    unfold unwatched
    rw [if_pos hid]
    rfl
  have x2 : (unwatched (count_dropped t req) req).adapter.mode_sessions
      = [{ req with refcount := 0 }] := by
    rw [x1]
    exact store_session_single _ _ _ hl rfl
  have x3 : g_slist_remove (unwatched (count_dropped t req) req).adapter.mode_sessions req
      = [] := by
    rw [x2]
    simp [g_slist_remove]
  rw [e1]
  simp only []
  rw [e2]
  have x4 : (unwatched (count_dropped t req) req).adapter.up = true := by
    rw [x1]
    exact hup
  have x5 : (unwatched (count_dropped t req) req).adapter.pending_mode = none := by
    rw [x1]
    show Option.map _ _ = none
    rw [hpend]
    rfl
  have x6 : (unwatched (count_dropped t req) req).adapter.global_mode
      = t.adapter.global_mode := by
    rw [x1]
    rfl
  obtain ⟨y1, y2⟩ := release_mode_claim_last ops _ req hacc x4 x5 x3
  refine ⟨trivial, ?_, ?_, ?_⟩
  · rw [release_mode_claim_mode_sessions, x3]
  · rw [y1, x6]
  · rw [y2, x6]

theorem session_run_cons (ops : adapter_ops) (s t : Sys) (o : SessionOp) (run : List SessionOp)
    (h : session_step ops s o = some t) :
    session_run ops s (o :: run) = session_run ops t run := by
  rw [session_run, h]

/-- C25: an agent is registered, the adapter is powered, no mode session exists and no mode
change is in flight; the stored on-mode `m` is above the current mode, so RequestSession
asks the agent to confirm the escalation. The agent layer takes the request and the agent
confirms; the hardware accepts every command. Then the adapter is in mode `m` with the claim
registered, and after ReleaseSession by the same owner the mode-session set is empty and the
adapter's mode is the mode it had before the request, which is the saved baseline mode. -/
theorem mode_session_round_trip (ops : adapter_ops) (s : Sys) (msg rel : DBusMessage)
    (agent m : Nat) (agent_err : Int)
    (hag : s.adapter.agent = some agent) (hup : s.adapter.up = true)
    (hnone : s.adapter.mode_sessions = []) (hpend : s.adapter.pending_mode = none)
    (hon : get_mode 2 s "on" = some m) (hesc : s.adapter.mode < m) (hagent : 0 ≤ agent_err)
    (hacc : ∀ h c, 0 ≤ ops h c) (hsender : rel.sender = msg.sender) :
    (∃ u, session_run ops s
        [SessionOp.request_session msg agent_err, SessionOp.confirm_mode msg.sender none]
          = some u ∧
      sole_mode_claim msg.sender m u ∧ u.adapter.mode = m) ∧
    ∃ t, session_run ops s
        [SessionOp.request_session msg agent_err, SessionOp.confirm_mode msg.sender none,
         SessionOp.release_session rel] = some t ∧
      t.adapter.mode_sessions = [] ∧ t.adapter.mode = s.adapter.mode ∧
      t.adapter.global_mode = s.adapter.mode := by
  obtain ⟨t1, h1, c1, -, g1, -⟩ := request_session_escalates ops s msg agent m agent_err
    hag hup hnone hpend hon hesc hagent
  obtain ⟨req, hfind, c2, m2, g2, -⟩ := confirm_mode_escalates ops t1 msg.sender m hacc c1
  have hm0 : m ≠ 0 := Nat.ne_of_gt (Nat.lt_of_le_of_lt (Nat.zero_le _) hesc)
  have c3 : sole_mode_claim rel.sender m (confirm_mode_cb ops t1 req none) := by
    rw [hsender]
    exact c2
  obtain ⟨-, f2, f3, f4⟩ := release_sole_mode_claim ops _ rel m hacc c3 hm0
  have r1 : session_step ops s (SessionOp.request_session msg agent_err) = some t1 := by
    show (request_session ops s msg agent_err).map _ = _
    rw [h1]
    rfl
  have r2 : session_step ops t1 (SessionOp.confirm_mode msg.sender none)
      = some (confirm_mode_cb ops t1 req none) := by
    show (match find_session t1.adapter.mode_sessions msg.sender with
      | some req => some (confirm_mode_cb ops t1 req none)
      | none => some t1) = _
    rw [hfind]
  have r3 : session_step ops (confirm_mode_cb ops t1 req none) (SessionOp.release_session rel)
      = some (release_session ops (confirm_mode_cb ops t1 req none) rel).2 := rfl
  constructor
  · refine ⟨confirm_mode_cb ops t1 req none, ?_, c2, m2⟩
    rw [session_run_cons ops s t1 _ _ r1, session_run_cons ops t1 _ _ _ r2]
    rfl
  · refine ⟨(release_session ops (confirm_mode_cb ops t1 req none) rel).2, ?_, f2, ?_, ?_⟩
    · rw [session_run_cons ops s t1 _ _ r1, session_run_cons ops t1 _ _ _ r2,
        session_run_cons ops _ _ _ _ r3]
      rfl
    · rw [f3, g2, g1]
    · rw [f4, g2, g1]

theorem mode_session_round_trip_witness :
    (∃ u, session_run accepting_ops agent_adapter
        [SessionOp.request_session { serial := 1, sender := ":1.1" } 0,
         SessionOp.confirm_mode ":1.1" none] = some u ∧
      sole_mode_claim ":1.1" MODE_DISCOVERABLE u ∧ u.adapter.mode = MODE_DISCOVERABLE) ∧
    ∃ t, session_run accepting_ops agent_adapter
        [SessionOp.request_session { serial := 1, sender := ":1.1" } 0,
         SessionOp.confirm_mode ":1.1" none,
         SessionOp.release_session { serial := 2, sender := ":1.1" }] = some t ∧
      t.adapter.mode_sessions = [] ∧ t.adapter.mode = agent_adapter.adapter.mode ∧
      t.adapter.global_mode = agent_adapter.adapter.mode :=
  mode_session_round_trip accepting_ops agent_adapter { serial := 1, sender := ":1.1" }
    { serial := 2, sender := ":1.1" } 7 MODE_DISCOVERABLE 0
    (by decide) (by decide) (by decide) (by decide) (by decide) (by decide) (by decide)
    (fun _ _ => le_refl _) rfl

/-! ## The out-of-range sweep: devices sighted again -/

theorem track_inv_of_sweep_inv (s : Sys) (p : Nat) (x : bdaddr_t) (h : sweep_inv s p x) :
    track_inv s p x :=
  ⟨h.1, h.2.1, h.2.2.1, h.2.2.2.2⟩

/-- Any sighting keeps the found set well formed and the tracked record in it. -/
theorem track_inv_sight (s : Sys) (p : Nat) (x : bdaddr_t) (e : sighting)
    (h : track_inv s p x) : track_inv (sight s e) p x := by
  obtain ⟨⟨hptr, hb, haddr⟩, hnd, hsub, hd⟩ := h
  have hu := adapter_update_found_devices_unique s e haddr
  rw [← mem_found_keys] at hd
  rw [found_ptrs_of_keys] at hptr hsub
  have hb2 : ∀ k ∈ found_keys s, k.1 ≤ s.next_ptr := by
    intro k hk
    obtain ⟨d, hd, rfl⟩ := List.mem_map.1 hk
    exact hb d hd
  unfold track_inv found_records_wf
  rw [← mem_found_keys, found_ptrs_of_keys]
  have hb3 : (∀ k ∈ found_keys (sight s e), k.1 ≤ (sight s e).next_ptr) →
      ∀ d ∈ (sight s e).adapter.found_devices, d.ptr ≤ (sight s e).next_ptr := by
    intro hk d hd
    exact hk (d.ptr, d.bdaddr) (List.mem_map.2 ⟨d, hd, rfl⟩)
  cases hs : sighting_lookup s e with
  | some dev =>
    obtain ⟨e1, e2, e3⟩ := sight_known s e dev hs
    refine ⟨⟨(e3.map Prod.fst).nodup_iff.2 hptr, hb3 ?_, hu⟩, ?_, ?_, e3.mem_iff.2 hd⟩
    · intro k hk
      rw [e2]
      exact hb2 k (e3.mem_iff.1 hk)
    · rw [e1]
      exact hnd.erase _
    · intro q hq
      rw [e1] at hq
      exact (e3.map Prod.fst).mem_iff.2 (hsub q (List.mem_of_mem_erase hq))
  | none =>
    obtain ⟨e1, e2, e3⟩ := sight_unknown s e hs
    refine ⟨⟨(e3.map Prod.fst).nodup_iff.2 ?_, hb3 ?_, hu⟩, ?_, ?_,
      e3.mem_iff.2 (List.mem_cons_of_mem _ hd)⟩
    · rw [List.map_cons, List.nodup_cons]
      refine ⟨?_, hptr⟩
      intro hm
      obtain ⟨k, hk, hk1⟩ := List.mem_map.1 hm
      have := hb2 k hk
      rw [hk1] at this
      omega
    · intro k hk
      rw [e2]
      rcases List.mem_cons.1 (e3.mem_iff.1 hk) with rfl | hk
      · exact le_refl _
      · exact Nat.le_succ_of_le (hb2 k hk)
    · rw [e1]
      exact hnd
    · intro q hq
      rw [e1] at hq
      exact (e3.map Prod.fst).mem_iff.2 (List.mem_cons_of_mem _ (hsub q hq))

/-- A sighting adds nothing to the out-of-range list. -/
theorem sight_oor_subset (s : Sys) (e : sighting) :
    ∀ q ∈ (sight s e).adapter.oor_devices, q ∈ s.adapter.oor_devices := by
  intro q hq
  cases hs : sighting_lookup s e with
  | some dev =>
    rw [(sight_known s e dev hs).1] at hq
    exact List.mem_of_mem_erase hq
  | none =>
    rw [(sight_unknown s e hs).1] at hq
    exact hq

theorem track_inv_run (es : List sighting) (s : Sys) (p : Nat) (x : bdaddr_t)
    (h : track_inv s p x) (hp : p ∉ s.adapter.oor_devices) :
    track_inv (sight_all s es) p x ∧ p ∉ (sight_all s es).adapter.oor_devices := by
  induction es generalizing s with
  | nil => exact ⟨h, hp⟩
  | cons e es ih =>
    exact ih (sight s e) (track_inv_sight s p x e h)
      (fun hq => hp (sight_oor_subset s e p hq))

/-- The lookup of a sighting of the address of a tracked record, when that address is not
the all-zero one, returns that record. -/
theorem sighting_lookup_tracked (s : Sys) (p : Nat) (x : bdaddr_t) (e : sighting)
    (h : track_inv s p x) (hx : x ≠ BDADDR_ANY) (he : e.bdaddr = x) :
    ∃ dev, sighting_lookup s e = some dev ∧ dev.ptr = p := by
  obtain ⟨⟨-, -, haddr⟩, -, -, d, hd, hdp, hdx⟩ := h
  unfold sighting_lookup
  rw [he]
  cases hs : adapter_search_found_devices s.adapter
      { match_zero with bdaddr := x, name_status := NAME_ANY } with
  | none => exact absurd hdx (search_none_address s.adapter x hs d hd)
  | some dev =>
    obtain ⟨hm, hc⟩ := search_some_mem s.adapter _ dev hs
    rcases (found_device_cmp_any dev x).1 hc with hh | hh
    · exact absurd hh hx
    · have : dev = d := List.inj_on_of_nodup_map haddr hm hd (by rw [hh, hdx])
      exact ⟨dev, rfl, by rw [this, hdp]⟩

theorem erase_loop_keeps (oor : List Nat) (l : List remote_dev_info) (d : remote_dev_info)
    (hd : d ∈ l) (hp : d.ptr ∉ oor) :
    d ∈ oor.foldl (fun l p => l.eraseP (fun d => decide (d.ptr = p))) l := by
  induction oor generalizing l with
  | nil => exact hd
  | cons q rest ih =>
    rw [List.foldl_cons]
    refine ih _ ?_ (fun hh => hp (List.mem_cons_of_mem _ hh))
    refine (List.mem_eraseP_of_neg ?_).2 hd
    intro hh
    exact hp (by rw [of_decide_eq_true hh]; exact List.mem_cons_self _ _)

/-- The sweep from a state between two sweeps in which the tracked record, whose address is
unique, is not on the out-of-range list: no DeviceDisappeared is sent for its address and the
record stays in the found set. -/
theorem sweep_spares (s : Sys) (p : Nat) (x : bdaddr_t) (h : track_inv s p x)
    (hp : p ∉ s.adapter.oor_devices) :
    disappeared_count x (dbus_issued s (update_oor_devices s)) = 0 ∧
    ∃ d ∈ (update_oor_devices s).adapter.found_devices, d.ptr = p ∧ d.bdaddr = x := by
  obtain ⟨⟨hptr, -, haddr⟩, -, hsub, d, hd, hdp, hdx⟩ := h
  obtain ⟨e1, e2, -, -⟩ := update_oor_devices_found s
  constructor
  · unfold disappeared_count dbus_issued
    rw [e2, List.drop_left, List.countP_map, List.countP_eq_zero]
    intro q hq
    obtain ⟨c, hc, rfl⟩ := List.mem_map.1 (hsub q hq)
    simp only [Function.comp, decide_eq_true_eq, DBusOut.device_disappeared.injEq]
    rw [oor_address_of_mem _ c hptr hc]
    intro hcx
    have : c = d := List.inj_on_of_nodup_map haddr hc hd (by rw [hcx, hdx])
    rw [this, hdp] at hq
    exact hp hq
  · refine ⟨d, ?_, hdp, hdx⟩
    rw [e1]
    exact erase_loop_keeps _ _ d hd (by rw [hdp]; exact hp)

/-- C21, amended: a record whose address is not the all-zero address is on the out-of-range
list (between two sweeps, the found set being well formed) and its address is sighted again,
with whatever signal strength. Then the record is off the out-of-range list, and after any
further sightings the next sweep emits no DeviceDisappeared for its address and leaves the
record in the found set. -/
theorem resighted_device_stays (s : Sys) (p : Nat) (x : bdaddr_t) (e : sighting)
    (es : List sighting) (h : sweep_inv s p x) (hx : x ≠ BDADDR_ANY) (he : e.bdaddr = x) :
    p ∉ (sight s e).adapter.oor_devices ∧
    disappeared_count x
      (dbus_issued (sight_all (sight s e) es)
        (update_oor_devices (sight_all (sight s e) es))) = 0 ∧
    ∃ d ∈ (update_oor_devices (sight_all (sight s e) es)).adapter.found_devices,
      d.ptr = p ∧ d.bdaddr = x := by
  have ht := track_inv_of_sweep_inv s p x h
  obtain ⟨dev, hl, hdp⟩ := sighting_lookup_tracked s p x e ht hx he
  have hout : p ∉ (sight s e).adapter.oor_devices := by
    rw [(sight_known s e dev hl).1, hdp]
    intro hm
    exact ((List.Nodup.mem_erase_iff h.2.1).1 hm).1 rfl
  obtain ⟨t1, t2⟩ := track_inv_run es (sight s e) p x (track_inv_sight s p x e ht) hout
  exact ⟨hout, sweep_spares _ p x t1 t2⟩

theorem resighted_device_stays_witness :
    (1 : Nat) ∉ (sight (update_oor_devices two_found)
      { bdaddr := 5, rssi := -45 }).adapter.oor_devices ∧
    disappeared_count 5
      (dbus_issued
        (sight_all (sight (update_oor_devices two_found) { bdaddr := 5, rssi := -45 })
          [{ bdaddr := 7, rssi := -60 }])
        (update_oor_devices
          (sight_all (sight (update_oor_devices two_found) { bdaddr := 5, rssi := -45 })
            [{ bdaddr := 7, rssi := -60 }]))) = 0 ∧
    ∃ d ∈ (update_oor_devices
        (sight_all (sight (update_oor_devices two_found) { bdaddr := 5, rssi := -45 })
          [{ bdaddr := 7, rssi := -60 }])).adapter.found_devices,
      d.ptr = 1 ∧ d.bdaddr = 5 :=
  resighted_device_stays (update_oor_devices two_found) 1 5 { bdaddr := 5, rssi := -45 }
    [{ bdaddr := 7, rssi := -60 }]
    (sweep_inv_init two_found record_five (by decide) (by decide)) (by decide) rfl

/-- C21, as stated, fails: the found set holds the device `5` and, second, a record with the
all-zero address; both are on the out-of-range list. The all-zero address is sighted again
with its signal strength -50. The lookup takes the all-zero address for "any" and returns the
record of `5`: the record of the all-zero address stays on the out-of-range list, and the
next sweep emits DeviceDisappeared for it and removes it from the found set. -/
theorem zero_address_resighted_disappears :
    found_view zero_address_held = [(5, -40), (0, -50)] ∧
    zero_address_held.adapter.oor_devices = [2, 1] ∧
    (sight zero_address_held { bdaddr := 0, rssi := -50 }).adapter.oor_devices = [1] ∧
    dbus_issued (sight zero_address_held { bdaddr := 0, rssi := -50 })
        (update_oor_devices (sight zero_address_held { bdaddr := 0, rssi := -50 }))
      = [DBusOut.device_disappeared 0] ∧
    found_view (update_oor_devices (sight zero_address_held { bdaddr := 0, rssi := -50 }))
      = [(5, -50)] := by
  decide

/-! ## Name resolution: the retry loop -/

theorem found_device_cmp_required (d : remote_dev_info) :
    found_device_cmp d { match_zero with bdaddr := BDADDR_ANY, name_status := NAME_REQUIRED } = 0
      ↔ d.name_status = NAME_REQUIRED := by
  unfold found_device_cmp
  have h0 : ¬ (bacmp BDADDR_ANY BDADDR_ANY ≠ 0) := by decide
  simp only [h0, false_and, if_false]
  by_cases h : d.name_status = NAME_REQUIRED
  · simp [h, NAME_REQUIRED, NAME_ANY]
  · have h2 : (d.name_status : Int) - (NAME_REQUIRED : Int) ≠ 0 := by
      intro hh
      exact h (by exact_mod_cast sub_eq_zero.1 hh)
    have h3 : NAME_REQUIRED ≠ NAME_ANY := by decide
    rw [if_pos ⟨h3, h2⟩]
    simp [h, h2]

/-- The first Required record splits the found set: no record before it has status
Required. -/
theorem first_required_split (s : Sys) (dev : remote_dev_info)
    (h : first_required s = some dev) :
    dev.name_status = NAME_REQUIRED ∧
    ∃ l1 l2, s.adapter.found_devices = l1 ++ dev :: l2 ∧
      ∀ d ∈ l1, d.name_status ≠ NAME_REQUIRED := by
  unfold first_required adapter_search_found_devices at h
  obtain ⟨h1, l1, l2, h2, h3⟩ := List.find?_eq_some.1 h
  refine ⟨(found_device_cmp_required dev).1 (of_decide_eq_true h1), l1, l2, h2, ?_⟩
  intro d hd hreq
  have := h3 d hd
  rw [Bool.not_eq_true', decide_eq_false_iff_not] at this
  exact this ((found_device_cmp_required d).2 hreq)

theorem first_required_none (s : Sys) (h : first_required s = none) :
    ∀ d ∈ s.adapter.found_devices, d.name_status ≠ NAME_REQUIRED := by
  unfold first_required adapter_search_found_devices at h
  intro d hd hreq
  have := List.find?_eq_none.1 h d hd
  rw [decide_eq_true_eq] at this
  exact this ((found_device_cmp_required d).2 hreq)

/-- Records that are not Required are skipped by the lookup. -/
theorem first_required_skip (s : Sys) (l1 l2 : List remote_dev_info)
    (h : s.adapter.found_devices = l1 ++ l2)
    (h1 : ∀ d ∈ l1, d.name_status ≠ NAME_REQUIRED) :
    first_required s = first_required { s with adapter.found_devices := l2 } := by
  unfold first_required adapter_search_found_devices
  show List.find? _ s.adapter.found_devices = List.find? _ l2
  rw [h, List.find?_append]
  have : List.find? (fun d => decide (found_device_cmp d
      { match_zero with bdaddr := BDADDR_ANY, name_status := NAME_REQUIRED } = 0)) l1 = none := by
    rw [List.find?_eq_none]
    intro d hd
    rw [decide_eq_true_eq, found_device_cmp_required]
    exact h1 d hd
  rw [this]
  rfl

/-- A write through a pointer that is held once changes one record. -/
theorem map_ptr_update (l1 l2 : List remote_dev_info) (dev : remote_dev_info)
    (g : remote_dev_info → remote_dev_info)
    (h : ((l1 ++ dev :: l2).map (fun d => d.ptr)).Nodup) :
    (l1 ++ dev :: l2).map (fun d => if d.ptr = dev.ptr then g d else d)
      = l1 ++ g dev :: l2 := by
  rw [List.map_append, List.map_cons, List.nodup_append] at h
  obtain ⟨-, h2, h3⟩ := h
  rw [List.nodup_cons] at h2
  rw [List.map_append, List.map_cons, if_pos rfl]
  congr 1
  · conv_rhs => rw [← List.map_id l1]
    apply List.map_congr_left
    intro d hd
    rw [if_neg]
    · rfl
    · intro hh
      exact h3 (List.mem_map.2 ⟨d, hd, rfl⟩) (by rw [hh]; exact List.mem_cons_self _ _)
  · congr 1
    conv_rhs => rw [← List.map_id l2]
    apply List.map_congr_left
    intro d hd
    rw [if_neg]
    · rfl
    · intro hh
      exact h2.1 (List.mem_map.2 ⟨d, hd, hh⟩)

/-- The lookup of `adapter_remove_found_device` on a found set in which a record `dev` has
the address asked for: the record it marks NotRequired is `dev` or a record before it. No
record has status Required afterwards unless it had it before, and when the address is not
the all-zero one and no record before `dev` has it, the marked record is `dev`. -/
theorem adapter_remove_found_device_split (s : Sys) (l1 l2 : List remote_dev_info)
    (dev : remote_dev_info) (hs : s.adapter.found_devices = l1 ++ dev :: l2)
    (hnd : ((l1 ++ dev :: l2).map (fun d => d.ptr)).Nodup)
    (h1 : ∀ d ∈ l1, d.name_status ≠ NAME_REQUIRED) (hdev : dev.name_status ≠ NAME_REQUIRED) :
    ∃ l1' dev',
      (adapter_remove_found_device s dev.bdaddr).2
        = { s with adapter.found_devices := l1' ++ dev' :: l2 } ∧
      (∀ d ∈ l1', d.name_status ≠ NAME_REQUIRED) ∧ dev'.name_status ≠ NAME_REQUIRED ∧
      (l1' ++ dev' :: l2).map (fun d => d.ptr) = (l1 ++ dev :: l2).map (fun d => d.ptr) ∧
      (dev.bdaddr ≠ BDADDR_ANY → (∀ d ∈ l1, d.bdaddr ≠ dev.bdaddr) →
        l1' = l1 ∧ dev' = { dev with name_status := NAME_NOT_REQUIRED }) := by
  have hnr : NAME_NOT_REQUIRED ≠ NAME_REQUIRED := by decide
  have hp : ∀ d : remote_dev_info,
      decide (found_device_cmp d { match_zero with bdaddr := dev.bdaddr } = 0) = true
        ↔ (dev.bdaddr = BDADDR_ANY ∨ d.bdaddr = dev.bdaddr) := by
    intro d
    rw [decide_eq_true_eq]
    exact found_device_cmp_any d dev.bdaddr
  have hfind : adapter_search_found_devices s.adapter { match_zero with bdaddr := dev.bdaddr }
      = (l1.find? (fun d => decide (found_device_cmp d
          { match_zero with bdaddr := dev.bdaddr } = 0))).or (some dev) := by
    unfold adapter_search_found_devices
    rw [hs, List.find?_append]
    rw [@List.find?_cons_of_pos _ (fun d => decide (found_device_cmp d
      { match_zero with bdaddr := dev.bdaddr } = 0)) dev l2 ((hp dev).2 (Or.inr rfl))]
  unfold adapter_remove_found_device
  rw [hfind]
  cases hl : l1.find? (fun d => decide (found_device_cmp d
      { match_zero with bdaddr := dev.bdaddr } = 0)) with
  | none =>
    refine ⟨l1, { dev with name_status := NAME_NOT_REQUIRED }, ?_, h1, hnr, ?_,
      fun _ _ => ⟨rfl, rfl⟩⟩
    · simp only [Option.or]
      rw [hs, map_ptr_update l1 l2 dev _ hnd]
    · simp
  | some h =>
    obtain ⟨q1, a1, a2, q2, -⟩ := List.find?_eq_some.1 hl
    have hnd2 : ((a1 ++ h :: (a2 ++ dev :: l2)).map (fun d => d.ptr)).Nodup := by
      rw [q2] at hnd
      simpa using hnd
    refine ⟨a1 ++ { h with name_status := NAME_NOT_REQUIRED } :: a2, dev, ?_, ?_, hdev, ?_, ?_⟩
    · simp only [Option.or]
      rw [hs, q2]
      have e : a1 ++ h :: a2 ++ dev :: l2 = a1 ++ h :: (a2 ++ dev :: l2) := by simp
      rw [e, map_ptr_update a1 (a2 ++ dev :: l2) h _ hnd2]
      simp
    · intro d hd
      rcases List.mem_append.1 hd with hd | hd
      · exact h1 d (by rw [q2]; exact List.mem_append_left _ hd)
      · rcases List.mem_cons.1 hd with rfl | hd
        · exact hnr
        · exact h1 d (by rw [q2]; exact List.mem_append_right _ (List.mem_cons_of_mem _ hd))
    · rw [q2]
      simp
    · intro hx hne
      rcases (hp h).1 q1 with hh | hh
      · exact absurd hh hx
      · exact absurd hh (hne h (by rw [q2]; simp))

/-- One round of the loop of `adapter_resolve_names`, entered with the first Required record
`dev` of a found set whose pointers are distinct. -/
theorem resolve_loop_step (ops : adapter_ops) (fuel : Nat) (s : Sys)
    (l1 l2 : List remote_dev_info) (dev : remote_dev_info)
    (hs : s.adapter.found_devices = l1 ++ dev :: l2)
    (hnd : ((l1 ++ dev :: l2).map (fun d => d.ptr)).Nodup)
    (h1 : ∀ d ∈ l1, d.name_status ≠ NAME_REQUIRED) :
    (ops s.hw (HwCmd.resolve_name dev.bdaddr) = 0 →
      adapter_resolve_names_loop ops (fuel + 1) s dev
        = some (0, { s with
            hw := s.hw ++ [(HwCmd.resolve_name dev.bdaddr, 0)],
            adapter.found_devices := l1 ++ { dev with name_status := NAME_REQUESTED } :: l2 })) ∧
    (ops s.hw (HwCmd.resolve_name dev.bdaddr) ≠ 0 →
      ∃ l1' dev', (∀ d ∈ l1', d.name_status ≠ NAME_REQUIRED) ∧
        dev'.name_status ≠ NAME_REQUIRED ∧
        (l1' ++ dev' :: l2).map (fun d => d.ptr) = (l1 ++ dev :: l2).map (fun d => d.ptr) ∧
        (dev.bdaddr ≠ BDADDR_ANY → (∀ d ∈ l1, d.bdaddr ≠ dev.bdaddr) →
          l1' = l1 ∧ dev' = { dev with name_status := NAME_NOT_REQUIRED }) ∧
        adapter_resolve_names_loop ops (fuel + 1) s dev
          = (match first_required { s with adapter.found_devices := l2 } with
             | none =>
               some (ops s.hw (HwCmd.resolve_name dev.bdaddr),
                 { s with
                   hw := s.hw ++ [(HwCmd.resolve_name dev.bdaddr,
                     ops s.hw (HwCmd.resolve_name dev.bdaddr))],
                   adapter.found_devices := l1' ++ dev' :: l2 })
             | some next =>
               adapter_resolve_names_loop ops fuel
                 { s with
                   hw := s.hw ++ [(HwCmd.resolve_name dev.bdaddr,
                     ops s.hw (HwCmd.resolve_name dev.bdaddr))],
                   adapter.found_devices := l1' ++ dev' :: l2 } next)) := by
  have hS1 : set_name_requested s dev
      = { s with adapter.found_devices :=
            l1 ++ { dev with name_status := NAME_REQUESTED } :: l2 } := by
    unfold set_name_requested
    simp only []
    rw [hs, map_ptr_update l1 l2 dev _ hnd]
  have hloop : adapter_resolve_names_loop ops (fuel + 1) s dev
      = (if (hw_call ops (set_name_requested s dev) (HwCmd.resolve_name dev.bdaddr)).1 = 0 then
          some ((hw_call ops (set_name_requested s dev) (HwCmd.resolve_name dev.bdaddr)).1,
            (hw_call ops (set_name_requested s dev) (HwCmd.resolve_name dev.bdaddr)).2)
        else
          match first_required (adapter_remove_found_device
              (hw_call ops (set_name_requested s dev) (HwCmd.resolve_name dev.bdaddr)).2
              dev.bdaddr).2 with
          | none =>
            some ((hw_call ops (set_name_requested s dev) (HwCmd.resolve_name dev.bdaddr)).1,
              (adapter_remove_found_device
                (hw_call ops (set_name_requested s dev) (HwCmd.resolve_name dev.bdaddr)).2
                dev.bdaddr).2)
          | some next =>
            adapter_resolve_names_loop ops fuel
              (adapter_remove_found_device
                (hw_call ops (set_name_requested s dev) (HwCmd.resolve_name dev.bdaddr)).2
                dev.bdaddr).2 next) := by
    rw [adapter_resolve_names_loop]
  rw [hloop, hS1]
  have hr : (hw_call ops
      { s with adapter.found_devices := l1 ++ { dev with name_status := NAME_REQUESTED } :: l2 }
      (HwCmd.resolve_name dev.bdaddr)).1 = ops s.hw (HwCmd.resolve_name dev.bdaddr) := rfl
  constructor
  · intro h0
    rw [if_pos (hr.trans h0)]
    show some (ops s.hw (HwCmd.resolve_name dev.bdaddr), _) = _
    rw [h0]
    unfold hw_call
    simp only []
    rw [h0]
  · intro h0
    rw [if_neg (fun hh => h0 (hr.symm.trans hh))]
    have hnd1 : ((l1 ++ ({ dev with name_status := NAME_REQUESTED } : remote_dev_info) :: l2).map
        (fun d => d.ptr)).Nodup := by
      simpa using hnd
    obtain ⟨l1', dev', e1, e2, e3, e4, e5⟩ := adapter_remove_found_device_split
      (hw_call ops
        { s with adapter.found_devices :=
            l1 ++ { dev with name_status := NAME_REQUESTED } :: l2 }
        (HwCmd.resolve_name dev.bdaddr)).2 l1 l2
      { dev with name_status := NAME_REQUESTED } rfl hnd1 h1
      (show NAME_REQUESTED ≠ NAME_REQUIRED by decide)
    refine ⟨l1', dev', e2, e3, ?_, ?_, ?_⟩
    · rw [e4]
      simp
    · exact e5
    · have e1' : (adapter_remove_found_device (hw_call ops
          { s with adapter.found_devices :=
              l1 ++ { dev with name_status := NAME_REQUESTED } :: l2 }
          (HwCmd.resolve_name dev.bdaddr)).2 dev.bdaddr).2
          = { s with
              hw := s.hw ++ [(HwCmd.resolve_name dev.bdaddr,
                ops s.hw (HwCmd.resolve_name dev.bdaddr))],
              adapter.found_devices := l1' ++ dev' :: l2 } := e1
      rw [e1']
      have hsk : first_required
          { s with
            hw := s.hw ++ [(HwCmd.resolve_name dev.bdaddr,
              ops s.hw (HwCmd.resolve_name dev.bdaddr))],
            adapter.found_devices := l1' ++ dev' :: l2 }
          = first_required { s with adapter.found_devices := l2 } := by
        have := first_required_skip
          { s with
            hw := s.hw ++ [(HwCmd.resolve_name dev.bdaddr,
              ops s.hw (HwCmd.resolve_name dev.bdaddr))],
            adapter.found_devices := l1' ++ dev' :: l2 } (l1' ++ [dev']) l2
          (by simp) (by
            intro d hd
            rcases List.mem_append.1 hd with hd | hd
            · exact e2 d hd
            · rw [List.mem_singleton.1 hd]
              exact e3)
        exact this
      rw [hsk]
      rfl

/-- The loop of `adapter_resolve_names` ends within the bound, and when it returns an error
every command it issued was rejected and every record that had status Required, from `dev`
on, was tried. -/
theorem resolve_loop_spec (ops : adapter_ops) :
    ∀ (fuel : Nat) (s : Sys) (l1 l2 : List remote_dev_info) (dev : remote_dev_info),
      s.adapter.found_devices = l1 ++ dev :: l2 →
      ((l1 ++ dev :: l2).map (fun d => d.ptr)).Nodup →
      (∀ d ∈ l1, d.name_status ≠ NAME_REQUIRED) → l2.length < fuel →
      ∃ err t cmds, adapter_resolve_names_loop ops fuel s dev = some (err, t) ∧
        t.hw = s.hw ++ cmds ∧
        (err ≠ 0 → (∀ c ∈ cmds, c.2 ≠ 0) ∧
          ∀ d ∈ dev :: l2, d.name_status = NAME_REQUIRED →
            ∃ r, (HwCmd.resolve_name d.bdaddr, r) ∈ cmds) := by
  intro fuel
  induction fuel with
  | zero =>
    intro s l1 l2 dev _ _ _ hlen
    exact absurd hlen (Nat.not_lt_zero _)
  | succ fuel ih =>
    intro s l1 l2 dev hs hnd h1 hlen
    obtain ⟨st0, st1⟩ := resolve_loop_step ops fuel s l1 l2 dev hs hnd h1
    by_cases hr : ops s.hw (HwCmd.resolve_name dev.bdaddr) = 0
    · exact ⟨0, _, [(HwCmd.resolve_name dev.bdaddr, 0)], st0 hr, rfl, fun h => absurd rfl h⟩
    · obtain ⟨l1', dev', e2, e3, e4, -, e6⟩ := st1 hr
      rw [e6]
      cases hfr : first_required { s with adapter.found_devices := l2 } with
      | none =>
        refine ⟨_, _, [(HwCmd.resolve_name dev.bdaddr, ops s.hw (HwCmd.resolve_name dev.bdaddr))],
          rfl, rfl, fun _ => ⟨?_, ?_⟩⟩
        · intro c hc
          rw [List.mem_singleton.1 hc]
          exact hr
        · intro d hd hreq
          rcases List.mem_cons.1 hd with rfl | hd
          · exact ⟨_, List.mem_singleton.2 rfl⟩
          · exact absurd hreq (first_required_none _ hfr d hd)
      | some next =>
        obtain ⟨-, m1, m2, hl2, hm1⟩ := first_required_split _ next hfr
        have hl2' : l2 = m1 ++ next :: m2 := hl2
        have hnd2 : (((l1' ++ dev' :: m1) ++ next :: m2).map (fun d => d.ptr)).Nodup := by
          have : (l1' ++ dev' :: m1) ++ next :: m2 = l1' ++ dev' :: l2 := by
            rw [hl2']
            simp
          rw [this, e4]
          exact hnd
        obtain ⟨err, t, cmds, f1, f2, f3⟩ := ih
          { s with
            hw := s.hw ++ [(HwCmd.resolve_name dev.bdaddr,
              ops s.hw (HwCmd.resolve_name dev.bdaddr))],
            adapter.found_devices := l1' ++ dev' :: l2 } (l1' ++ dev' :: m1) m2 next
          (by
            show l1' ++ dev' :: l2 = _
            rw [hl2']
            simp) hnd2
          (by
            intro d hd
            rcases List.mem_append.1 hd with hd | hd
            · exact e2 d hd
            · rcases List.mem_cons.1 hd with rfl | hd
              · exact e3
              · exact hm1 d hd)
          (by
            rw [hl2'] at hlen
            simp at hlen
            omega)
        refine ⟨err, t,
          (HwCmd.resolve_name dev.bdaddr, ops s.hw (HwCmd.resolve_name dev.bdaddr)) :: cmds,
          f1, ?_, fun he => ⟨?_, ?_⟩⟩
        · rw [f2]
          show s.hw ++ [_] ++ cmds = _
          simp
        · intro c hc
          rcases List.mem_cons.1 hc with rfl | hc
          · exact hr
          · exact (f3 he).1 c hc
        · intro d hd hreq
          rcases List.mem_cons.1 hd with rfl | hd
          · exact ⟨_, List.mem_cons_self _ _⟩
          · rw [hl2'] at hd
            rcases List.mem_append.1 hd with hd | hd
            · exact absurd hreq (hm1 d hd)
            · obtain ⟨r, hr2⟩ := (f3 he).2 d hd hreq
              exact ⟨r, List.mem_cons_of_mem _ hr2⟩

/-- `adapter_resolve_names` returns, on every found set whose pointers are distinct; when it
returns an error, every command it issued was rejected and every record that had status
Required was tried. -/
theorem adapter_resolve_names_spec (ops : adapter_ops) (s : Sys)
    (hnd : (s.adapter.found_devices.map (fun d => d.ptr)).Nodup) :
    ∃ err t cmds, adapter_resolve_names ops s = some (err, t) ∧ t.hw = s.hw ++ cmds ∧
      (err ≠ 0 → (∀ c ∈ cmds, c.2 ≠ 0) ∧
        ∀ d ∈ s.adapter.found_devices, d.name_status = NAME_REQUIRED →
          ∃ r, (HwCmd.resolve_name d.bdaddr, r) ∈ cmds) := by
  unfold adapter_resolve_names
  cases hfr : first_required s with
  | none =>
    refine ⟨_, _, [], rfl, (List.append_nil _).symm, fun _ => ⟨fun c hc => ?_, ?_⟩⟩
    · simp at hc
    · intro d hd hreq
      exact absurd hreq (first_required_none s hfr d hd)
  | some dev =>
    obtain ⟨-, l1, l2, hs, h1⟩ := first_required_split s dev hfr
    obtain ⟨err, t, cmds, f1, f2, f3⟩ := resolve_loop_spec ops
      (s.adapter.found_devices.length + 1) s l1 l2 dev hs (by rw [← hs]; exact hnd) h1
      (by rw [hs]; simp; omega)
    refine ⟨err, t, cmds, f1, f2, fun he => ⟨(f3 he).1, ?_⟩⟩
    intro d hd hreq
    rw [hs] at hd
    rcases List.mem_append.1 hd with hd | hd
    · exact absurd hreq (h1 d hd)
    · exact (f3 he).2 d hd hreq

theorem first_required_at (s : Sys) (l1 l2 : List remote_dev_info) (dev : remote_dev_info)
    (hs : s.adapter.found_devices = l1 ++ dev :: l2)
    (h1 : ∀ d ∈ l1, d.name_status ≠ NAME_REQUIRED) (hdev : dev.name_status = NAME_REQUIRED) :
    first_required s = some dev := by
  rw [first_required_skip s l1 (dev :: l2) hs h1]
  unfold first_required adapter_search_found_devices
  exact List.find?_cons_of_pos _ (decide_eq_true ((found_device_cmp_required dev).2 hdev))

/-- C22, amended: the found set is well formed; `a` is its first record with status Required
and its address is not the all-zero address; `b` is the next record with status Required.
The hardware rejects the resolve command for `a` and accepts the one for `b`. Then
`adapter_resolve_names` returns 0, exactly two resolve commands were issued, for `a` and then
for `b`, `a` is marked NotRequired and is still in the found set, and `b` is marked
Requested. And on every found set whose pointers are distinct, with every hardware,
`adapter_resolve_names` returns, and when it returns an error every command it issued was
rejected and every record that had status Required was tried. -/
theorem resolve_names_retries_next (ops : adapter_ops) (s : Sys)
    (l1 l2 l3 : List remote_dev_info) (a b : remote_dev_info)
    (hs : s.adapter.found_devices = l1 ++ a :: l2 ++ b :: l3)
    (hwf : found_records_wf s)
    (h1 : ∀ d ∈ l1, d.name_status ≠ NAME_REQUIRED)
    (h2 : ∀ d ∈ l2, d.name_status ≠ NAME_REQUIRED)
    (ha : a.name_status = NAME_REQUIRED) (hb : b.name_status = NAME_REQUIRED)
    (hA : a.bdaddr ≠ BDADDR_ANY)
    (hrej : ops s.hw (HwCmd.resolve_name a.bdaddr) ≠ 0)
    (hacc : ops (s.hw ++ [(HwCmd.resolve_name a.bdaddr,
        ops s.hw (HwCmd.resolve_name a.bdaddr))]) (HwCmd.resolve_name b.bdaddr) = 0) :
    adapter_resolve_names ops s
      = some (0, { s with
          hw := s.hw ++ [(HwCmd.resolve_name a.bdaddr, ops s.hw (HwCmd.resolve_name a.bdaddr))]
            ++ [(HwCmd.resolve_name b.bdaddr, 0)],
          adapter.found_devices :=
            l1 ++ { a with name_status := NAME_NOT_REQUIRED } :: l2
              ++ { b with name_status := NAME_REQUESTED } :: l3 }) ∧
    (∀ (ops2 : adapter_ops) (s2 : Sys),
      (s2.adapter.found_devices.map (fun d => d.ptr)).Nodup →
      ∃ err t cmds, adapter_resolve_names ops2 s2 = some (err, t) ∧ t.hw = s2.hw ++ cmds ∧
        (err ≠ 0 → (∀ c ∈ cmds, c.2 ≠ 0) ∧
          ∀ d ∈ s2.adapter.found_devices, d.name_status = NAME_REQUIRED →
            ∃ r, (HwCmd.resolve_name d.bdaddr, r) ∈ cmds)) := by
  refine ⟨?_, fun ops2 s2 h => adapter_resolve_names_spec ops2 s2 h⟩
  obtain ⟨hptr, -, haddr⟩ := hwf
  have hs' : s.adapter.found_devices = l1 ++ a :: (l2 ++ b :: l3) := by
    rw [hs]
    simp
  have hnd : ((l1 ++ a :: (l2 ++ b :: l3)).map (fun d => d.ptr)).Nodup := by
    rw [← hs']
    exact hptr
  have hfa : first_required s = some a := first_required_at s l1 _ a hs' h1 ha
  have hne : ∀ d ∈ l1, d.bdaddr ≠ a.bdaddr := by
    intro d hd hh
    unfold unique_by_address found_addresses at haddr
    rw [hs'] at haddr
    have := List.inj_on_of_nodup_map haddr (List.mem_append_left _ hd)
      (List.mem_append_right _ (List.mem_cons_self _ _)) hh
    subst this
    exact h1 d hd ha
  obtain ⟨k, hk⟩ : ∃ k, s.adapter.found_devices.length = k + 1 := by
    refine ⟨l1.length + (l2.length + (l3.length + 1)), ?_⟩
    rw [hs']
    simp
    omega
  obtain ⟨-, st1⟩ := resolve_loop_step ops (k + 1) s l1 (l2 ++ b :: l3) a hs' hnd h1
  obtain ⟨l1', dev', -, -, -, e5, e6⟩ := st1 hrej
  rw [(e5 hA hne).1, (e5 hA hne).2] at e6
  have hfb : first_required { s with adapter.found_devices := l2 ++ b :: l3 } = some b :=
    first_required_at _ l2 l3 b rfl h2 hb
  rw [hfb] at e6
  have hnd2 : (((l1 ++ { a with name_status := NAME_NOT_REQUIRED } :: l2) ++ b :: l3).map
      (fun d => d.ptr)).Nodup := by
    simpa using hnd
  obtain ⟨st2, -⟩ := resolve_loop_step ops k
    { s with
      hw := s.hw ++ [(HwCmd.resolve_name a.bdaddr, ops s.hw (HwCmd.resolve_name a.bdaddr))],
      adapter.found_devices :=
        l1 ++ { a with name_status := NAME_NOT_REQUIRED } :: (l2 ++ b :: l3) }
    (l1 ++ { a with name_status := NAME_NOT_REQUIRED } :: l2) l3 b
    (by
      show l1 ++ _ :: (l2 ++ b :: l3) = _
      simp) hnd2
    (by
      intro d hd
      rcases List.mem_append.1 hd with hd | hd
      · exact h1 d hd
      · rcases List.mem_cons.1 hd with rfl | hd
        · exact (show NAME_NOT_REQUIRED ≠ NAME_REQUIRED by decide)
        · exact h2 d hd)
  unfold adapter_resolve_names
  rw [hfa]
  simp only []
  rw [hk, e6]
  simp only []
  rw [st2 hacc]

/-- Witness of C22: in `two_names_required` the hardware rejects the resolve command for `5`
and accepts the one for `6`. -/
theorem resolve_names_retries_next_witness :
    found_records_wf two_names_required ∧
    (adapter_resolve_names reject_first_ops two_names_required).map
        (fun r => (r.1, r.2.hw, status_view r.2))
      = some (0, [(HwCmd.resolve_name 5, -5), (HwCmd.resolve_name 6, 0)],
          [(5, NAME_NOT_REQUIRED), (6, NAME_REQUESTED)]) := by
  have h := (resolve_names_retries_next reject_first_ops two_names_required [] [] []
    required_five required_six (by decide) (by decide) (by decide) (by decide) (by decide)
    (by decide) (by decide) (by decide) (by decide)).1
  exact ⟨by decide, by rw [h]; rfl⟩

/-- Counterexample to C22 as stated: in `zero_address_required` the first record with status
Required is the one of the all-zero address and it is not the head of the found set, which
is well formed. The
hardware rejects its resolve command and accepts the one for `6`. The call returns 0 after
two resolve commands, but the lookup that drops the rejected record takes the all-zero
address for "any" and reaches the record of `5`: the rejected record keeps status Requested,
next to the Requested record of `6`. -/
theorem zero_address_rejected_stays_requested :
    found_records_wf zero_address_required ∧
    status_view zero_address_required
      = [(5, NAME_NOT_REQUIRED), (0, NAME_REQUIRED), (6, NAME_REQUIRED)] ∧
    (adapter_resolve_names reject_first_ops zero_address_required).map
        (fun r => (r.1, r.2.hw, status_view r.2))
      = some (0, [(HwCmd.resolve_name 0, -5), (HwCmd.resolve_name 6, 0)],
          [(5, NAME_NOT_REQUIRED), (0, NAME_REQUESTED), (6, NAME_REQUESTED)]) := by
  decide

/-! ## stop_discovery: the three branches -/

/-- The commands of `pending_remote_name_cancel`: at most one, a name-resolution cancel. -/
theorem pending_remote_name_cancel_cancels (ops : adapter_ops) (s : Sys) :
    ∃ l, (pending_remote_name_cancel ops s).2 = { s with hw := s.hw ++ l } ∧
      l.length ≤ 1 ∧ (∀ c ∈ l, c.1.is_cancel_resolve = true) ∧
      count_starts l = 0 ∧ count_stops l = 0 := by
  unfold pending_remote_name_cancel
  split
  · exact ⟨[], by simp, Nat.zero_le _, forall_mem_nil, rfl, rfl⟩
  · exact ⟨[_], rfl, le_refl _, forall_mem_single rfl, rfl, rfl⟩

/-- The three branches of `stop_discovery`, which first cancels a pending name resolution
(the commands `l`, at most one cancel). In every case the out-of-range snapshot is emptied,
and the found set is emptied when the cache is not retained and kept when it is. When
discovery is Suspended, nothing else happens but the Suspended flag being cleared. When it is
not Suspended and the handle `scheduler_id` is not zero, nothing else happens but the timer
of that handle being removed and the handle zeroed. Otherwise exactly one stop command
follows: `stop_scanning` when the LEScan flag is set, `stop_inquiry` when it is not. When the
handle tracks the rescan timer, a stop command is issued iff discovery is not Suspended and
no rescan timer is armed. -/
theorem stop_discovery_branches (ops : adapter_ops) (s : Sys) (suspend : Bool) :
    (stop_discovery ops s suspend).adapter.oor_devices = [] ∧
    (stop_discovery ops s suspend).adapter.found_devices
      = (if suspend = false then [] else s.adapter.found_devices) ∧
    (count_stops (hw_issued s (stop_discovery ops s suspend))
      = if (s.adapter.state &&& STATE_SUSPENDED) = 0 ∧ s.adapter.scheduler_id = 0 then 1
        else 0) ∧
    (timer_tracked SourceKind.start_discovery s.adapter.scheduler_id s →
      (count_stops (hw_issued s (stop_discovery ops s suspend)) = 1 ↔
        (s.adapter.state &&& STATE_SUSPENDED) = 0 ∧
          armed SourceKind.start_discovery s = [])) ∧
    ∃ l, l.length ≤ 1 ∧ (∀ c ∈ l, c.1.is_cancel_resolve = true) ∧
      ((s.adapter.state &&& STATE_SUSPENDED) ≠ 0 →
        stop_discovery ops s suspend
          = { s with
            hw := s.hw ++ l,
            adapter.found_devices := (if suspend = false then [] else s.adapter.found_devices),
            adapter.oor_devices := [],
            adapter.state := s.adapter.state &&& (0xffffffff - STATE_SUSPENDED) }) ∧
      ((s.adapter.state &&& STATE_SUSPENDED) = 0 → s.adapter.scheduler_id ≠ 0 →
        stop_discovery ops s suspend
          = { s with
            hw := s.hw ++ l,
            sources := s.sources.filter (fun e => e.id ≠ s.adapter.scheduler_id),
            adapter.found_devices := (if suspend = false then [] else s.adapter.found_devices),
            adapter.oor_devices := [],
            adapter.scheduler_id := 0 }) ∧
      ((s.adapter.state &&& STATE_SUSPENDED) = 0 → s.adapter.scheduler_id = 0 →
        (s.adapter.state &&& STATE_LE_SCAN) ≠ 0 →
        stop_discovery ops s suspend
          = { s with
            hw := s.hw ++ l ++ [(HwCmd.stop_scanning, ops (s.hw ++ l) HwCmd.stop_scanning)],
            adapter.found_devices := (if suspend = false then [] else s.adapter.found_devices),
            adapter.oor_devices := [] }) ∧
      ((s.adapter.state &&& STATE_SUSPENDED) = 0 → s.adapter.scheduler_id = 0 →
        (s.adapter.state &&& STATE_LE_SCAN) = 0 →
        stop_discovery ops s suspend
          = { s with
            hw := s.hw ++ l ++ [(HwCmd.stop_inquiry, ops (s.hw ++ l) HwCmd.stop_inquiry)],
            adapter.found_devices := (if suspend = false then [] else s.adapter.found_devices),
            adapter.oor_devices := [] }) := by
  obtain ⟨l, hl, h1, h2, -, c2⟩ := pending_remote_name_cancel_cancels ops s
  have hdrop : ∀ l2 : List (HwCmd × Int), (s.hw ++ l2).drop s.hw.length = l2 := by
    intro l2
    simp
  have e1 : (s.adapter.state &&& STATE_SUSPENDED) ≠ 0 →
      stop_discovery ops s suspend
        = { s with
            hw := s.hw ++ l,
            adapter.found_devices := (if suspend = false then [] else s.adapter.found_devices),
            adapter.oor_devices := [],
            adapter.state := s.adapter.state &&& (0xffffffff - STATE_SUSPENDED) } := by
    intro h
    unfold stop_discovery
    rw [hl]
    cases suspend
    · simp only [if_true]
      rw [if_pos h]
    · simp only [Bool.true_eq_false, if_false]
      rw [if_pos h]
  have e2 : (s.adapter.state &&& STATE_SUSPENDED) = 0 → s.adapter.scheduler_id ≠ 0 →
      stop_discovery ops s suspend
        = { s with
            hw := s.hw ++ l,
            sources := s.sources.filter (fun e => e.id ≠ s.adapter.scheduler_id),
            adapter.found_devices := (if suspend = false then [] else s.adapter.found_devices),
            adapter.oor_devices := [],
            adapter.scheduler_id := 0 } := by
    intro h hs
    unfold stop_discovery
    rw [hl]
    cases suspend
    · simp only [if_true]
      rw [if_neg (not_not.2 h), if_pos hs]
      rfl
    · simp only [Bool.true_eq_false, if_false]
      rw [if_neg (not_not.2 h), if_pos hs]
      rfl
  have e3 : (s.adapter.state &&& STATE_SUSPENDED) = 0 → s.adapter.scheduler_id = 0 →
      (s.adapter.state &&& STATE_LE_SCAN) ≠ 0 →
      stop_discovery ops s suspend
        = { s with
            hw := s.hw ++ l ++ [(HwCmd.stop_scanning, ops (s.hw ++ l) HwCmd.stop_scanning)],
            adapter.found_devices := (if suspend = false then [] else s.adapter.found_devices),
            adapter.oor_devices := [] } := by
    intro h hs hle
    unfold stop_discovery
    rw [hl]
    cases suspend
    · simp only [if_true]
      rw [if_neg (not_not.2 h), if_neg (not_not.2 hs), if_pos hle]
      rfl
    · simp only [Bool.true_eq_false, if_false]
      rw [if_neg (not_not.2 h), if_neg (not_not.2 hs), if_pos hle]
      rfl
  have e4 : (s.adapter.state &&& STATE_SUSPENDED) = 0 → s.adapter.scheduler_id = 0 →
      (s.adapter.state &&& STATE_LE_SCAN) = 0 →
      stop_discovery ops s suspend
        = { s with
            hw := s.hw ++ l ++ [(HwCmd.stop_inquiry, ops (s.hw ++ l) HwCmd.stop_inquiry)],
            adapter.found_devices := (if suspend = false then [] else s.adapter.found_devices),
            adapter.oor_devices := [] } := by
    intro h hs hle
    unfold stop_discovery
    rw [hl]
    cases suspend
    · simp only [if_true]
      rw [if_neg (not_not.2 h), if_neg (not_not.2 hs), if_neg (not_not.2 hle)]
      rfl
    · simp only [Bool.true_eq_false, if_false]
      rw [if_neg (not_not.2 h), if_neg (not_not.2 hs), if_neg (not_not.2 hle)]
      rfl
  have hstop : ∀ c : HwCmd, c.is_stop = true →
      count_stops (l ++ [(c, ops (s.hw ++ l) c)]) = 1 := by
    intro c hc
    unfold count_stops at c2 ⊢
    rw [List.countP_append, c2]
    simp [hc]
  have hcount : count_stops (hw_issued s (stop_discovery ops s suspend))
      = if (s.adapter.state &&& STATE_SUSPENDED) = 0 ∧ s.adapter.scheduler_id = 0 then 1
        else 0 := by
    by_cases h : (s.adapter.state &&& STATE_SUSPENDED) = 0
    · by_cases hs : s.adapter.scheduler_id = 0
      · rw [if_pos ⟨h, hs⟩]
        by_cases hle : (s.adapter.state &&& STATE_LE_SCAN) = 0
        · rw [e4 h hs hle]
          unfold hw_issued
          show count_stops ((s.hw ++ l ++ _).drop s.hw.length) = 1
          rw [List.append_assoc, hdrop]
          exact hstop _ rfl
        · rw [e3 h hs hle]
          unfold hw_issued
          show count_stops ((s.hw ++ l ++ _).drop s.hw.length) = 1
          rw [List.append_assoc, hdrop]
          exact hstop _ rfl
      · rw [if_neg (fun hh => hs hh.2), e2 h hs]
        unfold hw_issued
        show count_stops ((s.hw ++ l).drop s.hw.length) = 0
        rw [hdrop]
        exact c2
    · rw [if_neg (fun hh => h hh.1), e1 h]
      unfold hw_issued
      show count_stops ((s.hw ++ l).drop s.hw.length) = 0
      rw [hdrop]
      exact c2
  refine ⟨?_, stop_discovery_found ops s suspend, hcount, ?_, l, h1, h2, e1, e2, e3, e4⟩
  · by_cases h : (s.adapter.state &&& STATE_SUSPENDED) = 0
    · by_cases hs : s.adapter.scheduler_id = 0
      · by_cases hle : (s.adapter.state &&& STATE_LE_SCAN) = 0
        · rw [e4 h hs hle]
        · rw [e3 h hs hle]
      · rw [e2 h hs]
    · rw [e1 h]
  · intro htr
    obtain ⟨⟨-, hheld⟩, hhas⟩ := htr
    have harm : armed SourceKind.start_discovery s = [] ↔ s.adapter.scheduler_id = 0 := by
      constructor
      · intro ha
        by_contra hne
        obtain ⟨e, he, -⟩ := hhas hne
        rw [ha] at he
        exact absurd he (List.not_mem_nil _)
      · intro h0
        rw [List.eq_nil_iff_forall_not_mem]
        intro e he
        exact (hheld e he).2 h0
    rw [hcount, harm]
    constructor
    · intro h
      by_contra hh
      rw [if_neg hh] at h
      exact absurd h (by decide)
    · intro h
      rw [if_pos h]

/-- In `rescan_timer_armed` the handle tracks the rescan timer, which is armed:
`stop_discovery` issues no stop command. -/
theorem stop_discovery_with_tracked_timer :
    timer_tracked SourceKind.start_discovery rescan_timer_armed.adapter.scheduler_id
      rescan_timer_armed ∧
    armed SourceKind.start_discovery rescan_timer_armed ≠ [] ∧
    count_stops (hw_issued rescan_timer_armed
      (stop_discovery accepting_ops rescan_timer_armed false)) ≠ 1 ∧
    (stop_discovery accepting_ops rescan_timer_armed false).adapter.oor_devices = [] := by
  have htr : timer_tracked SourceKind.start_discovery rescan_timer_armed.adapter.scheduler_id
      rescan_timer_armed := by
    unfold timer_tracked timer_held
    decide
  have hne : armed SourceKind.start_discovery rescan_timer_armed ≠ [] := by decide
  have h := stop_discovery_branches accepting_ops rescan_timer_armed false
  exact ⟨htr, hne, fun hc => hne ((h.2.2.2.1 htr).1 hc).2, h.1⟩

/-- C31 fails on the code: `stop_discovery` takes the handle `scheduler_id` for the rescan
timer, and `adapter_set_state` has overwritten that handle when it armed a second rescan
timer without removing the first. In both runs an inquiry starts again before the rescan
timer of the first has fired, so the timers 1 and 2 are armed and the handle is 2. The
first `stop_discovery` (in the second run the one made by `adapter_suspend_discovery`, which
is followed by `adapter_resume_discovery`) removes timer 2 and zeroes the handle. At the next
`stop_discovery` discovery is not Suspended and the rescan timer 1 is armed, yet a stop
command is issued and the timer is not cancelled. -/
theorem stop_discovery_misses_armed_timer :
    (name_run accepting_ops rescan_idle
      [NameOp.set_state STATE_STDINQ, NameOp.set_state STATE_IDLE,
       NameOp.set_state STATE_STDINQ, NameOp.stop_discovery false]).map
      (fun t => (armed SourceKind.start_discovery t, t.adapter.scheduler_id))
      = some ([{ id := 1, handler := SourceKind.start_discovery, interval_ms := 30000 }], 0) ∧
    (name_run accepting_ops rescan_idle
      [NameOp.set_state STATE_STDINQ, NameOp.set_state STATE_IDLE,
       NameOp.set_state STATE_STDINQ, NameOp.stop_discovery false]).map
      (fun t => (t.adapter.state &&& STATE_SUSPENDED, t.hw))
      = some (0, []) ∧
    (name_run accepting_ops rescan_idle
      [NameOp.set_state STATE_STDINQ, NameOp.set_state STATE_IDLE,
       NameOp.set_state STATE_STDINQ, NameOp.stop_discovery false,
       NameOp.stop_discovery false]).map
      (fun t => (armed SourceKind.start_discovery t, t.hw))
      = some ([{ id := 1, handler := SourceKind.start_discovery, interval_ms := 30000 }],
          [(HwCmd.stop_inquiry, 0)]) ∧
    (name_run accepting_ops rescan_idle
      [NameOp.set_state STATE_STDINQ, NameOp.set_state STATE_IDLE,
       NameOp.set_state STATE_STDINQ]).map
      (fun t => (armed SourceKind.start_discovery
          (adapter_resume_discovery accepting_ops (adapter_suspend_discovery accepting_ops t)),
        (adapter_resume_discovery accepting_ops
          (adapter_suspend_discovery accepting_ops t)).adapter.state))
      = some ([{ id := 1, handler := SourceKind.start_discovery, interval_ms := 30000 }],
          STATE_STDINQ) ∧
    (name_run accepting_ops rescan_idle
      [NameOp.set_state STATE_STDINQ, NameOp.set_state STATE_IDLE,
       NameOp.set_state STATE_STDINQ]).map
      (fun t => (armed SourceKind.start_discovery
          (stop_discovery accepting_ops (adapter_resume_discovery accepting_ops
            (adapter_suspend_discovery accepting_ops t)) false),
        (stop_discovery accepting_ops (adapter_resume_discovery accepting_ops
            (adapter_suspend_discovery accepting_ops t)) false).hw))
      = some ([{ id := 1, handler := SourceKind.start_discovery, interval_ms := 30000 }],
          [(HwCmd.start_inquiry 8 false, 0), (HwCmd.stop_inquiry, 0)]) := by
  decide

/-! ## Suspending discovery -/

theorem or_and_self_ne_zero (x b : Nat) (hb : b ≠ 0) : ((x ||| b) &&& b) ≠ 0 := by
  have h : (x ||| b) &&& b = b := by
    apply Nat.eq_of_testBit_eq
    intro i
    rw [Nat.testBit_and, Nat.testBit_or]
    cases x.testBit i <;> cases b.testBit i <;> rfl
  rw [h]
  exact hb

/-- With the Suspended flag clear, `stop_discovery` leaves the discovery state as it is. -/
theorem stop_discovery_state (ops : adapter_ops) (s : Sys) (suspend : Bool)
    (h : (s.adapter.state &&& STATE_SUSPENDED) = 0) :
    (stop_discovery ops s suspend).adapter.state = s.adapter.state := by
  unfold stop_discovery pending_remote_name_cancel
  cases adapter_search_found_devices s.adapter
      { match_zero with bdaddr := BDADDR_ANY, name_status := NAME_REQUESTED } <;>
    simp only [hw_call, g_source_remove] <;> split_ifs <;> first | rfl | exact absurd h ‹_›

/-- C32: with at least one discovery session and the Suspended flag clear,
`adapter_suspend_discovery` sets the Suspended flag (the other bits of the discovery state
stay) and leaves the found set unchanged. With no discovery session, or with the flag
already set, it returns the state it was given, so no hardware command is issued. Hence
suspending twice is the same as suspending once. In a state with the Suspended flag set, so
in particular after a suspension, `start_discovery` returns 0 without touching the state:
no hardware command is issued. -/
theorem suspend_discovery_idempotent (ops : adapter_ops) (s : Sys) :
    (s.adapter.disc_sessions ≠ [] → (s.adapter.state &&& STATE_SUSPENDED) = 0 →
      (adapter_suspend_discovery ops s).adapter.state = s.adapter.state ||| STATE_SUSPENDED ∧
      ((adapter_suspend_discovery ops s).adapter.state &&& STATE_SUSPENDED) ≠ 0 ∧
      (adapter_suspend_discovery ops s).adapter.found_devices = s.adapter.found_devices ∧
      start_discovery ops (adapter_suspend_discovery ops s)
        = (0, adapter_suspend_discovery ops s)) ∧
    (s.adapter.disc_sessions = [] ∨ (s.adapter.state &&& STATE_SUSPENDED) ≠ 0 →
      adapter_suspend_discovery ops s = s) ∧
    adapter_suspend_discovery ops (adapter_suspend_discovery ops s)
      = adapter_suspend_discovery ops s ∧
    ((s.adapter.state &&& STATE_SUSPENDED) ≠ 0 → start_discovery ops s = (0, s)) := by
  have hnoop : ∀ t : Sys,
      t.adapter.disc_sessions = [] ∨ (t.adapter.state &&& STATE_SUSPENDED) ≠ 0 →
      adapter_suspend_discovery ops t = t := by
    intro t h
    unfold adapter_suspend_discovery
    rw [if_pos h]
  have hstart : ∀ t : Sys, (t.adapter.state &&& STATE_SUSPENDED) ≠ 0 →
      start_discovery ops t = (0, t) := by
    intro t h
    unfold start_discovery
    rw [if_pos h]
  have hact : s.adapter.disc_sessions ≠ [] → (s.adapter.state &&& STATE_SUSPENDED) = 0 →
      (adapter_suspend_discovery ops s).adapter.state = s.adapter.state ||| STATE_SUSPENDED ∧
      (adapter_suspend_discovery ops s).adapter.found_devices = s.adapter.found_devices := by
    intro h1 h2
    unfold adapter_suspend_discovery
    rw [if_neg (by
      intro hh
      rcases hh with hh | hh
      · exact h1 hh
      · exact hh h2)]
    refine ⟨?_, ?_⟩
    · show (stop_discovery ops s true).adapter.state ||| STATE_SUSPENDED = _
      rw [stop_discovery_state ops s true h2]
    · show (stop_discovery ops s true).adapter.found_devices = _
      rw [stop_discovery_found]
      rfl
  have hflag : s.adapter.disc_sessions ≠ [] → (s.adapter.state &&& STATE_SUSPENDED) = 0 →
      ((adapter_suspend_discovery ops s).adapter.state &&& STATE_SUSPENDED) ≠ 0 := by
    intro h1 h2
    rw [(hact h1 h2).1]
    exact or_and_self_ne_zero _ _ (by decide)
  refine ⟨fun h1 h2 => ⟨(hact h1 h2).1, hflag h1 h2, (hact h1 h2).2,
    hstart _ (hflag h1 h2)⟩, hnoop s, ?_, hstart s⟩
  by_cases h1 : s.adapter.disc_sessions = []
  · rw [hnoop s (Or.inl h1), hnoop s (Or.inl h1)]
  · by_cases h2 : (s.adapter.state &&& STATE_SUSPENDED) = 0
    · exact hnoop _ (Or.inr (hflag h1 h2))
    · rw [hnoop s (Or.inr h2), hnoop s (Or.inr h2)]

theorem suspend_discovery_idempotent_witness :
    (adapter_suspend_discovery accepting_ops two_owners).adapter.state
      = two_owners.adapter.state ||| STATE_SUSPENDED ∧
    ((adapter_suspend_discovery accepting_ops two_owners).adapter.state &&& STATE_SUSPENDED)
      ≠ 0 ∧
    (adapter_suspend_discovery accepting_ops two_owners).adapter.found_devices
      = two_owners.adapter.found_devices ∧
    start_discovery accepting_ops (adapter_suspend_discovery accepting_ops two_owners)
      = (0, adapter_suspend_discovery accepting_ops two_owners) :=
  (suspend_discovery_idempotent accepting_ops two_owners).1 (by decide) (by decide)

/-! ## Name resolution: termination -/

theorem required_count_map_le (l : List remote_dev_info) (f : remote_dev_info → remote_dev_info)
    (hf : ∀ d, (f d).name_status = NAME_REQUIRED → d.name_status = NAME_REQUIRED) :
    required_count (l.map f) ≤ required_count l := by
  unfold required_count
  rw [List.countP_map]
  apply List.countP_mono_left
  intro d _ h
  simp only [Function.comp, decide_eq_true_eq] at h ⊢
  exact hf d h

theorem required_count_map_lt (l : List remote_dev_info) (f : remote_dev_info → remote_dev_info)
    (hf : ∀ d, (f d).name_status = NAME_REQUIRED → d.name_status = NAME_REQUIRED)
    (dev : remote_dev_info) (hd : dev ∈ l) (h1 : dev.name_status = NAME_REQUIRED)
    (h2 : (f dev).name_status ≠ NAME_REQUIRED) :
    required_count (l.map f) < required_count l := by
  induction l with
  | nil => simp at hd
  | cons a l ih =>
    have hle := required_count_map_le l f hf
    unfold required_count at ih hle ⊢
    rw [List.map_cons, List.countP_cons, List.countP_cons]
    rcases List.mem_cons.1 hd with rfl | hd
    · rw [if_neg (by simpa using h2), if_pos (by simpa using h1)]
      omega
    · have := ih hd
      by_cases c : (f a).name_status = NAME_REQUIRED
      · rw [if_pos (by simpa using c), if_pos (by simpa using hf a c)]
        omega
      · rw [if_neg (by simpa using c)]
        split_ifs <;> omega

theorem status_write_keeps (p v : Nat) (hv : v ≠ NAME_REQUIRED) (d : remote_dev_info)
    (h : (if d.ptr = p then { d with name_status := v } else d).name_status = NAME_REQUIRED) :
    d.name_status = NAME_REQUIRED := by
  by_cases c : d.ptr = p
  · rw [if_pos c] at h
    exact absurd h hv
  · rw [if_neg c] at h
    exact h

/-- The lookup and the write of `adapter_remove_found_device` change nothing but the status
of records, and give no record the status Required. -/
theorem adapter_remove_found_device_frame (s : Sys) (b : bdaddr_t) :
    ∃ f : remote_dev_info → remote_dev_info,
      (∀ d, (f d).name_status = NAME_REQUIRED → d.name_status = NAME_REQUIRED) ∧
      (adapter_remove_found_device s b).2
        = { s with adapter.found_devices := s.adapter.found_devices.map f } := by
  unfold adapter_remove_found_device
  cases adapter_search_found_devices s.adapter { match_zero with bdaddr := b } with
  | none =>
    refine ⟨id, fun d h => h, ?_⟩
    simp
  | some dev =>
    refine ⟨fun d => if d.ptr = dev.ptr then { d with name_status := NAME_NOT_REQUIRED } else d,
      fun d h => status_write_keeps dev.ptr NAME_NOT_REQUIRED (by decide) d h, rfl⟩

/-- The loop of `adapter_resolve_names` ends within the bound on every found set and with
every hardware: each round takes the status Required from at least one record and gives it
to none. It changes the hardware log and the found set only, and issues resolve commands
only, no more than there were Required records. -/
theorem resolve_loop_total (ops : adapter_ops) :
    ∀ (fuel : Nat) (s : Sys) (dev : remote_dev_info),
      first_required s = some dev → required_count s.adapter.found_devices ≤ fuel →
      ∃ err t cmds F, adapter_resolve_names_loop ops fuel s dev = some (err, t) ∧
        t = { s with hw := s.hw ++ cmds, adapter.found_devices := F } ∧
        cmds.length ≤ required_count s.adapter.found_devices ∧
        (∀ c ∈ cmds, c.1.is_resolve = true) := by
  intro fuel
  induction fuel with
  | zero =>
    intro s dev hfr hcnt
    obtain ⟨hreq, l1, l2, hs, -⟩ := first_required_split s dev hfr
    exfalso
    have : 0 < required_count s.adapter.found_devices := by
      unfold required_count
      rw [List.countP_pos_iff]
      exact ⟨dev, by rw [hs]; simp, by simpa using hreq⟩
    omega
  | succ fuel ih =>
    intro s dev hfr hcnt
    obtain ⟨hreq, l1, l2, hs, -⟩ := first_required_split s dev hfr
    have hmem : dev ∈ s.adapter.found_devices := by
      rw [hs]
      simp
    have hf1 : ∀ d : remote_dev_info,
        ((fun d : remote_dev_info =>
            if d.ptr = dev.ptr then { d with name_status := NAME_REQUESTED } else d) d).name_status
          = NAME_REQUIRED → d.name_status = NAME_REQUIRED :=
      fun d h => status_write_keeps dev.ptr NAME_REQUESTED (by decide) d h
    have hlt : required_count (s.adapter.found_devices.map
        (fun d => if d.ptr = dev.ptr then { d with name_status := NAME_REQUESTED } else d))
        < required_count s.adapter.found_devices := by
      apply required_count_map_lt _ _ hf1 dev hmem hreq
      show (if dev.ptr = dev.ptr then ({ dev with name_status := NAME_REQUESTED } : remote_dev_info)
        else dev).name_status ≠ NAME_REQUIRED
      rw [if_pos rfl]
      exact (show NAME_REQUESTED ≠ NAME_REQUIRED by decide)
    obtain ⟨f, hf, hrem⟩ := adapter_remove_found_device_frame
      (hw_call ops (set_name_requested s dev) (HwCmd.resolve_name dev.bdaddr)).2 dev.bdaddr
    have hle2 : required_count (adapter_remove_found_device
        (hw_call ops (set_name_requested s dev) (HwCmd.resolve_name dev.bdaddr)).2
        dev.bdaddr).2.adapter.found_devices ≤ fuel := by
      rw [hrem]
      have := required_count_map_le ((s.adapter.found_devices.map
        (fun d => if d.ptr = dev.ptr then { d with name_status := NAME_REQUESTED } else d))) f hf
      have e : ({ (hw_call ops (set_name_requested s dev) (HwCmd.resolve_name dev.bdaddr)).2 with
          adapter.found_devices :=
            (hw_call ops (set_name_requested s dev)
              (HwCmd.resolve_name dev.bdaddr)).2.adapter.found_devices.map f
            } : Sys).adapter.found_devices
          = (s.adapter.found_devices.map
              (fun d => if d.ptr = dev.ptr then { d with name_status := NAME_REQUESTED } else d)
            ).map f := rfl
      rw [e]
      omega
    rw [adapter_resolve_names_loop]
    simp only []
    by_cases hr : (hw_call ops (set_name_requested s dev) (HwCmd.resolve_name dev.bdaddr)).1 = 0
    · rw [if_pos hr]
      refine ⟨_, _, [(HwCmd.resolve_name dev.bdaddr,
        ops s.hw (HwCmd.resolve_name dev.bdaddr))], _, rfl, rfl, ?_, forall_mem_single rfl⟩
      show 1 ≤ _
      omega
    · rw [if_neg hr]
      cases hn : first_required (adapter_remove_found_device
          (hw_call ops (set_name_requested s dev) (HwCmd.resolve_name dev.bdaddr)).2
          dev.bdaddr).2 with
      | none =>
        refine ⟨_, _, [(HwCmd.resolve_name dev.bdaddr,
          ops s.hw (HwCmd.resolve_name dev.bdaddr))],
          (s.adapter.found_devices.map (fun d =>
            if d.ptr = dev.ptr then { d with name_status := NAME_REQUESTED } else d)).map f,
          rfl, ?_, ?_, forall_mem_single rfl⟩
        · rw [hrem]
          rfl
        · show 1 ≤ _
          omega
      | some next =>
        obtain ⟨err, t, cmds, F, g1, g2, g3, g4⟩ := ih _ next hn hle2
        refine ⟨err, t, (HwCmd.resolve_name dev.bdaddr,
          ops s.hw (HwCmd.resolve_name dev.bdaddr)) :: cmds, F, g1, ?_, ?_, ?_⟩
        · rw [g2, hrem]
          show ({ s with hw := s.hw ++ [_] ++ cmds, adapter.found_devices := F } : Sys) = _
          rw [List.append_assoc]
          rfl
        · have : cmds.length ≤ fuel := le_trans g3 hle2
          show cmds.length + 1 ≤ _
          have h3 := le_trans g3 (le_of_eq rfl)
          rw [hrem] at g3
          have e : required_count (s.adapter.found_devices.map
              (fun d => if d.ptr = dev.ptr then { d with name_status := NAME_REQUESTED } else d))
              < required_count s.adapter.found_devices := hlt
          have e2 := required_count_map_le ((s.adapter.found_devices.map
            (fun d => if d.ptr = dev.ptr then { d with name_status := NAME_REQUESTED } else d)))
            f hf
          have g3' : cmds.length ≤ required_count ((s.adapter.found_devices.map
              (fun d => if d.ptr = dev.ptr then { d with name_status := NAME_REQUESTED } else d)
            ).map f) := g3
          omega
        · intro c hc
          rcases List.mem_cons.1 hc with rfl | hc
          · rfl
          · exact g4 c hc

/-- `adapter_resolve_names` returns on every found set and with every hardware; it changes
the hardware log and the found set only, and issues resolve commands only, no more than
there were Required records. -/
theorem adapter_resolve_names_total (ops : adapter_ops) (s : Sys) :
    ∃ err t cmds F, adapter_resolve_names ops s = some (err, t) ∧
      t = { s with hw := s.hw ++ cmds, adapter.found_devices := F } ∧
      cmds.length ≤ required_count s.adapter.found_devices ∧
      (∀ c ∈ cmds, c.1.is_resolve = true) := by
  unfold adapter_resolve_names
  cases hfr : first_required s with
  | none =>
    exact ⟨_, s, [], s.adapter.found_devices, rfl, by simp, Nat.zero_le _, forall_mem_nil⟩
  | some dev =>
    apply resolve_loop_total ops _ s dev hfr
    unfold required_count
    exact le_trans (List.countP_le_length _) (Nat.le_succ _)

/-! ## Discovery state transitions -/

/-- The sweep loop changes the D-Bus log and the found set only. -/
theorem sweep_loop_frame (heap : List remote_dev_info) (oor : List Nat) (s : Sys) :
    ∃ D F, oor.foldl (emit_device_disappeared heap) s
      = { s with dbus := D, adapter.found_devices := F } := by
  induction oor generalizing s with
  | nil => exact ⟨s.dbus, s.adapter.found_devices, rfl⟩
  | cons p oor ih =>
    obtain ⟨D, F, h⟩ := ih (emit_device_disappeared heap s p)
    exact ⟨D, F, by rw [List.foldl_cons, h]; rfl⟩

/-- The out-of-range sweep changes the D-Bus log, the found set and the out-of-range list
only. -/
theorem update_oor_devices_frame (s : Sys) :
    ∃ D F O, update_oor_devices s
      = { s with dbus := D, adapter.found_devices := F, adapter.oor_devices := O } := by
  obtain ⟨D, F, h⟩ := sweep_loop_frame s.adapter.found_devices s.adapter.oor_devices s
  refine ⟨D, F, F.map (fun d => d.ptr), ?_⟩
  unfold update_oor_devices
  simp only []
  rw [h]

/-- The discovery type does not depend on the discovery state. -/
theorem discover_type_state (s : Sys) (state : Nat) :
    adapter_get_discover_type { s with adapter.state := state } = adapter_get_discover_type s :=
  rfl

/-- The part of `adapter_set_state` that follows an entry of an idle state returns, and arms
and disarms no timer. -/
theorem adapter_set_state_tail_idle (ops : adapter_ops) (s : Sys) (ty : Nat) :
    ∃ t, adapter_set_state_tail ops s ty false = some t ∧ t.sources = s.sources ∧
      t.next_source = s.next_source ∧ t.adapter.scheduler_id = s.adapter.scheduler_id ∧
      t.adapter.stop_discov_id = s.adapter.stop_discov_id := by
  obtain ⟨D, F, O, h⟩ := update_oor_devices_frame s
  obtain ⟨err, t, cmds, F2, g1, g2, -, -⟩ := adapter_resolve_names_total ops (update_oor_devices s)
  unfold adapter_set_state_tail
  rw [if_pos rfl]
  simp only []
  by_cases c : (ty &&& DISC_RESOLVNAME) ≠ 0
  · rw [if_pos c, g1]
    simp only []
    by_cases c2 : err = 0
    · rw [if_pos c2]
      refine ⟨_, rfl, ?_, ?_, ?_, ?_⟩ <;> rw [g2, h]
    · rw [if_neg c2]
      refine ⟨_, rfl, ?_, ?_, ?_, ?_⟩ <;> rw [g2, h] <;> rfl
  · rw [if_neg c]
    refine ⟨_, rfl, ?_, ?_, ?_, ?_⟩ <;> rw [h] <;> rfl

/-- C33, amended: `adapter_set_state` is called with the new state StandardInquiry or
PeriodicInquiry while the ResolvingNames overlay is set. The new state is stored, so the
overlay is dropped and the discovery state is not what it was; nothing else changes: no
Discovering notification is emitted, no timer is armed, no hardware command is issued and
the found set is untouched. -/
theorem inquiry_entry_while_resolving (ops : adapter_ops) (s : Sys) (state : Nat)
    (hst : state = STATE_STDINQ ∨ state = STATE_PINQ)
    (hres : (s.adapter.state &&& STATE_RESOLVNAME) ≠ 0) :
    adapter_set_state ops s state = some { s with adapter.state := state } ∧
    state ≠ s.adapter.state ∧ (state &&& STATE_RESOLVNAME) = 0 := by
  have h0 : (state &&& STATE_RESOLVNAME) = 0 := by
    rcases hst with rfl | rfl <;> decide
  have hne : state ≠ s.adapter.state := by
    intro h
    rw [← h] at hres
    exact hres h0
  refine ⟨?_, hne, h0⟩
  unfold adapter_set_state
  rw [if_neg (fun h => hne h.symm)]
  simp only []
  rw [if_pos hst, if_pos hres]

theorem inquiry_entry_while_resolving_witness :
    adapter_set_state accepting_ops names_being_resolved STATE_PINQ
      = some { names_being_resolved with adapter.state := STATE_PINQ } ∧
    STATE_PINQ ≠ names_being_resolved.adapter.state ∧ (STATE_PINQ &&& STATE_RESOLVNAME) = 0 :=
  inquiry_entry_while_resolving accepting_ops names_being_resolved STATE_PINQ
    (Or.inr rfl) (by decide)

/-- C33, as stated, fails: a name needs resolving when the inquiry ends, so the Idle entry
sets the ResolvingNames overlay (the discovery state is 8). The entry of StandardInquiry that
follows leaves the discovery state at StandardInquiry (2): it has changed and the overlay is
gone. No Discovering notification is emitted by that entry. -/
theorem inquiry_entry_drops_overlay :
    (name_run accepting_ops resolving_adapter
      [NameOp.set_state STATE_STDINQ,
       NameOp.sighted { bdaddr := 5, rssi := -40, name_status := NAME_REQUIRED },
       NameOp.set_state STATE_IDLE]).map (fun t => (t.adapter.state, t.dbus.length))
      = some (STATE_RESOLVNAME, 2) ∧
    (name_run accepting_ops resolving_adapter
      [NameOp.set_state STATE_STDINQ,
       NameOp.sighted { bdaddr := 5, rssi := -40, name_status := NAME_REQUIRED },
       NameOp.set_state STATE_IDLE,
       NameOp.set_state STATE_STDINQ]).map (fun t => (t.adapter.state, t.dbus.length))
      = some (STATE_STDINQ, 2) := by
  decide

/-- C34: on an Idle entry with at least one discovery session, a discovery type with the
interleave bit (a dual-mode controller) and a previous state containing StandardInquiry,
`adapter_set_state` stores the state Idle and issues one `start_scanning` command; nothing
else changes: the found set and the out-of-range list are as they were (no sweep), no
resolve command is issued, no timer is armed and no Discovering notification is emitted. A
controller that is LE capable and BR/EDR capable has that discovery type. -/
theorem idle_entry_interleaves (ops : adapter_ops) (s : Sys)
    (hsess : s.adapter.disc_sessions ≠ [])
    (hty : (adapter_get_discover_type s &&& DISC_INTERLEAVE) ≠ 0)
    (hprev : (s.adapter.state &&& STATE_STDINQ) ≠ 0) :
    adapter_set_state ops s STATE_IDLE
      = some { s with
          hw := s.hw ++ [(HwCmd.start_scanning, ops s.hw HwCmd.start_scanning)],
          adapter.state := STATE_IDLE } ∧
    (∀ t : Sys, le_capable t.adapter = true → bredr_capable t.adapter = true →
      (adapter_get_discover_type t &&& DISC_INTERLEAVE) ≠ 0) := by
  have hne : ¬ (s.adapter.state = STATE_IDLE) := by
    intro h
    rw [h] at hprev
    exact hprev (by decide)
  refine ⟨?_, ?_⟩
  · unfold adapter_set_state
    rw [if_neg hne]
    simp only []
    rw [if_neg (by decide), if_neg (by decide), if_pos trivial, discover_type_state,
      if_pos ⟨hsess, hty, hprev⟩]
    rfl
  · intro t h1 h2
    unfold adapter_get_discover_type
    simp only []
    rw [if_pos h1, if_pos h2]
    split_ifs <;> decide

theorem idle_entry_interleaves_witness :
    adapter_set_state accepting_ops dual_mode_inquiring STATE_IDLE
      = some { dual_mode_inquiring with
          hw := dual_mode_inquiring.hw ++
            [(HwCmd.start_scanning, accepting_ops dual_mode_inquiring.hw HwCmd.start_scanning)],
          adapter.state := STATE_IDLE } :=
  (idle_entry_interleaves accepting_ops dual_mode_inquiring (by decide) (by decide)
    (by decide)).1

/-- C35, amended: the rescan timer is armed when an inquiry starts, not when it ends. Every
Idle entry returns and leaves the timers as they are: no source is armed or disarmed and the
handles of the rescan timer and of the safety-stop timer keep their values. On an entry of
StandardInquiry or PeriodicInquiry from a state without the ResolvingNames overlay, with a
discovery session and a rescan interval configured, `adapter_set_state` arms one timer of
that interval that re-invokes `start_discovery`, stores its handle, and emits
Discovering = true. -/
theorem rescan_timer_armed_on_inquiry_entry (ops : adapter_ops) (s : Sys) :
    (∃ t, adapter_set_state ops s STATE_IDLE = some t ∧ t.sources = s.sources ∧
      t.next_source = s.next_source ∧ t.adapter.scheduler_id = s.adapter.scheduler_id ∧
      t.adapter.stop_discov_id = s.adapter.stop_discov_id) ∧
    (∀ state, (state = STATE_STDINQ ∨ state = STATE_PINQ) → state ≠ s.adapter.state →
      (s.adapter.state &&& STATE_RESOLVNAME) = 0 → s.adapter.disc_sessions ≠ [] →
      s.main_opts.discov_interval ≠ 0 →
      adapter_set_state ops s state
        = some { s with
            dbus := s.dbus ++ [DBusOut.property_changed "Discovering" (PropValue.bool true)],
            next_source := s.next_source + 1,
            sources := s.sources ++ [{ id := s.next_source + 1, handler := SourceKind.start_discovery, interval_ms := s.main_opts.discov_interval * 1000 }],
            adapter.state := state,
            adapter.scheduler_id := s.next_source + 1 }) := by
  refine ⟨?_, ?_⟩
  · unfold adapter_set_state
    by_cases h : s.adapter.state = STATE_IDLE
    · rw [if_pos h]
      exact ⟨s, rfl, rfl, rfl, rfl, rfl⟩
    · rw [if_neg h]
      simp only []
      rw [if_neg (by decide), if_neg (by decide), if_pos trivial]
      by_cases c : s.adapter.disc_sessions ≠ [] ∧
          (adapter_get_discover_type { s with adapter.state := STATE_IDLE }
            &&& DISC_INTERLEAVE) ≠ 0 ∧ (s.adapter.state &&& STATE_STDINQ) ≠ 0
      · rw [if_pos c]
        exact ⟨_, rfl, rfl, rfl, rfl, rfl⟩
      · rw [if_neg c]
        exact adapter_set_state_tail_idle ops { s with adapter.state := STATE_IDLE } _
  · intro state hst hne hres hsess hint
    unfold adapter_set_state
    rw [if_neg (fun h => hne h.symm)]
    simp only []
    rw [if_pos hst, if_neg (not_not.2 hres)]
    unfold adapter_set_state_tail
    rw [if_neg (by decide)]
    simp only []
    rw [if_pos ⟨hsess, hint⟩]
    rfl

theorem rescan_timer_armed_on_inquiry_entry_witness :
    (adapter_set_state accepting_ops rescan_idle STATE_STDINQ).map
        (fun t => (armed SourceKind.start_discovery t, t.adapter.scheduler_id))
      = some ([{ id := 1, handler := SourceKind.start_discovery, interval_ms := 30000 }], 1) := by
  rw [(rescan_timer_armed_on_inquiry_entry accepting_ops rescan_idle).2 STATE_STDINQ
    (Or.inl rfl) (by decide) (by decide) (by decide) (by decide)]
  decide

/-- C35, as stated, fails: the inquiry of `rescan_inquiring` ends. A discovery session
exists, a rescan interval is configured, the controller is not dual-mode and no record is
waiting for its name, yet the Idle entry arms no timer: it only emits Discovering = false.
The timer is armed by the entry of StandardInquiry from `rescan_idle`. -/
theorem idle_entry_arms_no_timer :
    (adapter_set_state accepting_ops rescan_inquiring STATE_IDLE).map
        (fun t => (t.sources, t.adapter.scheduler_id)) = some ([], 0) ∧
    (adapter_set_state accepting_ops rescan_inquiring STATE_IDLE).map (fun t => (t.dbus, t.hw))
      = some ([DBusOut.property_changed "Discovering" (PropValue.bool false)], []) ∧
    (adapter_set_state accepting_ops rescan_idle STATE_STDINQ).map
        (fun t => (t.sources, t.adapter.scheduler_id))
      = some ([{ id := 1, handler := SourceKind.start_discovery, interval_ms := 30000 }], 1) := by
  decide

/-! ## Timers: one of a kind -/

theorem armed_append (k : SourceKind) (s : Sys) (l : List Source) :
    armed k { s with sources := s.sources ++ l }
      = armed k s ++ l.filter (fun e => decide (e.handler = k)) := by
  unfold armed
  exact List.filter_append _ _

/-- A timer armed through `g_timeout_add` after the one held was removed is the only one of
its kind. -/
theorem rearm_holds_one (k : SourceKind) (id ms : Nat) (s : Sys) (h : timer_held k id s) :
    timer_held k (g_timeout_add (if id ≠ 0 then g_source_remove s id else s) ms k).1
      (g_timeout_add (if id ≠ 0 then g_source_remove s id else s) ms k).2 := by
  obtain ⟨-, h2⟩ := h
  have hnone : armed k (if id ≠ 0 then g_source_remove s id else s) = [] := by
    by_cases c : id ≠ 0
    · rw [if_pos c]
      unfold armed g_source_remove
      rw [List.filter_filter, List.filter_eq_nil_iff]
      intro e he hh
      rw [Bool.and_eq_true, decide_eq_true_eq, decide_eq_true_eq] at hh
      have : e ∈ armed k s := by
        unfold armed
        exact List.mem_filter.2 ⟨he, by simpa using hh.1⟩
      exact hh.2 (h2 e this).1
    · rw [if_neg c]
      rw [List.eq_nil_iff_forall_not_mem]
      intro e he
      exact (h2 e he).2 (not_not.1 c)
  have e : armed k (g_timeout_add (if id ≠ 0 then g_source_remove s id else s) ms k).2
      = [{ id := (if id ≠ 0 then g_source_remove s id else s).next_source + 1, handler := k,
           interval_ms := ms }] := by
    unfold g_timeout_add
    simp only []
    have := armed_append k { (if id ≠ 0 then g_source_remove s id else s) with
      next_source := (if id ≠ 0 then g_source_remove s id else s).next_source + 1 }
      [{ id := (if id ≠ 0 then g_source_remove s id else s).next_source + 1, handler := k,
         interval_ms := ms }]
    refine this.trans ?_
    have h0 : armed k { (if id ≠ 0 then g_source_remove s id else s) with
        next_source := (if id ≠ 0 then g_source_remove s id else s).next_source + 1 } = [] :=
      hnone
    rw [h0]
    simp
  unfold timer_held
  rw [e]
  refine ⟨le_refl _, ?_⟩
  intro x hx
  rw [List.mem_singleton.1 hx]
  exact ⟨rfl, Nat.succ_ne_zero _⟩

/-- The discoverable timer is disarmed before it is armed again: when at most one is armed
and the adapter holds it, this is still so after `adapter_set_discov_timeout`. -/
theorem discov_timer_rearmed_once (s : Sys) (interval : Nat)
    (h : timer_held SourceKind.discov_timeout_handler s.adapter.discov_timeout_id s) :
    timer_held SourceKind.discov_timeout_handler
      (adapter_set_discov_timeout s interval).adapter.discov_timeout_id
      (adapter_set_discov_timeout s interval) := by
  by_cases hi : interval = 0
  · unfold adapter_set_discov_timeout
    simp only []
    rw [if_pos hi]
    by_cases c : s.adapter.discov_timeout_id ≠ 0
    · rw [if_pos c]
      refine ⟨?_, ?_⟩
      · refine le_trans ?_ h.1
        unfold armed g_source_remove
        rw [List.filter_filter]
        apply List.Sublist.length_le
        apply List.monotone_filter_right
        intro e he
        rw [Bool.and_eq_true] at he
        exact he.1
      · intro e he
        exfalso
        have he2 : e ∈ (s.sources.filter (fun e => e.id ≠ s.adapter.discov_timeout_id)).filter
            (fun e => decide (e.handler = SourceKind.discov_timeout_handler)) := he
        rw [List.mem_filter, List.mem_filter] at he2
        have : e ∈ armed SourceKind.discov_timeout_handler s :=
          List.mem_filter.2 ⟨he2.1.1, he2.2⟩
        have hid := (h.2 e this).1
        have hne := he2.1.2
        rw [decide_eq_true_eq] at hne
        exact hne hid
    · rw [if_neg c]
      exact h
  · have := rearm_holds_one SourceKind.discov_timeout_handler s.adapter.discov_timeout_id
      (interval * 1000) s h
    unfold adapter_set_discov_timeout
    simp only []
    rw [if_neg hi]
    by_cases c : s.adapter.discov_timeout_id ≠ 0
    · rw [if_pos c] at this ⊢
      exact this
    · rw [if_neg c] at this ⊢
      exact this

/-- The pairable timer is disarmed before it is armed again. -/
theorem pairable_timer_rearmed_once (s : Sys) (interval : Nat) (hi : interval ≠ 0)
    (h : timer_held SourceKind.pairable_timeout_handler s.adapter.pairable_timeout_id s) :
    timer_held SourceKind.pairable_timeout_handler
      (adapter_set_pairable_timeout s interval).adapter.pairable_timeout_id
      (adapter_set_pairable_timeout s interval) := by
  have := rearm_holds_one SourceKind.pairable_timeout_handler s.adapter.pairable_timeout_id
    (interval * 1000) s h
  unfold adapter_set_pairable_timeout
  simp only []
  rw [if_neg hi]
  by_cases c : s.adapter.pairable_timeout_id ≠ 0
  · rw [if_pos c] at this ⊢
    exact this
  · rw [if_neg c] at this ⊢
    exact this

/-- C36 fails on the code for two of the four kinds: `adapter_set_state` arms the LE-scan
safety-stop timer and the periodic-rescan timer without disarming the one armed before. In
the first run the LE scan is stopped by a client before its safety-stop timer has fired and a
new scan starts: two safety-stop timers are armed. In the second run an inquiry starts
again before the rescan timer of the first has fired: two rescan timers are armed, and the
adapter holds the handle of the second only. -/
theorem two_timers_of_a_kind_armed :
    (name_run accepting_ops nothing_found
      [NameOp.set_state STATE_LE_SCAN, NameOp.stop_discovery false, NameOp.set_state STATE_IDLE,
       NameOp.set_state STATE_LE_SCAN]).map
      (fun t => (armed SourceKind.stop_scanning t, t.adapter.stop_discov_id))
      = some ([{ id := 1, handler := SourceKind.stop_scanning, interval_ms := 5120 },
               { id := 2, handler := SourceKind.stop_scanning, interval_ms := 5120 }], 2) ∧
    (name_run accepting_ops rescan_idle
      [NameOp.set_state STATE_STDINQ, NameOp.set_state STATE_IDLE,
       NameOp.set_state STATE_STDINQ]).map
      (fun t => (armed SourceKind.start_discovery t, t.adapter.scheduler_id))
      = some ([{ id := 1, handler := SourceKind.start_discovery, interval_ms := 30000 },
               { id := 2, handler := SourceKind.start_discovery, interval_ms := 30000 }], 2) := by
  decide

/-! ## The out-of-range snapshot stays within the found set -/

theorem adapter_remove_found_device_ptrs (s : Sys) (b : bdaddr_t) :
    (adapter_remove_found_device s b).2.adapter.oor_devices = s.adapter.oor_devices ∧
    (adapter_remove_found_device s b).2.adapter.found_devices.map (fun d => d.ptr)
      = s.adapter.found_devices.map (fun d => d.ptr) := by
  unfold adapter_remove_found_device
  cases adapter_search_found_devices s.adapter { match_zero with bdaddr := b } with
  | none => exact ⟨rfl, rfl⟩
  | some dev =>
    refine ⟨rfl, ?_⟩
    show (s.adapter.found_devices.map _).map _ = _
    rw [List.map_map]
    apply List.map_congr_left
    intro d _
    simp only [Function.comp]
    split_ifs <;> rfl

theorem stop_discovery_oor (ops : adapter_ops) (s : Sys) (suspend : Bool) :
    (stop_discovery ops s suspend).adapter.oor_devices = [] := by
  unfold stop_discovery pending_remote_name_cancel
  cases adapter_search_found_devices s.adapter
      { match_zero with bdaddr := BDADDR_ANY, name_status := NAME_REQUESTED } <;>
    simp only [hw_call, g_source_remove] <;> split_ifs <;> rfl

theorem snapshot_in_found_sight (s : Sys) (e : sighting) (h : snapshot_in_found s) :
    snapshot_in_found (sight s e) := by
  unfold snapshot_in_found at h ⊢
  rw [found_ptrs_of_keys] at h ⊢
  cases hs : sighting_lookup s e with
  | some dev =>
    obtain ⟨e1, -, e3⟩ := sight_known s e dev hs
    intro p hp
    rw [e1] at hp
    exact (e3.map Prod.fst).mem_iff.2 (h p (List.mem_of_mem_erase hp))
  | none =>
    obtain ⟨e1, -, e3⟩ := sight_unknown s e hs
    intro p hp
    rw [e1] at hp
    exact (e3.map Prod.fst).mem_iff.2 (List.mem_cons_of_mem _ (h p hp))

theorem snapshot_in_found_step (ops : adapter_ops) (s : Sys) (o : CacheOp)
    (h : snapshot_in_found s) : snapshot_in_found (cache_step ops s o) := by
  cases o with
  | sighted e => exact snapshot_in_found_sight s e h
  | sweep =>
    intro p hp
    have hp2 : p ∈ (update_oor_devices s).adapter.oor_devices := hp
    rw [(update_oor_devices_found s).2.2.1] at hp2
    exact hp2
  | remove_found_device b =>
    intro p hp
    obtain ⟨e1, e2⟩ := adapter_remove_found_device_ptrs s b
    rw [show (cache_step ops s (CacheOp.remove_found_device b))
      = (adapter_remove_found_device s b).2 from rfl] at hp ⊢
    rw [e1] at hp
    rw [e2]
    exact h p hp
  | stop_discovery b =>
    intro p hp
    rw [show (cache_step ops s (CacheOp.stop_discovery b)) = stop_discovery ops s b from rfl,
      stop_discovery_oor] at hp
    exact absurd hp (List.not_mem_nil _)

/-- C37: from a state in which every pointer of the out-of-range snapshot points to a record
of the found set (the initial state, where both are empty, is one), every run of sightings,
sweeps, `adapter_remove_found_device` calls and `stop_discovery` calls leads to such a
state; and a sweep made in the state reached leaves a snapshot that holds exactly the
records of the found set, in the order of the found set. -/
theorem snapshot_within_found_set (ops : adapter_ops) (s : Sys) (run : List CacheOp)
    (h : snapshot_in_found s) :
    snapshot_in_found (cache_run ops s run) ∧
    (update_oor_devices (cache_run ops s run)).adapter.oor_devices
      = (update_oor_devices (cache_run ops s run)).adapter.found_devices.map
          (fun d => d.ptr) := by
  refine ⟨?_, (update_oor_devices_found _).2.2.1⟩
  induction run generalizing s with
  | nil => exact h
  | cons o run ih => exact ih (cache_step ops s o) (snapshot_in_found_step ops s o h)

theorem snapshot_within_found_set_witness :
    snapshot_in_found (cache_run accepting_ops nothing_found
      [CacheOp.sighted { bdaddr := 5, rssi := -40 }, CacheOp.sweep,
       CacheOp.sighted { bdaddr := 6, rssi := -50 }, CacheOp.remove_found_device 5,
       CacheOp.stop_discovery true, CacheOp.sighted { bdaddr := 5, rssi := -45 },
       CacheOp.sweep, CacheOp.sighted { bdaddr := 6, rssi := -50 }]) ∧
    (update_oor_devices (cache_run accepting_ops nothing_found
      [CacheOp.sighted { bdaddr := 5, rssi := -40 }, CacheOp.sweep,
       CacheOp.sighted { bdaddr := 6, rssi := -50 }, CacheOp.remove_found_device 5,
       CacheOp.stop_discovery true, CacheOp.sighted { bdaddr := 5, rssi := -45 },
       CacheOp.sweep, CacheOp.sighted { bdaddr := 6, rssi := -50 }])).adapter.oor_devices
      = (update_oor_devices (cache_run accepting_ops nothing_found
      [CacheOp.sighted { bdaddr := 5, rssi := -40 }, CacheOp.sweep,
       CacheOp.sighted { bdaddr := 6, rssi := -50 }, CacheOp.remove_found_device 5,
       CacheOp.stop_discovery true, CacheOp.sighted { bdaddr := 5, rssi := -45 },
       CacheOp.sweep, CacheOp.sighted { bdaddr := 6, rssi := -50 }])).adapter.found_devices.map
          (fun d => d.ptr) :=
  snapshot_within_found_set accepting_ops nothing_found _
    (fun p hp => absurd hp (List.not_mem_nil p))

/-! ## Name resolution: one command per record -/

theorem required_records_split (l1 l2 : List remote_dev_info) (dev : remote_dev_info)
    (h1 : ∀ d ∈ l1, d.name_status ≠ NAME_REQUIRED) (hd : dev.name_status = NAME_REQUIRED) :
    required_records (l1 ++ dev :: l2) = dev :: required_records l2 := by
  unfold required_records
  rw [List.filter_append, List.filter_cons_of_pos (by simpa using hd)]
  have : l1.filter (fun d => decide (d.name_status = NAME_REQUIRED)) = [] := by
    rw [List.filter_eq_nil_iff]
    intro d hd2
    simpa using h1 d hd2
  rw [this]
  rfl

/-- On a found set whose pointers are distinct, the commands of the loop of
`adapter_resolve_names` are, in order, one for each record of an initial segment of the
records that had status Required, from `dev` on. -/
theorem resolve_loop_prefix (ops : adapter_ops) :
    ∀ (fuel : Nat) (s : Sys) (l1 l2 : List remote_dev_info) (dev : remote_dev_info),
      s.adapter.found_devices = l1 ++ dev :: l2 →
      ((l1 ++ dev :: l2).map (fun d => d.ptr)).Nodup →
      (∀ d ∈ l1, d.name_status ≠ NAME_REQUIRED) → l2.length < fuel →
      ∃ err t cmds n, adapter_resolve_names_loop ops fuel s dev = some (err, t) ∧
        t.hw = s.hw ++ cmds ∧
        cmds.map (fun c => c.1)
          = ((dev :: required_records l2).take n).map (fun d => HwCmd.resolve_name d.bdaddr) := by
  intro fuel
  induction fuel with
  | zero =>
    intro s l1 l2 dev _ _ _ hlen
    exact absurd hlen (Nat.not_lt_zero _)
  | succ fuel ih =>
    intro s l1 l2 dev hs hnd h1 hlen
    obtain ⟨st0, st1⟩ := resolve_loop_step ops fuel s l1 l2 dev hs hnd h1
    by_cases hr : ops s.hw (HwCmd.resolve_name dev.bdaddr) = 0
    · exact ⟨0, _, [(HwCmd.resolve_name dev.bdaddr, 0)], 1, st0 hr, rfl, rfl⟩
    · obtain ⟨l1', dev', e2, e3, e4, -, e6⟩ := st1 hr
      rw [e6]
      cases hfr : first_required { s with adapter.found_devices := l2 } with
      | none =>
        exact ⟨_, _,
          [(HwCmd.resolve_name dev.bdaddr, ops s.hw (HwCmd.resolve_name dev.bdaddr))], 1,
          rfl, rfl, rfl⟩
      | some next =>
        obtain ⟨hnext, m1, m2, hl2, hm1⟩ := first_required_split _ next hfr
        have hl2' : l2 = m1 ++ next :: m2 := hl2
        have hnd2 : (((l1' ++ dev' :: m1) ++ next :: m2).map (fun d => d.ptr)).Nodup := by
          have : (l1' ++ dev' :: m1) ++ next :: m2 = l1' ++ dev' :: l2 := by
            rw [hl2']
            simp
          rw [this, e4]
          exact hnd
        obtain ⟨err, t, cmds, n, f1, f2, f3⟩ := ih
          { s with
            hw := s.hw ++ [(HwCmd.resolve_name dev.bdaddr,
              ops s.hw (HwCmd.resolve_name dev.bdaddr))],
            adapter.found_devices := l1' ++ dev' :: l2 } (l1' ++ dev' :: m1) m2 next
          (by
            show l1' ++ dev' :: l2 = _
            rw [hl2']
            simp) hnd2
          (by
            intro d hd
            rcases List.mem_append.1 hd with hd | hd
            · exact e2 d hd
            · rcases List.mem_cons.1 hd with rfl | hd
              · exact e3
              · exact hm1 d hd)
          (by
            rw [hl2'] at hlen
            simp at hlen
            omega)
        refine ⟨err, t,
          (HwCmd.resolve_name dev.bdaddr, ops s.hw (HwCmd.resolve_name dev.bdaddr)) :: cmds,
          n + 1, f1, ?_, ?_⟩
        · rw [f2]
          show s.hw ++ [_] ++ cmds = _
          simp
        · rw [List.map_cons, f3, hl2', required_records_split m1 m2 next hm1 hnext]
          rfl

/-- C38: `adapter_resolve_names` returns on every found set and whatever the hardware
answers (a hardware that rejects every request included). The commands it issues are
resolve commands, no more than there were records with status Required on entry; and
since the records are distinct allocations, the commands are, in order, one for each
record of an initial segment of the records that had status Required on entry: no record
is asked for twice. -/
theorem resolve_names_terminates (ops : adapter_ops) (s : Sys) :
    ∃ err t cmds, adapter_resolve_names ops s = some (err, t) ∧ t.hw = s.hw ++ cmds ∧
      (∀ c ∈ cmds, c.1.is_resolve = true) ∧
      cmds.length ≤ required_count s.adapter.found_devices ∧
      ((s.adapter.found_devices.map (fun d => d.ptr)).Nodup →
        ∃ n, cmds.map (fun c => c.1)
          = ((required_records s.adapter.found_devices).take n).map
              (fun d => HwCmd.resolve_name d.bdaddr)) := by
  obtain ⟨err, t, cmds, F, g1, g2, g3, g4⟩ := adapter_resolve_names_total ops s
  have ghw : t.hw = s.hw ++ cmds := by rw [g2]
  refine ⟨err, t, cmds, g1, ghw, g4, g3, ?_⟩
  intro hnd
  unfold adapter_resolve_names at g1
  cases hfr : first_required s with
  | none =>
    rw [hfr] at g1
    simp only [Option.some.injEq, Prod.mk.injEq] at g1
    have : s.hw = s.hw ++ cmds := by
      rw [← ghw, ← g1.2]
    have hc : cmds = [] := by
      have h2 := congrArg List.length this
      rw [List.length_append] at h2
      exact List.length_eq_zero.1 (by omega)
    exact ⟨0, by rw [hc]; rfl⟩
  | some dev =>
    rw [hfr] at g1
    simp only [] at g1
    obtain ⟨hreq, l1, l2, hs, h1⟩ := first_required_split s dev hfr
    obtain ⟨err2, t2, cmds2, n, f1, f2, f3⟩ := resolve_loop_prefix ops
      (s.adapter.found_devices.length + 1) s l1 l2 dev hs (by rw [← hs]; exact hnd) h1
      (by rw [hs]; simp; omega)
    rw [f1] at g1
    simp only [Option.some.injEq, Prod.mk.injEq] at g1
    have hc : cmds2 = cmds := by
      have : s.hw ++ cmds2 = s.hw ++ cmds := by
        rw [← f2, ← ghw, g1.2]
      exact List.append_cancel_left this
    refine ⟨n, ?_⟩
    rw [← hc, f3, hs, required_records_split l1 l2 dev h1 hreq]

theorem resolve_names_terminates_witness :
    ∃ err t cmds, adapter_resolve_names rejecting_ops two_names_required = some (err, t) ∧
      t.hw = two_names_required.hw ++ cmds ∧
      cmds.length ≤ required_count two_names_required.adapter.found_devices ∧
      ∃ n, cmds.map (fun c => c.1)
        = ((required_records two_names_required.adapter.found_devices).take n).map
            (fun d => HwCmd.resolve_name d.bdaddr) := by
  obtain ⟨err, t, cmds, h1, h2, -, h4, h5⟩ :=
    resolve_names_terminates rejecting_ops two_names_required
  exact ⟨err, t, cmds, h1, h2, h4, h5 (by decide)⟩

/-! ## Advertising payload: service ids -/

set_option maxRecDepth 100000 in
/-- C39 fails on the code: `get_eir_uuids` divides the field length, type byte included, by
the width of an id, so a field whose length is a multiple of the width is credited with one
id more than its data holds, and that id is read from bytes beyond the field. Each of the
first three payloads has 240 bytes and one field with no complete id in its data, yet one id
is reported; in the fourth the id is read at offset 240, outside the payload. On a
well-formed field the two counts agree and the ids are decoded low byte first. -/
theorem eir_field_length_counts_type_byte :
    eir_short_uuid16.length = 240 ∧ complete_uuids 2 2 = 0 ∧
    get_eir_uuids eir_short_uuid16 = Except.ok (some [uuid_t.uuid16 0x00AB], 1) ∧
    eir_short_uuid32.length = 240 ∧ complete_uuids 4 4 = 0 ∧
    get_eir_uuids eir_short_uuid32 = Except.ok (some [uuid_t.uuid32 0x00030201], 1) ∧
    eir_short_uuid128.length = 240 ∧ complete_uuids 16 16 = 0 ∧
    (get_eir_uuids eir_short_uuid128).map (fun r => r.2) = Except.ok 1 ∧
    eir_uuid16_at_end.length = 240 ∧
    get_eir_uuids eir_uuid16_at_end = Except.error (Fault.out_of_bounds 240) ∧
    eir_two_uuid16.length = 240 ∧ complete_uuids 5 2 = 2 ∧
    get_eir_uuids eir_two_uuid16
      = Except.ok (some [uuid_t.uuid16 0x110A, uuid_t.uuid16 0x1105], 2) := by
  decide

/-! ## Name templates -/

/-- C40 fails on the code: when a substitute does not fit, `expand_name` skips the copy but
still advances `np` by the length of the substitute, and then stores the terminating byte at
`dst[np]`. With a destination of 4 bytes, the template "%h" and the host name "abcdef", the
only store is the terminating byte at index 6; with 2 bytes, "%d" and the device id 10 it is
at index 2. With 8 bytes and the host name "abcdefg" the terminating byte is stored at
index 7 and nothing before it: the host name is not in the result. When everything fits the
template is expanded: "%h-%d%%" with host name "pc" and device id 0 gives "pc-0%". -/
theorem expand_name_writes_past_size :
    (expand_name 4 "%h" (some "abcdef") 0).map (fun st => st.writes)
      = Except.ok [(6, NUL)] ∧
    (expand_name 2 "%d" none 10).map (fun st => st.writes) = Except.ok [(2, NUL)] ∧
    (expand_name 8 "%h" (some "abcdefg") 0).map (fun st => st.writes)
      = Except.ok [(7, NUL)] ∧
    (expand_name 16 "%h-%d%%" (some "pc") 0).map (fun st => (dst_text st.writes 5, st.np))
      = Except.ok ("pc-0%".toList, 5) := by
  decide

end Bluez
